import Mathlib

/-!
# Gas-sensor serial driver: reader loop, dispatcher and state registry

A shallow embedding of `visual_studio/test_serial/main.cpp`:

* `HandleResponseThread_iteration` is one pass of the `while (true)` body of
  `Context::HandleResponseThread` (lines 504-600), acting on the two locals that
  survive from one pass to the next (`data`, `dataheadlength`) and producing the
  calls it makes on the dispatcher (`Notify`, `NotifyOne`).
* `Context` carries the dispatcher containers, the registry and the current
  state; `TransitionTo`, `AttachNeedResponse`, `DetachNeedResponse`, `Attach`,
  `Detach`, `NotifyOne`, `Notify` follow the member functions of the same name.

Bytes are natural numbers; a `uint8_t` is a number below 256.  No arithmetic of
the modelled code can wrap (`ackdatalength + ACKHEADLENGTH + 1` is at most 259
in a `size_t`).  The only narrowing conversion is the registry key, see `toKey`.
-/

namespace Storm

/-! ## Reader loop -/

/-- The constant `BUFSZ` (line 20). -/
def BUFSZ : Nat := 100

/-- The constant `ACKHEADLENGTH` local to `HandleResponseThread`. -/
def ACKHEADLENGTH : Nat := 3

/-- A call the reader loop makes on the dispatcher, with its two arguments
`rddata` and `sz`. -/
inductive Call where
  | Notify (rddata : List Nat) (sz : Nat)
  | NotifyOne (rddata : List Nat) (sz : Nat)
deriving DecidableEq, Repr

/-- The vector argument of a dispatcher call. -/
def Call.rddata : Call → List Nat
  | .Notify d _ => d
  | .NotifyOne d _ => d

/-- The size argument of a dispatcher call. -/
def Call.sz : Call → Nat
  | .Notify _ n => n
  | .NotifyOne _ n => n

/-- The locals of `HandleResponseThread` whose value is carried from one pass of
the loop to the next: the reassembly buffer `data` and the counter
`dataheadlength`.  (`ackdatalength` is overwritten before each use.) -/
structure Reader where
  data : List Nat
  dataheadlength : Nat
deriving DecidableEq, Repr

/-- The locals as initialised before the loop: empty buffer, counter zero. -/
def Reader.init : Reader := ⟨[], 0⟩

/-- The block commented "remove the read data from cache": `tmp` stays empty
unless `n < data.size()`, in which case it is `data` from offset `n` on. -/
def removeFromCache (data : List Nat) (n : Nat) : List Nat :=
  if n < data.length then data.drop n else []

/-- One pass of the loop body of `Context::HandleResponseThread`, given the bytes
`rd` that `m_serial.read(rddata, BUFSZ - 1)` returned (possibly none).

The result is `none` when the pass reads `data[2]` on a vector of fewer than
three elements, which is undefined behaviour of `std::vector::operator[]`; this
happens when `dataheadlength`, which accumulates `data.size()` over passes,
reaches three before the buffer does.

Not modelled: the sleep, and `SetDataReceived` / `condition.notify_all()`, none
of which touches `data` or `dataheadlength`. -/
def HandleResponseThread_iteration (st : Reader) (rd : List Nat) :
    Option (Reader × List Call) :=
  let data := st.data ++ rd
  let dataheadlength := st.dataheadlength + data.length
  if dataheadlength < ACKHEADLENGTH then
    some (⟨data, dataheadlength⟩, [])
  else
    match data[2]? with
    | none => none
    | some ackdatalength =>
      if ackdatalength + ACKHEADLENGTH + 1 > data.length then
        some (⟨data, 0⟩, [])
      else if data[0]? = some 0x06 then
        let datatosend := data.take (ackdatalength + ACKHEADLENGTH + 1)
        some (⟨removeFromCache data (ackdatalength + ACKHEADLENGTH + 1), 0⟩,
          [Call.Notify datatosend (ackdatalength + ACKHEADLENGTH + 1),
           Call.NotifyOne datatosend (ackdatalength + ACKHEADLENGTH + 1)])
      else if data[0]? = some 0x15 then
        some (⟨removeFromCache data (ackdatalength + ACKHEADLENGTH + 1), 0⟩,
          [Call.NotifyOne data (ackdatalength + ACKHEADLENGTH + 1),
           Call.Notify data (ackdatalength + ACKHEADLENGTH + 1)])
      else
        some (⟨data, 0⟩, [])

/-- The reader loop over a finite sequence of transport reads: the dispatcher
calls made, in order, and the locals after the last read (`none` once a pass has
hit the out-of-range read, after which nothing more is modelled). -/
def HandleResponseThread : Reader → List (List Nat) → List Call × Option Reader
  | st, [] => ([], some st)
  | st, rd :: rest =>
    match HandleResponseThread_iteration st rd with
    | none => ([], none)
    | some (st', calls) =>
      let r := HandleResponseThread st' rest
      (calls ++ r.1, r.2)

/-- The frames a sequence of dispatcher calls hands to the awaiting-reply
holder: for each `NotifyOne(rddata, sz)`, the first `sz` bytes of `rddata`.
Every emitted frame gives rise to exactly one `NotifyOne` call. -/
def framesOf : List Call → List (List Nat)
  | [] => []
  | .NotifyOne d n :: rest => d.take n :: framesOf rest
  | .Notify _ _ :: rest => framesOf rest

/-- Greedy parse of a byte sequence into frames, following the algorithm of the
specification (section 4.1, steps 2-7) with the out-of-sync case stopping the
parse: look at the length byte, wait for `3 + len + 1` bytes, accept a leading
0x06 or 0x15, cut the frame off, repeat.  `fuel` bounds the number of frames. -/
def parseFramesFuel : Nat → List Nat → List (List Nat)
  | 0, _ => []
  | fuel + 1, data =>
    match data[2]? with
    | none => []
    | some len =>
      if len + 4 > data.length then []
      else if data[0]? = some 0x06 ∨ data[0]? = some 0x15 then
        data.take (len + 4) :: parseFramesFuel fuel (data.drop (len + 4))
      else []

/-- Greedy parse of a whole byte sequence (every frame has at least four bytes,
so the length of the input is enough fuel). -/
def parseFrames (data : List Nat) : List (List Nat) :=
  parseFramesFuel data.length data

/-- A complete, well-formed frame: at least the three header bytes, status
0x06 or 0x15, and total size `3 + length + 1`. -/
def isFrame (f : List Nat) : Bool :=
  match f[2]? with
  | none => false
  | some len => (f.length == len + 4) && (f[0]? == some 0x06 || f[0]? == some 0x15)

/-! ## Dispatcher, registry and current state -/

/-- The address of a `State` object.  Every pointer the modelled functions
receive is `this` of a live state or the result of `std::make_shared`, so it is
never null; the tests `!= nullptr` on such pointers are always true. -/
abbrev Ptr := Nat

/-- What `Context::TransitionTo` can observe of a `State` object: the values of
the virtual `IsSingleCommand()` and `IsContinuousCommand()`, and the flags
`m_bIsAlreadySent` and `m_bIsDataReceived`. -/
structure StateObj where
  IsSingleCommand : Bool
  IsContinuousCommand : Bool
  m_bIsAlreadySent : Bool
  m_bIsDataReceived : Bool
deriving DecidableEq, Repr

/-- Conversion of a `uint32_t` command identifier to the key type of
`std::map<uint16_t, std::shared_ptr<State>> m_mapStates` (line 613): the low
sixteen bits. -/
def toKey (cmdId : Nat) : Nat := cmdId % 65536

/-- The members of `Context` that the dispatcher and the registry use, together
with the state objects they point to (`heap`).  `m_StackResponse` has its top at
the head of the list; `m_mapStates` lists the entries of the map, whose keys are
pairwise different. -/
structure Context where
  heap : Ptr → StateObj
  m_ListObservers : List Ptr
  m_StackResponse : List Ptr
  m_state : Option Ptr
  m_mapStates : List (Nat × Ptr)

/-- The call `m_mapStates.find(cmdId)` with a `uint32_t` argument: the argument
is converted to the `uint16_t` key type, then looked up. -/
def mapFind (m : List (Nat × Ptr)) (cmdId : Nat) : Option Ptr :=
  (m.find? (fun e => e.1 == toKey cmdId)).map Prod.snd

/-- The call `m_mapStates.emplace(std::make_pair(cmdId, state))`: the pair is
converted to the value type of the map, which narrows the key; nothing is
inserted when the key is already present. -/
def mapEmplace (m : List (Nat × Ptr)) (cmdId : Nat) (state : Ptr) : List (Nat × Ptr) :=
  if (mapFind m cmdId).isSome then m else m ++ [(toKey cmdId, state)]

/-- The function `Context::Attach`: append unless already in the list. -/
def Attach (ctx : Context) (observer : Ptr) : Context :=
  if observer ∈ ctx.m_ListObservers then ctx
  else { ctx with m_ListObservers := ctx.m_ListObservers ++ [observer] }

/-- The function `Context::Detach`: `std::list::remove`. -/
def Detach (ctx : Context) (observer : Ptr) : Context :=
  { ctx with m_ListObservers := ctx.m_ListObservers.filter (fun o => o != observer) }

/-- The loop `while (!m_StackResponse.empty()) m_StackResponse.pop();`. -/
def popWhileNotEmpty : List Ptr → List Ptr
  | [] => []
  | _ :: below => popWhileNotEmpty below

/-- The function `Context::AttachNeedResponse`: pop until empty, then push. -/
def AttachNeedResponse (ctx : Context) (observer : Ptr) : Context :=
  { ctx with m_StackResponse := observer :: popWhileNotEmpty ctx.m_StackResponse }

/-- The function `Context::DetachNeedResponse`: one `pop()` if not empty. -/
def DetachNeedResponse (ctx : Context) : Context :=
  match ctx.m_StackResponse with
  | [] => ctx
  | _ :: below => { ctx with m_StackResponse := below }

/-- The effect of `State::SetAlreadySent(b)` on the object at `p`. -/
def SetAlreadySent (ctx : Context) (p : Ptr) (b : Bool) : Context :=
  { ctx with heap := fun q => if q = p then { ctx.heap p with m_bIsAlreadySent := b } else ctx.heap q }

/-- The first statement of `TransitionTo`, commented "first Detach the latest
state, which saved in this->m_state": `DetachNeedResponse()` when there is a
current state and it is single-shot. -/
def detachLatest (ctx : Context) : Context :=
  match ctx.m_state with
  | some cur => if (ctx.heap cur).IsSingleCommand then DetachNeedResponse ctx else ctx
  | none => ctx

/-- The function `Context::TransitionTo(uint32_t cmdId, std::shared_ptr<State> state)`
(lines 440-476).  `set_context(this)` only stores the back pointer to the one
context and is left out. -/
def TransitionTo (ctx : Context) (cmdId : Nat) (state : Ptr) : Context :=
  let ctx1 := detachLatest ctx
  match mapFind ctx1.m_mapStates cmdId with
  | none =>
    let ctx2 := { ctx1 with m_mapStates := mapEmplace ctx1.m_mapStates cmdId state,
                            m_state := some state }
    let ctx3 := if (ctx2.heap state).IsSingleCommand then AttachNeedResponse ctx2 state else ctx2
    if (ctx3.heap state).IsContinuousCommand then Attach ctx3 state else ctx3
  | some found =>
    let ctx2 := { ctx1 with m_state := some found }
    if (ctx2.heap found).IsSingleCommand && !(ctx2.heap found).m_bIsAlreadySent then
      AttachNeedResponse ctx2 found
    else ctx2

/-- The members of a `Context` after the member initialisers of the constructor
`Context(uint16_t cmdId, std::shared_ptr<State> state)` have run and before its
body: `m_state(state)`, every container empty. -/
def Context.fresh (heap : Ptr → StateObj) (state : Ptr) : Context :=
  { heap := heap, m_ListObservers := [], m_StackResponse := [], m_state := some state,
    m_mapStates := [] }

/-- The constructor `Context(uint16_t cmdId, std::shared_ptr<State> state)`: the
member initialisers, then `TransitionTo(cmdId, state)`. -/
def Context.ctor (heap : Ptr → StateObj) (cmdId : Nat) (state : Ptr) : Context :=
  TransitionTo (Context.fresh heap state) (toKey cmdId) state

/-- One call of `IObserver::Update(rddata, sz)` on the observer at `observer`. -/
structure UpdateCall where
  observer : Ptr
  rddata : List Nat
  sz : Nat
deriving DecidableEq, Repr

/-- The function `Context::NotifyOne`: `Update` on the top of `m_StackResponse`,
if there is one. -/
def NotifyOne (ctx : Context) (rddata : List Nat) (sz : Nat) : List UpdateCall :=
  match ctx.m_StackResponse with
  | [] => []
  | top :: _ => [⟨top, rddata, sz⟩]

/-- The function `Context::Notify`: `Update` on every element of
`m_ListObservers`, front to back. -/
def Notify (ctx : Context) (rddata : List Nat) (sz : Nat) : List UpdateCall :=
  ctx.m_ListObservers.map (fun o => ⟨o, rddata, sz⟩)

/-- The `Update` calls that a sequence of dispatcher calls of the reader loop
results in, for observers whose `Update` leaves `m_StackResponse` and
`m_ListObservers` as they are while the frame is dispatched. -/
def dispatch (ctx : Context) : List Call → List UpdateCall
  | [] => []
  | .Notify d n :: rest => Notify ctx d n ++ dispatch ctx rest
  | .NotifyOne d n :: rest => NotifyOne ctx d n ++ dispatch ctx rest

/-- A call on the public interface of the context that touches the
awaiting-reply slot or what `TransitionTo` reads. -/
inductive Op where
  | AttachNeedResponse (observer : Ptr)
  | DetachNeedResponse
  | TransitionTo (cmdId : Nat) (state : Ptr)
  | SetAlreadySent (p : Ptr) (b : Bool)
deriving DecidableEq, Repr

/-- The effect of one interface call. -/
def Op.apply (ctx : Context) : Op → Context
  | .AttachNeedResponse o => Storm.AttachNeedResponse ctx o
  | .DetachNeedResponse => Storm.DetachNeedResponse ctx
  | .TransitionTo cmdId state => Storm.TransitionTo ctx cmdId state
  | .SetAlreadySent p b => Storm.SetAlreadySent ctx p b

/-- The effect of a sequence of interface calls, first call first. -/
def runOps (ctx : Context) (ops : List Op) : Context :=
  ops.foldl Op.apply ctx

/-- A sequence of `TransitionTo(id, s)` calls, first call first. -/
def transitions (ctx : Context) (calls : List (Nat × Ptr)) : Context :=
  calls.foldl (fun c e => TransitionTo c e.1 e.2) ctx

/-- State objects as the base class `State` initialises them: single-shot, not
continuous, nothing sent, nothing received (the defaults of `IsSingleCommand`, `IsContinuousCommand`, `m_bIsAlreadySent`, `m_bIsDataReceived`). -/
def heapSingle : Ptr → StateObj := fun _ => ⟨true, false, false, false⟩

/-! ## Error table -/

/-- The function `GetErrorMessage(uint8_t errCode)` (lines 21-168). -/
def GetErrorMessage (errCode : Nat) : String :=
  match errCode with
  | 0x01 => "Zero Or Span Of Any Component In Progress"
  | 0x02 => "Wrong Parameter"
  | 0x03 => "Wrong Unit"
  | 0x04 => "Agent Not Supported"
  | 0x08 => "Span Invalid Tag"
  | 0x10 => "Parameter Not Supported"
  | 0x11 => "Not Allowed At This Moment"
  | 0x12 => "Frame Not Supported"
  | 0x13 => "Rt Not Supported"
  | 0x14 => "Wrong Interval Base Time"
  | 0x15 => "Data Not Available Yet"
  | 0x20 => "Eeprom Access Failed"
  | 0x22 => "Non Volatile Memory Access Failed"
  | 0x31 => "Watertrap Is Full"
  | 0x60 => "Tpu Timeout"
  | 0x70 => "Wrong Parameter Set Order"
  | 0x71 => "Wrong Parameter Set Type"
  | 0x72 => "Wrong Parameter Set Value"
  | 0x73 => "Wrong Parameter Set Non-Zero"
  | 0x74 => "Checksum Failure"
  | 0x75 => "Verification Of New Parameter In Eeprom Failed"
  | 0x76 => "Wrong Parameter Number"
  | 0x77 => "Calibration Value Can Not Be Stored With This Command"
  | 0x78 => "Data Amount Out Of Range"
  | 0x79 => "Calibration Value Storage Failed Old Value Ok"
  | 0x7A => "Calibration Value Storage Failed Old Corrupted"
  | 0x7B => "Hardware Supervision Eeprom Access Failed"
  | 0x7C => "Get Fail Software Error"
  | 0x90 => "Calibration Cancelled"
  | 0x91 => "No Calibration Data Available"
  | 0x92 => "Just Collecting Calibration Data"
  | 0x93 => "Calibration Data Transmitted"
  | 0xA0 => "Delay Time Is Zero"
  | 0xA1 => "Invalid Amount Of Parameters"
  | 0xA2 => "Factory Calibration Hardware Error"
  | 0xA3 => "Factory Calibration Warm-Up"
  | 0xA4 => "Data Not Available"
  | 0xA5 => "Parameter Error Zero Gas Type"
  | 0xA6 => "Parameter Error For Limit"
  | 0xA7 => "Parameter Error For Zero Mode"
  | 0xB0 => "Failed"
  | 0xC0 => "Subcomponent Not Available For This Purpose"
  | 0xC1 => "Sub Component Does Not Support This Mode"
  | 0xCE => "Write Access Not Allowed"
  | 0xCF => "Does Not Exist"
  | 0xFF => "Unknown Command"
  | _ => "No Error"

/-- The codes that have a `case` label in `GetErrorMessage`. -/
def errorCodes : List Nat :=
  [0x01, 0x02, 0x03, 0x04, 0x08, 0x10, 0x11, 0x12, 0x13, 0x14, 0x15, 0x20, 0x22, 0x31, 0x60,
   0x70, 0x71, 0x72, 0x73, 0x74, 0x75, 0x76, 0x77, 0x78, 0x79, 0x7A, 0x7B, 0x7C,
   0x90, 0x91, 0x92, 0x93, 0xA0, 0xA1, 0xA2, 0xA3, 0xA4, 0xA5, 0xA6, 0xA7,
   0xB0, 0xC0, 0xC1, 0xCE, 0xCF, 0xFF]

/-- A sequence of `Attach(o)` (`true`) and `Detach(o)` (`false`) calls, first
call first. -/
def attachDetach (ctx : Context) (calls : List (Bool × Ptr)) : Context :=
  calls.foldl (fun c e => if e.1 then Attach c e.2 else Detach c e.2) ctx

/-! ## State classes and the driver -/

/-- The classes of `main.cpp` derived from `State`, in the order of their
declaration. -/
inductive StateClass where
  | StopContinuousDataState
  | GetIntervalBaseTimeState
  | TransmitDeviceComponentInformation_VendorCode_State
  | TransmitDeviceComponentInformation_SerialNumber_State
  | TransmitDeviceComponentInformation_HardwareRevision_State
  | TransmitDeviceComponentInformation_SoftwareRevision_State
  | TransmitDeviceComponentInformation_ProductName_State
  | TransmitDeviceComponentInformation_PartNumber_State
  | AdjustTimeInformationState
  | TransmitGenericModuleFeaturesState
  | SwitchBreathDetectionMode_PgmBreathDetection_State
  | SwitchBreathDetectionMode_PgmBreathDetectionAutoWakeup_State
  | SwitchBreathDetectionMode_AutoWakeupAfterBreathphase1_State
  | SwitchBreathDetectionMode_AutoWakeupAfterBreathphase2_State
  | SwitchBreathDetectionMode_AutoWakeupAfterBreathphase3_State
  | SwitchBreathDetectionMode_AutoWakeupAfterBreathphase4_State
  | SwitchBreathDetectionMode_AutoWakeupAfterBreathphase5_State
  | TransmitPatientData_120E_State
  | MeasurementModeState
  | OperatingModeState
  | SwitchValvesState
  | SwitchPumpState
  | SelectTheAnestheticAgentState
  | Evaluate_1210_State
  | SelectAnestheticAgentType_Halothane_State
  | ProvideTheSensorModuleWithRequiredData_State
  | AcceptExternalParameterData_UnknownAccuracy_State
  | SuperviseModuleStatus_120E_MSBit2_State
  | SuperviseModuleStatus_120B_MSWBit5_State
  | SuperviseModuleStatus_120B_MSWBit6_State
  | SuperviseModuleStatus_120E_MSWBit7_State
  | SuperviseModuleStatus_120E_MSBit6_State
  | SuperviseModuleStatus_120E_MSBit5_State
  | SuperviseModuleStatus_120E_MSBit4_State
  | SuperviseZeroRequest_120E_OMS_State
  | ZeroInProgress_1203_CO2N2OPSBit5_State
  | ZeroInProgress_1204_O2PSBit5_State
  | ZeroInProgress_1210_A1PSBit5_State
  | ZeroInProgress_1211_A2PSBit5_State
  | ZeroRequestState
  | HandleZeroRequestState
  | InitZeroState
  | GetUnitsState
  | EvaluateConnectionEstablishedState
  | HostSelectableParameters_120E_HSP_State
  | ParameterAvailabilityInformation_120E_PAI_State
  | ParameterMode_1203_CO2PSBit6Bit7_State
  | ParameterMode_1203_N2OPSBit6Bit7_State
  | ParameterMode_1204_O2PSBit6Bit7_State
  | ParameterMode_1210_A1PSBit6Bit7_State
  | ParameterMode_1211_A2PSBit6Bit7_State
  | ParameterInopInformation_120E_PII_State
  | MeasurementMode_120E_OMS_State
  | Occlusion_120E_MSBit1__State
deriving DecidableEq, Repr

/-- The member function `GetCommand()` of each class; the classes without a
command return an empty vector. -/
def StateClass.GetCommand : StateClass → List Nat
  | .StopContinuousDataState => [0x10, 0x01, 0x19, 0xd6]
  | .GetIntervalBaseTimeState => [0x10, 0x02, 0x02, 0xff, 0xed]
  | .TransmitDeviceComponentInformation_VendorCode_State =>
    [0x10, 0x0a, 0x0a, 0x00, 0x00, 0x00, 0x00, 0x00, 0x00, 0x00, 0x00, 0x00, 0xdc]
  | .TransmitDeviceComponentInformation_SerialNumber_State =>
    [0x10, 0x0a, 0x0a, 0x00, 0x0, 0x00, 0x00, 0x00, 0x00, 0x00, 0x00, 0x01, 0xdb]
  | .TransmitDeviceComponentInformation_HardwareRevision_State =>
    [0x10, 0x0a, 0x0a, 0x00, 0x0, 0x00, 0x00, 0x00, 0x00, 0x00, 0x00, 0x02, 0xda]
  | .TransmitDeviceComponentInformation_SoftwareRevision_State =>
    [0x10, 0x0a, 0x0a, 0x00, 0x00, 0x00, 0x00, 0x00, 0x00, 0x00, 0x00, 0x03, 0xd9]
  | .TransmitDeviceComponentInformation_ProductName_State =>
    [0x10, 0x0a, 0x0a, 0x00, 0x00, 0x00, 0x00, 0x00, 0x00, 0x00, 0x00, 0x05, 0xd7]
  | .TransmitDeviceComponentInformation_PartNumber_State =>
    [0x10, 0x0a, 0x0a, 0x00, 0x0, 0x00, 0x00, 0x00, 0x00, 0x00, 0x00, 0x06, 0xd6]
  | .AdjustTimeInformationState =>
    [0x10, 0x09, 0x2b, 0x01, 0x02, 0x03, 0x04, 0x05, 0x18, 0x00, 0x00, 0x95]
  | .TransmitGenericModuleFeaturesState => [0x10, 0x01, 0x2c, 0xc3]
  | .SwitchBreathDetectionMode_PgmBreathDetection_State => [0x10, 0x02, 0x1e, 0x01, 0xcf]
  | .SwitchBreathDetectionMode_PgmBreathDetectionAutoWakeup_State => [0x10, 0x02, 0x1e, 0x02, 0xce]
  | .SwitchBreathDetectionMode_AutoWakeupAfterBreathphase1_State => [0x10, 0x02, 0x1e, 0x05, 0xcb]
  | .SwitchBreathDetectionMode_AutoWakeupAfterBreathphase2_State => [0x10, 0x02, 0x1e, 0x06, 0xca]
  | .SwitchBreathDetectionMode_AutoWakeupAfterBreathphase3_State => [0x10, 0x02, 0x1e, 0x07, 0xc9]
  | .SwitchBreathDetectionMode_AutoWakeupAfterBreathphase4_State => [0x10, 0x02, 0x1e, 0x08, 0xc8]
  | .SwitchBreathDetectionMode_AutoWakeupAfterBreathphase5_State => [0x10, 0x02, 0x1e, 0x09, 0xc7]
  | .TransmitPatientData_120E_State =>
    [0x10, 0x0d, 0x12, 0x00, 0x00, 0x00, 0x00, 0x00, 0x0f, 0x68, 0x18, 0x40, 0x1f, 0x00, 0x3c, 0xa7]
  | .MeasurementModeState => [0x10, 0x02, 0x03, 0x00, 0xeb]
  | .OperatingModeState => [0x10, 0x02, 0x03, 0x00, 0xeb]
  | .SwitchValvesState => [0x10, 0x02, 0x61, 0x00, 0x8d]
  | .SwitchPumpState => [0x10, 0x02, 0x62, 0x02, 0x8a]
  | .SelectTheAnestheticAgentState => []
  | .Evaluate_1210_State => []
  | .SelectAnestheticAgentType_Halothane_State => [0x10, 0x03, 0x1d, 0x01, 0x00, 0xcf]
  | .ProvideTheSensorModuleWithRequiredData_State => []
  | .AcceptExternalParameterData_UnknownAccuracy_State => [0x10, 0x06, 0x1c, 0xdf, 0x0a, 0x02, 0xe3]
  | .SuperviseModuleStatus_120E_MSBit2_State => []
  | .SuperviseModuleStatus_120B_MSWBit5_State => []
  | .SuperviseModuleStatus_120B_MSWBit6_State => []
  | .SuperviseModuleStatus_120E_MSWBit7_State => []
  | .SuperviseModuleStatus_120E_MSBit6_State => []
  | .SuperviseModuleStatus_120E_MSBit5_State => []
  | .SuperviseModuleStatus_120E_MSBit4_State => []
  | .SuperviseZeroRequest_120E_OMS_State => []
  | .ZeroInProgress_1203_CO2N2OPSBit5_State => []
  | .ZeroInProgress_1204_O2PSBit5_State => []
  | .ZeroInProgress_1210_A1PSBit5_State => []
  | .ZeroInProgress_1211_A2PSBit5_State => []
  | .ZeroRequestState => []
  | .HandleZeroRequestState => [0x10, 0x01, 0x2c, 0xc3]
  | .InitZeroState =>
    [0x10, 0x0b, 0x20, 0x00, 0x00, 0x01, 0x00, 0x00, 0x00, 0x00, 0x00, 0x01, 0x00, 0xc3]
  | .GetUnitsState => []
  | .EvaluateConnectionEstablishedState => []
  | .HostSelectableParameters_120E_HSP_State => []
  | .ParameterAvailabilityInformation_120E_PAI_State => []
  | .ParameterMode_1203_CO2PSBit6Bit7_State => []
  | .ParameterMode_1203_N2OPSBit6Bit7_State => []
  | .ParameterMode_1204_O2PSBit6Bit7_State => []
  | .ParameterMode_1210_A1PSBit6Bit7_State => []
  | .ParameterMode_1211_A2PSBit6Bit7_State => []
  | .ParameterInopInformation_120E_PII_State => []
  | .MeasurementMode_120E_OMS_State => []
  | .Occlusion_120E_MSBit1__State => []

/-- The member function `GetCommandId()` of each class. -/
def StateClass.GetCommandId : StateClass → Nat
  | .StopContinuousDataState => 0x19
  | .GetIntervalBaseTimeState => 0x02
  | .TransmitDeviceComponentInformation_VendorCode_State => 0x0a00
  | .TransmitDeviceComponentInformation_SerialNumber_State => 0x0a01
  | .TransmitDeviceComponentInformation_HardwareRevision_State => 0x0a02
  | .TransmitDeviceComponentInformation_SoftwareRevision_State => 0x0a03
  | .TransmitDeviceComponentInformation_ProductName_State => 0x0a05
  | .TransmitDeviceComponentInformation_PartNumber_State => 0x0a06
  | .AdjustTimeInformationState => 0x2b
  | .TransmitGenericModuleFeaturesState => 0x2c12
  | .SwitchBreathDetectionMode_PgmBreathDetection_State => 0x1e01
  | .SwitchBreathDetectionMode_PgmBreathDetectionAutoWakeup_State => 0x1e02
  | .SwitchBreathDetectionMode_AutoWakeupAfterBreathphase1_State => 0x1e05
  | .SwitchBreathDetectionMode_AutoWakeupAfterBreathphase2_State => 0x1e06
  | .SwitchBreathDetectionMode_AutoWakeupAfterBreathphase3_State => 0x1e07
  | .SwitchBreathDetectionMode_AutoWakeupAfterBreathphase4_State => 0x1e08
  | .SwitchBreathDetectionMode_AutoWakeupAfterBreathphase5_State => 0x1e09
  | .TransmitPatientData_120E_State => 0x120e00
  | .MeasurementModeState => 0x0300
  | .OperatingModeState => 0x0301
  | .SwitchValvesState => 0x6100
  | .SwitchPumpState => 0x6202
  | .SelectTheAnestheticAgentState => 0x120e0401
  | .Evaluate_1210_State => 0x121009
  | .SelectAnestheticAgentType_Halothane_State => 0x1d01
  | .ProvideTheSensorModuleWithRequiredData_State => 0x120e07
  | .AcceptExternalParameterData_UnknownAccuracy_State => 0x06
  | .SuperviseModuleStatus_120E_MSBit2_State => 0x120e02
  | .SuperviseModuleStatus_120B_MSWBit5_State => 0x120b05
  | .SuperviseModuleStatus_120B_MSWBit6_State => 0x120b06
  | .SuperviseModuleStatus_120E_MSWBit7_State => 0x120b07
  | .SuperviseModuleStatus_120E_MSBit6_State => 0x120e06
  | .SuperviseModuleStatus_120E_MSBit5_State => 0x120e05
  | .SuperviseModuleStatus_120E_MSBit4_State => 0x120e0402
  | .SuperviseZeroRequest_120E_OMS_State => 0x120e1201
  | .ZeroInProgress_1203_CO2N2OPSBit5_State => 0x120305
  | .ZeroInProgress_1204_O2PSBit5_State => 0x120405
  | .ZeroInProgress_1210_A1PSBit5_State => 0x121005
  | .ZeroInProgress_1211_A2PSBit5_State => 0x121105
  | .ZeroRequestState => 0x120e1200
  | .HandleZeroRequestState => 0x2c06
  | .InitZeroState => 0x20010100
  | .GetUnitsState => 0x1212
  | .EvaluateConnectionEstablishedState => 0x2c0601
  | .HostSelectableParameters_120E_HSP_State => 0x120e0701
  | .ParameterAvailabilityInformation_120E_PAI_State => 0x120e0403
  | .ParameterMode_1203_CO2PSBit6Bit7_State => 0x12031106
  | .ParameterMode_1203_N2OPSBit6Bit7_State => 0x12031206
  | .ParameterMode_1204_O2PSBit6Bit7_State => 0x12041106
  | .ParameterMode_1210_A1PSBit6Bit7_State => 0x12101206
  | .ParameterMode_1211_A2PSBit6Bit7_State => 0x12111206
  | .ParameterInopInformation_120E_PII_State => 0x120e0501
  | .MeasurementMode_120E_OMS_State => 0x120e1202
  | .Occlusion_120E_MSBit1__State => 0x120e01

/-- Every class, in the order of declaration. -/
def StateClass.all : List StateClass :=
  [.StopContinuousDataState,
   .GetIntervalBaseTimeState,
   .TransmitDeviceComponentInformation_VendorCode_State,
   .TransmitDeviceComponentInformation_SerialNumber_State,
   .TransmitDeviceComponentInformation_HardwareRevision_State,
   .TransmitDeviceComponentInformation_SoftwareRevision_State,
   .TransmitDeviceComponentInformation_ProductName_State,
   .TransmitDeviceComponentInformation_PartNumber_State,
   .AdjustTimeInformationState,
   .TransmitGenericModuleFeaturesState,
   .SwitchBreathDetectionMode_PgmBreathDetection_State,
   .SwitchBreathDetectionMode_PgmBreathDetectionAutoWakeup_State,
   .SwitchBreathDetectionMode_AutoWakeupAfterBreathphase1_State,
   .SwitchBreathDetectionMode_AutoWakeupAfterBreathphase2_State,
   .SwitchBreathDetectionMode_AutoWakeupAfterBreathphase3_State,
   .SwitchBreathDetectionMode_AutoWakeupAfterBreathphase4_State,
   .SwitchBreathDetectionMode_AutoWakeupAfterBreathphase5_State,
   .TransmitPatientData_120E_State,
   .MeasurementModeState,
   .OperatingModeState,
   .SwitchValvesState,
   .SwitchPumpState,
   .SelectTheAnestheticAgentState,
   .Evaluate_1210_State,
   .SelectAnestheticAgentType_Halothane_State,
   .ProvideTheSensorModuleWithRequiredData_State,
   .AcceptExternalParameterData_UnknownAccuracy_State,
   .SuperviseModuleStatus_120E_MSBit2_State,
   .SuperviseModuleStatus_120B_MSWBit5_State,
   .SuperviseModuleStatus_120B_MSWBit6_State,
   .SuperviseModuleStatus_120E_MSWBit7_State,
   .SuperviseModuleStatus_120E_MSBit6_State,
   .SuperviseModuleStatus_120E_MSBit5_State,
   .SuperviseModuleStatus_120E_MSBit4_State,
   .SuperviseZeroRequest_120E_OMS_State,
   .ZeroInProgress_1203_CO2N2OPSBit5_State,
   .ZeroInProgress_1204_O2PSBit5_State,
   .ZeroInProgress_1210_A1PSBit5_State,
   .ZeroInProgress_1211_A2PSBit5_State,
   .ZeroRequestState,
   .HandleZeroRequestState,
   .InitZeroState,
   .GetUnitsState,
   .EvaluateConnectionEstablishedState,
   .HostSelectableParameters_120E_HSP_State,
   .ParameterAvailabilityInformation_120E_PAI_State,
   .ParameterMode_1203_CO2PSBit6Bit7_State,
   .ParameterMode_1203_N2OPSBit6Bit7_State,
   .ParameterMode_1204_O2PSBit6Bit7_State,
   .ParameterMode_1210_A1PSBit6Bit7_State,
   .ParameterMode_1211_A2PSBit6Bit7_State,
   .ParameterInopInformation_120E_PII_State,
   .MeasurementMode_120E_OMS_State,
   .Occlusion_120E_MSBit1__State]

/-- One call of `LogProvider::LogFile`: either the text of a string stream, or
the hexadecimal dump that `State::PrintData` makes of a vector (its layout is not
modelled). -/
inductive LogEntry where
  | text (msg : String)
  | hexdump (rddata : List Nat)
deriving DecidableEq, Repr

/-- The driver: the `Context` members modelled above, the dynamic class and the
member `m_lastTime` of each state object, the five session flags of `Context`,
and what the collaborators have received: `written` lists the arguments of
`m_serial.write`, `logFile` those of `LogFile`, both oldest first.  `allocated`
is the address the next `std::make_shared` returns.  Times are milliseconds of
the system clock. -/
structure Driver where
  ctx : Context
  cls : Ptr → StateClass
  m_lastTime : Ptr → Int
  m_bPneumaticsEnabled : Bool
  m_bAutoZeroCondition : Bool
  m_bPAIAvailable : Bool
  m_bNeedsExternalData : Bool
  m_bHSP : Nat
  written : List (List Nat)
  logFile : List LogEntry
  allocated : Ptr

/-- The call `LogProvider::Instance().LogFile(msg.str())`. -/
def Driver.LogFile (d : Driver) (msg : String) : Driver :=
  { d with logFile := d.logFile ++ [LogEntry.text msg] }

/-- The part of `State::PrintData(rddata)` that reaches the log file. -/
def Driver.PrintData (d : Driver) (rddata : List Nat) : Driver :=
  { d with logFile := d.logFile ++ [LogEntry.hexdump rddata] }

/-- The expression `std::make_shared<C>()` evaluated when the clock reads `now`:
a new object at the next free address, with the member initialisers of `State`
(`m_bIsAlreadySent{false}`, `m_bIsDataReceived{false}`), the values of
`IsSingleCommand()` and `IsContinuousCommand()` (true and false for every
class, the one override returns the same), and `m_lastTime` set to the clock. -/
def make_shared (d : Driver) (c : StateClass) (now : Int) : Driver × Ptr :=
  ({ d with
      ctx := { d.ctx with
        heap := fun q => if q = d.allocated then ⟨true, false, false, false⟩ else d.ctx.heap q }
      cls := fun q => if q = d.allocated then c else d.cls q
      m_lastTime := fun q => if q = d.allocated then now else d.m_lastTime q
      allocated := d.allocated + 1 },
   d.allocated)

/-- The statements `auto ptr = std::make_shared<C>();
this->context_->TransitionTo(ptr->GetCommandId(), ptr);` with which every
`Update` changes state. -/
def Driver.TransitionToNew (d : Driver) (c : StateClass) (now : Int) : Driver :=
  let r := make_shared d c now
  { r.1 with ctx := TransitionTo r.1.ctx c.GetCommandId r.2 }

/-- The effect of `State::SetDataReceived(b)` on the object at `p`. -/
def SetDataReceived (ctx : Context) (p : Ptr) (b : Bool) : Context :=
  { ctx with heap := fun q => if q = p then { ctx.heap p with m_bIsDataReceived := b } else ctx.heap q }

/-- The function `Context::SendCmd`. -/
def SendCmd (d : Driver) (state : Ptr) : Driver :=
  { d with written := d.written ++ [(d.cls state).GetCommand] }

/-- The function `Context::SendCmdSync` (lines 339-353): write the command, wait
on the condition variable, then copy `m_state->IsDataReceived()` into
`m_state->m_bIsAlreadySent`.  The wait ends when the reader loop has finished a
read; `bytes_read` is what that read returned, and the loop has stored
`bytes_read != 0` with `m_state->SetDataReceived` before it notifies (lines
519-532).  The result is `none` when `m_state` is null. -/
def SendCmdSync (d : Driver) (state : Ptr) (bytes_read : Nat) : Option Driver :=
  let d1 : Driver := { d with written := d.written ++ [(d.cls state).GetCommand] }
  match d1.ctx.m_state with
  | none => none
  | some cur =>
    let c1 := SetDataReceived d1.ctx cur (bytes_read != 0)
    if (c1.heap cur).m_bIsDataReceived then
      some { d1 with ctx := SetAlreadySent c1 cur true }
    else
      some { d1 with ctx := SetAlreadySent c1 cur false }

/-- The member function `Register()`, the same in every class:
`this->context_->AttachNeedResponse(this)`. -/
def Register (d : Driver) (this : Ptr) : Driver :=
  { d with ctx := AttachNeedResponse d.ctx this }

/-- The member function `HandleData()` of the class of the object at `this`,
called when the clock reads `now`; `bytes_read` is used by a synchronous send
only (see `SendCmdSync`).  Output on `std::cout` is not modelled. -/
def HandleData (d : Driver) (this : Ptr) (now : Int) (bytes_read : Nat) : Option Driver :=
  if (d.ctx.heap this).m_bIsAlreadySent then some d
  else
    match d.cls this with
    | .StopContinuousDataState =>
      let d1 := d.LogFile "Handles StopContinuousData.\n"
      if now - d1.m_lastTime this ≥ 150 then
        SendCmdSync { d1 with m_lastTime := fun q => if q = this then now else d1.m_lastTime q }
          this bytes_read
      else some d1
    | .GetIntervalBaseTimeState =>
      SendCmdSync (d.LogFile "Handles GetIntervalBaseTimeState.\n") this bytes_read
    | .TransmitDeviceComponentInformation_VendorCode_State =>
      SendCmdSync (d.LogFile "Handles TransmitDeviceComponentInformation_VendorCode_State.\n")
        this bytes_read
    | .TransmitDeviceComponentInformation_SerialNumber_State =>
      let d1 : Driver := { d with ctx := SetAlreadySent d.ctx this true }
      some (SendCmd (d1.LogFile "Handles TransmitDeviceComponentInformation_SerialNumber_State.\n")
        this)
    | .TransmitPatientData_120E_State =>
      let d1 : Driver := { d with ctx := SetAlreadySent d.ctx this true }
      some (SendCmd (d1.LogFile "Handles TransmitPatientDataState.\n") this)
    | .MeasurementModeState =>
      let d1 : Driver := { d with ctx := SetAlreadySent d.ctx this true }
      if now - d1.m_lastTime this ≥ 1000 then
        some (SendCmd { d1 with m_lastTime := fun q => if q = this then now else d1.m_lastTime q }
          this)
      else some d1
    | .OperatingModeState =>
      let d1 : Driver := { d with ctx := SetAlreadySent d.ctx this true }
      some (SendCmd d1 this)
    | .SelectTheAnestheticAgentState =>
      some (Register { d with ctx := SetAlreadySent d.ctx this true } this)
    | .SuperviseModuleStatus_120B_MSWBit6_State =>
      some (Register { d with ctx := SetAlreadySent d.ctx this true } this)
    | .SuperviseModuleStatus_120E_MSWBit7_State =>
      some (Register { d with ctx := SetAlreadySent d.ctx this true } this)
    | .SuperviseModuleStatus_120E_MSBit6_State =>
      some (Register { d with ctx := SetAlreadySent d.ctx this true } this)
    | .TransmitDeviceComponentInformation_HardwareRevision_State =>
      let d1 : Driver := { d with ctx := SetAlreadySent d.ctx this true }
      some (SendCmd (d1.LogFile "Handles TransmitDeviceComponentInformation_HardwareRevision_State.\n") this)
    | .TransmitDeviceComponentInformation_SoftwareRevision_State =>
      let d1 : Driver := { d with ctx := SetAlreadySent d.ctx this true }
      some (SendCmd (d1.LogFile "Handles TransmitDeviceComponentInformation_SoftwareRevision_State.\n") this)
    | .TransmitDeviceComponentInformation_ProductName_State =>
      let d1 : Driver := { d with ctx := SetAlreadySent d.ctx this true }
      some (SendCmd (d1.LogFile "Handles TransmitDeviceComponentInformation_ProductName_State.\n") this)
    | .TransmitDeviceComponentInformation_PartNumber_State =>
      let d1 : Driver := { d with ctx := SetAlreadySent d.ctx this true }
      some (SendCmd (d1.LogFile "Handles TransmitDeviceComponentInformation_PartNumber_State.\n") this)
    | .AdjustTimeInformationState =>
      let d1 : Driver := { d with ctx := SetAlreadySent d.ctx this true }
      some (SendCmd (d1.LogFile "Handles AdjustTimeInformationState.\n") this)
    | .TransmitGenericModuleFeaturesState =>
      let d1 : Driver := { d with ctx := SetAlreadySent d.ctx this true }
      some (SendCmd (d1.LogFile "Handles TransmitGenericModuleFeaturesState.\n") this)
    | .SwitchBreathDetectionMode_PgmBreathDetection_State =>
      let d1 : Driver := { d with ctx := SetAlreadySent d.ctx this true }
      some (SendCmd (d1.LogFile "Handles SwitchBreathDetectionModeState.\n") this)
    | .SwitchBreathDetectionMode_PgmBreathDetectionAutoWakeup_State =>
      let d1 : Driver := { d with ctx := SetAlreadySent d.ctx this true }
      some (SendCmd (d1.LogFile "Handles SwitchBreathDetectionModeState.\n") this)
    | .SwitchBreathDetectionMode_AutoWakeupAfterBreathphase1_State =>
      let d1 : Driver := { d with ctx := SetAlreadySent d.ctx this true }
      some (SendCmd (d1.LogFile "Handles SwitchBreathDetectionMode_AutoWakeupAfterBreathphase1_State.\n") this)
    | .SwitchBreathDetectionMode_AutoWakeupAfterBreathphase2_State =>
      let d1 : Driver := { d with ctx := SetAlreadySent d.ctx this true }
      some (SendCmd (d1.LogFile "Handles SwitchBreathDetectionMode_AutoWakeupAfterBreathphase2_State.\n") this)
    | .SwitchBreathDetectionMode_AutoWakeupAfterBreathphase3_State =>
      let d1 : Driver := { d with ctx := SetAlreadySent d.ctx this true }
      some (SendCmd (d1.LogFile "Handles SwitchBreathDetectionMode_AutoWakeupAfterBreathphase3_State.\n") this)
    | .SwitchBreathDetectionMode_AutoWakeupAfterBreathphase4_State =>
      let d1 : Driver := { d with ctx := SetAlreadySent d.ctx this true }
      some (SendCmd (d1.LogFile "Handles SwitchBreathDetectionMode_AutoWakeupAfterBreathphase4_State.\n") this)
    | .SwitchBreathDetectionMode_AutoWakeupAfterBreathphase5_State =>
      let d1 : Driver := { d with ctx := SetAlreadySent d.ctx this true }
      some (SendCmd (d1.LogFile "Handles SwitchBreathDetectionMode_AutoWakeupAfterBreathphase5_State.\n") this)
    | .HandleZeroRequestState =>
      SendCmdSync { d with ctx := SetAlreadySent d.ctx this true } this bytes_read
    | .SwitchValvesState
    | .SwitchPumpState
    | .SelectAnestheticAgentType_Halothane_State
    | .AcceptExternalParameterData_UnknownAccuracy_State
    | .InitZeroState =>
      let d1 : Driver := { d with ctx := SetAlreadySent d.ctx this true }
      some (SendCmd d1 this)
    | .Evaluate_1210_State
    | .ProvideTheSensorModuleWithRequiredData_State
    | .SuperviseModuleStatus_120E_MSBit2_State
    | .SuperviseModuleStatus_120B_MSWBit5_State
    | .SuperviseModuleStatus_120E_MSBit5_State
    | .SuperviseModuleStatus_120E_MSBit4_State
    | .SuperviseZeroRequest_120E_OMS_State
    | .ZeroInProgress_1203_CO2N2OPSBit5_State
    | .ZeroInProgress_1204_O2PSBit5_State
    | .ZeroInProgress_1210_A1PSBit5_State
    | .ZeroInProgress_1211_A2PSBit5_State
    | .ZeroRequestState
    | .GetUnitsState
    | .EvaluateConnectionEstablishedState
    | .HostSelectableParameters_120E_HSP_State
    | .ParameterAvailabilityInformation_120E_PAI_State
    | .ParameterMode_1203_CO2PSBit6Bit7_State
    | .ParameterMode_1203_N2OPSBit6Bit7_State
    | .ParameterMode_1204_O2PSBit6Bit7_State
    | .ParameterMode_1210_A1PSBit6Bit7_State
    | .ParameterMode_1211_A2PSBit6Bit7_State
    | .ParameterInopInformation_120E_PII_State
    | .MeasurementMode_120E_OMS_State
    | .Occlusion_120E_MSBit1__State =>
      some (Register { d with ctx := SetAlreadySent d.ctx this true } this)

/-- The function `Context::Request1` ("tick"): `this->m_state->HandleData()`. -/
def Request1 (d : Driver) (now : Int) (bytes_read : Nat) : Option Driver :=
  match d.ctx.m_state with
  | none => none
  | some cur => HandleData d cur now bytes_read

/-- Consecutive calls of `Request1`, one per pair (clock reading, bytes returned
by the read that ends a synchronous wait), with nothing else in between. -/
def ticks : Driver → List (Int × Nat) → Option Driver
  | d, [] => some d
  | d, t :: rest =>
    match Request1 d t.1 t.2 with
    | none => none
    | some d1 => ticks d1 rest

/-- The function `ClientCode()` up to the start of its loop, when the clock reads
`now`: a `StopContinuousDataState` is made and a `Context` is constructed on
it.  The first object gets address 1. -/
def ClientCode (now : Int) : Driver :=
  { ctx := Context.ctor heapSingle StateClass.StopContinuousDataState.GetCommandId 1
    cls := fun _ => StateClass.StopContinuousDataState
    m_lastTime := fun _ => now
    m_bPneumaticsEnabled := false
    m_bAutoZeroCondition := false
    m_bPAIAvailable := false
    m_bNeedsExternalData := false
    m_bHSP := 0
    written := []
    logFile := []
    allocated := 2 }

/-- The condition `rddata[0] == a && rddata[1] == b` of an `Update`: operands are
read left to right and only as far as needed; `none` when a read is out of
range (undefined behaviour of `std::vector::operator[]`). -/
def header2 (rddata : List Nat) (a b : Nat) : Option Bool :=
  match rddata[0]? with
  | none => none
  | some x =>
    if x = a then
      match rddata[1]? with
      | none => none
      | some y => some (y == b)
    else some false

/-- The condition `rddata[0] == a && rddata[1] == b && rddata[2] == c`. -/
def header3 (rddata : List Nat) (a b c : Nat) : Option Bool :=
  match header2 rddata a b with
  | none => none
  | some false => some false
  | some true =>
    match rddata[2]? with
    | none => none
    | some z => some (z == c)

/-- The function `StopContinuousDataState::Update` (lines 1405-1418). -/
def StopContinuousDataState_Update (d : Driver) (rddata : List Nat) (_sz : Nat) (now : Int) :
    Option Driver :=
  match header3 rddata 0x06 0x19 0x00 with
  | none => none
  | some true =>
    some ((d.LogFile "Change to GetIntervalBaseTimeState.\n").TransitionToNew
      StateClass.GetIntervalBaseTimeState now)
  | some false => some d

/-- The function `GetIntervalBaseTimeState::Update` (lines 1459-1491).  The
string stream `msg` of the failure branch is logged twice, the second time with
the second line appended. -/
def GetIntervalBaseTimeState_Update (d : Driver) (rddata : List Nat) (_sz : Nat) (now : Int) :
    Option Driver :=
  match header3 rddata 0x06 0x02 0x02 with
  | none => none
  | some true =>
    let d1 := d.LogFile "Change to GetIntervalBaseTimeState.\n"
    match rddata[3]?, rddata[4]? with
    | some _, some _ =>
      some ((d1.TransitionToNew
        StateClass.TransmitDeviceComponentInformation_VendorCode_State now).PrintData rddata)
    | _, _ => none
  | some false =>
    match header3 rddata 0x15 0x02 0x01 with
    | none => none
    | some true =>
      match rddata[3]? with
      | none => none
      | some errCode =>
        let msg := "Fail with error message: " ++ GetErrorMessage errCode ++ "\n"
        let d1 := d.LogFile msg
        let d2 := d1.LogFile
          (msg ++ "Skip to TransmitDeviceComponentInformation_VendorCode_State.\n")
        some ((d2.TransitionToNew
          StateClass.TransmitDeviceComponentInformation_VendorCode_State now).PrintData rddata)
    | some false => some (d.PrintData rddata)

/-- The function `TransmitPatientData_120E_State::Update` (lines 2777-2823). -/
def TransmitPatientData_120E_State_Update (d : Driver) (rddata : List Nat) (_sz : Nat)
    (now : Int) : Option Driver :=
  match header2 rddata 0x06 0x12 with
  | none => none
  | some true =>
    match rddata[13]? with
    | none => none
    | some frame =>
      if frame = 0x0e then
        match rddata[7]?, rddata[12]? with
        | some hsp, some oms =>
          let d1 : Driver :=
            if hsp &&& 0xde ≠ 0 then { d with m_bNeedsExternalData := true, m_bHSP := hsp }
            else { d with m_bNeedsExternalData := false, m_bHSP := hsp }
          if oms ≠ 0x00 then
            some ((d1.TransitionToNew StateClass.MeasurementModeState now).PrintData rddata)
          else
            some ((d1.TransitionToNew StateClass.OperatingModeState now).PrintData rddata)
        | _, _ => none
      else some (d.PrintData rddata)
  | some false =>
    match header3 rddata 0x15 0x1e 0x01 with
    | none => none
    | some true =>
      match rddata[3]? with
      | none => none
      | some _ => some ((d.TransitionToNew StateClass.OperatingModeState now).PrintData rddata)
    | some false => some (d.PrintData rddata)

/-- The function `SuperviseModuleStatus_120B_MSWBit6_State::Update` (lines
3612-3648). -/
def SuperviseModuleStatus_120B_MSWBit6_State_Update (d : Driver) (rddata : List Nat) (_sz : Nat)
    (now : Int) : Option Driver :=
  match header2 rddata 0x06 0x12 with
  | none => none
  | some true =>
    match rddata[13]? with
    | none => none
    | some frame =>
      if frame = 0x0b then
        match rddata[3]? with
        | none => none
        | some msw =>
          if msw &&& 0x40 ≠ 0 then
            some (d.TransitionToNew StateClass.SuperviseModuleStatus_120E_MSBit6_State now)
          else
            some (d.TransitionToNew StateClass.SuperviseModuleStatus_120E_MSWBit7_State now)
      else some d
  | some false =>
    match header3 rddata 0x15 0x12 0x09 with
    | none => none
    | some true =>
      match rddata[3]? with
      | none => none
      | some _ => some d
    | some false => some d

/-- What the registry holds under the key of class `c`, if anything, is an
object of class `c` that an earlier `std::make_shared` returned, as is the case
for every entry that a call `TransitionTo(ptr->GetCommandId(), ptr)` made. -/
def registeredAs (d : Driver) (c : StateClass) : Bool :=
  match mapFind d.ctx.m_mapStates c.GetCommandId with
  | none => true
  | some p => d.cls p = c && p < d.allocated

/-- The clock readings, among those of consecutive `Request1` calls during
which the reader reads no byte, at which a command is written to the
transport. -/
def transmitTimes : Driver → List Int → Option (List Int)
  | _, [] => some []
  | d, now :: rest =>
    match Request1 d now 0 with
    | none => none
    | some d1 =>
      match transmitTimes d1 rest with
      | none => none
      | some times => some (if d.written.length < d1.written.length then now :: times else times)

/-- The driver after a cold start at clock 0 and one `Request1` at 150 ms whose
wait ended with a read that returned four bytes. -/
def afterFirstSend : Driver := (Request1 (ClientCode 0) 150 4).getD (ClientCode 0)

/-- The driver after scenario S2: cold start, first transmission, the frame
06 19 00 E1 at 160 ms, and one `Request1` at 170 ms. -/
def afterS2 : Driver :=
  ((StopContinuousDataState_Update afterFirstSend [0x06, 0x19, 0x00, 0xE1] 4 160).bind
    (fun d => Request1 d 170 5)).getD afterFirstSend

/-- The driver after a cold start at clock 0 on which a
`TransmitDeviceComponentInformation_SerialNumber_State` has been made current;
the new object has address 2. -/
def onSerialNumber : Driver :=
  (ClientCode 0).TransitionToNew StateClass.TransmitDeviceComponentInformation_SerialNumber_State 0

/-- The driver after a cold start at clock 0 on which a
`SelectTheAnestheticAgentState` has been made current; the new object has
address 2. -/
def onSelectAgent : Driver :=
  (ClientCode 0).TransitionToNew StateClass.SelectTheAnestheticAgentState 0

/-- The relation between the clock readings of two consecutive transmissions. -/
def apart150 (a b : Int) : Prop := 150 ≤ b - a

/-- The function `TransmitDeviceComponentInformation_VendorCode_State::Update`
(lines 1531-1570).  The loop that prints `rddata[11]` to `rddata[20]` reads ten
elements, which exist when the vector has more than twenty. -/
def TransmitDeviceComponentInformation_VendorCode_State_Update (d : Driver)
    (rddata : List Nat) (_sz : Nat) (now : Int) : Option Driver :=
  match header3 rddata 0x06 0x0a 0x14 with
  | none => none
  | some true =>
    let d1 := d.LogFile "Change to TransmitDeviceComponentInformation_VendorCode_State.\n"
    if rddata.length ≤ 20 then none
    else
      match rddata[21]? with
      | none => none
      | some echo =>
        if (StateClass.TransmitDeviceComponentInformation_VendorCode_State.GetCommandId
            &&& 0x00ff) = echo then
          some ((d1.TransitionToNew
            StateClass.TransmitDeviceComponentInformation_SerialNumber_State now).PrintData rddata)
        else some (d1.PrintData rddata)
  | some false =>
    match header3 rddata 0x15 0x0a 0x01 with
    | none => none
    | some true =>
      match rddata[3]? with
      | none => none
      | some errCode =>
        let d1 := d.LogFile
          ("Fail with error message: " ++ GetErrorMessage errCode ++ "\n")
        some ((d1.TransitionToNew StateClass.StopContinuousDataState now).PrintData rddata)
    | some false => some (d.PrintData rddata)

/-- The function `TransmitDeviceComponentInformation_SerialNumber_State::Update`
(lines 1611-1648). -/
def TransmitDeviceComponentInformation_SerialNumber_State_Update (d : Driver)
    (rddata : List Nat) (_sz : Nat) (now : Int) : Option Driver :=
  match header3 rddata 0x06 0x0a 0x14 with
  | none => none
  | some true =>
    let d1 := d.LogFile "Change to TransmitDeviceComponentInformation_HardwareRevision_State.\n"
    if rddata.length ≤ 20 then none
    else
      match rddata[21]? with
      | none => none
      | some echo =>
        if (StateClass.TransmitDeviceComponentInformation_SerialNumber_State.GetCommandId
            &&& 0x00ff) = echo then
          some ((d1.TransitionToNew
            StateClass.TransmitDeviceComponentInformation_HardwareRevision_State now).PrintData
            rddata)
        else some (d1.PrintData rddata)
  | some false =>
    match header3 rddata 0x15 0x0a 0x01 with
    | none => none
    | some true =>
      match rddata[3]? with
      | none => none
      | some errCode =>
        let d1 := d.LogFile
          ("Fail with error message: " ++ GetErrorMessage errCode ++ "\n")
        some ((d1.TransitionToNew StateClass.StopContinuousDataState now).PrintData rddata)
    | some false => some (d.PrintData rddata)

/-- The function
`TransmitDeviceComponentInformation_HardwareRevision_State::Update` (lines
1687-1723). -/
def TransmitDeviceComponentInformation_HardwareRevision_State_Update (d : Driver)
    (rddata : List Nat) (_sz : Nat) (now : Int) : Option Driver :=
  match header3 rddata 0x06 0x0a 0x14 with
  | none => none
  | some true =>
    let d1 := d.LogFile "Change to TransmitDeviceComponentInformation_SoftwareRevision_State.\n"
    if rddata.length ≤ 20 then none
    else
      match rddata[21]? with
      | none => none
      | some echo =>
        if (StateClass.TransmitDeviceComponentInformation_HardwareRevision_State.GetCommandId
            &&& 0x00ff) = echo then
          some ((d1.TransitionToNew
            StateClass.TransmitDeviceComponentInformation_SoftwareRevision_State now).PrintData
            rddata)
        else some (d1.PrintData rddata)
  | some false =>
    match header3 rddata 0x15 0x0a 0x01 with
    | none => none
    | some true =>
      match rddata[3]? with
      | none => none
      | some errCode =>
        let d1 := d.LogFile
          ("Fail with error message: " ++ GetErrorMessage errCode ++ "\n")
        some ((d1.TransitionToNew StateClass.StopContinuousDataState now).PrintData rddata)
    | some false => some (d.PrintData rddata)

/-- The function
`TransmitDeviceComponentInformation_SoftwareRevision_State::Update` (lines
1763-1799). -/
def TransmitDeviceComponentInformation_SoftwareRevision_State_Update (d : Driver)
    (rddata : List Nat) (_sz : Nat) (now : Int) : Option Driver :=
  match header3 rddata 0x06 0x0a 0x14 with
  | none => none
  | some true =>
    let d1 := d.LogFile "Change to TransmitDeviceComponentInformation_ProductName_State.\n"
    if rddata.length ≤ 20 then none
    else
      match rddata[21]? with
      | none => none
      | some echo =>
        if (StateClass.TransmitDeviceComponentInformation_SoftwareRevision_State.GetCommandId
            &&& 0x00ff) = echo then
          some ((d1.TransitionToNew
            StateClass.TransmitDeviceComponentInformation_ProductName_State now).PrintData rddata)
        else some (d1.PrintData rddata)
  | some false =>
    match header3 rddata 0x15 0x0a 0x01 with
    | none => none
    | some true =>
      match rddata[3]? with
      | none => none
      | some errCode =>
        let d1 := d.LogFile
          ("Fail with error message: " ++ GetErrorMessage errCode ++ "\n")
        some ((d1.TransitionToNew StateClass.StopContinuousDataState now).PrintData rddata)
    | some false => some (d.PrintData rddata)

/-- The function `TransmitDeviceComponentInformation_ProductName_State::Update`
(lines 1840-1879).  It does not call `PrintData`. -/
def TransmitDeviceComponentInformation_ProductName_State_Update (d : Driver)
    (rddata : List Nat) (_sz : Nat) (now : Int) : Option Driver :=
  match header3 rddata 0x06 0x0a 0x14 with
  | none => none
  | some true =>
    let d1 := d.LogFile "Change to TransmitDeviceComponentInformation_PartNumber_State.\n"
    if rddata.length ≤ 20 then none
    else
      match rddata[21]? with
      | none => none
      | some echo =>
        if (StateClass.TransmitDeviceComponentInformation_ProductName_State.GetCommandId
            &&& 0x00ff) = echo then
          some (d1.TransitionToNew
            StateClass.TransmitDeviceComponentInformation_PartNumber_State now)
        else some d1
  | some false =>
    match header3 rddata 0x15 0x0a 0x01 with
    | none => none
    | some true =>
      match rddata[3]? with
      | none => none
      | some errCode =>
        let msg := "Fail with error message: " ++ GetErrorMessage errCode ++ "\n"
        let d1 := d.LogFile msg
        let d2 := d1.LogFile
          (msg ++ "Skip to TransmitDeviceComponentInformation_PartNumber_State.\n")
        some (d2.TransitionToNew StateClass.TransmitDeviceComponentInformation_PartNumber_State now)
    | some false => some d

/-- The function `TransmitDeviceComponentInformation_PartNumber_State::Update`
(lines 1920-1957). -/
def TransmitDeviceComponentInformation_PartNumber_State_Update (d : Driver)
    (rddata : List Nat) (_sz : Nat) (now : Int) : Option Driver :=
  match header3 rddata 0x06 0x0a 0x14 with
  | none => none
  | some true =>
    let d1 := d.LogFile "Change to TransmitDeviceComponentInformation_PartNumber_State.\n"
    if rddata.length ≤ 20 then none
    else
      match rddata[21]? with
      | none => none
      | some echo =>
        if (StateClass.TransmitDeviceComponentInformation_PartNumber_State.GetCommandId
            &&& 0x00ff) = echo then
          some ((d1.TransitionToNew StateClass.AdjustTimeInformationState now).PrintData rddata)
        else some (d1.PrintData rddata)
  | some false =>
    match header3 rddata 0x15 0x0a 0x01 with
    | none => none
    | some true =>
      match rddata[3]? with
      | none => none
      | some errCode =>
        let d1 := d.LogFile
          ("Fail with error message: " ++ GetErrorMessage errCode ++ "\n")
        some ((d1.TransitionToNew StateClass.StopContinuousDataState now).PrintData rddata)
    | some false => some (d.PrintData rddata)

/-- The function `AdjustTimeInformationState::Update` (lines 1998-2023).  It
does not call `PrintData`. -/
def AdjustTimeInformationState_Update (d : Driver) (rddata : List Nat) (_sz : Nat)
    (now : Int) : Option Driver :=
  match header3 rddata 0x06 0x2b 0x00 with
  | none => none
  | some true =>
    let d1 := d.LogFile "Change to TransmitGenericModuleFeaturesState.\n"
    some (d1.TransitionToNew StateClass.TransmitGenericModuleFeaturesState now)
  | some false =>
    match header3 rddata 0x15 0x2b 0x01 with
    | none => none
    | some true =>
      match rddata[3]? with
      | none => none
      | some errCode =>
        let d1 := d.LogFile
          ("Fail with error message: " ++ GetErrorMessage errCode ++ "\n")
        some (d1.TransitionToNew StateClass.StopContinuousDataState now)
    | some false => some d

/-- The function `SwitchBreathDetectionMode_PgmBreathDetection_State::Update`
(lines 2251-2274). -/
def SwitchBreathDetectionMode_PgmBreathDetection_State_Update (d : Driver)
    (rddata : List Nat) (_sz : Nat) (now : Int) : Option Driver :=
  match header3 rddata 0x06 0x1e 0x00 with
  | none => none
  | some true =>
    let d1 := d.LogFile
      "Change the state of the context to SwitchBreathDetectionMode_PgmBreathDetection_State.\n"
    some ((d1.TransitionToNew
      StateClass.SwitchBreathDetectionMode_PgmBreathDetectionAutoWakeup_State now).PrintData rddata)
  | some false =>
    match header3 rddata 0x15 0x1e 0x01 with
    | none => none
    | some true =>
      match rddata[3]? with
      | none => none
      | some _ =>
        some ((d.TransitionToNew StateClass.StopContinuousDataState now).PrintData rddata)
    | some false => some (d.PrintData rddata)

/-- The function
`SwitchBreathDetectionMode_PgmBreathDetectionAutoWakeup_State::Update` (lines
2317-2344). -/
def SwitchBreathDetectionMode_PgmBreathDetectionAutoWakeup_State_Update (d : Driver)
    (rddata : List Nat) (_sz : Nat) (now : Int) : Option Driver :=
  match header3 rddata 0x06 0x1e 0x00 with
  | none => none
  | some true =>
    let d1 := d.LogFile
      "Change the state of the context to SwitchBreathDetectionMode_AutoWakeupAfterBreathphase1_State.\n"
    some ((d1.TransitionToNew
      StateClass.SwitchBreathDetectionMode_AutoWakeupAfterBreathphase1_State now).PrintData rddata)
  | some false =>
    match header3 rddata 0x15 0x1e 0x01 with
    | none => none
    | some true =>
      match rddata[3]? with
      | none => none
      | some errCode =>
        let d1 := d.LogFile
          ("Fail with error message: " ++ GetErrorMessage errCode ++ "\n")
        some ((d1.TransitionToNew StateClass.StopContinuousDataState now).PrintData rddata)
    | some false => some (d.PrintData rddata)

/-- The function
`SwitchBreathDetectionMode_AutoWakeupAfterBreathphase1_State::Update` (lines
2388-2414). -/
def SwitchBreathDetectionMode_AutoWakeupAfterBreathphase1_State_Update (d : Driver)
    (rddata : List Nat) (_sz : Nat) (now : Int) : Option Driver :=
  match header3 rddata 0x06 0x1e 0x00 with
  | none => none
  | some true =>
    let d1 := d.LogFile
      "Change the state of the context to SwitchBreathDetectionMode_AutoWakeupAfterBreathphase2_State.\n"
    some ((d1.TransitionToNew
      StateClass.SwitchBreathDetectionMode_AutoWakeupAfterBreathphase2_State now).PrintData rddata)
  | some false =>
    match header3 rddata 0x15 0x1e 0x01 with
    | none => none
    | some true =>
      match rddata[3]? with
      | none => none
      | some errCode =>
        let d1 := d.LogFile
          ("Fail with error message: " ++ GetErrorMessage errCode ++ "\n")
        some ((d1.TransitionToNew StateClass.StopContinuousDataState now).PrintData rddata)
    | some false => some (d.PrintData rddata)

/-- The function
`SwitchBreathDetectionMode_AutoWakeupAfterBreathphase2_State::Update` (lines
2458-2485). -/
def SwitchBreathDetectionMode_AutoWakeupAfterBreathphase2_State_Update (d : Driver)
    (rddata : List Nat) (_sz : Nat) (now : Int) : Option Driver :=
  match header3 rddata 0x06 0x1e 0x00 with
  | none => none
  | some true =>
    let d1 := d.LogFile
      "Change the state of the context to SwitchBreathDetectionMode_AutoWakeupAfterBreathphase3_State.\n"
    some ((d1.TransitionToNew
      StateClass.SwitchBreathDetectionMode_AutoWakeupAfterBreathphase3_State now).PrintData rddata)
  | some false =>
    match header3 rddata 0x15 0x1e 0x01 with
    | none => none
    | some true =>
      match rddata[3]? with
      | none => none
      | some errCode =>
        let d1 := d.LogFile
          ("Fail with error message: " ++ GetErrorMessage errCode ++ "\n")
        some ((d1.TransitionToNew StateClass.StopContinuousDataState now).PrintData rddata)
    | some false => some (d.PrintData rddata)

/-- The function
`SwitchBreathDetectionMode_AutoWakeupAfterBreathphase3_State::Update` (lines
2528-2555). -/
def SwitchBreathDetectionMode_AutoWakeupAfterBreathphase3_State_Update (d : Driver)
    (rddata : List Nat) (_sz : Nat) (now : Int) : Option Driver :=
  match header3 rddata 0x06 0x1e 0x00 with
  | none => none
  | some true =>
    let d1 := d.LogFile
      "Change the state of the context to SwitchBreathDetectionMode_AutoWakeupAfterBreathphase4_State.\n"
    some ((d1.TransitionToNew
      StateClass.SwitchBreathDetectionMode_AutoWakeupAfterBreathphase4_State now).PrintData rddata)
  | some false =>
    match header3 rddata 0x15 0x1e 0x01 with
    | none => none
    | some true =>
      match rddata[3]? with
      | none => none
      | some errCode =>
        let d1 := d.LogFile
          ("Fail with error message: " ++ GetErrorMessage errCode ++ "\n")
        some ((d1.TransitionToNew StateClass.StopContinuousDataState now).PrintData rddata)
    | some false => some (d.PrintData rddata)

/-- The function
`SwitchBreathDetectionMode_AutoWakeupAfterBreathphase4_State::Update` (lines
2599-2626). -/
def SwitchBreathDetectionMode_AutoWakeupAfterBreathphase4_State_Update (d : Driver)
    (rddata : List Nat) (_sz : Nat) (now : Int) : Option Driver :=
  match header3 rddata 0x06 0x1e 0x00 with
  | none => none
  | some true =>
    let d1 := d.LogFile
      "Change the state of the context to SwitchBreathDetectionMode_AutoWakeupAfterBreathphase4_State.\n"
    some ((d1.TransitionToNew
      StateClass.SwitchBreathDetectionMode_AutoWakeupAfterBreathphase5_State now).PrintData rddata)
  | some false =>
    match header3 rddata 0x15 0x1e 0x01 with
    | none => none
    | some true =>
      match rddata[3]? with
      | none => none
      | some errCode =>
        let d1 := d.LogFile
          ("Fail with error message: " ++ GetErrorMessage errCode ++ "\n")
        some ((d1.TransitionToNew StateClass.StopContinuousDataState now).PrintData rddata)
    | some false => some (d.PrintData rddata)

/-- The function
`SwitchBreathDetectionMode_AutoWakeupAfterBreathphase5_State::Update` (lines
2670-2696). -/
def SwitchBreathDetectionMode_AutoWakeupAfterBreathphase5_State_Update (d : Driver)
    (rddata : List Nat) (_sz : Nat) (now : Int) : Option Driver :=
  match header3 rddata 0x06 0x1e 0x00 with
  | none => none
  | some true =>
    let d1 := d.LogFile "Change the state of the context to TransmitPatientData_120E_State.\n"
    some ((d1.TransitionToNew StateClass.TransmitPatientData_120E_State now).PrintData rddata)
  | some false =>
    match header3 rddata 0x15 0x1e 0x01 with
    | none => none
    | some true =>
      match rddata[3]? with
      | none => none
      | some errCode =>
        let d1 := d.LogFile
          ("Fail with error message: " ++ GetErrorMessage errCode ++ "\n")
        some ((d1.TransitionToNew StateClass.StopContinuousDataState now).PrintData rddata)
    | some false => some (d.PrintData rddata)

/-- The function `SwitchValvesState::Update` (lines 3054-3073). -/
def SwitchValvesState_Update (d : Driver) (rddata : List Nat) (_sz : Nat)
    (now : Int) : Option Driver :=
  match header3 rddata 0x06 0x61 0x00 with
  | none => none
  | some true =>
    some ((d.TransitionToNew StateClass.SwitchPumpState now).PrintData rddata)
  | some false =>
    match header3 rddata 0x15 0x62 0x01 with
    | none => none
    | some true =>
      match rddata[3]? with
      | none => none
      | some _ =>
        some ((d.TransitionToNew StateClass.StopContinuousDataState now).PrintData rddata)
    | some false => some (d.PrintData rddata)

/-- The function `SwitchPumpState::Update` (lines 3115-3134). -/
def SwitchPumpState_Update (d : Driver) (rddata : List Nat) (_sz : Nat)
    (now : Int) : Option Driver :=
  match header3 rddata 0x06 0x62 0x00 with
  | none => none
  | some true =>
    some ((d.TransitionToNew StateClass.SelectTheAnestheticAgentState now).PrintData rddata)
  | some false =>
    match header3 rddata 0x15 0x62 0x01 with
    | none => none
    | some true =>
      match rddata[3]? with
      | none => none
      | some _ =>
        some ((d.TransitionToNew StateClass.StopContinuousDataState now).PrintData rddata)
    | some false => some (d.PrintData rddata)

/-- The function `SelectAnestheticAgentType_Halothane_State::Update` (lines
3306-3325). -/
def SelectAnestheticAgentType_Halothane_State_Update (d : Driver) (rddata : List Nat) (_sz : Nat)
    (now : Int) : Option Driver :=
  match header3 rddata 0x06 0x1d 0x00 with
  | none => none
  | some true =>
    some ((d.TransitionToNew
      StateClass.ProvideTheSensorModuleWithRequiredData_State now).PrintData rddata)
  | some false =>
    match header3 rddata 0x15 0x1d 0x01 with
    | none => none
    | some true =>
      match rddata[3]? with
      | none => none
      | some _ =>
        some ((d.TransitionToNew StateClass.StopContinuousDataState now).PrintData rddata)
    | some false => some (d.PrintData rddata)

/-- The function `AcceptExternalParameterData_UnknownAccuracy_State::Update`
(lines 3433-3452).  The transition of the failure branch is commented out in the
source. -/
def AcceptExternalParameterData_UnknownAccuracy_State_Update (d : Driver)
    (rddata : List Nat) (_sz : Nat) (now : Int) : Option Driver :=
  match header3 rddata 0x06 0x1c 0x00 with
  | none => none
  | some true =>
    some ((d.TransitionToNew
      StateClass.SuperviseModuleStatus_120E_MSBit2_State now).PrintData rddata)
  | some false =>
    match header3 rddata 0x15 0x1c 0x01 with
    | none => none
    | some true =>
      match rddata[3]? with
      | none => none
      | some _ =>
        some (d.PrintData rddata)
    | some false => some (d.PrintData rddata)

/-- The function `InitZeroState::Update` (lines 4390-4409). -/
def InitZeroState_Update (d : Driver) (rddata : List Nat) (_sz : Nat)
    (now : Int) : Option Driver :=
  match header3 rddata 0x06 0x20 0x00 with
  | none => none
  | some true =>
    some ((d.TransitionToNew StateClass.GetUnitsState now).PrintData rddata)
  | some false =>
    match header3 rddata 0x15 0x20 0x01 with
    | none => none
    | some true =>
      match rddata[3]? with
      | none => none
      | some _ =>
        some ((d.TransitionToNew StateClass.GetUnitsState now).PrintData rddata)
    | some false => some (d.PrintData rddata)

/-- The function `TransmitGenericModuleFeaturesState::Update` (lines 2066-2124):
`SetPneumaticsEnabled` and `SetAutoZeroCondition` assign the members
`m_bPneumaticsEnabled` and `m_bAutoZeroCondition` of the context. -/
def TransmitGenericModuleFeaturesState_Update (d : Driver) (rddata : List Nat) (_sz : Nat)
    (now : Int) : Option Driver :=
  match header3 rddata 0x06 0x2c 0x04 with
  | none => none
  | some true =>
    match rddata[6]? with
    | none => none
    | some features =>
      let d1 : Driver :=
        if features &&& 0x02 = 0x02 then
          if features &&& 0x04 = 0x04 then { d with m_bPneumaticsEnabled := true }
          else { d with m_bPneumaticsEnabled := false }
        else { d with m_bPneumaticsEnabled := false }
      let d2 : Driver :=
        if features &&& 0x01 = 0x01 then { d1 with m_bAutoZeroCondition := false }
        else { d1 with m_bAutoZeroCondition := true }
      some ((d2.TransitionToNew
        StateClass.SwitchBreathDetectionMode_PgmBreathDetection_State now).PrintData rddata)
  | some false =>
    match header3 rddata 0x15 0x2c 0x01 with
    | none => none
    | some true =>
      match rddata[3]? with
      | none => none
      | some errCode =>
        let msg := "Fail with error message: " ++ GetErrorMessage errCode ++ "\n"
        let d1 := d.LogFile msg
        let d2 := d1.LogFile
          (msg ++ "Skip to SwitchBreathDetectionMode_PgmBreathDetection_State.\n")
        some ((d2.TransitionToNew
          StateClass.SwitchBreathDetectionMode_PgmBreathDetection_State now).PrintData rddata)
    | some false => some (d.PrintData rddata)

/-- The function `MeasurementModeState::Update` (lines 2902-2933). -/
def MeasurementModeState_Update (d : Driver) (rddata : List Nat) (_sz : Nat)
    (now : Int) : Option Driver :=
  match header3 rddata 0x06 0x03 0x01 with
  | none => none
  | some true =>
    match rddata[3]? with
    | none => none
    | some mode =>
      if mode = 0x00 then
        some ((d.TransitionToNew StateClass.OperatingModeState now).PrintData rddata)
      else
        some ((d.TransitionToNew StateClass.MeasurementModeState now).PrintData rddata)
  | some false =>
    match header3 rddata 0x15 0x03 0x01 with
    | none => none
    | some true =>
      match rddata[3]? with
      | none => none
      | some _ =>
        some ((d.TransitionToNew StateClass.StopContinuousDataState now).PrintData rddata)
    | some false => some (d.PrintData rddata)

/-- The function `OperatingModeState::Update` (lines 2990-3012). -/
def OperatingModeState_Update (d : Driver) (rddata : List Nat) (_sz : Nat)
    (now : Int) : Option Driver :=
  match header3 rddata 0x06 0x03 0x01 with
  | none => none
  | some true =>
    match rddata[3]? with
    | none => none
    | some mode =>
      if mode = 0x00 then
        some ((d.TransitionToNew StateClass.SwitchValvesState now).PrintData rddata)
      else some (d.PrintData rddata)
  | some false =>
    match header3 rddata 0x15 0x03 0x01 with
    | none => none
    | some true =>
      match rddata[3]? with
      | none => none
      | some _ =>
        some ((d.TransitionToNew StateClass.StopContinuousDataState now).PrintData rddata)
    | some false => some (d.PrintData rddata)

/-- The function `ProvideTheSensorModuleWithRequiredData_State::Update` (lines
3358-3393).  It reads no member of the context. -/
def ProvideTheSensorModuleWithRequiredData_State_Update (d : Driver) (rddata : List Nat)
    (_sz : Nat) (now : Int) : Option Driver :=
  match header2 rddata 0x06 0x12 with
  | none => none
  | some true =>
    match rddata[13]? with
    | none => none
    | some frame =>
      if frame = 0x0e then
        match rddata[7]? with
        | none => none
        | some hsp =>
          if hsp &&& 0xde ≠ 0 then
            some ((d.TransitionToNew
              StateClass.AcceptExternalParameterData_UnknownAccuracy_State now).PrintData rddata)
          else
            some ((d.TransitionToNew
              StateClass.SuperviseModuleStatus_120E_MSBit2_State now).PrintData rddata)
      else some (d.PrintData rddata)
  | some false =>
    match header3 rddata 0x15 0x12 0x09 with
    | none => none
    | some true =>
      match rddata[3]? with
      | none => none
      | some _ => some (d.PrintData rddata)
    | some false => some (d.PrintData rddata)

/-- The dynamic class of the current state `m_state`, if there is one. -/
def currentClass (d : Driver) : Option StateClass :=
  d.ctx.m_state.map d.cls

/-- Whether a byte sequence has the shape of a request: first byte 0x10 and
length equal to the second byte plus three. -/
def requestShape (cmd : List Nat) : Bool :=
  cmd[0]? == some 0x10 &&
    match cmd[1]? with
    | some len => cmd.length == len + 3
    | none => false

/-- What is proved of the failure branch of the `Update` of class `c`: on every
vector that starts 15 op 01 cc, where op is byte 2 of the command of `c`, the
call returns, an object of class `next` is the current state afterwards, and
nothing has been written. -/
def nakMovesTo (c : StateClass)
    (upd : Driver → List Nat → Nat → Int → Option Driver) (next : StateClass) : Prop :=
  ∀ (d : Driver) (rddata : List Nat) (sz : Nat) (now : Int) (op cc : Nat),
    c.GetCommand[2]? = some op →
    rddata[0]? = some 0x15 → rddata[1]? = some op → rddata[2]? = some 0x01 →
    rddata[3]? = some cc → registeredAs d next = true →
    ∃ d1, upd d rddata sz now = some d1 ∧ currentClass d1 = some next ∧
      d1.written = d.written

/-- What is proved of the success branch of the `Update` of a device-component
state: on every vector that starts 06 0A 14 and has an element 21, the call
returns and writes nothing; when element 21 is `sel`, an object of class `next`
is the current state afterwards, and otherwise the context is as before. -/
def ackAdvances (upd : Driver → List Nat → Nat → Int → Option Driver) (sel : Nat)
    (next : StateClass) : Prop :=
  ∀ (d : Driver) (rddata : List Nat) (sz : Nat) (now : Int) (echo : Nat),
    rddata[0]? = some 0x06 → rddata[1]? = some 0x0a → rddata[2]? = some 0x14 →
    rddata[21]? = some echo →
    ∃ d1, upd d rddata sz now = some d1 ∧ d1.written = d.written ∧
      (echo = sel → registeredAs d next = true → currentClass d1 = some next) ∧
      (echo ≠ sel → d1.ctx = d.ctx)

/-- The driver after a cold start at clock 0 on which an object of class `c` has
been made current; the new object has address 2. -/
def onState (c : StateClass) : Driver :=
  (ClientCode 0).TransitionToNew c 0

/-- A reply to "transmit device component information" whose element 21 is
`echo`: 06 0A 14, twenty payload bytes, and the checksum. -/
def deviceComponentFrame (echo : Nat) : List Nat :=
  let body := [0x06, 0x0a, 0x14] ++ List.replicate 18 0x41 ++ [echo, 0x00]
  body ++ [(256 - body.sum % 256) % 256]

/-- The driver after scenarios S2 and S3 and a failed vendor-code request: from
`afterS2`, the frame 15 02 01 12 D8 at 180 ms, one `Request1` at 190 ms whose wait
ended with a read of five bytes, and the frame 15 0A 01 12 CE at 200 ms. -/
def afterFallback : Driver :=
  (((GetIntervalBaseTimeState_Update afterS2 [0x15, 0x02, 0x01, 0x12, 0xD8] 5 180).bind
    (fun d => Request1 d 190 5)).bind
    (fun d => TransmitDeviceComponentInformation_VendorCode_State_Update d
      [0x15, 0x0a, 0x01, 0x12, 0xCE] 5 200)).getD afterS2

/-- The driver after a `MeasurementModeState` made at clock 0 has sent its
command at 1000 ms and has received the frame 06 03 01 01 F5 at 1010 ms. -/
def afterMeasurementReply : Driver :=
  ((Request1 (onState StateClass.MeasurementModeState) 1000 0).bind
    (fun d => MeasurementModeState_Update d [0x06, 0x03, 0x01, 0x01, 0xF5] 5 1010)).getD
    (onState StateClass.MeasurementModeState)

/-- The driver on which `TransmitPatientData_120E_State::Update` has received a
frame whose byte 7 is 0xDE, and on which a
`ProvideTheSensorModuleWithRequiredData_State` has then been made current. -/
def onProvideAfterHsp : Driver :=
  ((TransmitPatientData_120E_State_Update (ClientCode 0)
    [0x06, 0x12, 0x0c, 0, 0, 0, 0, 0xDE, 0, 0, 0, 0, 0, 0x0e, 0, 0xF0] 16 0).getD
    (ClientCode 0)).TransitionToNew StateClass.ProvideTheSensorModuleWithRequiredData_State 5

/-- The function `SelectTheAnestheticAgentState::Update` (lines 3171-3205).
`SetPAIAvailable` assigns the member `m_bPAIAvailable` of the context. -/
def SelectTheAnestheticAgentState_Update (d : Driver) (rddata : List Nat) (_sz : Nat)
    (now : Int) : Option Driver :=
  match header2 rddata 0x06 0x12 with
  | none => none
  | some true =>
    match rddata[13]? with
    | none => none
    | some frame =>
      if frame = 0x0e then
        match rddata[4]? with
        | none => none
        | some status =>
          if status &&& 0x0c ≠ 0 then
            let d1 : Driver := { d with m_bPAIAvailable := true }
            some ((d1.TransitionToNew StateClass.Evaluate_1210_State now).PrintData rddata)
          else
            some ((d.TransitionToNew
              StateClass.ProvideTheSensorModuleWithRequiredData_State now).PrintData rddata)
      else some (d.PrintData rddata)
  | some false =>
    match header3 rddata 0x15 0x1e 0x01 with
    | none => none
    | some true =>
      match rddata[3]? with
      | none => none
      | some _ => some (d.PrintData rddata)
    | some false => some (d.PrintData rddata)

/-- The function `SuperviseModuleStatus_120E_MSBit2_State::Update` (lines
3481-3511). -/
def SuperviseModuleStatus_120E_MSBit2_State_Update (d : Driver) (rddata : List Nat) (_sz : Nat)
    (now : Int) : Option Driver :=
  match header2 rddata 0x06 0x12 with
  | none => none
  | some true =>
    match rddata[13]? with
    | none => none
    | some frame =>
      if frame = 0x0e then
        match rddata[14]? with
        | none => none
        | some status =>
          if status &&& 0x04 ≠ 0 then
            some ((d.TransitionToNew
              StateClass.SuperviseModuleStatus_120B_MSWBit5_State now).PrintData rddata)
          else
            some ((d.TransitionToNew
              StateClass.SuperviseModuleStatus_120E_MSBit6_State now).PrintData rddata)
      else some (d.PrintData rddata)
  | some false =>
    match header3 rddata 0x15 0x12 0x09 with
    | none => none
    | some true =>
      match rddata[3]? with
      | none => none
      | some _ => some (d.PrintData rddata)
    | some false => some (d.PrintData rddata)

/-- The function `SuperviseModuleStatus_120B_MSWBit5_State::Update` (lines
3545-3578). -/
def SuperviseModuleStatus_120B_MSWBit5_State_Update (d : Driver) (rddata : List Nat) (_sz : Nat)
    (now : Int) : Option Driver :=
  match header2 rddata 0x06 0x12 with
  | none => none
  | some true =>
    match rddata[13]? with
    | none => none
    | some frame =>
      if frame = 0x0b then
        match rddata[3]? with
        | none => none
        | some status =>
          if status &&& 0x20 ≠ 0 then
            some (d.TransitionToNew StateClass.SuperviseModuleStatus_120E_MSBit6_State now)
          else
            some (d.TransitionToNew StateClass.SuperviseModuleStatus_120B_MSWBit6_State now)
      else some d
  | some false =>
    match header3 rddata 0x15 0x12 0x09 with
    | none => none
    | some true =>
      match rddata[3]? with
      | none => none
      | some _ => some d
    | some false => some d

/-- The function `SuperviseModuleStatus_120E_MSWBit7_State::Update` (lines
3681-3717). -/
def SuperviseModuleStatus_120E_MSWBit7_State_Update (d : Driver) (rddata : List Nat) (_sz : Nat)
    (now : Int) : Option Driver :=
  match header2 rddata 0x06 0x12 with
  | none => none
  | some true =>
    match rddata[13]? with
    | none => none
    | some frame =>
      if frame = 0x0b then
        match rddata[3]? with
        | none => none
        | some status =>
          if status &&& 0x80 ≠ 0 then
            some (d.TransitionToNew StateClass.SuperviseModuleStatus_120E_MSBit6_State now)
          else
            some (d.TransitionToNew StateClass.SuperviseModuleStatus_120E_MSBit6_State now)
      else some d
  | some false =>
    match header3 rddata 0x15 0x12 0x09 with
    | none => none
    | some true =>
      match rddata[3]? with
      | none => none
      | some _ => some d
    | some false => some d

/-- The function `SuperviseModuleStatus_120E_MSBit6_State::Update` (lines
3751-3783). -/
def SuperviseModuleStatus_120E_MSBit6_State_Update (d : Driver) (rddata : List Nat) (_sz : Nat)
    (now : Int) : Option Driver :=
  match header2 rddata 0x06 0x12 with
  | none => none
  | some true =>
    match rddata[13]? with
    | none => none
    | some frame =>
      if frame = 0x0e then
        match rddata[14]? with
        | none => none
        | some status =>
          if status &&& 0x40 ≠ 0 then
            some (d.TransitionToNew StateClass.SuperviseModuleStatus_120E_MSBit5_State now)
          else
            some (d.TransitionToNew StateClass.SuperviseModuleStatus_120E_MSBit5_State now)
      else some d
  | some false =>
    match header3 rddata 0x15 0x12 0x09 with
    | none => none
    | some true =>
      match rddata[3]? with
      | none => none
      | some _ => some d
    | some false => some d

/-- The function `SuperviseModuleStatus_120E_MSBit5_State::Update` (lines
3816-3845). -/
def SuperviseModuleStatus_120E_MSBit5_State_Update (d : Driver) (rddata : List Nat) (_sz : Nat)
    (now : Int) : Option Driver :=
  match header2 rddata 0x06 0x12 with
  | none => none
  | some true =>
    match rddata[13]? with
    | none => none
    | some frame =>
      if frame = 0x0e then
        match rddata[14]? with
        | none => none
        | some status =>
          if status &&& 0x20 ≠ 0 then
            some (d.TransitionToNew StateClass.SuperviseModuleStatus_120E_MSBit4_State now)
          else
            some (d.TransitionToNew StateClass.SuperviseModuleStatus_120E_MSBit4_State now)
      else some d
  | some false =>
    match header3 rddata 0x15 0x12 0x09 with
    | none => none
    | some true =>
      match rddata[3]? with
      | none => none
      | some _ => some d
    | some false => some d

/-- The function `SuperviseModuleStatus_120E_MSBit4_State::Update` (lines
3878-3909). -/
def SuperviseModuleStatus_120E_MSBit4_State_Update (d : Driver) (rddata : List Nat) (_sz : Nat)
    (now : Int) : Option Driver :=
  match header2 rddata 0x06 0x12 with
  | none => none
  | some true =>
    match rddata[13]? with
    | none => none
    | some frame =>
      if frame = 0x0e then
        match rddata[14]? with
        | none => none
        | some status =>
          if status &&& 0x10 ≠ 0 then
            some (d.TransitionToNew StateClass.SuperviseZeroRequest_120E_OMS_State now)
          else
            some (d.TransitionToNew StateClass.SuperviseZeroRequest_120E_OMS_State now)
      else some d
  | some false =>
    match header3 rddata 0x15 0x12 0x09 with
    | none => none
    | some true =>
      match rddata[3]? with
      | none => none
      | some _ => some d
    | some false => some d

/-- The function `SuperviseZeroRequest_120E_OMS_State::Update` (lines
3943-3970). -/
def SuperviseZeroRequest_120E_OMS_State_Update (d : Driver) (rddata : List Nat) (_sz : Nat)
    (now : Int) : Option Driver :=
  match header2 rddata 0x06 0x12 with
  | none => none
  | some true =>
    match rddata[13]? with
    | none => none
    | some frame =>
      if frame = 0x0e then
        match rddata[12]? with
        | none => none
        | some status =>
          if status = 0x00 then
            some (d.TransitionToNew StateClass.ZeroInProgress_1203_CO2N2OPSBit5_State now)
          else
            some (d.TransitionToNew StateClass.HandleZeroRequestState now)
      else some d
  | some false =>
    match header3 rddata 0x15 0x12 0x09 with
    | none => none
    | some true =>
      match rddata[3]? with
      | none => none
      | some _ => some d
    | some false => some d

/-- The function `ZeroInProgress_1203_CO2N2OPSBit5_State::Update` (lines
4003-4030).  The second operand of `||` is read only when the first is zero. -/
def ZeroInProgress_1203_CO2N2OPSBit5_State_Update (d : Driver) (rddata : List Nat) (_sz : Nat)
    (now : Int) : Option Driver :=
  match header2 rddata 0x06 0x12 with
  | none => none
  | some true =>
    match rddata[13]? with
    | none => none
    | some frame =>
      if frame = 0x03 then
        match rddata[11]? with
        | none => none
        | some status1 =>
          if status1 &&& 0x20 ≠ 0 then
            some (d.TransitionToNew StateClass.HandleZeroRequestState now)
          else
            match rddata[12]? with
            | none => none
            | some status2 =>
              if status2 &&& 0x20 ≠ 0 then
                some (d.TransitionToNew StateClass.HandleZeroRequestState now)
              else
                some (d.TransitionToNew StateClass.ZeroInProgress_1204_O2PSBit5_State now)
      else some d
  | some false =>
    match header3 rddata 0x15 0x12 0x09 with
    | none => none
    | some true =>
      match rddata[3]? with
      | none => none
      | some _ => some d
    | some false => some d

/-- The function `ZeroInProgress_1204_O2PSBit5_State::Update` (lines 4064-4091).
-/
def ZeroInProgress_1204_O2PSBit5_State_Update (d : Driver) (rddata : List Nat) (_sz : Nat)
    (now : Int) : Option Driver :=
  match header2 rddata 0x06 0x12 with
  | none => none
  | some true =>
    match rddata[13]? with
    | none => none
    | some frame =>
      if frame = 0x04 then
        match rddata[11]? with
        | none => none
        | some status =>
          if status &&& 0x20 ≠ 0 then
            some (d.TransitionToNew StateClass.HandleZeroRequestState now)
          else
            some (d.TransitionToNew StateClass.ZeroInProgress_1210_A1PSBit5_State now)
      else some d
  | some false =>
    match header3 rddata 0x15 0x12 0x09 with
    | none => none
    | some true =>
      match rddata[3]? with
      | none => none
      | some _ => some d
    | some false => some d

/-- The function `ZeroInProgress_1210_A1PSBit5_State::Update` (lines 4125-4152).
-/
def ZeroInProgress_1210_A1PSBit5_State_Update (d : Driver) (rddata : List Nat) (_sz : Nat)
    (now : Int) : Option Driver :=
  match header2 rddata 0x06 0x12 with
  | none => none
  | some true =>
    match rddata[13]? with
    | none => none
    | some frame =>
      if frame = 0x10 then
        match rddata[11]? with
        | none => none
        | some status =>
          if status &&& 0x20 ≠ 0 then
            some (d.TransitionToNew StateClass.HandleZeroRequestState now)
          else
            some (d.TransitionToNew StateClass.ZeroInProgress_1211_A2PSBit5_State now)
      else some d
  | some false =>
    match header3 rddata 0x15 0x12 0x09 with
    | none => none
    | some true =>
      match rddata[3]? with
      | none => none
      | some _ => some d
    | some false => some d

/-- The function `ZeroInProgress_1211_A2PSBit5_State::Update` (lines 4186-4213).
-/
def ZeroInProgress_1211_A2PSBit5_State_Update (d : Driver) (rddata : List Nat) (_sz : Nat)
    (now : Int) : Option Driver :=
  match header2 rddata 0x06 0x12 with
  | none => none
  | some true =>
    match rddata[13]? with
    | none => none
    | some frame =>
      if frame = 0x11 then
        match rddata[12]? with
        | none => none
        | some status =>
          if status &&& 0x20 ≠ 0 then
            some (d.TransitionToNew StateClass.HandleZeroRequestState now)
          else
            some (d.TransitionToNew StateClass.ZeroRequestState now)
      else some d
  | some false =>
    match header3 rddata 0x15 0x12 0x09 with
    | none => none
    | some true =>
      match rddata[3]? with
      | none => none
      | some _ => some d
    | some false => some d

/-- The function `ZeroRequestState::Update` (lines 4247-4274). -/
def ZeroRequestState_Update (d : Driver) (rddata : List Nat) (_sz : Nat)
    (now : Int) : Option Driver :=
  match header2 rddata 0x06 0x12 with
  | none => none
  | some true =>
    match rddata[13]? with
    | none => none
    | some frame =>
      if frame = 0x11 then
        match rddata[12]? with
        | none => none
        | some status =>
          if status &&& 0x20 ≠ 0 then
            some (d.TransitionToNew StateClass.HandleZeroRequestState now)
          else
            some (d.TransitionToNew StateClass.HandleZeroRequestState now)
      else some d
  | some false =>
    match header3 rddata 0x15 0x12 0x09 with
    | none => none
    | some true =>
      match rddata[3]? with
      | none => none
      | some _ => some d
    | some false => some d

/-- The function `HostSelectableParameters_120E_HSP_State::Update` (lines
4618-4654). -/
def HostSelectableParameters_120E_HSP_State_Update (d : Driver) (rddata : List Nat) (_sz : Nat)
    (now : Int) : Option Driver :=
  match header2 rddata 0x06 0x12 with
  | none => none
  | some true =>
    match rddata[13]? with
    | none => none
    | some frame =>
      if frame = 0x0e then
        match rddata[7]? with
        | none => none
        | some status =>
          if status &&& 0xde ≠ 0 then
            some (d.PrintData rddata)
          else
            some ((d.TransitionToNew
              StateClass.ParameterAvailabilityInformation_120E_PAI_State now).PrintData rddata)
      else some (d.PrintData rddata)
  | some false =>
    match header3 rddata 0x15 0x12 0x09 with
    | none => none
    | some true =>
      match rddata[3]? with
      | none => none
      | some _ => some (d.PrintData rddata)
    | some false => some (d.PrintData rddata)

/-- The function `ParameterAvailabilityInformation_120E_PAI_State::Update`
(lines 4688-4721). -/
def ParameterAvailabilityInformation_120E_PAI_State_Update (d : Driver)
    (rddata : List Nat) (_sz : Nat) (now : Int) : Option Driver :=
  match header2 rddata 0x06 0x12 with
  | none => none
  | some true =>
    match rddata[13]? with
    | none => none
    | some frame =>
      if frame = 0x0e then
        match rddata[4]? with
        | none => none
        | some status =>
          if status &&& 0x0c ≠ 0 then
            let d1 : Driver := { d with m_bPAIAvailable := true }
            some ((d1.TransitionToNew StateClass.Evaluate_1210_State now).PrintData rddata)
          else
            some (d.PrintData rddata)
      else some (d.PrintData rddata)
  | some false =>
    match header3 rddata 0x15 0x1e 0x01 with
    | none => none
    | some true =>
      match rddata[3]? with
      | none => none
      | some _ => some (d.PrintData rddata)
    | some false => some (d.PrintData rddata)

/-- The function `ParameterMode_1203_CO2PSBit6Bit7_State::Update` (lines
4756-4784). -/
def ParameterMode_1203_CO2PSBit6Bit7_State_Update (d : Driver) (rddata : List Nat) (_sz : Nat)
    (now : Int) : Option Driver :=
  match header2 rddata 0x06 0x12 with
  | none => none
  | some true =>
    match rddata[13]? with
    | none => none
    | some frame =>
      if frame = 0x03 then
        match rddata[11]? with
        | none => none
        | some status =>
          if status &&& 0x03 = 0x03 then
            some (d.PrintData rddata)
          else
            some ((d.TransitionToNew
              StateClass.ParameterMode_1203_N2OPSBit6Bit7_State now).PrintData rddata)
      else some (d.PrintData rddata)
  | some false =>
    match header3 rddata 0x15 0x12 0x09 with
    | none => none
    | some true =>
      match rddata[3]? with
      | none => none
      | some _ => some (d.PrintData rddata)
    | some false => some (d.PrintData rddata)

/-- The function `ParameterMode_1203_N2OPSBit6Bit7_State::Update` (lines
4820-4848). -/
def ParameterMode_1203_N2OPSBit6Bit7_State_Update (d : Driver) (rddata : List Nat) (_sz : Nat)
    (now : Int) : Option Driver :=
  match header2 rddata 0x06 0x12 with
  | none => none
  | some true =>
    match rddata[13]? with
    | none => none
    | some frame =>
      if frame = 0x03 then
        match rddata[12]? with
        | none => none
        | some status =>
          if status &&& 0x03 = 0x03 then
            some (d.PrintData rddata)
          else
            some ((d.TransitionToNew
              StateClass.ParameterMode_1204_O2PSBit6Bit7_State now).PrintData rddata)
      else some (d.PrintData rddata)
  | some false =>
    match header3 rddata 0x15 0x12 0x09 with
    | none => none
    | some true =>
      match rddata[3]? with
      | none => none
      | some _ => some (d.PrintData rddata)
    | some false => some (d.PrintData rddata)

/-- The function `ParameterMode_1204_O2PSBit6Bit7_State::Update` (lines
4882-4910). -/
def ParameterMode_1204_O2PSBit6Bit7_State_Update (d : Driver) (rddata : List Nat) (_sz : Nat)
    (now : Int) : Option Driver :=
  match header2 rddata 0x06 0x12 with
  | none => none
  | some true =>
    match rddata[13]? with
    | none => none
    | some frame =>
      if frame = 0x04 then
        match rddata[11]? with
        | none => none
        | some status =>
          if status &&& 0x03 = 0x03 then
            some (d.PrintData rddata)
          else
            some ((d.TransitionToNew
              StateClass.ParameterMode_1210_A1PSBit6Bit7_State now).PrintData rddata)
      else some (d.PrintData rddata)
  | some false =>
    match header3 rddata 0x15 0x12 0x09 with
    | none => none
    | some true =>
      match rddata[3]? with
      | none => none
      | some _ => some (d.PrintData rddata)
    | some false => some (d.PrintData rddata)

/-- The function `ParameterMode_1210_A1PSBit6Bit7_State::Update` (lines
4944-4972). -/
def ParameterMode_1210_A1PSBit6Bit7_State_Update (d : Driver) (rddata : List Nat) (_sz : Nat)
    (now : Int) : Option Driver :=
  match header2 rddata 0x06 0x12 with
  | none => none
  | some true =>
    match rddata[13]? with
    | none => none
    | some frame =>
      if frame = 0x10 then
        match rddata[12]? with
        | none => none
        | some status =>
          if status &&& 0x03 = 0x03 then
            some (d.PrintData rddata)
          else
            some ((d.TransitionToNew
              StateClass.ParameterMode_1203_N2OPSBit6Bit7_State now).PrintData rddata)
      else some (d.PrintData rddata)
  | some false =>
    match header3 rddata 0x15 0x12 0x09 with
    | none => none
    | some true =>
      match rddata[3]? with
      | none => none
      | some _ => some (d.PrintData rddata)
    | some false => some (d.PrintData rddata)

/-- The function `ParameterMode_1211_A2PSBit6Bit7_State::Update` (lines
5006-5034). -/
def ParameterMode_1211_A2PSBit6Bit7_State_Update (d : Driver) (rddata : List Nat) (_sz : Nat)
    (now : Int) : Option Driver :=
  match header2 rddata 0x06 0x12 with
  | none => none
  | some true =>
    match rddata[13]? with
    | none => none
    | some frame =>
      if frame = 0x11 then
        match rddata[12]? with
        | none => none
        | some status =>
          if status &&& 0x03 = 0x03 then
            some (d.PrintData rddata)
          else
            some ((d.TransitionToNew
              StateClass.ParameterInopInformation_120E_PII_State now).PrintData rddata)
      else some (d.PrintData rddata)
  | some false =>
    match header3 rddata 0x15 0x12 0x09 with
    | none => none
    | some true =>
      match rddata[3]? with
      | none => none
      | some _ => some (d.PrintData rddata)
    | some false => some (d.PrintData rddata)

/-- The function `ParameterInopInformation_120E_PII_State::Update` (lines
5069-5098). -/
def ParameterInopInformation_120E_PII_State_Update (d : Driver) (rddata : List Nat) (_sz : Nat)
    (now : Int) : Option Driver :=
  match header2 rddata 0x06 0x12 with
  | none => none
  | some true =>
    match rddata[13]? with
    | none => none
    | some frame =>
      if frame = 0x0e then
        match rddata[6]? with
        | none => none
        | some status =>
          if status &&& 0x1f ≠ 0 then
            some (d.PrintData rddata)
          else
            some ((d.TransitionToNew
              StateClass.ParameterInopInformation_120E_PII_State now).PrintData rddata)
      else some (d.PrintData rddata)
  | some false =>
    match header3 rddata 0x15 0x12 0x09 with
    | none => none
    | some true =>
      match rddata[3]? with
      | none => none
      | some _ => some (d.PrintData rddata)
    | some false => some (d.PrintData rddata)

/-- The function `MeasurementMode_120E_OMS_State::Update` (lines 5132-5157). -/
def MeasurementMode_120E_OMS_State_Update (d : Driver) (rddata : List Nat) (_sz : Nat)
    (now : Int) : Option Driver :=
  match header2 rddata 0x06 0x12 with
  | none => none
  | some true =>
    match rddata[13]? with
    | none => none
    | some frame =>
      if frame = 0x0e then
        match rddata[12]? with
        | none => none
        | some status =>
          if status = 0x00 then
            some (d.TransitionToNew StateClass.Occlusion_120E_MSBit1__State now)
          else
            some d
      else some d
  | some false =>
    match header3 rddata 0x15 0x12 0x09 with
    | none => none
    | some true =>
      match rddata[3]? with
      | none => none
      | some _ => some d
    | some false => some d

/-- The function `Occlusion_120E_MSBit1__State::Update` (lines 5191-5222). -/
def Occlusion_120E_MSBit1__State_Update (d : Driver) (rddata : List Nat) (_sz : Nat)
    (now : Int) : Option Driver :=
  match header2 rddata 0x06 0x12 with
  | none => none
  | some true =>
    match rddata[13]? with
    | none => none
    | some frame =>
      if frame = 0x0e then
        match rddata[14]? with
        | none => none
        | some status =>
          if status &&& 0x02 ≠ 0 then
            some ((d.TransitionToNew
              StateClass.SuperviseModuleStatus_120B_MSWBit5_State now).PrintData rddata)
          else
            some ((d.TransitionToNew
              StateClass.SuperviseModuleStatus_120E_MSBit6_State now).PrintData rddata)
      else some (d.PrintData rddata)
  | some false =>
    match header3 rddata 0x15 0x12 0x09 with
    | none => none
    | some true =>
      match rddata[3]? with
      | none => none
      | some _ => some (d.PrintData rddata)
    | some false => some (d.PrintData rddata)

/-- The function `Evaluate_1210_State::Update` (lines 3238-3269).  Both
conditions start with `rddata[13] == 0x10`, so `rddata[9]` is read only when
that holds, and the second condition is evaluated only when the first fails. -/
def Evaluate_1210_State_Update (d : Driver) (rddata : List Nat) (_sz : Nat)
    (now : Int) : Option Driver :=
  match header2 rddata 0x06 0x12 with
  | none => none
  | some true =>
    match rddata[13]? with
    | none => none
    | some frame =>
      if frame = 0x10 then
        match rddata[9]? with
        | none => none
        | some agent =>
          if agent &&& 0x03 = 0x0 then
            some ((d.TransitionToNew
              StateClass.SelectAnestheticAgentType_Halothane_State now).PrintData rddata)
          else if agent &&& 0x02 ≠ 0 then
            some ((d.TransitionToNew
              StateClass.ProvideTheSensorModuleWithRequiredData_State now).PrintData rddata)
          else some (d.PrintData rddata)
      else some (d.PrintData rddata)
  | some false =>
    match header3 rddata 0x15 0x1e 0x01 with
    | none => none
    | some true =>
      match rddata[3]? with
      | none => none
      | some _ => some (d.PrintData rddata)
    | some false => some (d.PrintData rddata)

/-- One of the five blocks of `GetUnitsState::Update` (lines 4448-4527), which
differ in the element tested and in the name printed: on the driver and the
lines written to `std::cout` so far, the block for the unit byte `unit`. -/
def GetUnitsState_unit (s : Driver × List String) (name : String) (unit : Nat) (now : Int) :
    Driver × List String :=
  if unit &&& 0x05 ≠ 0 then
    (s.1.TransitionToNew StateClass.EvaluateConnectionEstablishedState now,
      s.2 ++ [name ++ " is Atps Mmhg. \n",
        "Change the state of the context EvaluateConnectionEstablishedState.\n"])
  else if unit = 0x00 then
    (s.1.TransitionToNew StateClass.EvaluateConnectionEstablishedState now,
      s.2 ++ [name ++ " is Ats Vol. \n",
        "Change the state of the context EvaluateConnectionEstablishedState.\n"])
  else s

/-- The function `GetUnitsState::Update` (lines 4443-4546), with the lines it
writes to `std::cout` itself (those of `PrintData` are left out). -/
def GetUnitsState_Update_cout (d : Driver) (rddata : List Nat) (_sz : Nat) (now : Int) :
    Option (Driver × List String) :=
  match header2 rddata 0x06 0x12 with
  | none => none
  | some true =>
    match rddata[13]? with
    | none => none
    | some frame =>
      if frame = 0x12 then
        match rddata[3]?, rddata[4]?, rddata[5]?, rddata[6]?, rddata[7]? with
        | some co2, some n2o, some a1, some a2, some o2 =>
          let s1 := GetUnitsState_unit (d, []) "CO2_U - Co2 Parameter Unit" co2 now
          let s2 := GetUnitsState_unit s1 "N2o Parameter Unit" n2o now
          let s3 := GetUnitsState_unit s2 "A1_U - Agent1 Parameter Unit" a1 now
          let s4 := GetUnitsState_unit s3 "A2_U - Agent2 Parameter Unit" a2 now
          let s5 := GetUnitsState_unit s4 "O2_U - O2 Parameter Unit" o2 now
          some (s5.1.PrintData rddata, s5.2)
        | _, _, _, _, _ => none
      else some (d.PrintData rddata, [])
  | some false =>
    match header3 rddata 0x15 0x12 0x09 with
    | none => none
    | some true =>
      match rddata[3]? with
      | none => none
      | some errCode =>
        some (d.PrintData rddata,
          ["Fail with error message: " ++ GetErrorMessage errCode ++ "\n"])
    | some false => some (d.PrintData rddata, [])

/-- The function `GetUnitsState::Update` without its output on `std::cout`. -/
def GetUnitsState_Update (d : Driver) (rddata : List Nat) (sz : Nat) (now : Int) :
    Option Driver :=
  (GetUnitsState_Update_cout d rddata sz now).map Prod.fst

/-- The function `EvaluateConnectionEstablishedState::Update` (lines 4579-4584):
it does not look at the frame. -/
def EvaluateConnectionEstablishedState_Update (d : Driver) (_rddata : List Nat) (_sz : Nat)
    (now : Int) : Option Driver :=
  some (d.TransitionToNew StateClass.HostSelectableParameters_120E_HSP_State now)

/-- The loop `while (strAnswer == "n") sleep_for(1000 ms)` of
`HandleZeroRequestState::Update`, whose body leaves `strAnswer` alone: whether
the loop is left within `fuel` evaluations of its condition. -/
def HandleZeroRequestState_wait (strAnswer : String) : Nat → Bool
  | 0 => false
  | fuel + 1 => if strAnswer = "n" then HandleZeroRequestState_wait strAnswer fuel else true

/-- The function `HandleZeroRequestState::Update` (lines 4312-4351).
`strAnswer` is the line that `getline(std::cin, strAnswer)` reads.  The result
is `none` on an out-of-range read and when the loop is not left within `fuel`
evaluations of its condition. -/
def HandleZeroRequestState_Update (d : Driver) (rddata : List Nat) (_sz : Nat) (now : Int)
    (strAnswer : String) (fuel : Nat) : Option Driver :=
  match header3 rddata 0x06 0x2c 0x04 with
  | none => none
  | some true =>
    match rddata[6]? with
    | none => none
    | some features =>
      if features &&& 0x01 = 0x01 then
        if HandleZeroRequestState_wait strAnswer fuel then
          some ((d.TransitionToNew StateClass.InitZeroState now).PrintData rddata)
        else none
      else some ((d.TransitionToNew StateClass.InitZeroState now).PrintData rddata)
  | some false =>
    match header3 rddata 0x15 0x2c 0x01 with
    | none => none
    | some true =>
      match rddata[3]? with
      | none => none
      | some _ => some (d.PrintData rddata)
    | some false => some (d.PrintData rddata)

/-- The virtual call `observer->Update(rddata, sz)` on the object at `this`, by
its dynamic class.  `strAnswer` and `fuel` are used by
`HandleZeroRequestState::Update` only: the line it reads from `std::cin` and the
bound on the evaluations of its loop condition. -/
def Update (d : Driver) (this : Ptr) (rddata : List Nat) (sz : Nat) (now : Int)
    (strAnswer : String) (fuel : Nat) : Option Driver :=
  match d.cls this with
  | .StopContinuousDataState =>
    StopContinuousDataState_Update d rddata sz now
  | .GetIntervalBaseTimeState =>
    GetIntervalBaseTimeState_Update d rddata sz now
  | .TransmitDeviceComponentInformation_VendorCode_State =>
    TransmitDeviceComponentInformation_VendorCode_State_Update d rddata sz now
  | .TransmitDeviceComponentInformation_SerialNumber_State =>
    TransmitDeviceComponentInformation_SerialNumber_State_Update d rddata sz now
  | .TransmitDeviceComponentInformation_HardwareRevision_State =>
    TransmitDeviceComponentInformation_HardwareRevision_State_Update d rddata sz now
  | .TransmitDeviceComponentInformation_SoftwareRevision_State =>
    TransmitDeviceComponentInformation_SoftwareRevision_State_Update d rddata sz now
  | .TransmitDeviceComponentInformation_ProductName_State =>
    TransmitDeviceComponentInformation_ProductName_State_Update d rddata sz now
  | .TransmitDeviceComponentInformation_PartNumber_State =>
    TransmitDeviceComponentInformation_PartNumber_State_Update d rddata sz now
  | .AdjustTimeInformationState =>
    AdjustTimeInformationState_Update d rddata sz now
  | .TransmitGenericModuleFeaturesState =>
    TransmitGenericModuleFeaturesState_Update d rddata sz now
  | .SwitchBreathDetectionMode_PgmBreathDetection_State =>
    SwitchBreathDetectionMode_PgmBreathDetection_State_Update d rddata sz now
  | .SwitchBreathDetectionMode_PgmBreathDetectionAutoWakeup_State =>
    SwitchBreathDetectionMode_PgmBreathDetectionAutoWakeup_State_Update d rddata sz now
  | .SwitchBreathDetectionMode_AutoWakeupAfterBreathphase1_State =>
    SwitchBreathDetectionMode_AutoWakeupAfterBreathphase1_State_Update d rddata sz now
  | .SwitchBreathDetectionMode_AutoWakeupAfterBreathphase2_State =>
    SwitchBreathDetectionMode_AutoWakeupAfterBreathphase2_State_Update d rddata sz now
  | .SwitchBreathDetectionMode_AutoWakeupAfterBreathphase3_State =>
    SwitchBreathDetectionMode_AutoWakeupAfterBreathphase3_State_Update d rddata sz now
  | .SwitchBreathDetectionMode_AutoWakeupAfterBreathphase4_State =>
    SwitchBreathDetectionMode_AutoWakeupAfterBreathphase4_State_Update d rddata sz now
  | .SwitchBreathDetectionMode_AutoWakeupAfterBreathphase5_State =>
    SwitchBreathDetectionMode_AutoWakeupAfterBreathphase5_State_Update d rddata sz now
  | .TransmitPatientData_120E_State =>
    TransmitPatientData_120E_State_Update d rddata sz now
  | .MeasurementModeState =>
    MeasurementModeState_Update d rddata sz now
  | .OperatingModeState =>
    OperatingModeState_Update d rddata sz now
  | .SwitchValvesState =>
    SwitchValvesState_Update d rddata sz now
  | .SwitchPumpState =>
    SwitchPumpState_Update d rddata sz now
  | .SelectTheAnestheticAgentState =>
    SelectTheAnestheticAgentState_Update d rddata sz now
  | .Evaluate_1210_State =>
    Evaluate_1210_State_Update d rddata sz now
  | .SelectAnestheticAgentType_Halothane_State =>
    SelectAnestheticAgentType_Halothane_State_Update d rddata sz now
  | .ProvideTheSensorModuleWithRequiredData_State =>
    ProvideTheSensorModuleWithRequiredData_State_Update d rddata sz now
  | .AcceptExternalParameterData_UnknownAccuracy_State =>
    AcceptExternalParameterData_UnknownAccuracy_State_Update d rddata sz now
  | .SuperviseModuleStatus_120E_MSBit2_State =>
    SuperviseModuleStatus_120E_MSBit2_State_Update d rddata sz now
  | .SuperviseModuleStatus_120B_MSWBit5_State =>
    SuperviseModuleStatus_120B_MSWBit5_State_Update d rddata sz now
  | .SuperviseModuleStatus_120B_MSWBit6_State =>
    SuperviseModuleStatus_120B_MSWBit6_State_Update d rddata sz now
  | .SuperviseModuleStatus_120E_MSWBit7_State =>
    SuperviseModuleStatus_120E_MSWBit7_State_Update d rddata sz now
  | .SuperviseModuleStatus_120E_MSBit6_State =>
    SuperviseModuleStatus_120E_MSBit6_State_Update d rddata sz now
  | .SuperviseModuleStatus_120E_MSBit5_State =>
    SuperviseModuleStatus_120E_MSBit5_State_Update d rddata sz now
  | .SuperviseModuleStatus_120E_MSBit4_State =>
    SuperviseModuleStatus_120E_MSBit4_State_Update d rddata sz now
  | .SuperviseZeroRequest_120E_OMS_State =>
    SuperviseZeroRequest_120E_OMS_State_Update d rddata sz now
  | .ZeroInProgress_1203_CO2N2OPSBit5_State =>
    ZeroInProgress_1203_CO2N2OPSBit5_State_Update d rddata sz now
  | .ZeroInProgress_1204_O2PSBit5_State =>
    ZeroInProgress_1204_O2PSBit5_State_Update d rddata sz now
  | .ZeroInProgress_1210_A1PSBit5_State =>
    ZeroInProgress_1210_A1PSBit5_State_Update d rddata sz now
  | .ZeroInProgress_1211_A2PSBit5_State =>
    ZeroInProgress_1211_A2PSBit5_State_Update d rddata sz now
  | .ZeroRequestState =>
    ZeroRequestState_Update d rddata sz now
  | .HandleZeroRequestState =>
    HandleZeroRequestState_Update d rddata sz now strAnswer fuel
  | .InitZeroState =>
    InitZeroState_Update d rddata sz now
  | .GetUnitsState =>
    GetUnitsState_Update d rddata sz now
  | .EvaluateConnectionEstablishedState =>
    EvaluateConnectionEstablishedState_Update d rddata sz now
  | .HostSelectableParameters_120E_HSP_State =>
    HostSelectableParameters_120E_HSP_State_Update d rddata sz now
  | .ParameterAvailabilityInformation_120E_PAI_State =>
    ParameterAvailabilityInformation_120E_PAI_State_Update d rddata sz now
  | .ParameterMode_1203_CO2PSBit6Bit7_State =>
    ParameterMode_1203_CO2PSBit6Bit7_State_Update d rddata sz now
  | .ParameterMode_1203_N2OPSBit6Bit7_State =>
    ParameterMode_1203_N2OPSBit6Bit7_State_Update d rddata sz now
  | .ParameterMode_1204_O2PSBit6Bit7_State =>
    ParameterMode_1204_O2PSBit6Bit7_State_Update d rddata sz now
  | .ParameterMode_1210_A1PSBit6Bit7_State =>
    ParameterMode_1210_A1PSBit6Bit7_State_Update d rddata sz now
  | .ParameterMode_1211_A2PSBit6Bit7_State =>
    ParameterMode_1211_A2PSBit6Bit7_State_Update d rddata sz now
  | .ParameterInopInformation_120E_PII_State =>
    ParameterInopInformation_120E_PII_State_Update d rddata sz now
  | .MeasurementMode_120E_OMS_State =>
    MeasurementMode_120E_OMS_State_Update d rddata sz now
  | .Occlusion_120E_MSBit1__State =>
    Occlusion_120E_MSBit1__State_Update d rddata sz now

/-- The function `Context::NotifyOne` with the `Update` it calls: on the top of
`m_StackResponse`, if there is one. -/
def Driver.NotifyOne (d : Driver) (rddata : List Nat) (sz : Nat) (now : Int)
    (strAnswer : String) (fuel : Nat) : Option Driver :=
  match d.ctx.m_StackResponse with
  | [] => some d
  | top :: _ => Update d top rddata sz now strAnswer fuel

/-- The loop of `Context::Notify` over the observers `obs`, in order. -/
def notifyEach (rddata : List Nat) (sz : Nat) (now : Int) (strAnswer : String) (fuel : Nat) :
    Driver → List Ptr → Option Driver
  | d, [] => some d
  | d, o :: rest =>
    match Update d o rddata sz now strAnswer fuel with
    | none => none
    | some d1 => notifyEach rddata sz now strAnswer fuel d1 rest

/-- The function `Context::Notify` with the `Update` calls it makes, over the
list `m_ListObservers` as it is when the call starts (no `Update` changes the
list of a context whose states all have `IsContinuousCommand()` false). -/
def Driver.Notify (d : Driver) (rddata : List Nat) (sz : Nat) (now : Int)
    (strAnswer : String) (fuel : Nat) : Option Driver :=
  notifyEach rddata sz now strAnswer fuel d d.ctx.m_ListObservers

/-- What happens to the driver, one thing at a time: the main loop calls
`Request1` (at clock `now`; `bytes_read` as in `SendCmdSync`), or the reader
loop makes one dispatcher call (at clock `now`, with the line `strAnswer`
waiting on `std::cin`). -/
inductive Event where
  | tick (now : Int) (bytes_read : Nat)
  | call (c : Call) (now : Int) (strAnswer : String)

/-- One event. -/
def step (fuel : Nat) (d : Driver) : Event → Option Driver
  | .tick now bytes_read => Request1 d now bytes_read
  | .call (.Notify rddata sz) now strAnswer => d.Notify rddata sz now strAnswer fuel
  | .call (.NotifyOne rddata sz) now strAnswer => d.NotifyOne rddata sz now strAnswer fuel

/-- A sequence of events, in order. -/
def run (fuel : Nat) : Driver → List Event → Option Driver
  | d, [] => some d
  | d, e :: rest =>
    match step fuel d e with
    | none => none
    | some d1 => run fuel d1 rest

/-- The five session flags of the context. -/
def sessionFlags (d : Driver) : Bool × Bool × Bool × Bool × Nat :=
  (d.m_bPneumaticsEnabled, d.m_bAutoZeroCondition, d.m_bPAIAvailable, d.m_bNeedsExternalData,
    d.m_bHSP)

/-- The classes that no `Update` of another class constructs, or only an
`Update` of a class of this list: the five parameter-mode states, the
parameter-inop state, the measurement-mode check on frame 0x0E and the
occlusion monitor. -/
def unreached : List StateClass :=
  [.ParameterMode_1203_CO2PSBit6Bit7_State,
   .ParameterMode_1203_N2OPSBit6Bit7_State,
   .ParameterMode_1204_O2PSBit6Bit7_State,
   .ParameterMode_1210_A1PSBit6Bit7_State,
   .ParameterMode_1211_A2PSBit6Bit7_State,
   .ParameterInopInformation_120E_PII_State,
   .MeasurementMode_120E_OMS_State,
   .Occlusion_120E_MSBit1__State]

/-- Whether the bytes of a command sum to 0 modulo 256. -/
def checksumOk (cmd : List Nat) : Bool :=
  cmd.sum % 256 == 0

/-- What is proved of a link of the zero-request chain whose `Update` is `upd`:
on every frame 06 12 of kind `kind` with element `k` present, the call returns
and writes nothing, and the current state afterwards is of class `onSet` when
bit 5 of element `k` is set and of class `onClear` when it is clear. -/
def linkRoutes (upd : Driver → List Nat → Nat → Int → Option Driver) (kind k : Nat)
    (onSet onClear : StateClass) : Prop :=
  ∀ (d : Driver) (rddata : List Nat) (sz : Nat) (now : Int) (status : Nat),
    rddata[0]? = some 0x06 → rddata[1]? = some 0x12 → rddata[13]? = some kind →
    rddata[k]? = some status →
    registeredAs d onSet = true → registeredAs d onClear = true →
    ∃ d1, upd d rddata sz now = some d1 ∧
      currentClass d1 = some (if status &&& 0x20 ≠ 0 then onSet else onClear) ∧
      d1.written = d.written

/-- Whether `GetUnitsState::Update` prints a label for the unit byte `unit`. -/
def unitReported (unit : Nat) : Bool :=
  (unit &&& 0x05 != 0) || unit == 0x00

/-- The lines `GetUnitsState::Update` prints for the unit called `name` with
unit byte `unit`, as the amended claim C35 words them: the label with
"Atps Mmhg" when a bit of 0x05 is set, with "Ats Vol" when the byte is 0, each
followed by the notice of the change of state, and nothing otherwise. -/
def unitReport (name : String) (unit : Nat) : List String :=
  if unit &&& 0x05 ≠ 0 then
    [name ++ " is Atps Mmhg. \n",
      "Change the state of the context EvaluateConnectionEstablishedState.\n"]
  else if unit = 0x00 then
    [name ++ " is Ats Vol. \n",
      "Change the state of the context EvaluateConnectionEstablishedState.\n"]
  else []

/-- The driver after a cold start on which a
`ParameterInopInformation_120E_PII_State` has been made current and has handled
its first tick (it is marked as sent and holds the awaiting-reply slot). -/
def onPII : Driver :=
  (Request1 (onState StateClass.ParameterInopInformation_120E_PII_State) 0 0).getD
    (onState StateClass.ParameterInopInformation_120E_PII_State)

/-- No object of the driver has a class of the list `unreached`.  (The class
map is total; addresses not yet used carry the class it was initialised
with.) -/
def onPath (d : Driver) : Prop :=
  ∀ p, unreached.contains (d.cls p) = false

/-- The classes whose `Update` calls a setter of a session flag. -/
def flagWriters : List StateClass :=
  [.TransmitGenericModuleFeaturesState,
   .TransmitPatientData_120E_State,
   .SelectTheAnestheticAgentState,
   .ParameterAvailabilityInformation_120E_PAI_State]

/-- The classes whose `HandleData()` is, after the test of `IsAlreadySent()`,
`SetAlreadySent(true)` followed by `SendCmd(this)`, with nothing but output in
between. -/
def plainSenders : List StateClass :=
  [.TransmitDeviceComponentInformation_SerialNumber_State,
   .TransmitDeviceComponentInformation_HardwareRevision_State,
   .TransmitDeviceComponentInformation_SoftwareRevision_State,
   .TransmitDeviceComponentInformation_ProductName_State,
   .TransmitDeviceComponentInformation_PartNumber_State,
   .AdjustTimeInformationState,
   .TransmitGenericModuleFeaturesState,
   .SwitchBreathDetectionMode_PgmBreathDetection_State,
   .SwitchBreathDetectionMode_PgmBreathDetectionAutoWakeup_State,
   .SwitchBreathDetectionMode_AutoWakeupAfterBreathphase1_State,
   .SwitchBreathDetectionMode_AutoWakeupAfterBreathphase2_State,
   .SwitchBreathDetectionMode_AutoWakeupAfterBreathphase3_State,
   .SwitchBreathDetectionMode_AutoWakeupAfterBreathphase4_State,
   .SwitchBreathDetectionMode_AutoWakeupAfterBreathphase5_State,
   .TransmitPatientData_120E_State,
   .OperatingModeState,
   .SwitchValvesState,
   .SwitchPumpState,
   .SelectAnestheticAgentType_Halothane_State,
   .AcceptExternalParameterData_UnknownAccuracy_State,
   .InitZeroState]

/-- The classes whose `HandleData()` sends with `SendCmdSync(this)`. -/
def syncSenders : List StateClass :=
  [.StopContinuousDataState,
   .GetIntervalBaseTimeState,
   .TransmitDeviceComponentInformation_VendorCode_State,
   .HandleZeroRequestState]

/-! ## Lemmas on the reader loop -/

theorem removeFromCache_eq_drop (data : List Nat) (n : Nat) :
    removeFromCache data n = data.drop n := by
  unfold removeFromCache
  split
  · rfl
  · rw [List.drop_eq_nil_of_le (by omega)]

/-- Every pass that returns falls in one of three cases: nothing is dispatched
and the buffer is the old buffer with the read appended; or a complete ACK is
dispatched; or a complete NAK is dispatched. -/
theorem iteration_cases (st : Reader) (rd : List Nat) (st' : Reader) (calls : List Call)
    (h : HandleResponseThread_iteration st rd = some (st', calls)) :
    (calls = [] ∧ st'.data = st.data ++ rd) ∨
    (∃ len, (st.data ++ rd)[2]? = some len ∧ len + 4 ≤ (st.data ++ rd).length ∧
      (((st.data ++ rd)[0]? = some 0x06 ∧
        calls = [Call.Notify ((st.data ++ rd).take (len + 4)) (len + 4),
                 Call.NotifyOne ((st.data ++ rd).take (len + 4)) (len + 4)]) ∨
       ((st.data ++ rd)[0]? = some 0x15 ∧
        calls = [Call.NotifyOne (st.data ++ rd) (len + 4),
                 Call.Notify (st.data ++ rd) (len + 4)])) ∧
      st' = ⟨(st.data ++ rd).drop (len + 4), 0⟩) := by
  unfold HandleResponseThread_iteration at h
  simp only [ACKHEADLENGTH] at h
  split at h
  · simp only [Option.some.injEq, Prod.mk.injEq] at h
    left; exact ⟨h.2.symm, by rw [← h.1]⟩
  · split at h
    · exact absurd h (by simp)
    · rename_i len h2
      split at h
      · simp only [Option.some.injEq, Prod.mk.injEq] at h
        left; exact ⟨h.2.symm, by rw [← h.1]⟩
      · rename_i hc
        split at h
        · rename_i h0
          simp only [Option.some.injEq, Prod.mk.injEq, removeFromCache_eq_drop] at h
          right
          exact ⟨len, h2, by omega, Or.inl ⟨h0, h.2.symm⟩, h.1.symm⟩
        · split at h
          · rename_i h0
            simp only [Option.some.injEq, Prod.mk.injEq, removeFromCache_eq_drop] at h
            right
            exact ⟨len, h2, by omega, Or.inr ⟨h0, h.2.symm⟩, h.1.symm⟩
          · simp only [Option.some.injEq, Prod.mk.injEq] at h
            left; exact ⟨h.2.symm, by rw [← h.1]⟩

/-! ## Lemmas on the greedy parse -/

theorem parseFramesFuel_enough (f1 : Nat) :
    ∀ (f2 : Nat) (data : List Nat), data.length ≤ f1 → data.length ≤ f2 →
      parseFramesFuel f1 data = parseFramesFuel f2 data := by
  induction f1 with
  | zero =>
    intro f2 data h1 _
    have : data = [] := List.length_eq_zero.mp (by omega)
    subst this
    cases f2 <;> simp [parseFramesFuel]
  | succ n ih =>
    intro f2 data h1 h2
    cases f2 with
    | zero =>
      have : data = [] := List.length_eq_zero.mp (by omega)
      subst this
      simp [parseFramesFuel]
    | succ m =>
      simp only [parseFramesFuel]
      split
      · rfl
      · rename_i len _
        split
        · rfl
        · split
          · have hd : (data.drop (len + 4)).length ≤ data.length - 4 := by
              rw [List.length_drop]; omega
            rw [ih m (data.drop (len + 4)) (by omega) (by omega)]
          · rfl

theorem parseFrames_step (data e : List Nat) (len : Nat)
    (h2 : data[2]? = some len) (hlen : len + 4 ≤ data.length)
    (h0 : data[0]? = some 0x06 ∨ data[0]? = some 0x15) :
    parseFrames (data ++ e) = data.take (len + 4) :: parseFrames (data.drop (len + 4) ++ e) := by
  have hl : (data ++ e).length = data.length + e.length := List.length_append _ _
  have h2e : (data ++ e)[2]? = some len := by
    rw [List.getElem?_append_left (by omega)]; exact h2
  have h0e : (data ++ e)[0]? = data[0]? := by
    rw [List.getElem?_append_left (by omega)]
  unfold parseFrames
  obtain ⟨k, hk⟩ : ∃ k, (data ++ e).length = k + 1 := ⟨(data ++ e).length - 1, by omega⟩
  rw [hk]
  simp only [parseFramesFuel, h2e]
  have hc : ¬ (len + 4 > (data ++ e).length) := by omega
  rw [if_neg hc, h0e, if_pos h0, List.take_append_of_le_length hlen,
    List.drop_append_of_le_length hlen]
  congr 1
  apply parseFramesFuel_enough
  · rw [List.length_append, List.length_drop]; omega
  · exact le_refl _

/-- The frames dispatched over any sequence of reads, from any state of the
locals, are an initial segment of the greedy parse of the buffer followed by
all bytes read. -/
theorem frames_initial_segment (cs : List (List Nat)) :
    ∀ st : Reader, framesOf (HandleResponseThread st cs).1 <+: parseFrames (st.data ++ cs.flatten) := by
  induction cs with
  | nil => intro st; simp [HandleResponseThread, framesOf]
  | cons rd rest ih =>
    intro st
    simp only [HandleResponseThread]
    cases hit : HandleResponseThread_iteration st rd with
    | none => simp [framesOf]
    | some r =>
      obtain ⟨st', calls⟩ := r
      simp only []
      rcases iteration_cases st rd st' calls hit with ⟨hc, hd⟩ | ⟨len, h2, hlen, hcase, hst⟩
      · subst hc
        have := ih st'
        rw [hd] at this
        simpa [List.flatten, List.append_assoc] using this
      · have hstep := parseFrames_step (st.data ++ rd) rest.flatten len h2 hlen
          (hcase.elim (fun h => Or.inl h.1) (fun h => Or.inr h.1))
        have hih := ih st'
        rw [hst] at hih
        simp only [] at hih
        have hj : st.data ++ (rd :: rest).flatten = (st.data ++ rd) ++ rest.flatten := by
          simp [List.flatten, List.append_assoc]
        rw [hj, hstep]
        rcases hcase with ⟨_, hcalls⟩ | ⟨_, hcalls⟩
        · subst hcalls
          simp only [List.cons_append, List.nil_append, framesOf, List.take_take, min_self]
          rw [hst]
          exact (List.prefix_cons_inj _).mpr hih
        · subst hcalls
          simp only [List.cons_append, List.nil_append, framesOf]
          rw [hst]
          exact (List.prefix_cons_inj _).mpr hih

/-- A pass returns whenever the buffer, with the read appended, has three bytes. -/
theorem iteration_isSome (st : Reader) (rd : List Nat) (h3 : 3 ≤ (st.data ++ rd).length) :
    (HandleResponseThread_iteration st rd).isSome = true := by
  obtain ⟨len, h2⟩ : ∃ len, (st.data ++ rd)[2]? = some len :=
    ⟨(st.data ++ rd)[2], List.getElem?_eq_getElem (by omega)⟩
  unfold HandleResponseThread_iteration
  simp only [h2]
  repeat' split
  all_goals rfl

/-- While the first byte of everything buffered and read is neither 0x06 nor
0x15, no pass dispatches anything and no pass removes anything. -/
theorem out_of_sync_stuck (cs : List (List Nat)) (b : Nat) (h6 : b ≠ 0x06) (h15 : b ≠ 0x15) :
    ∀ st : Reader, (st.data ++ cs.flatten)[0]? = some b →
      (HandleResponseThread st cs).1 = [] ∧
      (∀ st', (HandleResponseThread st cs).2 = some st' → st'.data = st.data ++ cs.flatten) ∧
      (3 ≤ st.data.length → ((HandleResponseThread st cs).2).isSome = true) := by
  induction cs with
  | nil =>
    intro st _
    simp [HandleResponseThread]
  | cons rd rest ih =>
    intro st hb
    have hj : st.data ++ (rd :: rest).flatten = (st.data ++ rd) ++ rest.flatten := by
      simp [List.append_assoc]
    rw [hj] at hb
    simp only [HandleResponseThread]
    cases hit : HandleResponseThread_iteration st rd with
    | none =>
      refine ⟨rfl, fun st' h => absurd h (by simp), fun h3 => ?_⟩
      have := iteration_isSome st rd (by rw [List.length_append]; omega)
      rw [hit] at this
      exact absurd this (by simp)
    | some r =>
      obtain ⟨st', calls⟩ := r
      simp only []
      rcases iteration_cases st rd st' calls hit with ⟨hc, hd⟩ | ⟨len, h2, hlen, hcase, _⟩
      · subst hc
        rw [← hd] at hb
        obtain ⟨i1, i2, i3⟩ := ih st' hb
        refine ⟨by simpa using i1, ?_, ?_⟩
        · intro st'' h
          rw [i2 st'' h, hd, hj]
        · intro h3
          apply i3
          rw [hd, List.length_append]; omega
      · exfalso
        have h0 : ((st.data ++ rd) ++ rest.flatten)[0]? = (st.data ++ rd)[0]? := by
          rw [List.getElem?_append_left (by omega)]
        rw [h0] at hb
        rcases hcase with ⟨h, _⟩ | ⟨h, _⟩
        · rw [h] at hb; exact h6 (Option.some.inj hb).symm
        · rw [h] at hb; exact h15 (Option.some.inj hb).symm

/-! ## The claims on the reader loop -/

/-- C1, as stated, fails: the bytes 06 19 00 E1 06 19 00 E1 arriving in two reads
as (nothing, all eight bytes) make the loop emit one frame, and arriving as
(four bytes, four bytes) make it emit two, so the frames emitted are not a
function of the byte sequence alone. -/
theorem C1_frames_depend_on_chunking :
    ¬ (∀ chunksA chunksB : List (List Nat), chunksA.flatten = chunksB.flatten →
        framesOf (HandleResponseThread Reader.init chunksA).1 =
        framesOf (HandleResponseThread Reader.init chunksB).1) := by
  intro h
  have h1 := h [[], [6, 0x19, 0, 0xE1, 6, 0x19, 0, 0xE1]] [[6, 0x19, 0, 0xE1], [6, 0x19, 0, 0xE1]]
    (by decide)
  revert h1
  decide

/-- C1, amended: for every byte sequence and every two ways of splitting it into
reads, the frames emitted under either splitting are an initial segment of the
greedy parse of the byte sequence, which does not depend on the splitting; so
the two frame sequences agree as far as the shorter one goes. -/
theorem C1_frames_initial_segment_of_parse (bytes : List Nat) (chunksA chunksB : List (List Nat))
    (hA : chunksA.flatten = bytes) (hB : chunksB.flatten = bytes) :
    framesOf (HandleResponseThread Reader.init chunksA).1 <+: parseFrames bytes ∧
    framesOf (HandleResponseThread Reader.init chunksB).1 <+: parseFrames bytes ∧
    (framesOf (HandleResponseThread Reader.init chunksA).1 <+:
        framesOf (HandleResponseThread Reader.init chunksB).1 ∨
     framesOf (HandleResponseThread Reader.init chunksB).1 <+:
        framesOf (HandleResponseThread Reader.init chunksA).1) := by
  have a := frames_initial_segment chunksA Reader.init
  have b := frames_initial_segment chunksB Reader.init
  simp only [Reader.init, List.nil_append, hA, hB] at a b
  exact ⟨a, b, List.prefix_or_prefix_of_prefix a b⟩

/-- C1, amended, at the splittings of the counterexample. -/
theorem C1_frames_initial_segment_of_parse_witness :
    framesOf (HandleResponseThread Reader.init [[], [6, 0x19, 0, 0xE1, 6, 0x19, 0, 0xE1]]).1
      <+: parseFrames [6, 0x19, 0, 0xE1, 6, 0x19, 0, 0xE1] ∧
    framesOf (HandleResponseThread Reader.init [[6, 0x19, 0, 0xE1], [6, 0x19, 0, 0xE1]]).1
      <+: parseFrames [6, 0x19, 0, 0xE1, 6, 0x19, 0, 0xE1] ∧
    (framesOf (HandleResponseThread Reader.init [[], [6, 0x19, 0, 0xE1, 6, 0x19, 0, 0xE1]]).1 <+:
        framesOf (HandleResponseThread Reader.init [[6, 0x19, 0, 0xE1], [6, 0x19, 0, 0xE1]]).1 ∨
     framesOf (HandleResponseThread Reader.init [[6, 0x19, 0, 0xE1], [6, 0x19, 0, 0xE1]]).1 <+:
        framesOf (HandleResponseThread Reader.init [[], [6, 0x19, 0, 0xE1, 6, 0x19, 0, 0xE1]]).1) :=
  C1_frames_initial_segment_of_parse [6, 0x19, 0, 0xE1, 6, 0x19, 0, 0xE1]
    [[], [6, 0x19, 0, 0xE1, 6, 0x19, 0, 0xE1]] [[6, 0x19, 0, 0xE1], [6, 0x19, 0, 0xE1]]
    (by decide) (by decide)

/-- C2, as stated, fails: on the input FF FF 06 19 00 E1 the loop dispatches
nothing and keeps all six bytes, also over two further (empty) reads; it does
not emit the frame 06 19 00 E1 and does not empty the buffer. -/
theorem C2_no_byte_is_discarded :
    HandleResponseThread Reader.init [[0xFF, 0xFF, 6, 0x19, 0, 0xE1], [], []] =
      ([], some ⟨[0xFF, 0xFF, 6, 0x19, 0, 0xE1], 0⟩) ∧
    ¬ (framesOf (HandleResponseThread Reader.init [[0xFF, 0xFF, 6, 0x19, 0, 0xE1]]).1 =
        [[6, 0x19, 0, 0xE1]] ∧
       (HandleResponseThread Reader.init [[0xFF, 0xFF, 6, 0x19, 0, 0xE1]]).2 =
        some ⟨[], 0⟩) := by
  decide

/-- C2, amended: when the first byte `b` of the buffered and read bytes is
neither 0x06 nor 0x15, the loop never discards it: over any further reads it
dispatches nothing, the buffer is everything buffered followed by everything
read, and (from three buffered bytes on) every pass returns. -/
theorem C2_out_of_sync_keeps_buffer (st : Reader) (cs : List (List Nat)) (b : Nat)
    (hb : (st.data ++ cs.flatten)[0]? = some b) (h6 : b ≠ 0x06) (h15 : b ≠ 0x15) :
    (HandleResponseThread st cs).1 = [] ∧
    (∀ st', (HandleResponseThread st cs).2 = some st' → st'.data = st.data ++ cs.flatten) ∧
    (3 ≤ st.data.length → ((HandleResponseThread st cs).2).isSome = true) :=
  out_of_sync_stuck cs b h6 h15 st hb

/-- C2, amended, on the input FF FF 06 19 00 E1 followed by an empty read and by
a well-formed frame. -/
theorem C2_out_of_sync_keeps_buffer_witness :
    (HandleResponseThread Reader.init
        [[0xFF, 0xFF, 6, 0x19, 0, 0xE1], [], [6, 0x19, 0, 0xE1]]).1 = [] ∧
    (∀ st', (HandleResponseThread Reader.init
        [[0xFF, 0xFF, 6, 0x19, 0, 0xE1], [], [6, 0x19, 0, 0xE1]]).2 = some st' →
      st'.data = Reader.init.data ++
        [[0xFF, 0xFF, 6, 0x19, 0, 0xE1], [], [6, 0x19, 0, 0xE1]].flatten) ∧
    (3 ≤ Reader.init.data.length → ((HandleResponseThread Reader.init
        [[0xFF, 0xFF, 6, 0x19, 0, 0xE1], [], [6, 0x19, 0, 0xE1]]).2).isSome = true) :=
  C2_out_of_sync_keeps_buffer Reader.init
    [[0xFF, 0xFF, 6, 0x19, 0, 0xE1], [], [6, 0x19, 0, 0xE1]] 0xFF (by decide) (by decide)
    (by decide)

/-- C3: in every pass of the loop, from any state of the locals (so after any
sequence of reads), each call made on the dispatcher comes with a buffer that
has a length byte `len` at index 2 and holds at least `len + 4` bytes, and the
size passed with the call is `len + 4`. -/
theorem C3_dispatch_only_complete_frames (st : Reader) (rd : List Nat) (st' : Reader)
    (calls : List Call) (h : HandleResponseThread_iteration st rd = some (st', calls))
    (c : Call) (hc : c ∈ calls) :
    ∃ len, (st.data ++ rd)[2]? = some len ∧ len + 4 ≤ (st.data ++ rd).length ∧
      c.sz = len + 4 := by
  rcases iteration_cases st rd st' calls h with ⟨hnil, _⟩ | ⟨len, h2, hlen, hcase, _⟩
  · rw [hnil] at hc; exact absurd hc (List.not_mem_nil c)
  · refine ⟨len, h2, hlen, ?_⟩
    rcases hcase with ⟨_, hcalls⟩ | ⟨_, hcalls⟩ <;>
    · rw [hcalls] at hc
      simp only [List.mem_cons, List.mem_singleton, List.not_mem_nil, or_false] at hc
      rcases hc with rfl | rfl <;> rfl

/-- C3 at the NAK 15 02 01 12 D8 arriving behind its first two bytes. -/
theorem C3_dispatch_only_complete_frames_witness :
    ∃ len, ((⟨[0x15, 2], 0⟩ : Reader).data ++ [1, 0x12, 0xD8])[2]? = some len ∧
      len + 4 ≤ ((⟨[0x15, 2], 0⟩ : Reader).data ++ [1, 0x12, 0xD8]).length ∧
      (Call.NotifyOne [0x15, 2, 1, 0x12, 0xD8] 5).sz = len + 4 :=
  C3_dispatch_only_complete_frames ⟨[0x15, 2], 0⟩ [1, 0x12, 0xD8] ⟨[], 0⟩
    [Call.NotifyOne [0x15, 2, 1, 0x12, 0xD8] 5, Call.Notify [0x15, 2, 1, 0x12, 0xD8] 5]
    (by decide) (Call.NotifyOne [0x15, 2, 1, 0x12, 0xD8] 5) (by decide)

/-- C4 fails on the NAK path: with the NAK 15 02 01 12 D8 followed in the same
read by 06 19 00 E1, both dispatcher calls receive the whole nine-byte buffer
(with size 5), not the first five bytes; the five bytes are removed and the
four bytes behind them stay. -/
theorem C4_nak_hands_over_whole_buffer :
    HandleResponseThread_iteration Reader.init [0x15, 2, 1, 0x12, 0xD8, 6, 0x19, 0, 0xE1] =
      some (⟨[6, 0x19, 0, 0xE1], 0⟩,
        [Call.NotifyOne [0x15, 2, 1, 0x12, 0xD8, 6, 0x19, 0, 0xE1] 5,
         Call.Notify [0x15, 2, 1, 0x12, 0xD8, 6, 0x19, 0, 0xE1] 5]) ∧
    [0x15, 2, 1, 0x12, 0xD8, 6, 0x19, 0, 0xE1] ≠
      ([0x15, 2, 1, 0x12, 0xD8, 6, 0x19, 0, 0xE1] : List Nat).take 5 := by
  decide

/-- C6 fails on the ACK path: with the state at address 1 in the awaiting-reply
slot and the state at address 2 subscribed to the stream, the ACK 06 19 00 E1
is handed to the subscriber first and to the holder second, while on the same
driver the NAK 15 02 01 12 D8 is handed to the holder first and to the
subscriber second. -/
theorem C6_ack_serves_subscribers_first :
    (Attach (AttachNeedResponse (Context.fresh heapSingle 1) 1) 2).m_StackResponse = [1] ∧
    (Attach (AttachNeedResponse (Context.fresh heapSingle 1) 1) 2).m_ListObservers = [2] ∧
    (∃ st' calls,
      HandleResponseThread_iteration Reader.init [6, 0x19, 0, 0xE1] = some (st', calls) ∧
      dispatch (Attach (AttachNeedResponse (Context.fresh heapSingle 1) 1) 2) calls =
        [⟨2, [6, 0x19, 0, 0xE1], 4⟩, ⟨1, [6, 0x19, 0, 0xE1], 4⟩]) ∧
    (∃ st' calls,
      HandleResponseThread_iteration Reader.init [0x15, 2, 1, 0x12, 0xD8] = some (st', calls) ∧
      dispatch (Attach (AttachNeedResponse (Context.fresh heapSingle 1) 1) 2) calls =
        [⟨1, [0x15, 2, 1, 0x12, 0xD8], 5⟩, ⟨2, [0x15, 2, 1, 0x12, 0xD8], 5⟩]) :=
  ⟨by decide, by decide,
    ⟨⟨[], 0⟩, [Call.Notify [6, 0x19, 0, 0xE1] 4, Call.NotifyOne [6, 0x19, 0, 0xE1] 4],
      by decide, by decide⟩,
    ⟨⟨[], 0⟩, [Call.NotifyOne [0x15, 2, 1, 0x12, 0xD8] 5, Call.Notify [0x15, 2, 1, 0x12, 0xD8] 5],
      by decide, by decide⟩⟩

/-- The order of the two dispatcher calls of a pass that emits a frame: for a
NAK the awaiting-reply holder (if any) is served before the stream subscribers;
for an ACK the stream subscribers are served first, in insertion order, and the
holder after them. -/
theorem dispatch_order_by_status (ctx : Context) (st : Reader) (rd : List Nat) (st' : Reader)
    (calls : List Call) (h : HandleResponseThread_iteration st rd = some (st', calls))
    (hne : calls ≠ []) :
    ∃ d n,
      ((st.data ++ rd)[0]? = some 0x15 ∧ calls = [Call.NotifyOne d n, Call.Notify d n] ∧
        dispatch ctx calls = NotifyOne ctx d n ++ Notify ctx d n) ∨
      ((st.data ++ rd)[0]? = some 0x06 ∧ calls = [Call.Notify d n, Call.NotifyOne d n] ∧
        dispatch ctx calls = Notify ctx d n ++ NotifyOne ctx d n) := by
  rcases iteration_cases st rd st' calls h with ⟨hnil, _⟩ | ⟨len, _, _, hcase, _⟩
  · exact absurd hnil hne
  · rcases hcase with ⟨h0, hcalls⟩ | ⟨h0, hcalls⟩
    · exact ⟨_, _, Or.inr ⟨h0, hcalls, by rw [hcalls]; simp [dispatch]⟩⟩
    · exact ⟨_, _, Or.inl ⟨h0, hcalls, by rw [hcalls]; simp [dispatch]⟩⟩

theorem popWhileNotEmpty_eq_nil (stack : List Ptr) : popWhileNotEmpty stack = [] := by
  induction stack with
  | nil => rfl
  | cons _ below ih => simpa [popWhileNotEmpty] using ih

theorem AttachNeedResponse_stack (ctx : Context) (o : Ptr) :
    (AttachNeedResponse ctx o).m_StackResponse = [o] := by
  simp [AttachNeedResponse, popWhileNotEmpty_eq_nil]

theorem detachLatest_fields (ctx : Context) :
    (detachLatest ctx).heap = ctx.heap ∧ (detachLatest ctx).m_mapStates = ctx.m_mapStates ∧
    (detachLatest ctx).m_state = ctx.m_state ∧
    (detachLatest ctx).m_ListObservers = ctx.m_ListObservers ∧
    (detachLatest ctx).m_StackResponse.length ≤ ctx.m_StackResponse.length := by
  unfold detachLatest DetachNeedResponse
  repeat' split
  all_goals simp_all

theorem Attach_fields (ctx : Context) (o : Ptr) :
    (Attach ctx o).heap = ctx.heap ∧ (Attach ctx o).m_mapStates = ctx.m_mapStates ∧
    (Attach ctx o).m_state = ctx.m_state ∧
    (Attach ctx o).m_StackResponse = ctx.m_StackResponse := by
  unfold Attach
  split <;> simp

/-- The two branches of `TransitionTo`, field by field. -/
theorem TransitionTo_absent (ctx : Context) (cmdId : Nat) (s : Ptr)
    (h : mapFind ctx.m_mapStates cmdId = none) :
    (TransitionTo ctx cmdId s).heap = ctx.heap ∧
    (TransitionTo ctx cmdId s).m_state = some s ∧
    (TransitionTo ctx cmdId s).m_mapStates = ctx.m_mapStates ++ [(toKey cmdId, s)] ∧
    (TransitionTo ctx cmdId s).m_StackResponse =
      if (ctx.heap s).IsSingleCommand then [s] else (detachLatest ctx).m_StackResponse := by
  obtain ⟨dh, dm, _, _, _⟩ := detachLatest_fields ctx
  have h1 : mapFind (detachLatest ctx).m_mapStates cmdId = none := by rw [dm]; exact h
  have he : mapEmplace (detachLatest ctx).m_mapStates cmdId s =
      ctx.m_mapStates ++ [(toKey cmdId, s)] := by
    simp [mapEmplace, h1, dm, h]
  unfold TransitionTo
  simp only [h1, he, dh]
  cases hs : (ctx.heap s).IsSingleCommand <;> cases hcn : (ctx.heap s).IsContinuousCommand <;>
    simp [AttachNeedResponse, Attach_fields, popWhileNotEmpty_eq_nil, dh, hs, hcn]

theorem TransitionTo_present (ctx : Context) (cmdId : Nat) (s found : Ptr)
    (h : mapFind ctx.m_mapStates cmdId = some found) :
    (TransitionTo ctx cmdId s).heap = ctx.heap ∧
    (TransitionTo ctx cmdId s).m_state = some found ∧
    (TransitionTo ctx cmdId s).m_mapStates = ctx.m_mapStates ∧
    (TransitionTo ctx cmdId s).m_StackResponse =
      if (ctx.heap found).IsSingleCommand && !(ctx.heap found).m_bIsAlreadySent then [found]
      else (detachLatest ctx).m_StackResponse := by
  obtain ⟨dh, dm, _, _, _⟩ := detachLatest_fields ctx
  have h1 : mapFind (detachLatest ctx).m_mapStates cmdId = some found := by rw [dm]; exact h
  unfold TransitionTo
  simp only [h1, dh]
  cases hs : (ctx.heap found).IsSingleCommand <;>
    cases hsent : (ctx.heap found).m_bIsAlreadySent <;>
    simp [AttachNeedResponse, popWhileNotEmpty_eq_nil, dh, dm, hs, hsent]

theorem mapFind_append_of_none (m : List (Nat × Ptr)) (cmdId : Nat) (s : Ptr)
    (h : mapFind m cmdId = none) : mapFind (m ++ [(toKey cmdId, s)]) cmdId = some s := by
  unfold mapFind at h ⊢
  rw [List.find?_append]
  cases hf : m.find? (fun e => e.1 == toKey cmdId) with
  | none => simp
  | some x => rw [hf] at h; simp at h

/-- C7 fails on the code: the identifiers 0x19, 0x12031106 and 0x12041106 (three
state classes of the driver) are pairwise different, but the second and third
have the same low sixteen bits, so after the three transitions the registry
holds two instances, and the third transition makes the instance registered
for 0x12031106 the current state. -/
theorem C7_registry_key_is_sixteen_bits :
    ([0x19, 0x12031106, 0x12041106] : List Nat).dedup.length = 3 ∧
    (transitions (Context.fresh heapSingle 1)
        [(0x19, 1), (0x12031106, 2), (0x12041106, 3)]).m_mapStates = [(0x19, 1), (0x1106, 2)] ∧
    (transitions (Context.fresh heapSingle 1)
        [(0x19, 1), (0x12031106, 2), (0x12041106, 3)]).m_mapStates.length = 2 ∧
    (transitions (Context.fresh heapSingle 1)
        [(0x19, 1), (0x12031106, 2), (0x12041106, 3)]).m_state = some 2 := by
  decide

/-- C9, as stated, fails for a reused instance: the state at address 1 is
registered under 0x19 and marked as sent, the driver moves on to the state at
address 2, and a transition back to 0x19 makes the single-shot state 1 current
again while the awaiting-reply slot is left empty. -/
theorem C9_reused_sent_state_is_not_armed :
    (runOps (Context.fresh heapSingle 1)
        [Op.TransitionTo 0x19 1, Op.SetAlreadySent 1 true, Op.TransitionTo 0x02 2,
         Op.TransitionTo 0x19 3]).m_state = some 1 ∧
    ((runOps (Context.fresh heapSingle 1)
        [Op.TransitionTo 0x19 1, Op.SetAlreadySent 1 true, Op.TransitionTo 0x02 2,
         Op.TransitionTo 0x19 3]).heap 1).IsSingleCommand = true ∧
    (runOps (Context.fresh heapSingle 1)
        [Op.TransitionTo 0x19 1, Op.SetAlreadySent 1 true, Op.TransitionTo 0x02 2,
         Op.TransitionTo 0x19 3]).m_StackResponse = [] := by
  decide

/-- C9, amended: after a `TransitionTo` whose resulting current state `p` is
single-shot, the awaiting-reply slot holds exactly `p` when `p` was newly
inserted or was reused with its already-sent flag false; when `p` was reused
with the flag true the slot is not armed and holds what the initial
`DetachNeedResponse` step left. -/
theorem C9_single_shot_armed_unless_sent (ctx : Context) (cmdId : Nat) (s p : Ptr)
    (hcur : (TransitionTo ctx cmdId s).m_state = some p)
    (hsingle : (ctx.heap p).IsSingleCommand = true) :
    ((mapFind ctx.m_mapStates cmdId = none ∨ (ctx.heap p).m_bIsAlreadySent = false) →
      (TransitionTo ctx cmdId s).m_StackResponse = [p]) ∧
    (mapFind ctx.m_mapStates cmdId ≠ none → (ctx.heap p).m_bIsAlreadySent = true →
      (TransitionTo ctx cmdId s).m_StackResponse = (detachLatest ctx).m_StackResponse) := by
  cases hf : mapFind ctx.m_mapStates cmdId with
  | none =>
    obtain ⟨_, b, _, d⟩ := TransitionTo_absent ctx cmdId s hf
    have hp : s = p := Option.some.inj (b.symm.trans hcur)
    subst hp
    exact ⟨fun _ => by rw [d, hsingle]; rfl, fun hne => absurd rfl hne⟩
  | some found =>
    obtain ⟨_, b, _, d⟩ := TransitionTo_present ctx cmdId s found hf
    have hp : found = p := Option.some.inj (b.symm.trans hcur)
    subst hp
    refine ⟨fun h => ?_, fun _ hsent => ?_⟩
    · rcases h with h | h
      · exact absurd h (by simp)
      · rw [d, hsingle, h]; rfl
    · rw [d, hsingle, hsent]; rfl

/-- C9, amended, at the transition back to 0x19 of the counterexample. -/
theorem C9_single_shot_armed_unless_sent_witness :
    ((mapFind (runOps (Context.fresh heapSingle 1)
        [Op.TransitionTo 0x19 1, Op.SetAlreadySent 1 true, Op.TransitionTo 0x02 2]).m_mapStates
        0x19 = none ∨
      ((runOps (Context.fresh heapSingle 1)
        [Op.TransitionTo 0x19 1, Op.SetAlreadySent 1 true, Op.TransitionTo 0x02 2]).heap
        1).m_bIsAlreadySent = false) →
      (TransitionTo (runOps (Context.fresh heapSingle 1)
        [Op.TransitionTo 0x19 1, Op.SetAlreadySent 1 true, Op.TransitionTo 0x02 2])
        0x19 3).m_StackResponse = [1]) ∧
    (mapFind (runOps (Context.fresh heapSingle 1)
        [Op.TransitionTo 0x19 1, Op.SetAlreadySent 1 true, Op.TransitionTo 0x02 2]).m_mapStates
        0x19 ≠ none →
      ((runOps (Context.fresh heapSingle 1)
        [Op.TransitionTo 0x19 1, Op.SetAlreadySent 1 true, Op.TransitionTo 0x02 2]).heap
        1).m_bIsAlreadySent = true →
      (TransitionTo (runOps (Context.fresh heapSingle 1)
        [Op.TransitionTo 0x19 1, Op.SetAlreadySent 1 true, Op.TransitionTo 0x02 2])
        0x19 3).m_StackResponse =
      (detachLatest (runOps (Context.fresh heapSingle 1)
        [Op.TransitionTo 0x19 1, Op.SetAlreadySent 1 true, Op.TransitionTo 0x02 2])).m_StackResponse) :=
  C9_single_shot_armed_unless_sent (runOps (Context.fresh heapSingle 1)
    [Op.TransitionTo 0x19 1, Op.SetAlreadySent 1 true, Op.TransitionTo 0x02 2]) 0x19 3 1
    (by decide) (by decide)

theorem DetachNeedResponse_stack (ctx : Context) :
    (DetachNeedResponse ctx).m_StackResponse = ctx.m_StackResponse.tail := by
  cases h : ctx.m_StackResponse <;> simp [DetachNeedResponse, h]

theorem Op_apply_stack_le_one (ctx : Context) (op : Op)
    (h : ctx.m_StackResponse.length ≤ 1) : (Op.apply ctx op).m_StackResponse.length ≤ 1 := by
  cases op with
  | AttachNeedResponse o =>
    show (AttachNeedResponse ctx o).m_StackResponse.length ≤ 1
    rw [AttachNeedResponse_stack]; simp
  | DetachNeedResponse =>
    show (DetachNeedResponse ctx).m_StackResponse.length ≤ 1
    rw [DetachNeedResponse_stack, List.length_tail]; omega
  | TransitionTo cmdId state =>
    show (TransitionTo ctx cmdId state).m_StackResponse.length ≤ 1
    obtain ⟨_, _, _, _, dl⟩ := detachLatest_fields ctx
    cases hf : mapFind ctx.m_mapStates cmdId with
    | none =>
      obtain ⟨_, _, _, d⟩ := TransitionTo_absent ctx cmdId state hf
      rw [d]; split
      · simp
      · omega
    | some found =>
      obtain ⟨_, _, _, d⟩ := TransitionTo_present ctx cmdId state found hf
      rw [d]; split
      · simp
      · omega
  | SetAlreadySent p b => exact h

theorem runOps_stack_le_one (ops : List Op) :
    ∀ ctx : Context, ctx.m_StackResponse.length ≤ 1 →
      (runOps ctx ops).m_StackResponse.length ≤ 1 := by
  induction ops with
  | nil => intro ctx h; exact h
  | cons op rest ih =>
    intro ctx h
    exact ih (Op.apply ctx op) (Op_apply_stack_le_one ctx op h)

/-- C10: after any sequence of `AttachNeedResponse`, `DetachNeedResponse` and
`TransitionTo` calls (and of changes of already-sent flags in between) on a
newly constructed context, the awaiting-reply slot holds at most one state; a
further `AttachNeedResponse(s)` leaves it holding exactly `s`, and a further
`DetachNeedResponse` leaves it empty. -/
theorem C10_at_most_one_awaiting_reply (heap : Ptr → StateObj) (first : Ptr) (ops : List Op) :
    (runOps (Context.fresh heap first) ops).m_StackResponse.length ≤ 1 ∧
    (∀ s, (AttachNeedResponse (runOps (Context.fresh heap first) ops) s).m_StackResponse = [s]) ∧
    (DetachNeedResponse (runOps (Context.fresh heap first) ops)).m_StackResponse = [] := by
  have h := runOps_stack_le_one ops (Context.fresh heap first) (by simp [Context.fresh])
  refine ⟨h, fun s => AttachNeedResponse_stack _ s, ?_⟩
  rw [DetachNeedResponse_stack]
  exact List.length_eq_zero.mp (by rw [List.length_tail]; omega)

/-- A lookup fails exactly when the sixteen-bit key is not among the keys. -/
theorem mapFind_eq_none_iff (m : List (Nat × Ptr)) (cmdId : Nat) :
    mapFind m cmdId = none ↔ toKey cmdId ∉ m.map Prod.fst := by
  unfold mapFind
  simp only [Option.map_eq_none', List.find?_eq_none, beq_iff_eq, List.mem_map, not_exists,
    not_and]

theorem TransitionTo_keys (ctx : Context) (cmdId : Nat) (s : Ptr) :
    (TransitionTo ctx cmdId s).m_mapStates.map Prod.fst =
      if toKey cmdId ∈ ctx.m_mapStates.map Prod.fst then ctx.m_mapStates.map Prod.fst
      else ctx.m_mapStates.map Prod.fst ++ [toKey cmdId] := by
  cases hf : mapFind ctx.m_mapStates cmdId with
  | none =>
    obtain ⟨_, _, c, _⟩ := TransitionTo_absent ctx cmdId s hf
    rw [c, if_neg ((mapFind_eq_none_iff _ _).mp hf)]
    simp
  | some found =>
    obtain ⟨_, _, c, _⟩ := TransitionTo_present ctx cmdId s found hf
    have hmem : toKey cmdId ∈ ctx.m_mapStates.map Prod.fst := by
      by_contra hn
      rw [(mapFind_eq_none_iff _ _).mpr hn] at hf
      exact absurd hf (by simp)
    rw [c, if_pos hmem]

theorem transitions_keys (calls : List (Nat × Ptr)) :
    ∀ ctx : Context, (ctx.m_mapStates.map Prod.fst).Nodup →
      ((transitions ctx calls).m_mapStates.map Prod.fst).Nodup ∧
      ∀ k, k ∈ (transitions ctx calls).m_mapStates.map Prod.fst ↔
        k ∈ ctx.m_mapStates.map Prod.fst ∨ k ∈ calls.map (fun e => toKey e.1) := by
  induction calls with
  | nil => intro ctx h; exact ⟨h, fun k => by simp [transitions]⟩
  | cons e rest ih =>
    intro ctx h
    have hk := TransitionTo_keys ctx e.1 e.2
    have hnd : ((TransitionTo ctx e.1 e.2).m_mapStates.map Prod.fst).Nodup := by
      rw [hk]; split
      · exact h
      · rename_i hn
        exact List.Nodup.append h (List.nodup_singleton _) (by simpa using hn)
    obtain ⟨i1, i2⟩ := ih (TransitionTo ctx e.1 e.2) hnd
    refine ⟨i1, fun k => ?_⟩
    have : transitions ctx (e :: rest) = transitions (TransitionTo ctx e.1 e.2) rest := rfl
    rw [this, i2 k, hk]
    by_cases hm : toKey e.1 ∈ ctx.m_mapStates.map Prod.fst
    · rw [if_pos hm]
      simp only [List.map_cons, List.mem_cons]
      constructor
      · rintro (h1 | h1)
        · exact Or.inl h1
        · exact Or.inr (Or.inr h1)
      · rintro (h1 | h1 | h1)
        · exact Or.inl h1
        · exact Or.inl (h1 ▸ hm)
        · exact Or.inr h1
    · rw [if_neg hm]
      simp only [List.map_cons, List.mem_cons, List.mem_append, List.mem_singleton]
      tauto

/-- What holds in place of C7: after any sequence of `TransitionTo` calls on a
newly constructed context, the number of registry entries is the number of
distinct sixteen-bit keys `id mod 65536` of the identifiers used. -/
theorem registry_size_eq_distinct_keys (heap : Ptr → StateObj) (first : Ptr)
    (calls : List (Nat × Ptr)) :
    (transitions (Context.fresh heap first) calls).m_mapStates.length =
      (calls.map (fun e => toKey e.1)).dedup.length := by
  obtain ⟨hnd, hmem⟩ := transitions_keys calls (Context.fresh heap first)
    (by simp [Context.fresh])
  have h1 : ((transitions (Context.fresh heap first) calls).m_mapStates.map Prod.fst).toFinset =
      (calls.map (fun e => toKey e.1)).toFinset := by
    ext k
    simp only [List.mem_toFinset]
    rw [hmem k]
    simp [Context.fresh]
  rw [← List.card_toFinset, ← h1, List.toFinset_card_of_nodup hnd, List.length_map]

/-! ## The claims on the error table -/

/-- C13: the lookup is total and never yields the empty string: for every
argument, in particular for every byte value 0..255, `GetErrorMessage` returns
a string of positive length. -/
theorem C13_GetErrorMessage_nonempty (errCode : Nat) :
    GetErrorMessage errCode ≠ "" ∧ 0 < (GetErrorMessage errCode).length := by
  unfold GetErrorMessage
  split <;> exact ⟨by decide, by decide⟩

theorem GetErrorMessage_eq_noError_iff (c : Nat) :
    GetErrorMessage c = "No Error" ↔ c ∉ errorCodes := by
  unfold GetErrorMessage
  split <;> simp_all [errorCodes]

set_option maxRecDepth 100000 in
theorem GetErrorMessage_injOn_errorCodes :
    ∀ c ∈ errorCodes, ∀ c' ∈ errorCodes, GetErrorMessage c' = GetErrorMessage c → c' = c := by
  decide

/-- C14: `GetErrorMessage` is the documented table: the twenty-one named codes
yield the named strings; every code in 0x70..0x7C, 0x90..0x93 and 0xA0..0xA7
yields a message that is not "No Error" and that no other code yields; and a
code yields "No Error" exactly when it is none of the codes of the table. -/
theorem C14_GetErrorMessage_table :
    (GetErrorMessage 0x01 = "Zero Or Span Of Any Component In Progress" ∧
     GetErrorMessage 0x02 = "Wrong Parameter" ∧
     GetErrorMessage 0x03 = "Wrong Unit" ∧
     GetErrorMessage 0x04 = "Agent Not Supported" ∧
     GetErrorMessage 0x08 = "Span Invalid Tag" ∧
     GetErrorMessage 0x10 = "Parameter Not Supported" ∧
     GetErrorMessage 0x11 = "Not Allowed At This Moment" ∧
     GetErrorMessage 0x12 = "Frame Not Supported" ∧
     GetErrorMessage 0x13 = "Rt Not Supported" ∧
     GetErrorMessage 0x14 = "Wrong Interval Base Time" ∧
     GetErrorMessage 0x15 = "Data Not Available Yet" ∧
     GetErrorMessage 0x20 = "Eeprom Access Failed" ∧
     GetErrorMessage 0x22 = "Non Volatile Memory Access Failed" ∧
     GetErrorMessage 0x31 = "Watertrap Is Full" ∧
     GetErrorMessage 0x60 = "Tpu Timeout" ∧
     GetErrorMessage 0xB0 = "Failed" ∧
     GetErrorMessage 0xC0 = "Subcomponent Not Available For This Purpose" ∧
     GetErrorMessage 0xC1 = "Sub Component Does Not Support This Mode" ∧
     GetErrorMessage 0xCE = "Write Access Not Allowed" ∧
     GetErrorMessage 0xCF = "Does Not Exist" ∧
     GetErrorMessage 0xFF = "Unknown Command") ∧
    (∀ c, (0x70 ≤ c ∧ c ≤ 0x7C) ∨ (0x90 ≤ c ∧ c ≤ 0x93) ∨ (0xA0 ≤ c ∧ c ≤ 0xA7) →
      GetErrorMessage c ≠ "No Error" ∧
      ∀ c', GetErrorMessage c' = GetErrorMessage c → c' = c) ∧
    (∀ c, GetErrorMessage c = "No Error" ↔
      ¬ (c = 0x01 ∨ c = 0x02 ∨ c = 0x03 ∨ c = 0x04 ∨ c = 0x08 ∨ c = 0x10 ∨ c = 0x11 ∨
         c = 0x12 ∨ c = 0x13 ∨ c = 0x14 ∨ c = 0x15 ∨ c = 0x20 ∨ c = 0x22 ∨ c = 0x31 ∨
         c = 0x60 ∨ (0x70 ≤ c ∧ c ≤ 0x7C) ∨ (0x90 ≤ c ∧ c ≤ 0x93) ∨ (0xA0 ≤ c ∧ c ≤ 0xA7) ∨
         c = 0xB0 ∨ c = 0xC0 ∨ c = 0xC1 ∨ c = 0xCE ∨ c = 0xCF ∨ c = 0xFF)) := by
  refine ⟨by decide, ?_, ?_⟩
  · intro c hc
    have hmem : c ∈ errorCodes := by
      simp only [errorCodes, List.mem_cons, List.mem_singleton, List.not_mem_nil, or_false]
      omega
    have hne : GetErrorMessage c ≠ "No Error" := fun h =>
      (GetErrorMessage_eq_noError_iff c).mp h hmem
    refine ⟨hne, fun c' h => ?_⟩
    have hmem' : c' ∈ errorCodes := by
      by_contra hn
      exact hne (h ▸ (GetErrorMessage_eq_noError_iff c').mpr hn)
    exact GetErrorMessage_injOn_errorCodes c hmem c' hmem' h
  · intro c
    rw [GetErrorMessage_eq_noError_iff]
    simp only [errorCodes, List.mem_cons, List.mem_singleton, List.not_mem_nil, or_false]
    constructor <;> intro h <;> omega

/-! ## The claim on the subscriber list -/

theorem Attach_list (ctx : Context) (o : Ptr) :
    (Attach ctx o).m_ListObservers =
      if o ∈ ctx.m_ListObservers then ctx.m_ListObservers else ctx.m_ListObservers ++ [o] := by
  unfold Attach
  split <;> rfl

theorem Attach_nodup (ctx : Context) (o : Ptr) (h : ctx.m_ListObservers.Nodup) :
    (Attach ctx o).m_ListObservers.Nodup := by
  rw [Attach_list]
  split
  · exact h
  · rename_i hn
    exact List.Nodup.append h (List.nodup_singleton o) (by simpa using hn)

theorem Detach_nodup (ctx : Context) (o : Ptr) (h : ctx.m_ListObservers.Nodup) :
    (Detach ctx o).m_ListObservers.Nodup :=
  List.Nodup.filter _ h

theorem attachDetach_nodup (calls : List (Bool × Ptr)) :
    ∀ ctx : Context, ctx.m_ListObservers.Nodup →
      (attachDetach ctx calls).m_ListObservers.Nodup := by
  induction calls with
  | nil => intro ctx h; exact h
  | cons e rest ih =>
    intro ctx h
    have hstep : attachDetach ctx (e :: rest) =
        attachDetach (if e.1 then Attach ctx e.2 else Detach ctx e.2) rest := rfl
    rw [hstep]
    apply ih
    split
    · exact Attach_nodup ctx e.2 h
    · exact Detach_nodup ctx e.2 h

/-- C20: `Attach(o)` twice is `Attach(o)` once; it keeps the existing entries
where they are (the old list is an initial segment of the new one) and leaves
`o` in the list; a list built by `Attach` and `Detach` calls on a new context
never contains an observer twice, and neither call introduces a duplicate; a
`Detach(o)` after `Attach(o)` yields the old list without `o`, every other
entry in its old order. -/
theorem C20_Attach_idempotent_Detach_removes (ctx : Context) (o : Ptr) :
    Attach (Attach ctx o) o = Attach ctx o ∧
    ctx.m_ListObservers <+: (Attach ctx o).m_ListObservers ∧
    o ∈ (Attach ctx o).m_ListObservers ∧
    (ctx.m_ListObservers.Nodup →
      (Attach ctx o).m_ListObservers.Nodup ∧ (Detach ctx o).m_ListObservers.Nodup) ∧
    (∀ (heap : Ptr → StateObj) (first : Ptr) (calls : List (Bool × Ptr)),
      (attachDetach (Context.fresh heap first) calls).m_ListObservers.Nodup) ∧
    (Detach (Attach ctx o) o).m_ListObservers =
      ctx.m_ListObservers.filter (fun x => x != o) ∧
    o ∉ (Detach (Attach ctx o) o).m_ListObservers ∧
    (∀ x, x ≠ o → (x ∈ (Detach (Attach ctx o) o).m_ListObservers ↔ x ∈ ctx.m_ListObservers)) := by
  have hdet : (Detach (Attach ctx o) o).m_ListObservers =
      ctx.m_ListObservers.filter (fun x => x != o) := by
    show (Attach ctx o).m_ListObservers.filter (fun x => x != o) = _
    rw [Attach_list]
    split
    · rfl
    · simp
  refine ⟨?_, ?_, ?_, fun h => ⟨Attach_nodup ctx o h, Detach_nodup ctx o h⟩,
    fun heap first calls => attachDetach_nodup calls _ (by simp [Context.fresh]), hdet, ?_, ?_⟩
  · have hin : o ∈ (Attach ctx o).m_ListObservers := by
      rw [Attach_list]; split
      · assumption
      · simp
    show (if o ∈ (Attach ctx o).m_ListObservers then Attach ctx o else _) = _
    rw [if_pos hin]
  · rw [Attach_list]; split
    · exact List.prefix_refl _
    · exact List.prefix_append _ _
  · rw [Attach_list]; split
    · assumption
    · simp
  · rw [hdet]; simp
  · intro x hx
    rw [hdet]; simp [hx]

/-! ## Lemmas on the driver -/

/-- What `make_shared` followed by `TransitionTo` changes and what it keeps. -/
theorem TransitionToNew_spec (d : Driver) (c : StateClass) (now : Int) :
    (d.TransitionToNew c now).written = d.written ∧
    (d.TransitionToNew c now).logFile = d.logFile ∧
    (d.TransitionToNew c now).m_bPneumaticsEnabled = d.m_bPneumaticsEnabled ∧
    (d.TransitionToNew c now).m_bAutoZeroCondition = d.m_bAutoZeroCondition ∧
    (d.TransitionToNew c now).m_bPAIAvailable = d.m_bPAIAvailable ∧
    (d.TransitionToNew c now).m_bNeedsExternalData = d.m_bNeedsExternalData ∧
    (d.TransitionToNew c now).m_bHSP = d.m_bHSP ∧
    (d.TransitionToNew c now).cls = (fun q => if q = d.allocated then c else d.cls q) ∧
    (d.TransitionToNew c now).ctx.heap =
      (fun q => if q = d.allocated then ⟨true, false, false, false⟩ else d.ctx.heap q) ∧
    (d.TransitionToNew c now).ctx.m_state =
      some (match mapFind d.ctx.m_mapStates c.GetCommandId with
        | none => d.allocated
        | some p => p) := by
  refine ⟨rfl, rfl, rfl, rfl, rfl, rfl, rfl, rfl, ?_, ?_⟩
  · show (TransitionTo (make_shared d c now).1.ctx c.GetCommandId (make_shared d c now).2).heap = _
    cases hf : mapFind d.ctx.m_mapStates c.GetCommandId with
    | none => exact (TransitionTo_absent (make_shared d c now).1.ctx _ _ hf).1
    | some p => exact (TransitionTo_present (make_shared d c now).1.ctx _ _ p hf).1
  · show (TransitionTo (make_shared d c now).1.ctx c.GetCommandId
      (make_shared d c now).2).m_state = _
    cases hf : mapFind d.ctx.m_mapStates c.GetCommandId with
    | none => exact (TransitionTo_absent (make_shared d c now).1.ctx _ _ hf).2.1
    | some p => exact (TransitionTo_present (make_shared d c now).1.ctx _ _ p hf).2.1

/-- After `make_shared` and `TransitionTo`, the current state is an object of
the class asked for, provided the registry is keyed as `registeredAs` says. -/
theorem TransitionToNew_current (d : Driver) (c : StateClass) (now : Int)
    (h : registeredAs d c = true) :
    ∃ p, (d.TransitionToNew c now).ctx.m_state = some p ∧
      (d.TransitionToNew c now).cls p = c ∧
      ((d.TransitionToNew c now).ctx.heap p).m_bIsAlreadySent =
        (match mapFind d.ctx.m_mapStates c.GetCommandId with
          | none => false
          | some q => (d.ctx.heap q).m_bIsAlreadySent) := by
  obtain ⟨_, _, _, _, _, _, _, hcls, hheap, hcur⟩ := TransitionToNew_spec d c now
  unfold registeredAs at h
  cases hf : mapFind d.ctx.m_mapStates c.GetCommandId with
  | none =>
    rw [hf] at hcur
    exact ⟨d.allocated, hcur, by rw [hcls]; simp, by rw [hheap]; simp⟩
  | some p =>
    rw [hf] at hcur h
    simp only [Bool.and_eq_true, decide_eq_true_eq] at h
    have hne : p ≠ d.allocated := Nat.ne_of_lt h.2
    exact ⟨p, hcur, by rw [hcls]; simp [hne, h.1], by rw [hheap]; simp [hne]⟩

theorem header2_true (rddata : List Nat) (a b : Nat) (h0 : rddata[0]? = some a)
    (h1 : rddata[1]? = some b) : header2 rddata a b = some true := by
  simp [header2, h0, h1]

theorem header3_true (rddata : List Nat) (a b c : Nat) (h0 : rddata[0]? = some a)
    (h1 : rddata[1]? = some b) (h2 : rddata[2]? = some c) : header3 rddata a b c = some true := by
  simp [header3, header2_true rddata a b h0 h1, h2]

theorem header2_false (rddata : List Nat) (a b x : Nat) (h0 : rddata[0]? = some x)
    (hx : x ≠ a) : header2 rddata a b = some false := by
  simp [header2, h0, hx]

theorem header3_false (rddata : List Nat) (a b c x : Nat) (h0 : rddata[0]? = some x)
    (hx : x ≠ a) : header3 rddata a b c = some false := by
  simp [header3, header2_false rddata a b x h0 hx]

/-- A synchronous send while there is a current state: the command of `state`
is written, and the already-sent flag of the current state becomes whether the
read that ended the wait returned bytes; nothing else changes but the
data-received flag of the current state. -/
theorem SendCmdSync_spec (d : Driver) (state cur : Ptr) (bytes_read : Nat)
    (hcur : d.ctx.m_state = some cur) :
    ∃ d1, SendCmdSync d state bytes_read = some d1 ∧
      d1.written = d.written ++ [(d.cls state).GetCommand] ∧
      d1.ctx.m_state = some cur ∧ d1.cls = d.cls ∧ d1.m_lastTime = d.m_lastTime ∧
      d1.logFile = d.logFile ∧
      (d1.ctx.heap cur).m_bIsAlreadySent = (bytes_read != 0) ∧
      (∀ q, q ≠ cur → d1.ctx.heap q = d.ctx.heap q) ∧
      d1.ctx.m_StackResponse = d.ctx.m_StackResponse ∧
      d1.ctx.m_mapStates = d.ctx.m_mapStates := by
  unfold SendCmdSync
  simp only [hcur]
  cases hb : (bytes_read != 0) <;>
    simp [SetDataReceived, SetAlreadySent, hb, hcur] <;>
    intro q hq <;> simp [hq]

/-! ## The scenario claims -/

/-- C15 (scenario S2): when `StopContinuousDataState::Update` receives a frame
whose first three bytes are 06 19 00, and the registry holds no
`GetIntervalBaseTimeState` yet (as after a cold start) or holds one that has not
sent, the current state becomes a `GetIntervalBaseTimeState`, nothing is
written meanwhile, and the next `Request1` writes exactly 10 02 02 FF ED. -/
theorem C15_S2_stop_ack_then_interval_base_time (d : Driver) (rddata : List Nat) (sz : Nat)
    (now next : Int) (bytes_read : Nat)
    (h0 : rddata[0]? = some 0x06) (h1 : rddata[1]? = some 0x19) (h2 : rddata[2]? = some 0x00)
    (hreg : registeredAs d StateClass.GetIntervalBaseTimeState = true)
    (hnew : ∀ p, mapFind d.ctx.m_mapStates StateClass.GetIntervalBaseTimeState.GetCommandId =
      some p → (d.ctx.heap p).m_bIsAlreadySent = false) :
    ∃ d1 p, StopContinuousDataState_Update d rddata sz now = some d1 ∧
      d1.ctx.m_state = some p ∧ d1.cls p = StateClass.GetIntervalBaseTimeState ∧
      d1.written = d.written ∧
      ∃ d2, Request1 d1 next bytes_read = some d2 ∧
        d2.written = d1.written ++ [[0x10, 0x02, 0x02, 0xff, 0xed]] := by
  have hreg1 : registeredAs (d.LogFile "Change to GetIntervalBaseTimeState.\n")
      StateClass.GetIntervalBaseTimeState = true := hreg
  obtain ⟨p, hcur, hcls, hsent⟩ := TransitionToNew_current
    (d.LogFile "Change to GetIntervalBaseTimeState.\n") StateClass.GetIntervalBaseTimeState now
    hreg1
  have hsent0 : (((d.LogFile "Change to GetIntervalBaseTimeState.\n").TransitionToNew
      StateClass.GetIntervalBaseTimeState now).ctx.heap p).m_bIsAlreadySent = false := by
    rw [hsent]
    show (match mapFind d.ctx.m_mapStates StateClass.GetIntervalBaseTimeState.GetCommandId with
      | none => false
      | some q => (d.ctx.heap q).m_bIsAlreadySent) = false
    cases hf : mapFind d.ctx.m_mapStates StateClass.GetIntervalBaseTimeState.GetCommandId with
    | none => rfl
    | some q => exact hnew q hf
  refine ⟨_, p, ?_, hcur, hcls, rfl, ?_⟩
  · simp only [StopContinuousDataState_Update, header3_true rddata _ _ _ h0 h1 h2]
  · obtain ⟨d2, hs, hw, _⟩ := SendCmdSync_spec
      ((((d.LogFile "Change to GetIntervalBaseTimeState.\n").TransitionToNew
        StateClass.GetIntervalBaseTimeState now)).LogFile "Handles GetIntervalBaseTimeState.\n")
      p p bytes_read hcur
    refine ⟨d2, ?_, ?_⟩
    · simp only [Request1, hcur, HandleData, hsent0, hcls]
      exact hs
    · rw [hw]
      show _ ++ [(((d.LogFile "Change to GetIntervalBaseTimeState.\n").TransitionToNew
        StateClass.GetIntervalBaseTimeState now).cls p).GetCommand] = _
      rw [hcls]; rfl

/-- C15 at the cold start: the first transmission at 150 ms, the frame
06 19 00 E1, the next tick. -/
theorem C15_S2_stop_ack_then_interval_base_time_witness :
    afterFirstSend.written = [[0x10, 0x01, 0x19, 0xd6]] ∧
    ∃ d1 p, StopContinuousDataState_Update afterFirstSend [0x06, 0x19, 0x00, 0xE1] 4 160 =
        some d1 ∧
      d1.ctx.m_state = some p ∧ d1.cls p = StateClass.GetIntervalBaseTimeState ∧
      d1.written = afterFirstSend.written ∧
      ∃ d2, Request1 d1 170 0 = some d2 ∧
        d2.written = d1.written ++ [[0x10, 0x02, 0x02, 0xff, 0xed]] :=
  ⟨by decide,
    C15_S2_stop_ack_then_interval_base_time afterFirstSend
      [0x06, 0x19, 0x00, 0xE1] 4 160 170 0 (by decide) (by decide) (by decide) (by decide)
      (fun p h => by
        have hn : mapFind afterFirstSend.ctx.m_mapStates
            StateClass.GetIntervalBaseTimeState.GetCommandId = none := by decide
        rw [hn] at h
        exact Option.noConfusion h)⟩

/-- C16 (scenario S3): when `GetIntervalBaseTimeState::Update` receives a frame
that starts 15 02 01 cc, it logs "Fail with error message: " followed by
`GetErrorMessage(cc)`, then the same with the skip notice, makes a
`TransmitDeviceComponentInformation_VendorCode_State` the current state, and
dumps the frame. -/
theorem C16_S3_interval_base_time_nak_skips (d : Driver) (rddata : List Nat) (sz : Nat)
    (now : Int) (cc : Nat)
    (h0 : rddata[0]? = some 0x15) (h1 : rddata[1]? = some 0x02) (h2 : rddata[2]? = some 0x01)
    (h3 : rddata[3]? = some cc)
    (hreg : registeredAs d StateClass.TransmitDeviceComponentInformation_VendorCode_State = true) :
    ∃ d1 p, GetIntervalBaseTimeState_Update d rddata sz now = some d1 ∧
      d1.logFile = d.logFile ++
        [LogEntry.text ("Fail with error message: " ++ GetErrorMessage cc ++ "\n"),
         LogEntry.text ("Fail with error message: " ++ GetErrorMessage cc ++ "\n" ++
           "Skip to TransmitDeviceComponentInformation_VendorCode_State.\n"),
         LogEntry.hexdump rddata] ∧
      d1.ctx.m_state = some p ∧
      d1.cls p = StateClass.TransmitDeviceComponentInformation_VendorCode_State ∧
      d1.written = d.written := by
  obtain ⟨p, hcur, hcls, _⟩ := TransitionToNew_current
    ((d.LogFile ("Fail with error message: " ++ GetErrorMessage cc ++ "\n")).LogFile
      ("Fail with error message: " ++ GetErrorMessage cc ++ "\n" ++
        "Skip to TransmitDeviceComponentInformation_VendorCode_State.\n"))
    StateClass.TransmitDeviceComponentInformation_VendorCode_State now hreg
  refine ⟨((((d.LogFile ("Fail with error message: " ++ GetErrorMessage cc ++ "\n")).LogFile
      ("Fail with error message: " ++ GetErrorMessage cc ++ "\n" ++
        "Skip to TransmitDeviceComponentInformation_VendorCode_State.\n")).TransitionToNew
      StateClass.TransmitDeviceComponentInformation_VendorCode_State now).PrintData rddata),
    p, ?_, ?_, hcur, hcls, rfl⟩
  · simp only [GetIntervalBaseTimeState_Update,
      header3_false rddata 0x06 0x02 0x02 0x15 h0 (by decide), header3_true rddata _ _ _ h0 h1 h2,
      h3]
  · simp [Driver.PrintData, Driver.TransitionToNew, make_shared, Driver.LogFile]

/-- C16 after scenario S2, on the frame 15 02 01 12 D8: the log shows "Frame
Not Supported". -/
theorem C16_S3_interval_base_time_nak_skips_witness :
    GetErrorMessage 0x12 = "Frame Not Supported" ∧
    afterS2.written = [[0x10, 0x01, 0x19, 0xd6], [0x10, 0x02, 0x02, 0xff, 0xed]] ∧
    ∃ d1 p, GetIntervalBaseTimeState_Update afterS2 [0x15, 0x02, 0x01, 0x12, 0xD8] 5 180 =
        some d1 ∧
      d1.logFile = afterS2.logFile ++
        [LogEntry.text ("Fail with error message: " ++ GetErrorMessage 0x12 ++ "\n"),
         LogEntry.text ("Fail with error message: " ++ GetErrorMessage 0x12 ++ "\n" ++
           "Skip to TransmitDeviceComponentInformation_VendorCode_State.\n"),
         LogEntry.hexdump [0x15, 0x02, 0x01, 0x12, 0xD8]] ∧
      d1.ctx.m_state = some p ∧
      d1.cls p = StateClass.TransmitDeviceComponentInformation_VendorCode_State ∧
      d1.written = afterS2.written :=
  ⟨by decide, by decide,
    C16_S3_interval_base_time_nak_skips afterS2 [0x15, 0x02, 0x01, 0x12, 0xD8] 5 180 0x12
      (by decide) (by decide) (by decide) (by decide) (by decide)⟩

theorem getElem?_of_later {rddata : List Nat} {i j x : Nat} (h : rddata[j]? = some x)
    (hij : i ≤ j) : ∃ y, rddata[i]? = some y := by
  have hj : j < rddata.length := by
    by_contra hn
    rw [List.getElem?_eq_none (by omega)] at h
    exact Option.noConfusion h
  exact ⟨rddata[i], List.getElem?_eq_getElem (by omega)⟩

theorem land_0x40_ne_zero (msw : Nat) (h : msw.testBit 6 = true) : msw &&& 0x40 ≠ 0 := by
  intro h0
  have : (msw &&& 0x40).testBit 6 = true := by
    rw [Nat.testBit_land, h]; decide
  rw [h0] at this
  simp at this

set_option maxRecDepth 100000 in
theorem land_0xde_ne_zero_iff : ∀ hsp, hsp < 256 → ((hsp &&& 0xde ≠ 0) ↔
    (hsp.testBit 1 = true ∨ hsp.testBit 2 = true ∨ hsp.testBit 3 = true ∨
     hsp.testBit 4 = true ∨ hsp.testBit 6 = true ∨ hsp.testBit 7 = true)) := by
  decide

/-- C18 (scenario S4): when `TransmitPatientData_120E_State::Update` receives a
frame with bytes 0 and 1 equal to 06 12 and byte 13 equal to 0x0E, it returns,
the HSP byte of the session is frame byte 7, `needs_external_data` is true
exactly when one of bits 1, 2, 3, 4, 6, 7 of that byte is set, and the other
three session flags are unchanged. -/
theorem C18_S4_patient_data_sets_hsp (d : Driver) (rddata : List Nat) (sz : Nat) (now : Int)
    (hsp : Nat) (h0 : rddata[0]? = some 0x06) (h1 : rddata[1]? = some 0x12)
    (h13 : rddata[13]? = some 0x0e) (h7 : rddata[7]? = some hsp) (hbyte : hsp < 256) :
    ∃ d1, TransmitPatientData_120E_State_Update d rddata sz now = some d1 ∧
      d1.m_bHSP = hsp ∧
      (d1.m_bNeedsExternalData = true ↔
        (hsp.testBit 1 = true ∨ hsp.testBit 2 = true ∨ hsp.testBit 3 = true ∨
         hsp.testBit 4 = true ∨ hsp.testBit 6 = true ∨ hsp.testBit 7 = true)) ∧
      d1.m_bPneumaticsEnabled = d.m_bPneumaticsEnabled ∧
      d1.m_bAutoZeroCondition = d.m_bAutoZeroCondition ∧
      d1.m_bPAIAvailable = d.m_bPAIAvailable := by
  obtain ⟨oms, h12⟩ := getElem?_of_later h13 (show 12 ≤ 13 by decide)
  have hbits := land_0xde_ne_zero_iff hsp hbyte
  simp only [TransmitPatientData_120E_State_Update, header2_true rddata _ _ h0 h1, h13, h7, h12,
    if_true]
  by_cases hm : hsp &&& 0xde ≠ 0
  · rw [if_pos hm]
    have hiff : (true = true ↔ _) := ⟨fun _ => hbits.mp hm, fun _ => rfl⟩
    split <;> exact ⟨_, rfl, rfl, hiff, rfl, rfl, rfl⟩
  · rw [if_neg hm]
    have hiff : (false = true ↔ _) :=
      ⟨fun h => Bool.noConfusion h, fun h => absurd (hbits.mpr h) hm⟩
    split <;> exact ⟨_, rfl, rfl, hiff, rfl, rfl, rfl⟩

/-- C18 at the cold-start driver and a frame whose byte 7 is 0xDE. -/
theorem C18_S4_patient_data_sets_hsp_witness :
    ∃ d1, TransmitPatientData_120E_State_Update (ClientCode 0)
        [0x06, 0x12, 0x0c, 0, 0, 0, 0, 0xDE, 0, 0, 0, 0, 0, 0x0e, 0, 0] 16 0 = some d1 ∧
      d1.m_bHSP = 0xDE ∧
      (d1.m_bNeedsExternalData = true ↔
        ((0xDE : Nat).testBit 1 = true ∨ (0xDE : Nat).testBit 2 = true ∨
         (0xDE : Nat).testBit 3 = true ∨ (0xDE : Nat).testBit 4 = true ∨
         (0xDE : Nat).testBit 6 = true ∨ (0xDE : Nat).testBit 7 = true)) ∧
      d1.m_bPneumaticsEnabled = (ClientCode 0).m_bPneumaticsEnabled ∧
      d1.m_bAutoZeroCondition = (ClientCode 0).m_bAutoZeroCondition ∧
      d1.m_bPAIAvailable = (ClientCode 0).m_bPAIAvailable :=
  C18_S4_patient_data_sets_hsp (ClientCode 0)
    [0x06, 0x12, 0x0c, 0, 0, 0, 0, 0xDE, 0, 0, 0, 0, 0, 0x0e, 0, 0] 16 0 0xDE
    (by decide) (by decide) (by decide) (by decide) (by decide)

/-- C19 (scenario S5): when `SuperviseModuleStatus_120B_MSWBit6_State::Update`
receives a frame with bytes 0 and 1 equal to 06 12, byte 13 equal to 0x0B and
bit 6 of byte 3 set, a `SuperviseModuleStatus_120E_MSBit6_State` becomes the
current state and the five session flags are unchanged. -/
theorem C19_S5_watertrap_full (d : Driver) (rddata : List Nat) (sz : Nat) (now : Int)
    (msw : Nat) (h0 : rddata[0]? = some 0x06) (h1 : rddata[1]? = some 0x12)
    (h13 : rddata[13]? = some 0x0b) (h3 : rddata[3]? = some msw)
    (hbit : msw.testBit 6 = true)
    (hreg : registeredAs d StateClass.SuperviseModuleStatus_120E_MSBit6_State = true) :
    ∃ d1 p, SuperviseModuleStatus_120B_MSWBit6_State_Update d rddata sz now = some d1 ∧
      d1.ctx.m_state = some p ∧
      d1.cls p = StateClass.SuperviseModuleStatus_120E_MSBit6_State ∧
      d1.m_bPneumaticsEnabled = d.m_bPneumaticsEnabled ∧
      d1.m_bAutoZeroCondition = d.m_bAutoZeroCondition ∧
      d1.m_bPAIAvailable = d.m_bPAIAvailable ∧
      d1.m_bNeedsExternalData = d.m_bNeedsExternalData ∧
      d1.m_bHSP = d.m_bHSP := by
  obtain ⟨p, hcur, hcls, _⟩ := TransitionToNew_current d
    StateClass.SuperviseModuleStatus_120E_MSBit6_State now hreg
  refine ⟨_, p, ?_, hcur, hcls, rfl, rfl, rfl, rfl, rfl⟩
  simp only [SuperviseModuleStatus_120B_MSWBit6_State_Update, header2_true rddata _ _ h0 h1, h13,
    h3, if_true, land_0x40_ne_zero msw hbit, ne_eq, not_false_eq_true]

/-- C19 at the cold-start driver and a frame whose byte 3 is 0x40. -/
theorem C19_S5_watertrap_full_witness :
    ∃ d1 p, SuperviseModuleStatus_120B_MSWBit6_State_Update (ClientCode 0)
        [0x06, 0x12, 0x0c, 0x40, 0, 0, 0, 0, 0, 0, 0, 0, 0, 0x0b, 0, 0] 16 0 = some d1 ∧
      d1.ctx.m_state = some p ∧
      d1.cls p = StateClass.SuperviseModuleStatus_120E_MSBit6_State ∧
      d1.m_bPneumaticsEnabled = (ClientCode 0).m_bPneumaticsEnabled ∧
      d1.m_bAutoZeroCondition = (ClientCode 0).m_bAutoZeroCondition ∧
      d1.m_bPAIAvailable = (ClientCode 0).m_bPAIAvailable ∧
      d1.m_bNeedsExternalData = (ClientCode 0).m_bNeedsExternalData ∧
      d1.m_bHSP = (ClientCode 0).m_bHSP :=
  C19_S5_watertrap_full (ClientCode 0)
    [0x06, 0x12, 0x0c, 0x40, 0, 0, 0, 0, 0, 0, 0, 0, 0, 0x0b, 0, 0] 16 0 0x40
    (by decide) (by decide) (by decide) (by decide) (by decide) (by decide)

/-! ## Lemmas on `HandleData` -/

/-- A state that is marked as sent does nothing in `HandleData`. -/
theorem Request1_of_sent (d : Driver) (p : Ptr) (now : Int) (bytes_read : Nat)
    (hcur : d.ctx.m_state = some p) (hsent : (d.ctx.heap p).m_bIsAlreadySent = true) :
    Request1 d now bytes_read = some d := by
  simp [Request1, hcur, HandleData, hsent]

theorem ticks_of_sent (ts : List (Int × Nat)) (d : Driver) (p : Ptr)
    (hcur : d.ctx.m_state = some p) (hsent : (d.ctx.heap p).m_bIsAlreadySent = true) :
    ticks d ts = some d := by
  induction ts with
  | nil => rfl
  | cons t rest ih => simp [ticks, Request1_of_sent d p t.1 t.2 hcur hsent, ih]

/-- One `Request1` on a `StopContinuousDataState` that is not marked as sent. -/
theorem Request1_stop (d : Driver) (p : Ptr) (now : Int) (bytes_read : Nat)
    (hcur : d.ctx.m_state = some p) (hcls : d.cls p = StateClass.StopContinuousDataState)
    (hns : (d.ctx.heap p).m_bIsAlreadySent = false) :
    ∃ d1, Request1 d now bytes_read = some d1 ∧ d1.ctx.m_state = some p ∧
      d1.cls p = StateClass.StopContinuousDataState ∧
      (∀ q, q ≠ p → d1.ctx.heap q = d.ctx.heap q) ∧
      (150 ≤ now - d.m_lastTime p →
        d1.written = d.written ++ [[0x10, 0x01, 0x19, 0xd6]] ∧ d1.m_lastTime p = now ∧
        (d1.ctx.heap p).m_bIsAlreadySent = (bytes_read != 0)) ∧
      (now - d.m_lastTime p < 150 →
        d1.written = d.written ∧ d1.m_lastTime p = d.m_lastTime p ∧
        (d1.ctx.heap p).m_bIsAlreadySent = false) := by
  by_cases hgate : 150 ≤ now - d.m_lastTime p
  · obtain ⟨d1, hs, hw, hm, hc, hl, _, hf, hq, _⟩ := SendCmdSync_spec
      { (d.LogFile "Handles StopContinuousData.\n") with
        m_lastTime := fun q => if q = p then now
          else (d.LogFile "Handles StopContinuousData.\n").m_lastTime q }
      p p bytes_read hcur
    refine ⟨d1, ?_, hm, by rw [hc]; exact hcls, hq, fun _ => ⟨?_, ?_, hf⟩, fun h => by omega⟩
    · simp only [Request1, hcur, HandleData, hns, hcls]
      simp only [Driver.LogFile, ge_iff_le, hgate, if_true]
      exact hs
    · rw [hw]
      show d.written ++ [(d.cls p).GetCommand] = _
      rw [hcls]; rfl
    · rw [hl]; simp
  · refine ⟨d.LogFile "Handles StopContinuousData.\n", ?_, hcur, hcls, fun _ _ => rfl,
      fun h => absurd h hgate, fun _ => ⟨rfl, rfl, hns⟩⟩
    simp only [Request1, hcur, HandleData, hns, hcls]
    simp [Driver.LogFile, hgate]

/-- Scenario S1 from any driver whose current state is a `StopContinuousDataState`
not marked as sent, over ticks during which the reader reads nothing. -/
theorem S1_run (p : Ptr) (ts : List Int) :
    ∀ d : Driver, d.ctx.m_state = some p → d.cls p = StateClass.StopContinuousDataState →
      (d.ctx.heap p).m_bIsAlreadySent = false →
      ∃ d1 times, ticks d (ts.map (fun t => (t, 0))) = some d1 ∧
        transmitTimes d ts = some times ∧
        d1.ctx.m_state = some p ∧ d1.cls p = StateClass.StopContinuousDataState ∧
        (d1.ctx.heap p).m_bIsAlreadySent = false ∧
        d1.written = d.written ++ List.replicate times.length [0x10, 0x01, 0x19, 0xd6] ∧
        List.Chain apart150 (d.m_lastTime p) times ∧
        d1.m_lastTime p = times.getLast?.getD (d.m_lastTime p) := by
  induction ts with
  | nil =>
    intro d hcur hcls hns
    exact ⟨d, [], rfl, rfl, hcur, hcls, hns, by simp, List.Chain.nil, rfl⟩
  | cons now rest ih =>
    intro d hcur hcls hns
    obtain ⟨d1, hr, hcur1, hcls1, _, hyes, hno⟩ := Request1_stop d p now 0 hcur hcls hns
    by_cases hgate : 150 ≤ now - d.m_lastTime p
    · obtain ⟨hw, hl, hf⟩ := hyes hgate
      obtain ⟨d2, times, ht, htt, hcur2, hcls2, hns2, hw2, hch, hl2⟩ := ih d1 hcur1 hcls1 hf
      refine ⟨d2, now :: times, ?_, ?_, hcur2, hcls2, hns2, ?_, ?_, ?_⟩
      · simp only [List.map_cons, ticks, hr]; exact ht
      · simp only [transmitTimes, hr, htt, hw, List.length_append, List.length_singleton]
        simp
      · rw [hw2, hw, List.length_cons, List.replicate_succ]; simp
      · rw [hl] at hch
        exact List.Chain.cons hgate hch
      · rw [hl2, hl, List.getLast?_cons]; rfl
    · obtain ⟨hw, hl, hf⟩ := hno (by omega)
      obtain ⟨d2, times, ht, htt, hcur2, hcls2, hns2, hw2, hch, hl2⟩ := ih d1 hcur1 hcls1 hf
      refine ⟨d2, times, ?_, ?_, hcur2, hcls2, hns2, ?_, ?_, ?_⟩
      · simp only [List.map_cons, ticks, hr]; exact ht
      · simp only [transmitTimes, hr, htt, hw]
        simp
      · rw [hw2, hw]
      · rw [hl] at hch; exact hch
      · rw [hl2, hl]

/-- One `Request1` on a state, not marked as sent, whose `HandleData` marks it
as sent and then calls `SendCmd`. -/
theorem Request1_plain (d : Driver) (p : Ptr) (now : Int) (bytes_read : Nat)
    (hcur : d.ctx.m_state = some p) (hns : (d.ctx.heap p).m_bIsAlreadySent = false)
    (hc : d.cls p ∈ plainSenders) :
    ∃ d1, Request1 d now bytes_read = some d1 ∧ d1.ctx.m_state = some p ∧
      (d1.ctx.heap p).m_bIsAlreadySent = true ∧
      d1.written = d.written ++ [(d.cls p).GetCommand] ∧
      (∀ q, q ≠ p → d1.ctx.heap q = d.ctx.heap q) := by
  cases hcl : d.cls p <;> rw [hcl] at hc <;>
    first
    | exact absurd hc (by decide)
    | (simp [Request1, hcur, HandleData, hns, hcl, SendCmd, Driver.LogFile, SetAlreadySent]
       intro q hq
       simp [hq])

/-- One `Request1` on a state, not marked as sent, whose command is empty: its
`HandleData` marks it as sent and then only registers. -/
theorem Request1_subscriber (d : Driver) (p : Ptr) (now : Int) (bytes_read : Nat)
    (hcur : d.ctx.m_state = some p) (hns : (d.ctx.heap p).m_bIsAlreadySent = false)
    (hc : (d.cls p).GetCommand = []) :
    ∃ d1, Request1 d now bytes_read = some d1 ∧ d1.ctx.m_state = some p ∧
      (d1.ctx.heap p).m_bIsAlreadySent = true ∧ d1.written = d.written ∧
      (∀ q, q ≠ p → d1.ctx.heap q = d.ctx.heap q) := by
  cases hcl : d.cls p <;> rw [hcl] at hc <;>
    first
    | exact absurd hc (by decide)
    | (simp [Request1, hcur, HandleData, hns, hcl, Register, AttachNeedResponse, SetAlreadySent]
       intro q hq
       simp [hq])

/-- One `Request1` on a `GetIntervalBaseTimeState`, a vendor-code state or a
`HandleZeroRequestState` that is not marked as sent. -/
theorem Request1_sync (d : Driver) (p : Ptr) (now : Int) (bytes_read : Nat)
    (hcur : d.ctx.m_state = some p) (hns : (d.ctx.heap p).m_bIsAlreadySent = false)
    (hc : d.cls p = StateClass.GetIntervalBaseTimeState ∨
      d.cls p = StateClass.TransmitDeviceComponentInformation_VendorCode_State ∨
      d.cls p = StateClass.HandleZeroRequestState) :
    ∃ d1, Request1 d now bytes_read = some d1 ∧ d1.ctx.m_state = some p ∧
      (d1.ctx.heap p).m_bIsAlreadySent = (bytes_read != 0) ∧
      d1.written = d.written ++ [(d.cls p).GetCommand] ∧
      (∀ q, q ≠ p → d1.ctx.heap q = d.ctx.heap q) ∧ d1.cls = d.cls := by
  rcases hc with hc | hc | hc
  · obtain ⟨d1, hs, hw, hm, hcl, _, _, hf, hq, _⟩ := SendCmdSync_spec
      (d.LogFile "Handles GetIntervalBaseTimeState.\n") p p bytes_read hcur
    refine ⟨d1, ?_, hm, hf, hw, hq, hcl⟩
    simp only [Request1, hcur, HandleData, hns, hc]
    exact hs
  · obtain ⟨d1, hs, hw, hm, hcl, _, _, hf, hq, _⟩ := SendCmdSync_spec
      (d.LogFile "Handles TransmitDeviceComponentInformation_VendorCode_State.\n") p p
      bytes_read hcur
    refine ⟨d1, ?_, hm, hf, hw, hq, hcl⟩
    simp only [Request1, hcur, HandleData, hns, hc]
    exact hs
  · have hcur1 : ({ d with ctx := SetAlreadySent d.ctx p true } : Driver).ctx.m_state =
        some p := hcur
    obtain ⟨d1, hs, hw, hm, hcl, _, _, hf, hq, _⟩ := SendCmdSync_spec
      { d with ctx := SetAlreadySent d.ctx p true } p p bytes_read hcur1
    refine ⟨d1, ?_, hm, hf, hw, fun q hne => ?_, hcl⟩
    · simp only [Request1, hcur, HandleData, hns, hc]
      exact hs
    · rw [hq q hne]; simp [SetAlreadySent, hne]

/-- Consecutive `Request1` calls on a `GetIntervalBaseTimeState`, a vendor-code
state or a `HandleZeroRequestState`, none of whose waits ends with a read that
returned bytes: every call writes the command. -/
theorem sync_repeats (p : Ptr) (ts : List (Int × Nat)) (hz : ∀ t ∈ ts, t.2 = 0) :
    ∀ d : Driver, d.ctx.m_state = some p → (d.ctx.heap p).m_bIsAlreadySent = false →
      (d.cls p = StateClass.GetIntervalBaseTimeState ∨
        d.cls p = StateClass.TransmitDeviceComponentInformation_VendorCode_State ∨
        d.cls p = StateClass.HandleZeroRequestState) →
      ∃ d1, ticks d ts = some d1 ∧
        d1.written = d.written ++ List.replicate ts.length (d.cls p).GetCommand := by
  induction ts with
  | nil => intro d _ _ _; exact ⟨d, rfl, by simp⟩
  | cons t rest ih =>
    intro d hcur hns hc
    obtain ⟨d1, hr, hcur1, hf, hw, _, hcl⟩ := Request1_sync d p t.1 t.2 hcur hns hc
    have ht : t.2 = 0 := hz t (by simp)
    rw [ht] at hf
    obtain ⟨d2, ht2, hw2⟩ := ih (fun u hu => hz u (by simp [hu])) d1 hcur1 hf (by rw [hcl]; exact hc)
    refine ⟨d2, by simp only [ticks, hr]; exact ht2, ?_⟩
    rw [hw2, hw, hcl, List.length_cons, List.replicate_succ]
    simp

/-- One `Request1` on a `MeasurementModeState` that is not marked as sent. -/
theorem Request1_measurement (d : Driver) (p : Ptr) (now : Int) (bytes_read : Nat)
    (hcur : d.ctx.m_state = some p) (hns : (d.ctx.heap p).m_bIsAlreadySent = false)
    (hc : d.cls p = StateClass.MeasurementModeState) :
    ∃ d1, Request1 d now bytes_read = some d1 ∧ d1.ctx.m_state = some p ∧
      (d1.ctx.heap p).m_bIsAlreadySent = true ∧
      (d1.written = d.written ∨ d1.written = d.written ++ [(d.cls p).GetCommand]) ∧
      (∀ q, q ≠ p → d1.ctx.heap q = d.ctx.heap q) := by
  simp only [Request1, hcur, HandleData, hns, hc, Bool.false_eq_true, if_false]
  by_cases hgate : 1000 ≤ now - d.m_lastTime p
  · rw [if_pos hgate]
    refine ⟨_, rfl, hcur, by simp [SendCmd, SetAlreadySent], Or.inr ?_, ?_⟩
    · simp [SendCmd, hc]
    · intro q hq; simp [SendCmd, SetAlreadySent, hq]
  · rw [if_neg hgate]
    refine ⟨_, rfl, hcur, by simp [SetAlreadySent], Or.inl rfl, ?_⟩
    intro q hq; simp [SetAlreadySent, hq]

/-- One `Request1` on a `MeasurementModeState` that is not marked as sent. -/
theorem Request1_measurement_gate (d : Driver) (p : Ptr) (now : Int) (bytes_read : Nat)
    (hcur : d.ctx.m_state = some p) (hns : (d.ctx.heap p).m_bIsAlreadySent = false)
    (hc : d.cls p = StateClass.MeasurementModeState) :
    ∃ d1, Request1 d now bytes_read = some d1 ∧
      (∀ q, q ≠ p → d1.ctx.heap q = d.ctx.heap q) ∧
      (1000 ≤ now - d.m_lastTime p →
        d1.written = d.written ++ [(d.cls p).GetCommand] ∧
        (d1.ctx.heap p).m_bIsAlreadySent = true) := by
  simp only [Request1, hcur, HandleData, hns, hc, Bool.false_eq_true, if_false]
  by_cases hgate : 1000 ≤ now - d.m_lastTime p
  · rw [if_pos hgate]
    refine ⟨_, rfl, ?_, fun _ => ⟨by simp [SendCmd, hc], by simp [SendCmd, SetAlreadySent]⟩⟩
    intro q hq; simp [SendCmd, SetAlreadySent, hq]
  · rw [if_neg hgate]
    refine ⟨_, rfl, ?_, fun h => absurd h hgate⟩
    intro q hq; simp [SetAlreadySent, hq]

/-! ## The claims on sending -/

/-- C17, as stated, fails: after a cold start at clock 0 the tick at 150 ms
transmits, and the read that ends its wait returns the single byte FF, from
which the reader loop dispatches nothing; the state is marked as sent, and the
ticks at 300 ms and 450 ms transmit nothing although no frame was delivered and
150 ms have passed each time. -/
theorem C17_bytes_without_frame_end_the_retries :
    (HandleResponseThread_iteration Reader.init [0xFF]).map (fun r => r.2) = some [] ∧
    (ticks (ClientCode 0) [(150, 1)]).map
        (fun d => (d.written, (d.ctx.heap 1).m_bIsAlreadySent)) =
      some ([[0x10, 0x01, 0x19, 0xd6]], true) ∧
    (ticks (ClientCode 0) [(150, 1), (300, 0), (450, 0)]).map
        (fun d => (d.written, d.ctx.m_state.map d.cls)) =
      some ([[0x10, 0x01, 0x19, 0xd6]], some StateClass.StopContinuousDataState) := by
  decide

/-- C17, amended (scenario S1): while the reader reads no byte, for every
sequence of ticks on a current `StopContinuousDataState` that is not marked as
sent, every tick returns, the state stays current, everything written is the
command 10 01 19 D6, the clock readings of the transmissions are at least
150 ms apart (the first at least 150 ms after the time stored in `m_lastTime`),
`m_lastTime` holds the reading of the last transmission, and the next tick
transmits exactly when the clock is at least 150 ms past it; if the read that
ends the wait of that transmission returns bytes, no later tick transmits. -/
theorem C17_S1_stop_retransmits_every_150ms (d : Driver) (p : Ptr) (ts : List Int)
    (hcur : d.ctx.m_state = some p) (hcls : d.cls p = StateClass.StopContinuousDataState)
    (hns : (d.ctx.heap p).m_bIsAlreadySent = false) :
    ∃ d1 times, ticks d (ts.map (fun t => (t, 0))) = some d1 ∧
      transmitTimes d ts = some times ∧
      d1.ctx.m_state = some p ∧ d1.cls p = StateClass.StopContinuousDataState ∧
      d1.written = d.written ++ List.replicate times.length [0x10, 0x01, 0x19, 0xd6] ∧
      List.Chain apart150 (d.m_lastTime p) times ∧
      d1.m_lastTime p = times.getLast?.getD (d.m_lastTime p) ∧
      ∀ (now : Int) (bytes_read : Nat), ∃ d2, Request1 d1 now bytes_read = some d2 ∧
        d2.ctx.m_state = some p ∧ d2.cls p = StateClass.StopContinuousDataState ∧
        (150 ≤ now - d1.m_lastTime p → d2.written = d1.written ++ [[0x10, 0x01, 0x19, 0xd6]]) ∧
        (now - d1.m_lastTime p < 150 → d2.written = d1.written) ∧
        (150 ≤ now - d1.m_lastTime p → bytes_read ≠ 0 →
          ∀ us : List (Int × Nat), ticks d2 us = some d2) := by
  obtain ⟨d1, times, ht, htt, hcur1, hcls1, hns1, hw, hch, hl⟩ := S1_run p ts d hcur hcls hns
  refine ⟨d1, times, ht, htt, hcur1, hcls1, hw, hch, hl, fun now bytes_read => ?_⟩
  obtain ⟨d2, hr, hcur2, hcls2, _, hyes, hno⟩ :=
    Request1_stop d1 p now bytes_read hcur1 hcls1 hns1
  refine ⟨d2, hr, hcur2, hcls2, fun h => (hyes h).1, fun h => (hno h).1, fun h hb us => ?_⟩
  refine ticks_of_sent us d2 p hcur2 ?_
  rw [(hyes h).2.2]
  simpa using hb

/-- C17, amended, at the cold start at clock 0, ticks at 10, 150, 200, 300 and
450 ms. -/
theorem C17_S1_stop_retransmits_every_150ms_witness :
    ∃ d1 times, ticks (ClientCode 0) ([10, 150, 200, 300, 450].map (fun t => (t, 0))) = some d1 ∧
      transmitTimes (ClientCode 0) [10, 150, 200, 300, 450] = some times ∧
      d1.ctx.m_state = some 1 ∧ d1.cls 1 = StateClass.StopContinuousDataState ∧
      d1.written = (ClientCode 0).written ++ List.replicate times.length [0x10, 0x01, 0x19, 0xd6] ∧
      List.Chain apart150 ((ClientCode 0).m_lastTime 1) times ∧
      d1.m_lastTime 1 = times.getLast?.getD ((ClientCode 0).m_lastTime 1) ∧
      ∀ (now : Int) (bytes_read : Nat), ∃ d2, Request1 d1 now bytes_read = some d2 ∧
        d2.ctx.m_state = some 1 ∧ d2.cls 1 = StateClass.StopContinuousDataState ∧
        (150 ≤ now - d1.m_lastTime 1 → d2.written = d1.written ++ [[0x10, 0x01, 0x19, 0xd6]]) ∧
        (now - d1.m_lastTime 1 < 150 → d2.written = d1.written) ∧
        (150 ≤ now - d1.m_lastTime 1 → bytes_read ≠ 0 →
          ∀ us : List (Int × Nat), ticks d2 us = some d2) :=
  C17_S1_stop_retransmits_every_150ms (ClientCode 0) 1 [10, 150, 200, 300, 450]
    (by decide) (by decide) (by decide)

/-- C11, as stated, fails: after a cold start at clock 0, one `handle()` call on
the single-shot `StopContinuousDataState` at 10 ms hands nothing to the
transport, and two consecutive calls at 150 ms and 300 ms, with no data
arriving, hand its command over twice. -/
theorem C11_sync_send_repeats :
    ((ClientCode 0).ctx.heap 1).IsSingleCommand = true ∧
    (ticks (ClientCode 0) [(10, 0)]).map Driver.written = some [] ∧
    (ticks (ClientCode 0) [(150, 0), (300, 0)]).map Driver.written =
      some [[0x10, 0x01, 0x19, 0xd6], [0x10, 0x01, 0x19, 0xd6]] := by
  decide

/-- C11, amended: for a current state not yet marked as sent, (1) if its
`HandleData` marks it as sent before a plain send (21 classes), any `n >= 1`
consecutive calls write its command exactly once; (2) if its command is empty
(28 classes), no number of calls writes anything; (3) a `MeasurementModeState`
writes its command at most once over any number of calls; (4) a
`GetIntervalBaseTimeState`, vendor-code state or `HandleZeroRequestState` writes
its command in the call and is marked as sent exactly when the read that ended
the wait returned bytes, so that calls during which no byte is read write the
command every time; (5) a `StopContinuousDataState` does the same when the clock
is at least 150 ms past `m_lastTime`, and otherwise writes nothing and stays
unsent; (6) every class is of one of these kinds. -/
theorem C11_sends_per_class (d : Driver) (p : Ptr)
    (hcur : d.ctx.m_state = some p) (hns : (d.ctx.heap p).m_bIsAlreadySent = false) :
    (d.cls p ∈ plainSenders →
      ∀ ts : List (Int × Nat), ts ≠ [] →
        ∃ d1, ticks d ts = some d1 ∧ d1.written = d.written ++ [(d.cls p).GetCommand]) ∧
    ((d.cls p).GetCommand = [] →
      ∀ ts : List (Int × Nat), ∃ d1, ticks d ts = some d1 ∧ d1.written = d.written) ∧
    (d.cls p = StateClass.MeasurementModeState →
      ∀ ts : List (Int × Nat),
        ∃ d1, ticks d ts = some d1 ∧
          (d1.written = d.written ∨ d1.written = d.written ++ [(d.cls p).GetCommand])) ∧
    ((d.cls p = StateClass.GetIntervalBaseTimeState ∨
      d.cls p = StateClass.TransmitDeviceComponentInformation_VendorCode_State ∨
      d.cls p = StateClass.HandleZeroRequestState) →
      (∀ (now : Int) (bytes_read : Nat),
        ∃ d1, Request1 d now bytes_read = some d1 ∧ d1.ctx.m_state = some p ∧
          d1.written = d.written ++ [(d.cls p).GetCommand] ∧
          (d1.ctx.heap p).m_bIsAlreadySent = (bytes_read != 0)) ∧
      (∀ ts : List (Int × Nat), (∀ t ∈ ts, t.2 = 0) →
        ∃ d1, ticks d ts = some d1 ∧
          d1.written = d.written ++ List.replicate ts.length (d.cls p).GetCommand)) ∧
    (d.cls p = StateClass.StopContinuousDataState →
      ∀ (now : Int) (bytes_read : Nat),
        ∃ d1, Request1 d now bytes_read = some d1 ∧ d1.ctx.m_state = some p ∧
          (150 ≤ now - d.m_lastTime p →
            d1.written = d.written ++ [(d.cls p).GetCommand] ∧
            (d1.ctx.heap p).m_bIsAlreadySent = (bytes_read != 0)) ∧
          (now - d.m_lastTime p < 150 →
            d1.written = d.written ∧ (d1.ctx.heap p).m_bIsAlreadySent = false)) ∧
    (∀ c : StateClass, c ∈ plainSenders ∨ c.GetCommand = [] ∨
      c = StateClass.MeasurementModeState ∨ c = StateClass.GetIntervalBaseTimeState ∨
      c = StateClass.TransmitDeviceComponentInformation_VendorCode_State ∨
      c = StateClass.HandleZeroRequestState ∨ c = StateClass.StopContinuousDataState) := by
  refine ⟨fun hc ts hts => ?_, fun hc ts => ?_, fun hc ts => ?_, fun hc => ⟨fun now bytes_read => ?_,
    fun ts hz => ?_⟩, fun hc now bytes_read => ?_, fun c => ?_⟩
  · cases ts with
    | nil => exact absurd rfl hts
    | cons t rest =>
      obtain ⟨d1, hr, hcur1, hs1, hw, _⟩ := Request1_plain d p t.1 t.2 hcur hns hc
      exact ⟨d1, by simp [ticks, hr, ticks_of_sent rest d1 p hcur1 hs1], hw⟩
  · cases ts with
    | nil => exact ⟨d, rfl, rfl⟩
    | cons t rest =>
      obtain ⟨d1, hr, hcur1, hs1, hw, _⟩ := Request1_subscriber d p t.1 t.2 hcur hns hc
      exact ⟨d1, by simp [ticks, hr, ticks_of_sent rest d1 p hcur1 hs1], hw⟩
  · cases ts with
    | nil => exact ⟨d, rfl, Or.inl rfl⟩
    | cons t rest =>
      obtain ⟨d1, hr, hcur1, hs1, hw, _⟩ := Request1_measurement d p t.1 t.2 hcur hns hc
      exact ⟨d1, by simp [ticks, hr, ticks_of_sent rest d1 p hcur1 hs1], hw⟩
  · obtain ⟨d1, hr, hcur1, hf, hw, _⟩ := Request1_sync d p now bytes_read hcur hns hc
    exact ⟨d1, hr, hcur1, hw, hf⟩
  · exact sync_repeats p ts hz d hcur hns hc
  · obtain ⟨d1, hr, hcur1, _, _, hyes, hno⟩ := Request1_stop d p now bytes_read hcur hc hns
    refine ⟨d1, hr, hcur1, fun h => ⟨?_, (hyes h).2.2⟩, fun h => ⟨(hno h).1, (hno h).2.2⟩⟩
    rw [(hyes h).1, hc]; rfl
  · cases c <;> decide

/-- C11, amended, on a serial-number state (three consecutive calls write its
command once) and on a `HandleZeroRequestState` (three consecutive calls during
which no byte is read write its command three times). -/
theorem C11_sends_per_class_witness :
    (onSerialNumber.ctx.m_state = some 2 ∧
      ∃ d1, ticks onSerialNumber [(0, 0), (1, 0), (2, 0)] = some d1 ∧
        d1.written = onSerialNumber.written ++ [(onSerialNumber.cls 2).GetCommand]) ∧
    ((onState StateClass.HandleZeroRequestState).ctx.m_state = some 2 ∧
      ∃ d1, ticks (onState StateClass.HandleZeroRequestState) [(0, 0), (1, 0), (2, 0)] =
          some d1 ∧
        d1.written = (onState StateClass.HandleZeroRequestState).written ++
          List.replicate [((0 : Int), 0), (1, 0), (2, 0)].length
            ((onState StateClass.HandleZeroRequestState).cls 2).GetCommand) :=
  ⟨⟨by decide,
    (C11_sends_per_class onSerialNumber 2 (by decide) (by decide)).1 (by decide)
      [(0, 0), (1, 0), (2, 0)] (by decide)⟩,
   ⟨by decide,
    ((C11_sends_per_class (onState StateClass.HandleZeroRequestState) 2 (by decide)
      (by decide)).2.2.2.1 (Or.inr (Or.inr (by decide)))).2 [(0, 0), (1, 0), (2, 0)]
      (by decide)⟩⟩

/-- Whatever the class of the current state, `Request1` returns and changes no
other state object. -/
theorem Request1_total (d : Driver) (p : Ptr) (now : Int) (bytes_read : Nat)
    (hcur : d.ctx.m_state = some p) :
    ∃ d1, Request1 d now bytes_read = some d1 ∧
      (∀ q, q ≠ p → d1.ctx.heap q = d.ctx.heap q) := by
  cases hf : (d.ctx.heap p).m_bIsAlreadySent with
  | true => exact ⟨d, Request1_of_sent d p now bytes_read hcur hf, fun _ _ => rfl⟩
  | false =>
    cases hc : d.cls p
    case StopContinuousDataState =>
      obtain ⟨d1, hr, _, _, hq, _⟩ := Request1_stop d p now bytes_read hcur hc hf
      exact ⟨d1, hr, hq⟩
    case GetIntervalBaseTimeState =>
      obtain ⟨d1, hr, _, _, _, hq, _⟩ := Request1_sync d p now bytes_read hcur hf (Or.inl hc)
      exact ⟨d1, hr, hq⟩
    case TransmitDeviceComponentInformation_VendorCode_State =>
      obtain ⟨d1, hr, _, _, _, hq, _⟩ := Request1_sync d p now bytes_read hcur hf
        (Or.inr (Or.inl hc))
      exact ⟨d1, hr, hq⟩
    case MeasurementModeState =>
      obtain ⟨d1, hr, _, _, _, hq⟩ := Request1_measurement d p now bytes_read hcur hf hc
      exact ⟨d1, hr, hq⟩
    case HandleZeroRequestState =>
      have hcur1 : ({ d with ctx := SetAlreadySent d.ctx p true } : Driver).ctx.m_state =
          some p := hcur
      obtain ⟨d1, hs, _, _, _, _, _, _, hq, _⟩ := SendCmdSync_spec
        { d with ctx := SetAlreadySent d.ctx p true } p p bytes_read hcur1
      refine ⟨d1, ?_, fun q hne => ?_⟩
      · simp only [Request1, hcur, HandleData, hf, hc]
        exact hs
      · rw [hq q hne]; simp [SetAlreadySent, hne]
    all_goals
      simp [Request1, hcur, HandleData, hf, hc, SendCmd, Driver.LogFile, Register,
        AttachNeedResponse, SetAlreadySent]
      intro q hq
      simp [hq]

/-- Every class is of exactly one of four kinds: it sends plainly, it sends
synchronously, it is `MeasurementModeState`, or its command is empty. -/
theorem StateClass_kinds (c : StateClass) :
    (c ∈ plainSenders ∨ c ∈ syncSenders ∨ c = StateClass.MeasurementModeState ∨
      c.GetCommand = []) ∧
    (c ∈ plainSenders →
      c ∉ syncSenders ∧ c ≠ StateClass.MeasurementModeState ∧ c.GetCommand ≠ []) ∧
    (c ∈ syncSenders → c ≠ StateClass.MeasurementModeState ∧ c.GetCommand ≠ []) ∧
    (c = StateClass.MeasurementModeState → c.GetCommand ≠ []) := by
  cases c <;> decide

/-- C12, as stated, fails twice: after a cold start at clock 0, the `handle()`
call at 150 ms during which no data arrives hands the command of the
`StopContinuousDataState` to the transport and leaves it not marked as sent; and
the first `handle()` call on a `SelectTheAnestheticAgentState` marks it as sent
without handing anything to the transport. -/
theorem C12_flag_does_not_follow_the_send :
    (Request1 (ClientCode 0) 150 0).map
        (fun d => (d.written, (d.ctx.heap 1).m_bIsAlreadySent)) =
      some ([[0x10, 0x01, 0x19, 0xd6]], false) ∧
    onSelectAgent.ctx.m_state = some 2 ∧
    (onSelectAgent.ctx.heap 2).m_bIsAlreadySent = false ∧
    (Request1 onSelectAgent 0 0).map
        (fun d => (d.written, (d.ctx.heap 2).m_bIsAlreadySent)) =
      some ([], true) := by
  decide

/-- C12, amended: a `handle()` call on the current state `p` returns and changes
no other state object; on a state already marked as sent it writes nothing and
leaves the mark, so the mark is never taken back; on a state not yet marked, a
class that sends plainly (21 classes) writes its command and is marked, a class
whose command is empty (28 classes) writes nothing and is marked, a class that
sends synchronously (4 classes) writes its command and is marked exactly when
the read that ended the wait returned bytes, save that a
`StopContinuousDataState` writes nothing and stays unmarked before its 150 ms
have passed, and a `MeasurementModeState` whose 1000 ms have passed writes its
command and is marked.  Making a new state and transitioning changes the mark
of no existing object, and every class is of one of these kinds. -/
theorem C12_already_sent_per_class (d : Driver) (p : Ptr) (now : Int) (bytes_read : Nat)
    (hcur : d.ctx.m_state = some p) :
    (∃ d1, Request1 d now bytes_read = some d1 ∧
      (∀ q, q ≠ p → d1.ctx.heap q = d.ctx.heap q) ∧
      ((d.ctx.heap p).m_bIsAlreadySent = true →
        d1.written = d.written ∧ (d1.ctx.heap p).m_bIsAlreadySent = true) ∧
      ((d.ctx.heap p).m_bIsAlreadySent = false →
        (d.cls p ∈ plainSenders →
          d1.written = d.written ++ [(d.cls p).GetCommand] ∧
          (d1.ctx.heap p).m_bIsAlreadySent = true) ∧
        ((d.cls p).GetCommand = [] →
          d1.written = d.written ∧ (d1.ctx.heap p).m_bIsAlreadySent = true) ∧
        (d.cls p ∈ syncSenders →
          ((d.cls p = StateClass.StopContinuousDataState ∧ now - d.m_lastTime p < 150) ∧
            d1.written = d.written ∧ (d1.ctx.heap p).m_bIsAlreadySent = false) ∨
          (d1.written = d.written ++ [(d.cls p).GetCommand] ∧
            (d1.ctx.heap p).m_bIsAlreadySent = (bytes_read != 0))) ∧
        (d.cls p = StateClass.MeasurementModeState → 1000 ≤ now - d.m_lastTime p →
          d1.written = d.written ++ [(d.cls p).GetCommand] ∧
          (d1.ctx.heap p).m_bIsAlreadySent = true))) ∧
    (∀ (c : StateClass) (t : Int) (q : Ptr), q ≠ d.allocated →
      ((d.TransitionToNew c t).ctx.heap q).m_bIsAlreadySent =
        (d.ctx.heap q).m_bIsAlreadySent) ∧
    (∀ c : StateClass, c ∈ plainSenders ∨ c.GetCommand = [] ∨ c ∈ syncSenders ∨
      c = StateClass.MeasurementModeState) := by
  refine ⟨?_, ?_, ?_⟩
  · cases hf : (d.ctx.heap p).m_bIsAlreadySent with
    | true =>
      exact ⟨d, Request1_of_sent d p now bytes_read hcur hf, fun _ _ => rfl,
        fun _ => ⟨rfl, hf⟩, fun h => Bool.noConfusion h⟩
    | false =>
      obtain ⟨_, hk1, hk2, hk3⟩ := StateClass_kinds (d.cls p)
      rcases (StateClass_kinds (d.cls p)).1 with hc | hc | hc | hc
      · obtain ⟨d1, hr, _, hs, hw, hq⟩ := Request1_plain d p now bytes_read hcur hf hc
        exact ⟨d1, hr, hq, fun h => Bool.noConfusion h, fun _ => ⟨fun _ => ⟨hw, hs⟩,
          fun h => absurd h (hk1 hc).2.2, fun h => absurd h (hk1 hc).1,
          fun h => absurd h (hk1 hc).2.1⟩⟩
      · have hsync : d.cls p = StateClass.StopContinuousDataState ∨
            (d.cls p = StateClass.GetIntervalBaseTimeState ∨
              d.cls p = StateClass.TransmitDeviceComponentInformation_VendorCode_State ∨
              d.cls p = StateClass.HandleZeroRequestState) := by
          simpa [syncSenders] using hc
        rcases hsync with hstop | hrest
        · obtain ⟨d1, hr, _, _, hq, hyes, hno⟩ :=
            Request1_stop d p now bytes_read hcur hstop hf
          refine ⟨d1, hr, hq, fun h => Bool.noConfusion h, fun _ => ⟨
            fun h => absurd hc (hk1 h).1, fun h => absurd h (hk2 hc).2, fun _ => ?_,
            fun h => absurd h (hk2 hc).1⟩⟩
          by_cases hgate : 150 ≤ now - d.m_lastTime p
          · exact Or.inr ⟨by rw [(hyes hgate).1, hstop]; rfl, (hyes hgate).2.2⟩
          · exact Or.inl ⟨⟨hstop, by omega⟩, (hno (by omega)).1, (hno (by omega)).2.2⟩
        · obtain ⟨d1, hr, _, hs, hw, hq, _⟩ := Request1_sync d p now bytes_read hcur hf hrest
          exact ⟨d1, hr, hq, fun h => Bool.noConfusion h, fun _ => ⟨
            fun h => absurd hc (hk1 h).1, fun h => absurd h (hk2 hc).2,
            fun _ => Or.inr ⟨hw, hs⟩, fun h => absurd h (hk2 hc).1⟩⟩
      · obtain ⟨d1, hr, hq, hgate⟩ := Request1_measurement_gate d p now bytes_read hcur hf hc
        exact ⟨d1, hr, hq, fun h => Bool.noConfusion h, fun _ => ⟨
          fun h => absurd hc (hk1 h).2.1, fun h => absurd h (hk3 hc),
          fun h => absurd hc (hk2 h).1, fun _ => hgate⟩⟩
      · obtain ⟨d1, hr, _, hs, hw, hq⟩ := Request1_subscriber d p now bytes_read hcur hf hc
        exact ⟨d1, hr, hq, fun h => Bool.noConfusion h, fun _ => ⟨
          fun h => absurd hc (hk1 h).2.2, fun _ => ⟨hw, hs⟩,
          fun h => absurd hc (hk2 h).2, fun h => absurd hc (hk3 h)⟩⟩
  · intro c t q hq
    rw [(TransitionToNew_spec d c t).2.2.2.2.2.2.2.2.1]
    simp [hq]
  · intro c
    cases c <;> decide

/-- C12, amended, at the cold start and a tick at 150 ms with no data (the
command is written and the state stays unmarked), and on a
`HandleZeroRequestState` whose wait ends with a read of four bytes (the command
is written and the state is marked). -/
theorem C12_already_sent_per_class_witness :
    (∃ d1, Request1 (ClientCode 0) 150 0 = some d1 ∧
      ((((ClientCode 0).cls 1 = StateClass.StopContinuousDataState ∧
          150 - (ClientCode 0).m_lastTime 1 < 150) ∧
        d1.written = (ClientCode 0).written ∧ (d1.ctx.heap 1).m_bIsAlreadySent = false) ∨
       (d1.written = (ClientCode 0).written ++ [((ClientCode 0).cls 1).GetCommand] ∧
        (d1.ctx.heap 1).m_bIsAlreadySent = (0 != 0)))) ∧
    (∃ d1, Request1 (onState StateClass.HandleZeroRequestState) 0 4 = some d1 ∧
      ((((onState StateClass.HandleZeroRequestState).cls 2 =
            StateClass.StopContinuousDataState ∧
          0 - (onState StateClass.HandleZeroRequestState).m_lastTime 2 < 150) ∧
        d1.written = (onState StateClass.HandleZeroRequestState).written ∧
        (d1.ctx.heap 2).m_bIsAlreadySent = false) ∨
       (d1.written = (onState StateClass.HandleZeroRequestState).written ++
          [((onState StateClass.HandleZeroRequestState).cls 2).GetCommand] ∧
        (d1.ctx.heap 2).m_bIsAlreadySent = (4 != 0)))) :=
  ⟨(C12_already_sent_per_class (ClientCode 0) 1 150 0 (by decide)).1.imp
    (fun _ h => ⟨h.1, (h.2.2.2 (by decide)).2.2.1 (by decide)⟩),
   (C12_already_sent_per_class (onState StateClass.HandleZeroRequestState) 2 0 4
      (by decide)).1.imp
    (fun _ h => ⟨h.1, (h.2.2.2 (by decide)).2.2.1 (by decide)⟩)⟩

/-! ## Lemmas on the `Update` functions -/

theorem currentClass_TransitionToNew (d : Driver) (c : StateClass) (now : Int)
    (h : registeredAs d c = true) : currentClass (d.TransitionToNew c now) = some c := by
  obtain ⟨p, hcur, hcls, _⟩ := TransitionToNew_current d c now h
  simp [currentClass, hcur, hcls]

theorem length_of_getElem? {rddata : List Nat} {i x : Nat} (h : rddata[i]? = some x) :
    i < rddata.length := by
  by_contra hn
  rw [List.getElem?_eq_none (by omega)] at h
  exact Option.noConfusion h

theorem GetIntervalBaseTimeState_Update_nak :
    nakMovesTo StateClass.GetIntervalBaseTimeState
      GetIntervalBaseTimeState_Update
      StateClass.TransmitDeviceComponentInformation_VendorCode_State := by
  intro d rddata sz now op cc hop h0 h1 h2 h3 hreg
  obtain rfl : op = 0x02 := by simpa [StateClass.GetCommand] using hop.symm
  simp only [GetIntervalBaseTimeState_Update,
    header3_false rddata 0x06 0x02 0x02 0x15 h0 (by decide),
    header3_true rddata _ _ _ h0 h1 h2, h3]
  exact ⟨_, rfl, currentClass_TransitionToNew _ _ _ hreg, rfl⟩

theorem TransmitDeviceComponentInformation_VendorCode_State_Update_nak :
    nakMovesTo StateClass.TransmitDeviceComponentInformation_VendorCode_State
      TransmitDeviceComponentInformation_VendorCode_State_Update
      StateClass.StopContinuousDataState := by
  intro d rddata sz now op cc hop h0 h1 h2 h3 hreg
  obtain rfl : op = 0x0a := by simpa [StateClass.GetCommand] using hop.symm
  simp only [TransmitDeviceComponentInformation_VendorCode_State_Update,
    header3_false rddata 0x06 0x0a 0x14 0x15 h0 (by decide),
    header3_true rddata _ _ _ h0 h1 h2, h3]
  exact ⟨_, rfl, currentClass_TransitionToNew _ _ _ hreg, rfl⟩

theorem TransmitDeviceComponentInformation_SerialNumber_State_Update_nak :
    nakMovesTo StateClass.TransmitDeviceComponentInformation_SerialNumber_State
      TransmitDeviceComponentInformation_SerialNumber_State_Update
      StateClass.StopContinuousDataState := by
  intro d rddata sz now op cc hop h0 h1 h2 h3 hreg
  obtain rfl : op = 0x0a := by simpa [StateClass.GetCommand] using hop.symm
  simp only [TransmitDeviceComponentInformation_SerialNumber_State_Update,
    header3_false rddata 0x06 0x0a 0x14 0x15 h0 (by decide),
    header3_true rddata _ _ _ h0 h1 h2, h3]
  exact ⟨_, rfl, currentClass_TransitionToNew _ _ _ hreg, rfl⟩

theorem TransmitDeviceComponentInformation_HardwareRevision_State_Update_nak :
    nakMovesTo StateClass.TransmitDeviceComponentInformation_HardwareRevision_State
      TransmitDeviceComponentInformation_HardwareRevision_State_Update
      StateClass.StopContinuousDataState := by
  intro d rddata sz now op cc hop h0 h1 h2 h3 hreg
  obtain rfl : op = 0x0a := by simpa [StateClass.GetCommand] using hop.symm
  simp only [TransmitDeviceComponentInformation_HardwareRevision_State_Update,
    header3_false rddata 0x06 0x0a 0x14 0x15 h0 (by decide),
    header3_true rddata _ _ _ h0 h1 h2, h3]
  exact ⟨_, rfl, currentClass_TransitionToNew _ _ _ hreg, rfl⟩

theorem TransmitDeviceComponentInformation_SoftwareRevision_State_Update_nak :
    nakMovesTo StateClass.TransmitDeviceComponentInformation_SoftwareRevision_State
      TransmitDeviceComponentInformation_SoftwareRevision_State_Update
      StateClass.StopContinuousDataState := by
  intro d rddata sz now op cc hop h0 h1 h2 h3 hreg
  obtain rfl : op = 0x0a := by simpa [StateClass.GetCommand] using hop.symm
  simp only [TransmitDeviceComponentInformation_SoftwareRevision_State_Update,
    header3_false rddata 0x06 0x0a 0x14 0x15 h0 (by decide),
    header3_true rddata _ _ _ h0 h1 h2, h3]
  exact ⟨_, rfl, currentClass_TransitionToNew _ _ _ hreg, rfl⟩

theorem TransmitDeviceComponentInformation_ProductName_State_Update_nak :
    nakMovesTo StateClass.TransmitDeviceComponentInformation_ProductName_State
      TransmitDeviceComponentInformation_ProductName_State_Update
      StateClass.TransmitDeviceComponentInformation_PartNumber_State := by
  intro d rddata sz now op cc hop h0 h1 h2 h3 hreg
  obtain rfl : op = 0x0a := by simpa [StateClass.GetCommand] using hop.symm
  simp only [TransmitDeviceComponentInformation_ProductName_State_Update,
    header3_false rddata 0x06 0x0a 0x14 0x15 h0 (by decide),
    header3_true rddata _ _ _ h0 h1 h2, h3]
  exact ⟨_, rfl, currentClass_TransitionToNew _ _ _ hreg, rfl⟩

theorem TransmitDeviceComponentInformation_PartNumber_State_Update_nak :
    nakMovesTo StateClass.TransmitDeviceComponentInformation_PartNumber_State
      TransmitDeviceComponentInformation_PartNumber_State_Update
      StateClass.StopContinuousDataState := by
  intro d rddata sz now op cc hop h0 h1 h2 h3 hreg
  obtain rfl : op = 0x0a := by simpa [StateClass.GetCommand] using hop.symm
  simp only [TransmitDeviceComponentInformation_PartNumber_State_Update,
    header3_false rddata 0x06 0x0a 0x14 0x15 h0 (by decide),
    header3_true rddata _ _ _ h0 h1 h2, h3]
  exact ⟨_, rfl, currentClass_TransitionToNew _ _ _ hreg, rfl⟩

theorem AdjustTimeInformationState_Update_nak :
    nakMovesTo StateClass.AdjustTimeInformationState
      AdjustTimeInformationState_Update
      StateClass.StopContinuousDataState := by
  intro d rddata sz now op cc hop h0 h1 h2 h3 hreg
  obtain rfl : op = 0x2b := by simpa [StateClass.GetCommand] using hop.symm
  simp only [AdjustTimeInformationState_Update,
    header3_false rddata 0x06 0x2b 0x00 0x15 h0 (by decide),
    header3_true rddata _ _ _ h0 h1 h2, h3]
  exact ⟨_, rfl, currentClass_TransitionToNew _ _ _ hreg, rfl⟩

theorem TransmitGenericModuleFeaturesState_Update_nak :
    nakMovesTo StateClass.TransmitGenericModuleFeaturesState
      TransmitGenericModuleFeaturesState_Update
      StateClass.SwitchBreathDetectionMode_PgmBreathDetection_State := by
  intro d rddata sz now op cc hop h0 h1 h2 h3 hreg
  obtain rfl : op = 0x2c := by simpa [StateClass.GetCommand] using hop.symm
  simp only [TransmitGenericModuleFeaturesState_Update,
    header3_false rddata 0x06 0x2c 0x04 0x15 h0 (by decide),
    header3_true rddata _ _ _ h0 h1 h2, h3]
  exact ⟨_, rfl, currentClass_TransitionToNew _ _ _ hreg, rfl⟩

theorem SwitchBreathDetectionMode_PgmBreathDetection_State_Update_nak :
    nakMovesTo StateClass.SwitchBreathDetectionMode_PgmBreathDetection_State
      SwitchBreathDetectionMode_PgmBreathDetection_State_Update
      StateClass.StopContinuousDataState := by
  intro d rddata sz now op cc hop h0 h1 h2 h3 hreg
  obtain rfl : op = 0x1e := by simpa [StateClass.GetCommand] using hop.symm
  simp only [SwitchBreathDetectionMode_PgmBreathDetection_State_Update,
    header3_false rddata 0x06 0x1e 0x00 0x15 h0 (by decide),
    header3_true rddata _ _ _ h0 h1 h2, h3]
  exact ⟨_, rfl, currentClass_TransitionToNew _ _ _ hreg, rfl⟩

theorem SwitchBreathDetectionMode_PgmBreathDetectionAutoWakeup_State_Update_nak :
    nakMovesTo StateClass.SwitchBreathDetectionMode_PgmBreathDetectionAutoWakeup_State
      SwitchBreathDetectionMode_PgmBreathDetectionAutoWakeup_State_Update
      StateClass.StopContinuousDataState := by
  intro d rddata sz now op cc hop h0 h1 h2 h3 hreg
  obtain rfl : op = 0x1e := by simpa [StateClass.GetCommand] using hop.symm
  simp only [SwitchBreathDetectionMode_PgmBreathDetectionAutoWakeup_State_Update,
    header3_false rddata 0x06 0x1e 0x00 0x15 h0 (by decide),
    header3_true rddata _ _ _ h0 h1 h2, h3]
  exact ⟨_, rfl, currentClass_TransitionToNew _ _ _ hreg, rfl⟩

theorem SwitchBreathDetectionMode_AutoWakeupAfterBreathphase1_State_Update_nak :
    nakMovesTo StateClass.SwitchBreathDetectionMode_AutoWakeupAfterBreathphase1_State
      SwitchBreathDetectionMode_AutoWakeupAfterBreathphase1_State_Update
      StateClass.StopContinuousDataState := by
  intro d rddata sz now op cc hop h0 h1 h2 h3 hreg
  obtain rfl : op = 0x1e := by simpa [StateClass.GetCommand] using hop.symm
  simp only [SwitchBreathDetectionMode_AutoWakeupAfterBreathphase1_State_Update,
    header3_false rddata 0x06 0x1e 0x00 0x15 h0 (by decide),
    header3_true rddata _ _ _ h0 h1 h2, h3]
  exact ⟨_, rfl, currentClass_TransitionToNew _ _ _ hreg, rfl⟩

theorem SwitchBreathDetectionMode_AutoWakeupAfterBreathphase2_State_Update_nak :
    nakMovesTo StateClass.SwitchBreathDetectionMode_AutoWakeupAfterBreathphase2_State
      SwitchBreathDetectionMode_AutoWakeupAfterBreathphase2_State_Update
      StateClass.StopContinuousDataState := by
  intro d rddata sz now op cc hop h0 h1 h2 h3 hreg
  obtain rfl : op = 0x1e := by simpa [StateClass.GetCommand] using hop.symm
  simp only [SwitchBreathDetectionMode_AutoWakeupAfterBreathphase2_State_Update,
    header3_false rddata 0x06 0x1e 0x00 0x15 h0 (by decide),
    header3_true rddata _ _ _ h0 h1 h2, h3]
  exact ⟨_, rfl, currentClass_TransitionToNew _ _ _ hreg, rfl⟩

theorem SwitchBreathDetectionMode_AutoWakeupAfterBreathphase3_State_Update_nak :
    nakMovesTo StateClass.SwitchBreathDetectionMode_AutoWakeupAfterBreathphase3_State
      SwitchBreathDetectionMode_AutoWakeupAfterBreathphase3_State_Update
      StateClass.StopContinuousDataState := by
  intro d rddata sz now op cc hop h0 h1 h2 h3 hreg
  obtain rfl : op = 0x1e := by simpa [StateClass.GetCommand] using hop.symm
  simp only [SwitchBreathDetectionMode_AutoWakeupAfterBreathphase3_State_Update,
    header3_false rddata 0x06 0x1e 0x00 0x15 h0 (by decide),
    header3_true rddata _ _ _ h0 h1 h2, h3]
  exact ⟨_, rfl, currentClass_TransitionToNew _ _ _ hreg, rfl⟩

theorem SwitchBreathDetectionMode_AutoWakeupAfterBreathphase4_State_Update_nak :
    nakMovesTo StateClass.SwitchBreathDetectionMode_AutoWakeupAfterBreathphase4_State
      SwitchBreathDetectionMode_AutoWakeupAfterBreathphase4_State_Update
      StateClass.StopContinuousDataState := by
  intro d rddata sz now op cc hop h0 h1 h2 h3 hreg
  obtain rfl : op = 0x1e := by simpa [StateClass.GetCommand] using hop.symm
  simp only [SwitchBreathDetectionMode_AutoWakeupAfterBreathphase4_State_Update,
    header3_false rddata 0x06 0x1e 0x00 0x15 h0 (by decide),
    header3_true rddata _ _ _ h0 h1 h2, h3]
  exact ⟨_, rfl, currentClass_TransitionToNew _ _ _ hreg, rfl⟩

theorem SwitchBreathDetectionMode_AutoWakeupAfterBreathphase5_State_Update_nak :
    nakMovesTo StateClass.SwitchBreathDetectionMode_AutoWakeupAfterBreathphase5_State
      SwitchBreathDetectionMode_AutoWakeupAfterBreathphase5_State_Update
      StateClass.StopContinuousDataState := by
  intro d rddata sz now op cc hop h0 h1 h2 h3 hreg
  obtain rfl : op = 0x1e := by simpa [StateClass.GetCommand] using hop.symm
  simp only [SwitchBreathDetectionMode_AutoWakeupAfterBreathphase5_State_Update,
    header3_false rddata 0x06 0x1e 0x00 0x15 h0 (by decide),
    header3_true rddata _ _ _ h0 h1 h2, h3]
  exact ⟨_, rfl, currentClass_TransitionToNew _ _ _ hreg, rfl⟩

theorem MeasurementModeState_Update_nak :
    nakMovesTo StateClass.MeasurementModeState
      MeasurementModeState_Update
      StateClass.StopContinuousDataState := by
  intro d rddata sz now op cc hop h0 h1 h2 h3 hreg
  obtain rfl : op = 0x03 := by simpa [StateClass.GetCommand] using hop.symm
  simp only [MeasurementModeState_Update,
    header3_false rddata 0x06 0x03 0x01 0x15 h0 (by decide),
    header3_true rddata _ _ _ h0 h1 h2, h3]
  exact ⟨_, rfl, currentClass_TransitionToNew _ _ _ hreg, rfl⟩

theorem OperatingModeState_Update_nak :
    nakMovesTo StateClass.OperatingModeState
      OperatingModeState_Update
      StateClass.StopContinuousDataState := by
  intro d rddata sz now op cc hop h0 h1 h2 h3 hreg
  obtain rfl : op = 0x03 := by simpa [StateClass.GetCommand] using hop.symm
  simp only [OperatingModeState_Update,
    header3_false rddata 0x06 0x03 0x01 0x15 h0 (by decide),
    header3_true rddata _ _ _ h0 h1 h2, h3]
  exact ⟨_, rfl, currentClass_TransitionToNew _ _ _ hreg, rfl⟩

theorem SwitchPumpState_Update_nak :
    nakMovesTo StateClass.SwitchPumpState
      SwitchPumpState_Update
      StateClass.StopContinuousDataState := by
  intro d rddata sz now op cc hop h0 h1 h2 h3 hreg
  obtain rfl : op = 0x62 := by simpa [StateClass.GetCommand] using hop.symm
  simp only [SwitchPumpState_Update,
    header3_false rddata 0x06 0x62 0x00 0x15 h0 (by decide),
    header3_true rddata _ _ _ h0 h1 h2, h3]
  exact ⟨_, rfl, currentClass_TransitionToNew _ _ _ hreg, rfl⟩

theorem SelectAnestheticAgentType_Halothane_State_Update_nak :
    nakMovesTo StateClass.SelectAnestheticAgentType_Halothane_State
      SelectAnestheticAgentType_Halothane_State_Update
      StateClass.StopContinuousDataState := by
  intro d rddata sz now op cc hop h0 h1 h2 h3 hreg
  obtain rfl : op = 0x1d := by simpa [StateClass.GetCommand] using hop.symm
  simp only [SelectAnestheticAgentType_Halothane_State_Update,
    header3_false rddata 0x06 0x1d 0x00 0x15 h0 (by decide),
    header3_true rddata _ _ _ h0 h1 h2, h3]
  exact ⟨_, rfl, currentClass_TransitionToNew _ _ _ hreg, rfl⟩

theorem InitZeroState_Update_nak :
    nakMovesTo StateClass.InitZeroState
      InitZeroState_Update
      StateClass.GetUnitsState := by
  intro d rddata sz now op cc hop h0 h1 h2 h3 hreg
  obtain rfl : op = 0x20 := by simpa [StateClass.GetCommand] using hop.symm
  simp only [InitZeroState_Update,
    header3_false rddata 0x06 0x20 0x00 0x15 h0 (by decide),
    header3_true rddata _ _ _ h0 h1 h2, h3]
  exact ⟨_, rfl, currentClass_TransitionToNew _ _ _ hreg, rfl⟩

theorem TransmitDeviceComponentInformation_VendorCode_State_Update_ack :
    ackAdvances TransmitDeviceComponentInformation_VendorCode_State_Update
      0x00 StateClass.TransmitDeviceComponentInformation_SerialNumber_State := by
  intro d rddata sz now echo h0 h1 h2 h21
  have hlen : ¬ rddata.length ≤ 20 := by
    have := length_of_getElem? h21
    omega
  simp only [TransmitDeviceComponentInformation_VendorCode_State_Update,
    header3_true rddata _ _ _ h0 h1 h2, h21, hlen, if_false]
  have hsel : (StateClass.TransmitDeviceComponentInformation_VendorCode_State.GetCommandId &&& 0x00ff) = 0x00 := by
    decide
  by_cases he : echo = 0x00
  · subst he
    rw [if_pos hsel]
    exact ⟨_, rfl, rfl, fun _ hreg => currentClass_TransitionToNew _ _ _ hreg,
      fun h => absurd rfl h⟩
  · rw [if_neg (by rw [hsel]; exact fun h => he h.symm)]
    exact ⟨_, rfl, rfl, fun h => absurd h he, fun _ => rfl⟩

theorem TransmitDeviceComponentInformation_SerialNumber_State_Update_ack :
    ackAdvances TransmitDeviceComponentInformation_SerialNumber_State_Update
      0x01 StateClass.TransmitDeviceComponentInformation_HardwareRevision_State := by
  intro d rddata sz now echo h0 h1 h2 h21
  have hlen : ¬ rddata.length ≤ 20 := by
    have := length_of_getElem? h21
    omega
  simp only [TransmitDeviceComponentInformation_SerialNumber_State_Update,
    header3_true rddata _ _ _ h0 h1 h2, h21, hlen, if_false]
  have hsel : (StateClass.TransmitDeviceComponentInformation_SerialNumber_State.GetCommandId &&& 0x00ff) = 0x01 := by
    decide
  by_cases he : echo = 0x01
  · subst he
    rw [if_pos hsel]
    exact ⟨_, rfl, rfl, fun _ hreg => currentClass_TransitionToNew _ _ _ hreg,
      fun h => absurd rfl h⟩
  · rw [if_neg (by rw [hsel]; exact fun h => he h.symm)]
    exact ⟨_, rfl, rfl, fun h => absurd h he, fun _ => rfl⟩

theorem TransmitDeviceComponentInformation_HardwareRevision_State_Update_ack :
    ackAdvances TransmitDeviceComponentInformation_HardwareRevision_State_Update
      0x02 StateClass.TransmitDeviceComponentInformation_SoftwareRevision_State := by
  intro d rddata sz now echo h0 h1 h2 h21
  have hlen : ¬ rddata.length ≤ 20 := by
    have := length_of_getElem? h21
    omega
  simp only [TransmitDeviceComponentInformation_HardwareRevision_State_Update,
    header3_true rddata _ _ _ h0 h1 h2, h21, hlen, if_false]
  have hsel : (StateClass.TransmitDeviceComponentInformation_HardwareRevision_State.GetCommandId &&& 0x00ff) = 0x02 := by
    decide
  by_cases he : echo = 0x02
  · subst he
    rw [if_pos hsel]
    exact ⟨_, rfl, rfl, fun _ hreg => currentClass_TransitionToNew _ _ _ hreg,
      fun h => absurd rfl h⟩
  · rw [if_neg (by rw [hsel]; exact fun h => he h.symm)]
    exact ⟨_, rfl, rfl, fun h => absurd h he, fun _ => rfl⟩

theorem TransmitDeviceComponentInformation_SoftwareRevision_State_Update_ack :
    ackAdvances TransmitDeviceComponentInformation_SoftwareRevision_State_Update
      0x03 StateClass.TransmitDeviceComponentInformation_ProductName_State := by
  intro d rddata sz now echo h0 h1 h2 h21
  have hlen : ¬ rddata.length ≤ 20 := by
    have := length_of_getElem? h21
    omega
  simp only [TransmitDeviceComponentInformation_SoftwareRevision_State_Update,
    header3_true rddata _ _ _ h0 h1 h2, h21, hlen, if_false]
  have hsel : (StateClass.TransmitDeviceComponentInformation_SoftwareRevision_State.GetCommandId &&& 0x00ff) = 0x03 := by
    decide
  by_cases he : echo = 0x03
  · subst he
    rw [if_pos hsel]
    exact ⟨_, rfl, rfl, fun _ hreg => currentClass_TransitionToNew _ _ _ hreg,
      fun h => absurd rfl h⟩
  · rw [if_neg (by rw [hsel]; exact fun h => he h.symm)]
    exact ⟨_, rfl, rfl, fun h => absurd h he, fun _ => rfl⟩

theorem TransmitDeviceComponentInformation_ProductName_State_Update_ack :
    ackAdvances TransmitDeviceComponentInformation_ProductName_State_Update
      0x05 StateClass.TransmitDeviceComponentInformation_PartNumber_State := by
  intro d rddata sz now echo h0 h1 h2 h21
  have hlen : ¬ rddata.length ≤ 20 := by
    have := length_of_getElem? h21
    omega
  simp only [TransmitDeviceComponentInformation_ProductName_State_Update,
    header3_true rddata _ _ _ h0 h1 h2, h21, hlen, if_false]
  have hsel : (StateClass.TransmitDeviceComponentInformation_ProductName_State.GetCommandId &&& 0x00ff) = 0x05 := by
    decide
  by_cases he : echo = 0x05
  · subst he
    rw [if_pos hsel]
    exact ⟨_, rfl, rfl, fun _ hreg => currentClass_TransitionToNew _ _ _ hreg,
      fun h => absurd rfl h⟩
  · rw [if_neg (by rw [hsel]; exact fun h => he h.symm)]
    exact ⟨_, rfl, rfl, fun h => absurd h he, fun _ => rfl⟩

theorem TransmitDeviceComponentInformation_PartNumber_State_Update_ack :
    ackAdvances TransmitDeviceComponentInformation_PartNumber_State_Update
      0x06 StateClass.AdjustTimeInformationState := by
  intro d rddata sz now echo h0 h1 h2 h21
  have hlen : ¬ rddata.length ≤ 20 := by
    have := length_of_getElem? h21
    omega
  simp only [TransmitDeviceComponentInformation_PartNumber_State_Update,
    header3_true rddata _ _ _ h0 h1 h2, h21, hlen, if_false]
  have hsel : (StateClass.TransmitDeviceComponentInformation_PartNumber_State.GetCommandId &&& 0x00ff) = 0x06 := by
    decide
  by_cases he : echo = 0x06
  · subst he
    rw [if_pos hsel]
    exact ⟨_, rfl, rfl, fun _ hreg => currentClass_TransitionToNew _ _ _ hreg,
      fun h => absurd rfl h⟩
  · rw [if_neg (by rw [hsel]; exact fun h => he h.symm)]
    exact ⟨_, rfl, rfl, fun h => absurd h he, fun _ => rfl⟩

/-! ## The claims on identifiers and commands -/

theorem StateClass_mem_all (c : StateClass) : c ∈ StateClass.all := by
  cases c <;> decide

set_option maxRecDepth 100000 in
theorem GetCommandId_nodup : (StateClass.all.map StateClass.GetCommandId).Nodup := by
  decide

/-- C21: the identifiers that `GetCommandId` returns are pairwise distinct over
the state classes: the function is injective, and the list of the identifiers
of the 54 classes has no repetition. -/
theorem C21_GetCommandId_pairwise_distinct :
    Function.Injective StateClass.GetCommandId ∧
    (StateClass.all.map StateClass.GetCommandId).Nodup ∧
    StateClass.all.length = 54 := by
  refine ⟨fun a b h => ?_, GetCommandId_nodup, by decide⟩
  exact List.inj_on_of_nodup_map GetCommandId_nodup (StateClass_mem_all a)
    (StateClass_mem_all b) h

set_option maxRecDepth 100000 in
/-- C22 at the class `AcceptExternalParameterData_UnknownAccuracy_State`: its
command is 10 06 1C DF 0A 02 E3, seven bytes where the second byte asks for
nine, so it has not the request shape; it is the only one among the 26 classes
with a command. -/
theorem C22_accept_external_command_shape :
    StateClass.AcceptExternalParameterData_UnknownAccuracy_State.GetCommand =
      [0x10, 0x06, 0x1c, 0xdf, 0x0a, 0x02, 0xe3] ∧
    requestShape StateClass.AcceptExternalParameterData_UnknownAccuracy_State.GetCommand =
      false ∧
    StateClass.all.filter (fun c => !c.GetCommand.isEmpty && !requestShape c.GetCommand) =
      [StateClass.AcceptExternalParameterData_UnknownAccuracy_State] ∧
    (StateClass.all.filter (fun c => !c.GetCommand.isEmpty)).length = 26 := by
  decide

/-! ## The claims on the `Update` functions -/

/-- C23, as stated, fails on `AcceptExternalParameterData_UnknownAccuracy_State`:
the opcode of its command is 0x1C, and on the frame 15 1C 01 12 BC its `Update`
only dumps the frame; the context is as before. -/
theorem C23_accept_external_nak_stays :
    StateClass.AcceptExternalParameterData_UnknownAccuracy_State.GetCommand[2]? = some 0x1c ∧
    AcceptExternalParameterData_UnknownAccuracy_State_Update
        (onState StateClass.AcceptExternalParameterData_UnknownAccuracy_State)
        [0x15, 0x1c, 0x01, 0x12, 0xBC] 5 10 =
      some ((onState StateClass.AcceptExternalParameterData_UnknownAccuracy_State).PrintData
        [0x15, 0x1c, 0x01, 0x12, 0xBC]) ∧
    currentClass (onState StateClass.AcceptExternalParameterData_UnknownAccuracy_State) =
      some StateClass.AcceptExternalParameterData_UnknownAccuracy_State :=
  ⟨by decide, rfl, by decide⟩

/-- C23, amended: for each of the 21 classes with a command other than
`StopContinuousDataState`, `AcceptExternalParameterData_UnknownAccuracy_State`,
`HandleZeroRequestState`, `SwitchValvesState` and `TransmitPatientData_120E_State`,
on every frame 15 op 01 cc whose op is the opcode of the command of the class,
`Update` returns with an object of the failure successor as the current state:
the vendor-code state for `GetIntervalBaseTimeState`, the part-number state for
the product-name state, `SwitchBreathDetectionMode_PgmBreathDetection_State`
for `TransmitGenericModuleFeaturesState`, `GetUnitsState` for `InitZeroState`,
and `StopContinuousDataState` for the others.  On its own failure frame
`AcceptExternalParameterData_UnknownAccuracy_State` only dumps the frame, and
`StopContinuousDataState` does nothing on a frame that starts 15. -/
theorem C23_nak_failure_successors :
    nakMovesTo StateClass.GetIntervalBaseTimeState
      GetIntervalBaseTimeState_Update
      StateClass.TransmitDeviceComponentInformation_VendorCode_State ∧
    nakMovesTo StateClass.TransmitDeviceComponentInformation_VendorCode_State
      TransmitDeviceComponentInformation_VendorCode_State_Update
      StateClass.StopContinuousDataState ∧
    nakMovesTo StateClass.TransmitDeviceComponentInformation_SerialNumber_State
      TransmitDeviceComponentInformation_SerialNumber_State_Update
      StateClass.StopContinuousDataState ∧
    nakMovesTo StateClass.TransmitDeviceComponentInformation_HardwareRevision_State
      TransmitDeviceComponentInformation_HardwareRevision_State_Update
      StateClass.StopContinuousDataState ∧
    nakMovesTo StateClass.TransmitDeviceComponentInformation_SoftwareRevision_State
      TransmitDeviceComponentInformation_SoftwareRevision_State_Update
      StateClass.StopContinuousDataState ∧
    nakMovesTo StateClass.TransmitDeviceComponentInformation_ProductName_State
      TransmitDeviceComponentInformation_ProductName_State_Update
      StateClass.TransmitDeviceComponentInformation_PartNumber_State ∧
    nakMovesTo StateClass.TransmitDeviceComponentInformation_PartNumber_State
      TransmitDeviceComponentInformation_PartNumber_State_Update
      StateClass.StopContinuousDataState ∧
    nakMovesTo StateClass.AdjustTimeInformationState
      AdjustTimeInformationState_Update
      StateClass.StopContinuousDataState ∧
    nakMovesTo StateClass.TransmitGenericModuleFeaturesState
      TransmitGenericModuleFeaturesState_Update
      StateClass.SwitchBreathDetectionMode_PgmBreathDetection_State ∧
    nakMovesTo StateClass.SwitchBreathDetectionMode_PgmBreathDetection_State
      SwitchBreathDetectionMode_PgmBreathDetection_State_Update
      StateClass.StopContinuousDataState ∧
    nakMovesTo StateClass.SwitchBreathDetectionMode_PgmBreathDetectionAutoWakeup_State
      SwitchBreathDetectionMode_PgmBreathDetectionAutoWakeup_State_Update
      StateClass.StopContinuousDataState ∧
    nakMovesTo StateClass.SwitchBreathDetectionMode_AutoWakeupAfterBreathphase1_State
      SwitchBreathDetectionMode_AutoWakeupAfterBreathphase1_State_Update
      StateClass.StopContinuousDataState ∧
    nakMovesTo StateClass.SwitchBreathDetectionMode_AutoWakeupAfterBreathphase2_State
      SwitchBreathDetectionMode_AutoWakeupAfterBreathphase2_State_Update
      StateClass.StopContinuousDataState ∧
    nakMovesTo StateClass.SwitchBreathDetectionMode_AutoWakeupAfterBreathphase3_State
      SwitchBreathDetectionMode_AutoWakeupAfterBreathphase3_State_Update
      StateClass.StopContinuousDataState ∧
    nakMovesTo StateClass.SwitchBreathDetectionMode_AutoWakeupAfterBreathphase4_State
      SwitchBreathDetectionMode_AutoWakeupAfterBreathphase4_State_Update
      StateClass.StopContinuousDataState ∧
    nakMovesTo StateClass.SwitchBreathDetectionMode_AutoWakeupAfterBreathphase5_State
      SwitchBreathDetectionMode_AutoWakeupAfterBreathphase5_State_Update
      StateClass.StopContinuousDataState ∧
    nakMovesTo StateClass.MeasurementModeState
      MeasurementModeState_Update
      StateClass.StopContinuousDataState ∧
    nakMovesTo StateClass.OperatingModeState
      OperatingModeState_Update
      StateClass.StopContinuousDataState ∧
    nakMovesTo StateClass.SwitchPumpState
      SwitchPumpState_Update
      StateClass.StopContinuousDataState ∧
    nakMovesTo StateClass.SelectAnestheticAgentType_Halothane_State
      SelectAnestheticAgentType_Halothane_State_Update
      StateClass.StopContinuousDataState ∧
    nakMovesTo StateClass.InitZeroState
      InitZeroState_Update
      StateClass.GetUnitsState ∧
    (∀ (d : Driver) (rddata : List Nat) (sz : Nat) (now : Int) (cc : Nat),
      rddata[0]? = some 0x15 → rddata[1]? = some 0x1c → rddata[2]? = some 0x01 →
      rddata[3]? = some cc →
      AcceptExternalParameterData_UnknownAccuracy_State_Update d rddata sz now =
        some (d.PrintData rddata)) ∧
    (∀ (d : Driver) (rddata : List Nat) (sz : Nat) (now : Int),
      rddata[0]? = some 0x15 → StopContinuousDataState_Update d rddata sz now = some d) := by
  refine ⟨GetIntervalBaseTimeState_Update_nak,
    TransmitDeviceComponentInformation_VendorCode_State_Update_nak,
    TransmitDeviceComponentInformation_SerialNumber_State_Update_nak,
    TransmitDeviceComponentInformation_HardwareRevision_State_Update_nak,
    TransmitDeviceComponentInformation_SoftwareRevision_State_Update_nak,
    TransmitDeviceComponentInformation_ProductName_State_Update_nak,
    TransmitDeviceComponentInformation_PartNumber_State_Update_nak,
    AdjustTimeInformationState_Update_nak,
    TransmitGenericModuleFeaturesState_Update_nak,
    SwitchBreathDetectionMode_PgmBreathDetection_State_Update_nak,
    SwitchBreathDetectionMode_PgmBreathDetectionAutoWakeup_State_Update_nak,
    SwitchBreathDetectionMode_AutoWakeupAfterBreathphase1_State_Update_nak,
    SwitchBreathDetectionMode_AutoWakeupAfterBreathphase2_State_Update_nak,
    SwitchBreathDetectionMode_AutoWakeupAfterBreathphase3_State_Update_nak,
    SwitchBreathDetectionMode_AutoWakeupAfterBreathphase4_State_Update_nak,
    SwitchBreathDetectionMode_AutoWakeupAfterBreathphase5_State_Update_nak,
    MeasurementModeState_Update_nak,
    OperatingModeState_Update_nak,
    SwitchPumpState_Update_nak,
    SelectAnestheticAgentType_Halothane_State_Update_nak,
    InitZeroState_Update_nak,
    ?_, ?_⟩
  · intro d rddata sz now cc h0 h1 h2 h3
    simp only [AcceptExternalParameterData_UnknownAccuracy_State_Update,
      header3_false rddata 0x06 0x1c 0x00 0x15 h0 (by decide),
      header3_true rddata _ _ _ h0 h1 h2, h3]
  · intro d rddata sz now h0
    simp only [StopContinuousDataState_Update,
      header3_false rddata 0x06 0x19 0x00 0x15 h0 (by decide)]

/-- C23, amended, after scenario S2 on the frame 15 02 01 12 D8: the current
state is a vendor-code state afterwards. -/
theorem C23_nak_failure_successors_witness :
    StateClass.GetIntervalBaseTimeState.GetCommand[2]? = some 0x02 ∧
    registeredAs afterS2 StateClass.TransmitDeviceComponentInformation_VendorCode_State = true ∧
    ∃ d1, GetIntervalBaseTimeState_Update afterS2 [0x15, 0x02, 0x01, 0x12, 0xD8] 5 180 = some d1 ∧
      currentClass d1 = some StateClass.TransmitDeviceComponentInformation_VendorCode_State ∧
      d1.written = afterS2.written :=
  ⟨by decide, by decide,
    C23_nak_failure_successors.1 afterS2 [0x15, 0x02, 0x01, 0x12, 0xD8] 5 180 0x02 0x12
      (by decide) (by decide) (by decide) (by decide) (by decide) (by decide)⟩

/-- C28, as stated, fails on the vendor-code state: after the frame
15 0A 01 12 CE the current state is a `StopContinuousDataState`, not a
serial-number state. -/
theorem C28_vendor_nak_falls_back_to_stop :
    (TransmitDeviceComponentInformation_VendorCode_State_Update
      (onState StateClass.TransmitDeviceComponentInformation_VendorCode_State)
      [0x15, 0x0a, 0x01, 0x12, 0xCE] 5 10).bind currentClass =
      some StateClass.StopContinuousDataState := by
  decide

/-- C28, amended: on every frame 15 0A 01 cc, the product-name state skips to the
part-number state, and the vendor-code, serial-number, hardware-revision,
software-revision and part-number states fall back to
`StopContinuousDataState`. -/
theorem C28_device_component_nak :
    nakMovesTo StateClass.TransmitDeviceComponentInformation_VendorCode_State
      TransmitDeviceComponentInformation_VendorCode_State_Update
      StateClass.StopContinuousDataState ∧
    nakMovesTo StateClass.TransmitDeviceComponentInformation_SerialNumber_State
      TransmitDeviceComponentInformation_SerialNumber_State_Update
      StateClass.StopContinuousDataState ∧
    nakMovesTo StateClass.TransmitDeviceComponentInformation_HardwareRevision_State
      TransmitDeviceComponentInformation_HardwareRevision_State_Update
      StateClass.StopContinuousDataState ∧
    nakMovesTo StateClass.TransmitDeviceComponentInformation_SoftwareRevision_State
      TransmitDeviceComponentInformation_SoftwareRevision_State_Update
      StateClass.StopContinuousDataState ∧
    nakMovesTo StateClass.TransmitDeviceComponentInformation_ProductName_State
      TransmitDeviceComponentInformation_ProductName_State_Update
      StateClass.TransmitDeviceComponentInformation_PartNumber_State ∧
    nakMovesTo StateClass.TransmitDeviceComponentInformation_PartNumber_State
      TransmitDeviceComponentInformation_PartNumber_State_Update
      StateClass.StopContinuousDataState :=
  ⟨TransmitDeviceComponentInformation_VendorCode_State_Update_nak,
    TransmitDeviceComponentInformation_SerialNumber_State_Update_nak,
    TransmitDeviceComponentInformation_HardwareRevision_State_Update_nak,
    TransmitDeviceComponentInformation_SoftwareRevision_State_Update_nak,
    TransmitDeviceComponentInformation_ProductName_State_Update_nak,
    TransmitDeviceComponentInformation_PartNumber_State_Update_nak⟩

/-- C28, amended, on a product-name state after a cold start and the frame
15 0A 01 12 CE: the current state is a part-number state afterwards. -/
theorem C28_device_component_nak_witness :
    StateClass.TransmitDeviceComponentInformation_ProductName_State.GetCommand[2]? = some 0x0a ∧
    ∃ d1, TransmitDeviceComponentInformation_ProductName_State_Update
        (onState StateClass.TransmitDeviceComponentInformation_ProductName_State)
        [0x15, 0x0a, 0x01, 0x12, 0xCE] 5 10 = some d1 ∧
      currentClass d1 = some StateClass.TransmitDeviceComponentInformation_PartNumber_State ∧
      d1.written =
        (onState StateClass.TransmitDeviceComponentInformation_ProductName_State).written :=
  ⟨by decide,
    C28_device_component_nak.2.2.2.2.1
      (onState StateClass.TransmitDeviceComponentInformation_ProductName_State)
      [0x15, 0x0a, 0x01, 0x12, 0xCE] 5 10 0x0a 0x12
      (by decide) (by decide) (by decide) (by decide) (by decide) (by decide)⟩

/-- C27: on a frame that starts 06 0A 14 and has an element 21, each
device-component `Update` returns; when element 21 is the selector of the state
(0x00 vendor code, 0x01 serial number, 0x02 hardware revision, 0x03 software
revision, 0x05 product name, 0x06 part number) an object of the next class in
that order is the current state afterwards, `AdjustTimeInformationState` after
the part-number state; when element 21 is another value the context is as
before. -/
theorem C27_device_component_ack_chain :
    ackAdvances TransmitDeviceComponentInformation_VendorCode_State_Update
      0x00 StateClass.TransmitDeviceComponentInformation_SerialNumber_State ∧
    ackAdvances TransmitDeviceComponentInformation_SerialNumber_State_Update
      0x01 StateClass.TransmitDeviceComponentInformation_HardwareRevision_State ∧
    ackAdvances TransmitDeviceComponentInformation_HardwareRevision_State_Update
      0x02 StateClass.TransmitDeviceComponentInformation_SoftwareRevision_State ∧
    ackAdvances TransmitDeviceComponentInformation_SoftwareRevision_State_Update
      0x03 StateClass.TransmitDeviceComponentInformation_ProductName_State ∧
    ackAdvances TransmitDeviceComponentInformation_ProductName_State_Update
      0x05 StateClass.TransmitDeviceComponentInformation_PartNumber_State ∧
    ackAdvances TransmitDeviceComponentInformation_PartNumber_State_Update
      0x06 StateClass.AdjustTimeInformationState :=
  ⟨TransmitDeviceComponentInformation_VendorCode_State_Update_ack,
    TransmitDeviceComponentInformation_SerialNumber_State_Update_ack,
    TransmitDeviceComponentInformation_HardwareRevision_State_Update_ack,
    TransmitDeviceComponentInformation_SoftwareRevision_State_Update_ack,
    TransmitDeviceComponentInformation_ProductName_State_Update_ack,
    TransmitDeviceComponentInformation_PartNumber_State_Update_ack⟩

/-- C27 on a vendor-code state after a cold start: the frame that echoes
selector 0 makes a serial-number state current, and six frames that echo 0, 1,
2, 3, 5, 6 lead to an `AdjustTimeInformationState`. -/
theorem C27_device_component_ack_chain_witness :
    (∃ d1, TransmitDeviceComponentInformation_VendorCode_State_Update
        (onState StateClass.TransmitDeviceComponentInformation_VendorCode_State)
        (deviceComponentFrame 0) 24 10 = some d1 ∧
      currentClass d1 =
        some StateClass.TransmitDeviceComponentInformation_SerialNumber_State) ∧
    ((((((TransmitDeviceComponentInformation_VendorCode_State_Update
        (onState StateClass.TransmitDeviceComponentInformation_VendorCode_State)
        (deviceComponentFrame 0) 24 10).bind
      (fun d => TransmitDeviceComponentInformation_SerialNumber_State_Update d
        (deviceComponentFrame 1) 24 20)).bind
      (fun d => TransmitDeviceComponentInformation_HardwareRevision_State_Update d
        (deviceComponentFrame 2) 24 30)).bind
      (fun d => TransmitDeviceComponentInformation_SoftwareRevision_State_Update d
        (deviceComponentFrame 3) 24 40)).bind
      (fun d => TransmitDeviceComponentInformation_ProductName_State_Update d
        (deviceComponentFrame 5) 24 50)).bind
      (fun d => TransmitDeviceComponentInformation_PartNumber_State_Update d
        (deviceComponentFrame 6) 24 60)).bind currentClass =
      some StateClass.AdjustTimeInformationState := by
  refine ⟨?_, by decide⟩
  obtain ⟨d1, h, _, hyes, _⟩ := C27_device_component_ack_chain.1
    (onState StateClass.TransmitDeviceComponentInformation_VendorCode_State)
    (deviceComponentFrame 0) 24 10 0 (by decide) (by decide) (by decide) (by decide)
  exact ⟨d1, h, hyes rfl (by decide)⟩

set_option maxRecDepth 100000 in
theorem features_bits : ∀ f, f < 256 →
    ((f &&& 0x02 = 0x02 ∧ f &&& 0x04 = 0x04) ↔ (f.testBit 1 = true ∧ f.testBit 2 = true)) ∧
    (f &&& 0x01 = 0x01 ↔ f.testBit 0 = true) := by
  decide

theorem bool_iff_of_pos {b : Bool} {P : Prop} (hb : b = true) (hp : P) : (b = true ↔ P) :=
  ⟨fun _ => hp, fun _ => hb⟩

theorem bool_iff_of_neg {b : Bool} {P : Prop} (hb : b = false) (hp : ¬ P) : (b = true ↔ P) :=
  ⟨fun h => Bool.noConfusion (hb.symm.trans h), fun h => absurd h hp⟩

/-- C25: when `TransmitGenericModuleFeaturesState::Update` receives a frame that
starts 06 2C 04, it returns, `m_bPneumaticsEnabled` is true exactly when bits 1
and 2 of frame byte 6 are both set, `m_bAutoZeroCondition` is true exactly when
bit 0 of that byte is clear, the other session flags are unchanged, nothing is
written, and a `SwitchBreathDetectionMode_PgmBreathDetection_State` is the
current state. -/
theorem C25_generic_module_features (d : Driver) (rddata : List Nat) (sz : Nat) (now : Int)
    (features : Nat) (h0 : rddata[0]? = some 0x06) (h1 : rddata[1]? = some 0x2c)
    (h2 : rddata[2]? = some 0x04) (h6 : rddata[6]? = some features) (hbyte : features < 256)
    (hreg : registeredAs d StateClass.SwitchBreathDetectionMode_PgmBreathDetection_State =
      true) :
    ∃ d1, TransmitGenericModuleFeaturesState_Update d rddata sz now = some d1 ∧
      (d1.m_bPneumaticsEnabled = true ↔
        (features.testBit 1 = true ∧ features.testBit 2 = true)) ∧
      (d1.m_bAutoZeroCondition = true ↔ features.testBit 0 = false) ∧
      currentClass d1 = some StateClass.SwitchBreathDetectionMode_PgmBreathDetection_State ∧
      d1.m_bPAIAvailable = d.m_bPAIAvailable ∧
      d1.m_bNeedsExternalData = d.m_bNeedsExternalData ∧
      d1.m_bHSP = d.m_bHSP ∧
      d1.written = d.written := by
  obtain ⟨hpn, haz⟩ := features_bits features hbyte
  simp only [TransmitGenericModuleFeaturesState_Update, header3_true rddata _ _ _ h0 h1 h2, h6]
  by_cases a : features &&& 0x02 = 0x02 <;> by_cases b : features &&& 0x04 = 0x04 <;>
    by_cases c : features &&& 0x01 = 0x01 <;>
    simp only [a, b, c, if_true, if_false] <;>
    refine ⟨_, rfl, ?_, ?_, currentClass_TransitionToNew _ _ _ hreg, rfl, rfl, rfl, rfl⟩
  all_goals
    first
    | exact bool_iff_of_pos rfl (hpn.mp ⟨a, b⟩)
    | exact bool_iff_of_neg rfl (fun h => absurd (hpn.mpr h).1 a)
    | exact bool_iff_of_neg rfl (fun h => absurd (hpn.mpr h).2 b)
    | exact bool_iff_of_pos rfl (Bool.eq_false_iff.mpr (fun h => c (haz.mpr h)))
    | exact bool_iff_of_neg rfl (fun h => Bool.noConfusion ((haz.mp c).symm.trans h))

/-- C25 at the cold-start driver and the frame 06 2C 04 00 00 00 06 C4: bits 1
and 2 of byte 6 are set and bit 0 is clear, so both flags become true. -/
theorem C25_generic_module_features_witness :
    ∃ d1, TransmitGenericModuleFeaturesState_Update
        (onState StateClass.TransmitGenericModuleFeaturesState)
        [0x06, 0x2c, 0x04, 0, 0, 0, 0x06, 0xC4] 8 10 = some d1 ∧
      (d1.m_bPneumaticsEnabled = true ↔
        ((0x06 : Nat).testBit 1 = true ∧ (0x06 : Nat).testBit 2 = true)) ∧
      (d1.m_bAutoZeroCondition = true ↔ (0x06 : Nat).testBit 0 = false) ∧
      currentClass d1 = some StateClass.SwitchBreathDetectionMode_PgmBreathDetection_State ∧
      d1.m_bPAIAvailable = (onState StateClass.TransmitGenericModuleFeaturesState).m_bPAIAvailable ∧
      d1.m_bNeedsExternalData =
        (onState StateClass.TransmitGenericModuleFeaturesState).m_bNeedsExternalData ∧
      d1.m_bHSP = (onState StateClass.TransmitGenericModuleFeaturesState).m_bHSP ∧
      d1.written = (onState StateClass.TransmitGenericModuleFeaturesState).written :=
  C25_generic_module_features (onState StateClass.TransmitGenericModuleFeaturesState)
    [0x06, 0x2c, 0x04, 0, 0, 0, 0x06, 0xC4] 8 10 0x06
    (by decide) (by decide) (by decide) (by decide) (by decide) (by decide)

/-- C26, as stated, fails: with `m_bNeedsExternalData` true, a frame 06 12 of
kind 0x0E whose byte 7 is 0 leads to `SuperviseModuleStatus_120E_MSBit2_State`;
with the flag false, such a frame whose byte 7 is 0xDE leads to
`AcceptExternalParameterData_UnknownAccuracy_State`. -/
theorem C26_flag_is_not_consulted :
    onProvideAfterHsp.m_bNeedsExternalData = true ∧
    currentClass onProvideAfterHsp =
      some StateClass.ProvideTheSensorModuleWithRequiredData_State ∧
    (ProvideTheSensorModuleWithRequiredData_State_Update onProvideAfterHsp
      [0x06, 0x12, 0x0c, 0, 0, 0, 0, 0x00, 0, 0, 0, 0, 0, 0x0e, 0, 0xCE] 16 10).bind
      currentClass = some StateClass.SuperviseModuleStatus_120E_MSBit2_State ∧
    (onState StateClass.ProvideTheSensorModuleWithRequiredData_State).m_bNeedsExternalData =
      false ∧
    (ProvideTheSensorModuleWithRequiredData_State_Update
      (onState StateClass.ProvideTheSensorModuleWithRequiredData_State)
      [0x06, 0x12, 0x0c, 0, 0, 0, 0, 0xDE, 0, 0, 0, 0, 0, 0x0e, 0, 0xF0] 16 10).bind
      currentClass = some StateClass.AcceptExternalParameterData_UnknownAccuracy_State := by
  decide

/-- C26, amended: when `ProvideTheSensorModuleWithRequiredData_State::Update`
receives a frame with bytes 0 and 1 equal to 06 12 and byte 13 equal to 0x0E,
byte 7 of that frame decides, whatever the session flags hold: an
`AcceptExternalParameterData_UnknownAccuracy_State` is the current state
afterwards when one of the bits 0xDE of byte 7 is set, a
`SuperviseModuleStatus_120E_MSBit2_State` when none is; the session flags are
unchanged and nothing is written. -/
theorem C26_routing_reads_the_frame (d : Driver) (rddata : List Nat) (sz : Nat) (now : Int)
    (hsp : Nat) (h0 : rddata[0]? = some 0x06) (h1 : rddata[1]? = some 0x12)
    (h13 : rddata[13]? = some 0x0e) (h7 : rddata[7]? = some hsp)
    (hregA : registeredAs d StateClass.AcceptExternalParameterData_UnknownAccuracy_State = true)
    (hregB : registeredAs d StateClass.SuperviseModuleStatus_120E_MSBit2_State = true) :
    ∃ d1, ProvideTheSensorModuleWithRequiredData_State_Update d rddata sz now = some d1 ∧
      currentClass d1 = some (if hsp &&& 0xde ≠ 0
        then StateClass.AcceptExternalParameterData_UnknownAccuracy_State
        else StateClass.SuperviseModuleStatus_120E_MSBit2_State) ∧
      d1.m_bNeedsExternalData = d.m_bNeedsExternalData ∧ d1.m_bHSP = d.m_bHSP ∧
      d1.m_bPAIAvailable = d.m_bPAIAvailable ∧
      d1.m_bPneumaticsEnabled = d.m_bPneumaticsEnabled ∧
      d1.m_bAutoZeroCondition = d.m_bAutoZeroCondition ∧
      d1.written = d.written := by
  simp only [ProvideTheSensorModuleWithRequiredData_State_Update,
    header2_true rddata _ _ h0 h1, h13, h7, if_true]
  by_cases hm : hsp &&& 0xde ≠ 0
  · rw [if_pos hm, if_pos hm]
    exact ⟨_, rfl, currentClass_TransitionToNew _ _ _ hregA, rfl, rfl, rfl, rfl, rfl, rfl⟩
  · rw [if_neg hm, if_neg hm]
    exact ⟨_, rfl, currentClass_TransitionToNew _ _ _ hregB, rfl, rfl, rfl, rfl, rfl, rfl⟩

/-- C26, amended, on the driver whose flag is true and a frame whose byte 7 is
0: the successor is `SuperviseModuleStatus_120E_MSBit2_State`. -/
theorem C26_routing_reads_the_frame_witness :
    onProvideAfterHsp.m_bNeedsExternalData = true ∧
    ∃ d1, ProvideTheSensorModuleWithRequiredData_State_Update onProvideAfterHsp
        [0x06, 0x12, 0x0c, 0, 0, 0, 0, 0x00, 0, 0, 0, 0, 0, 0x0e, 0, 0xCE] 16 10 = some d1 ∧
      currentClass d1 = some (if (0x00 : Nat) &&& 0xde ≠ 0
        then StateClass.AcceptExternalParameterData_UnknownAccuracy_State
        else StateClass.SuperviseModuleStatus_120E_MSBit2_State) ∧
      d1.m_bNeedsExternalData = onProvideAfterHsp.m_bNeedsExternalData ∧
      d1.m_bHSP = onProvideAfterHsp.m_bHSP ∧
      d1.m_bPAIAvailable = onProvideAfterHsp.m_bPAIAvailable ∧
      d1.m_bPneumaticsEnabled = onProvideAfterHsp.m_bPneumaticsEnabled ∧
      d1.m_bAutoZeroCondition = onProvideAfterHsp.m_bAutoZeroCondition ∧
      d1.written = onProvideAfterHsp.written :=
  ⟨by decide,
    C26_routing_reads_the_frame onProvideAfterHsp
      [0x06, 0x12, 0x0c, 0, 0, 0, 0, 0x00, 0, 0, 0, 0, 0, 0x0e, 0, 0xCE] 16 10 0x00
      (by decide) (by decide) (by decide) (by decide) (by decide) (by decide)⟩

/-! ## The claims on falling back and retrying -/

/-- C24, as stated, fails after scenarios S2 and S3 and a failed vendor-code
request: the fallback makes the first `StopContinuousDataState` (address 1) the
current state again, it is still marked as sent, the awaiting-reply slot is
empty, and a tick long after the last transmission writes nothing. -/
theorem C24_fallback_does_not_restart :
    afterFallback.ctx.m_state = some 1 ∧
    afterFallback.cls 1 = StateClass.StopContinuousDataState ∧
    (afterFallback.ctx.heap 1).m_bIsAlreadySent = true ∧
    afterFallback.ctx.m_StackResponse = [] ∧
    afterFallback.m_lastTime 1 = 150 ∧
    afterFallback.written =
      [[0x10, 0x01, 0x19, 0xd6], [0x10, 0x02, 0x02, 0xff, 0xed],
       [0x10, 0x0a, 0x0a, 0, 0, 0, 0, 0, 0, 0, 0, 0, 0xdc]] ∧
    (Request1 afterFallback 100000 0).map (fun d => d.written) = some afterFallback.written := by
  decide

/-- C24, amended: when the registry holds a `StopContinuousDataState` at `p`, the
fallback `make_shared<StopContinuousDataState>()` and `TransitionTo` makes `p`
the current state and writes nothing.  If `p` is marked as sent, the
awaiting-reply slot is empty afterwards (the slot held at most one state and the
state that was current is single-shot) and no sequence of ticks changes
anything.  If `p` is not marked as sent, the slot holds `p` afterwards and a tick
at least 150 ms after its last transmission writes 10 01 19 D6. -/
theorem C24_fallback_reuses_registered_stop (d : Driver) (p cur : Ptr) (now : Int)
    (hfind : mapFind d.ctx.m_mapStates StateClass.StopContinuousDataState.GetCommandId = some p)
    (hcls : d.cls p = StateClass.StopContinuousDataState) (hlt : p < d.allocated)
    (hcur : d.ctx.m_state = some cur) (hsingle : (d.ctx.heap cur).IsSingleCommand = true)
    (hp : (d.ctx.heap p).IsSingleCommand = true)
    (hstack : d.ctx.m_StackResponse.length ≤ 1) :
    (d.TransitionToNew StateClass.StopContinuousDataState now).ctx.m_state = some p ∧
    (d.TransitionToNew StateClass.StopContinuousDataState now).cls p =
      StateClass.StopContinuousDataState ∧
    (d.TransitionToNew StateClass.StopContinuousDataState now).written = d.written ∧
    ((d.ctx.heap p).m_bIsAlreadySent = true →
      (d.TransitionToNew StateClass.StopContinuousDataState now).ctx.m_StackResponse = [] ∧
      ∀ ts, ticks (d.TransitionToNew StateClass.StopContinuousDataState now) ts =
        some (d.TransitionToNew StateClass.StopContinuousDataState now)) ∧
    ((d.ctx.heap p).m_bIsAlreadySent = false →
      (d.TransitionToNew StateClass.StopContinuousDataState now).ctx.m_StackResponse = [p] ∧
      ∀ (now2 : Int) (bytes_read : Nat), 150 ≤ now2 - d.m_lastTime p →
        ∃ d2, Request1 (d.TransitionToNew StateClass.StopContinuousDataState now) now2
            bytes_read = some d2 ∧
          d2.written = d.written ++ [[0x10, 0x01, 0x19, 0xd6]]) := by
  have hne : p ≠ d.allocated := Nat.ne_of_lt hlt
  obtain ⟨hw, _, _, _, _, _, _, hc, hheap, hstate⟩ :=
    TransitionToNew_spec d StateClass.StopContinuousDataState now
  rw [hfind] at hstate
  have hclsp : (d.TransitionToNew StateClass.StopContinuousDataState now).cls p =
      StateClass.StopContinuousDataState := by
    rw [hc]; simp [hne, hcls]
  have hheapp : (d.TransitionToNew StateClass.StopContinuousDataState now).ctx.heap p =
      d.ctx.heap p := by
    rw [hheap]; simp [hne]
  have htime : (d.TransitionToNew StateClass.StopContinuousDataState now).m_lastTime p =
      d.m_lastTime p := by
    simp [Driver.TransitionToNew, make_shared, hne]
  have hdet : (detachLatest (make_shared d StateClass.StopContinuousDataState now).1.ctx).m_StackResponse
      = [] := by
    have hcne : cur ≠ d.allocated ∨ cur = d.allocated := by tauto
    simp only [detachLatest, make_shared, hcur]
    have : ((if cur = d.allocated then (⟨true, false, false, false⟩ : StateObj)
        else d.ctx.heap cur)).IsSingleCommand = true := by
      split
      · rfl
      · exact hsingle
    simp only [this, if_true]
    rw [DetachNeedResponse_stack]
    cases hs : d.ctx.m_StackResponse with
    | nil => rfl
    | cons a rest =>
      rw [hs] at hstack
      cases rest with
      | nil => rfl
      | cons b rest2 => simp at hstack
  have hfind1 : mapFind (make_shared d StateClass.StopContinuousDataState now).1.ctx.m_mapStates
      StateClass.StopContinuousDataState.GetCommandId = some p := hfind
  have hstk := (TransitionTo_present (make_shared d StateClass.StopContinuousDataState now).1.ctx
    StateClass.StopContinuousDataState.GetCommandId
    (make_shared d StateClass.StopContinuousDataState now).2 p hfind1).2.2.2
  have hhp : ((make_shared d StateClass.StopContinuousDataState now).1.ctx.heap p) =
      d.ctx.heap p := by
    simp [make_shared, hne]
  rw [hhp, hdet, hp] at hstk
  refine ⟨hstate, hclsp, hw, fun hsent => ⟨?_, fun ts => ?_⟩,
    fun hns => ⟨?_, fun now2 br hgate => ?_⟩⟩
  · rw [hsent] at hstk
    exact hstk
  · exact ticks_of_sent ts _ p hstate (by rw [hheapp]; exact hsent)
  · rw [hns] at hstk
    exact hstk
  · obtain ⟨d2, hr, _, _, _, hyes, _⟩ := Request1_stop
      (d.TransitionToNew StateClass.StopContinuousDataState now) p now2 br hstate hclsp
      (by rw [hheapp]; exact hns)
    rw [htime] at hyes
    exact ⟨d2, hr, by rw [(hyes hgate).1, hw]⟩

/-- C24, amended, after scenario S2: the registered `StopContinuousDataState` at
address 1 is marked as sent, so after the fallback the slot is empty and ticks
change nothing. -/
theorem C24_fallback_reuses_registered_stop_witness :
    (afterS2.ctx.heap 1).m_bIsAlreadySent = true ∧
    (afterS2.TransitionToNew StateClass.StopContinuousDataState 180).ctx.m_state = some 1 ∧
    (afterS2.TransitionToNew StateClass.StopContinuousDataState 180).ctx.m_StackResponse = [] ∧
    ∀ ts, ticks (afterS2.TransitionToNew StateClass.StopContinuousDataState 180) ts =
      some (afterS2.TransitionToNew StateClass.StopContinuousDataState 180) :=
  ⟨by decide,
    (C24_fallback_reuses_registered_stop afterS2 1 2 180 (by decide) (by decide) (by decide)
      (by decide) (by decide) (by decide) (by decide)).1,
    (C24_fallback_reuses_registered_stop afterS2 1 2 180 (by decide) (by decide) (by decide)
      (by decide) (by decide) (by decide) (by decide)).2.2.2.1 (by decide)⟩

/-- C29 on a `MeasurementModeState` made at clock 0: a tick at 1000 ms writes
10 02 03 00 EB; after the frame 06 03 01 01 F5 the same object (address 2) is the
current state, marked as sent, the awaiting-reply slot is empty, and no later
tick writes anything.  When the first tick comes before 1000 ms, the object is
marked as sent without a transmission, and no tick ever writes the command. -/
theorem C29_measurement_mode_is_not_retried :
    (Request1 (onState StateClass.MeasurementModeState) 1000 0).map (fun d => d.written) =
      some [[0x10, 0x02, 0x03, 0x00, 0xeb]] ∧
    afterMeasurementReply.ctx.m_state = some 2 ∧
    afterMeasurementReply.cls 2 = StateClass.MeasurementModeState ∧
    (afterMeasurementReply.ctx.heap 2).m_bIsAlreadySent = true ∧
    afterMeasurementReply.ctx.m_StackResponse = [] ∧
    afterMeasurementReply.m_lastTime 2 = 1000 ∧
    afterMeasurementReply.written = [[0x10, 0x02, 0x03, 0x00, 0xeb]] ∧
    (∀ ts, (ticks afterMeasurementReply ts).map (fun d => d.written) =
      some [[0x10, 0x02, 0x03, 0x00, 0xeb]]) ∧
    (∀ ts, (ticks (onState StateClass.MeasurementModeState) ((999, 0) :: ts)).map
      (fun d => d.written) = some []) := by
  refine ⟨by decide, by decide, by decide, by decide, by decide, by decide, by decide,
    fun ts => ?_, fun ts => ?_⟩
  · rw [ticks_of_sent ts afterMeasurementReply 2 (by decide) (by decide)]
    decide
  · have h1 : ∃ d1, Request1 (onState StateClass.MeasurementModeState) 999 0 = some d1 ∧
        d1.ctx.m_state = some 2 ∧ (d1.ctx.heap 2).m_bIsAlreadySent = true ∧ d1.written = [] :=
      ⟨_, rfl, by decide, by decide, by decide⟩
    obtain ⟨d1, hr, hcur, hsent, hw⟩ := h1
    simp only [ticks, hr, ticks_of_sent ts d1 2 hcur hsent, Option.map_some', hw]

/-! ## The claim on the states without a command -/

/-- C30, as stated, fails on a `SelectTheAnestheticAgentState` after a cold
start: its first `HandleData` writes nothing, the list of stream subscribers is
empty afterwards, and the state (address 2) is in the awaiting-reply slot. -/
theorem C30_register_arms_the_reply_slot :
    onSelectAgent.ctx.m_state = some 2 ∧
    (Request1 onSelectAgent 0 0).map (fun d => d.written) = some [] ∧
    (Request1 onSelectAgent 0 0).map (fun d => d.ctx.m_ListObservers) = some [] ∧
    (Request1 onSelectAgent 0 0).map (fun d => d.ctx.m_StackResponse) = some [2] := by
  decide

/-- C30, amended: for every class whose command is empty, the first
`HandleData` of a current state of that class (one not marked as sent) writes
nothing, marks the state as sent, leaves the list of stream subscribers as it
was, and puts the state alone into the awaiting-reply slot. -/
theorem C30_subscriber_first_handle (d : Driver) (p : Ptr) (now : Int) (bytes_read : Nat)
    (hcur : d.ctx.m_state = some p) (hns : (d.ctx.heap p).m_bIsAlreadySent = false)
    (hcmd : (d.cls p).GetCommand = []) :
    ∃ d1, Request1 d now bytes_read = some d1 ∧ d1.written = d.written ∧
      d1.ctx.m_ListObservers = d.ctx.m_ListObservers ∧
      d1.ctx.m_StackResponse = [p] ∧
      (d1.ctx.heap p).m_bIsAlreadySent = true ∧
      d1.ctx.m_state = some p := by
  cases hc : d.cls p <;> rw [hc] at hcmd <;>
    first
    | exact absurd hcmd (by decide)
    | (simp only [Request1, hcur, HandleData, hns, hc, Bool.false_eq_true, if_false]
       exact ⟨_, rfl, rfl, rfl, by simp [Register, AttachNeedResponse, popWhileNotEmpty_eq_nil],
         by simp [Register, AttachNeedResponse, SetAlreadySent], hcur⟩)

/-- C30, amended, on a `GetUnitsState` after a cold start. -/
theorem C30_subscriber_first_handle_witness :
    ∃ d1, Request1 (onState StateClass.GetUnitsState) 7 0 = some d1 ∧
      d1.written = (onState StateClass.GetUnitsState).written ∧
      d1.ctx.m_ListObservers = (onState StateClass.GetUnitsState).ctx.m_ListObservers ∧
      d1.ctx.m_StackResponse = [2] ∧
      (d1.ctx.heap 2).m_bIsAlreadySent = true ∧
      d1.ctx.m_state = some 2 :=
  C30_subscriber_first_handle (onState StateClass.GetUnitsState) 2 7 0
    (by decide) (by decide) (by decide)

/-! ## Lemmas on complete frames -/

theorem isFrame_cases {f : List Nat} (hf : isFrame f = true) :
    ∃ a b c e rest, f = a :: b :: c :: e :: rest ∧ rest.length = c ∧ (a = 0x06 ∨ a = 0x15) := by
  match f, hf with
  | [], hf => simp [isFrame] at hf
  | [_], hf => simp [isFrame] at hf
  | [_, _], hf => simp [isFrame] at hf
  | [_, _, c], hf => simp [isFrame] at hf
  | a :: b :: c :: e :: rest, hf =>
    simp [isFrame] at hf
    exact ⟨a, b, c, e, rest, rfl, hf.1, hf.2⟩

theorem VendorCode_Update_reads_in_range (d : Driver) (f : List Nat) (sz : Nat) (now : Int)
    (hf : isFrame f = true) :
    TransmitDeviceComponentInformation_VendorCode_State_Update d f sz now ≠ none := by
  obtain ⟨a, b, c, e, rest, rfl, hlen, ha⟩ := isFrame_cases hf
  rcases ha with rfl | rfl
  · by_cases hb : b = 0x0a
    · by_cases hc : c = 0x14
      · subst hb hc
        have h21 : ∃ x, rest[17]? = some x := by
          have : 17 < rest.length := by omega
          exact ⟨rest[17], List.getElem?_eq_getElem this⟩
        obtain ⟨x, hx⟩ := h21
        have hl : ¬ (rest.length + 4 ≤ 20) := by omega
        simp only [TransmitDeviceComponentInformation_VendorCode_State_Update, header3, header2,
          List.getElem?_cons_zero, List.getElem?_cons_succ, List.length_cons, hx, hl, if_true,
          if_false, beq_self_eq_true]
        split <;> simp
      · have hc1 : (c == 0x14) = false := by simpa using hc
        simp [TransmitDeviceComponentInformation_VendorCode_State_Update, header3, header2, hb,
          hc1]
    · have hb1 : (b == 0x0a) = false := by simpa using hb
      simp [TransmitDeviceComponentInformation_VendorCode_State_Update, header3, header2, hb1]
  · by_cases hb : b = 0x0a
    · by_cases hc : c = 0x01
      · subst hb hc
        simp [TransmitDeviceComponentInformation_VendorCode_State_Update, header3, header2]
      · have hc1 : (c == 0x01) = false := by simpa using hc
        simp [TransmitDeviceComponentInformation_VendorCode_State_Update, header3, header2, hb,
          hc1]
    · have hb1 : (b == 0x0a) = false := by simpa using hb
      simp [TransmitDeviceComponentInformation_VendorCode_State_Update, header3, header2, hb1]

/-! ## The claims on the length byte, the checksums and the registry key -/

/-- C34 on the reads 06, then 19: after the first pass `dataheadlength` is 1, on
the second pass it becomes 1 + 2 = 3, so the pass reads `data[2]` of a buffer of
two bytes.  The same happens on the reads 06, nothing, nothing, with a buffer of
one byte. -/
theorem C34_length_byte_read_out_of_range :
    HandleResponseThread_iteration Reader.init [0x06] = some (⟨[0x06], 1⟩, []) ∧
    HandleResponseThread_iteration ⟨[0x06], 1⟩ [0x19] = none ∧
    HandleResponseThread Reader.init [[0x06], [0x19]] = ([], none) ∧
    HandleResponseThread Reader.init [[0x06], [], []] = ([], none) := by
  decide

/-- C36: the bytes of every command sum to 0 modulo 256, and the last byte of
every command that is not empty is 256 minus the sum of the bytes before it,
modulo 256. -/
theorem C36_command_checksum (c : StateClass) :
    checksumOk c.GetCommand = true ∧
    (c.GetCommand = [] ∨
      c.GetCommand.getLast? = some ((256 - c.GetCommand.dropLast.sum % 256) % 256)) := by
  cases c <;> decide

/-- C38 on the frame 06 12 00 E8, which the reader loop delivers: the `Update`
of `TransmitPatientData_120E_State`, of `SelectTheAnestheticAgentState` and of
`SuperviseModuleStatus_120E_MSBit2_State` read element 13 of a vector of
four. -/
theorem C38_frame_kind_read_out_of_range :
    isFrame [0x06, 0x12, 0x00, 0xE8] = true ∧
    (HandleResponseThread Reader.init [[0x06, 0x12, 0x00, 0xE8]]).1 =
      [Call.Notify [0x06, 0x12, 0x00, 0xE8] 4, Call.NotifyOne [0x06, 0x12, 0x00, 0xE8] 4] ∧
    (onState StateClass.TransmitPatientData_120E_State).ctx.m_StackResponse = [2] ∧
    (∀ fuel, (onState StateClass.TransmitPatientData_120E_State).NotifyOne
      [0x06, 0x12, 0x00, 0xE8] 4 10 "" fuel = none) ∧
    (∀ d now, TransmitPatientData_120E_State_Update d [0x06, 0x12, 0x00, 0xE8] 4 now = none) ∧
    (∀ d now, SelectTheAnestheticAgentState_Update d [0x06, 0x12, 0x00, 0xE8] 4 now = none) ∧
    (∀ d now, SuperviseModuleStatus_120E_MSBit2_State_Update d [0x06, 0x12, 0x00, 0xE8] 4 now =
      none) :=
  ⟨by decide, by decide, by decide, fun _ => rfl, fun _ _ => rfl, fun _ _ => rfl,
    fun _ _ => rfl⟩

/-- C40 on the frame 06 2C 04 00 00 00 01 C9, whose byte 6 has bit 0 set: when
the line read is "n", `HandleZeroRequestState::Update` does not return, whatever
the bound on the evaluations of the loop condition; when the line is "y", it
returns after the first evaluation, with the transition made. -/
theorem C40_confirmation_loop_does_not_end :
    (∀ d now fuel, HandleZeroRequestState_Update d [0x06, 0x2c, 0x04, 0, 0, 0, 0x01, 0xC9]
      8 now "n" fuel = none) ∧
    (∀ d now fuel, HandleZeroRequestState_Update d [0x06, 0x2c, 0x04, 0, 0, 0, 0x01, 0xC9]
      8 now "y" (fuel + 1) =
        some ((d.TransitionToNew StateClass.InitZeroState now).PrintData
          [0x06, 0x2c, 0x04, 0, 0, 0, 0x01, 0xC9])) := by
  have hn : ∀ fuel, HandleZeroRequestState_wait "n" fuel = false := by
    intro fuel
    induction fuel with
    | zero => rfl
    | succ n ih => simp [HandleZeroRequestState_wait, ih]
  refine ⟨fun d now fuel => ?_, fun d now fuel => ?_⟩
  · simp [HandleZeroRequestState_Update, header3, header2, hn]
  · simp [HandleZeroRequestState_Update, header3, header2, HandleZeroRequestState_wait]

/-! ## Lemmas on the registry of the driver -/

theorem TransitionToNew_registry (d : Driver) (c : StateClass) (now : Int) :
    (d.TransitionToNew c now).allocated = d.allocated + 1 ∧
    (d.TransitionToNew c now).ctx.m_mapStates =
      (match mapFind d.ctx.m_mapStates c.GetCommandId with
        | none => d.ctx.m_mapStates ++ [(toKey c.GetCommandId, d.allocated)]
        | some _ => d.ctx.m_mapStates) ∧
    (d.TransitionToNew c now).ctx.m_ListObservers = d.ctx.m_ListObservers := by
  refine ⟨rfl, ?_, ?_⟩
  · show (TransitionTo (make_shared d c now).1.ctx c.GetCommandId
      (make_shared d c now).2).m_mapStates = _
    cases hf : mapFind d.ctx.m_mapStates c.GetCommandId with
    | none => exact (TransitionTo_absent (make_shared d c now).1.ctx _ _ hf).2.2.1
    | some p => exact (TransitionTo_present (make_shared d c now).1.ctx _ _ p hf).2.2.1
  · show (TransitionTo (make_shared d c now).1.ctx c.GetCommandId
      (make_shared d c now).2).m_ListObservers = _
    have hd := (detachLatest_fields (make_shared d c now).1.ctx).2.2.2.1
    have hm := (detachLatest_fields (make_shared d c now).1.ctx).2.1
    unfold TransitionTo
    cases hf : mapFind d.ctx.m_mapStates c.GetCommandId with
    | none =>
      have hf1 : mapFind (detachLatest (make_shared d c now).1.ctx).m_mapStates c.GetCommandId =
          none := by rw [hm]; exact hf
      simp only [hf1]
      have hs : ((make_shared d c now).1.ctx.heap (make_shared d c now).2) =
          ⟨true, false, false, false⟩ := by simp [make_shared]
      simp [detachLatest_fields, hs, AttachNeedResponse, hd]
      rfl
    | some p =>
      have hf1 : mapFind (detachLatest (make_shared d c now).1.ctx).m_mapStates c.GetCommandId =
          some p := by rw [hm]; exact hf
      simp only [hf1]
      split <;> simp [AttachNeedResponse, hd] <;> rfl

theorem registeredAs_TransitionToNew (d : Driver) (c : StateClass) (now : Int)
    (h : registeredAs d c = true) : registeredAs (d.TransitionToNew c now) c = true := by
  obtain ⟨hal, hmap, _⟩ := TransitionToNew_registry d c now
  obtain ⟨_, _, _, _, _, _, _, hcls, _, _⟩ := TransitionToNew_spec d c now
  unfold registeredAs at h ⊢
  rw [hmap, hal, hcls]
  cases hf : mapFind d.ctx.m_mapStates c.GetCommandId with
  | none =>
    simp only [mapFind_append_of_none _ _ _ hf]
    simp
  | some p =>
    rw [hf] at h
    simp only [hf]
    simp only [Bool.and_eq_true, decide_eq_true_eq] at h ⊢
    have hne : p ≠ d.allocated := Nat.ne_of_lt h.2
    exact ⟨by simp [hne, h.1], Nat.lt_succ_of_lt h.2⟩

/-! ## The claims on the zero-request chain, the self-transition and the units -/

/-- C32, as stated, fails at the link 0x12/0x03: on a frame whose byte 11
(CO2_PS) has bit 5 clear and whose byte 12 (N2O_PS) has it set, the successor is
`HandleZeroRequestState`, not the next link. -/
theorem C32_first_link_tests_two_bytes :
    (ZeroInProgress_1203_CO2N2OPSBit5_State_Update
      (onState StateClass.ZeroInProgress_1203_CO2N2OPSBit5_State)
      [0x06, 0x12, 0x0c, 0, 0, 0, 0, 0, 0, 0, 0, 0x00, 0x20, 0x03, 0, 0xB9] 16 10).bind
      currentClass = some StateClass.HandleZeroRequestState := by
  decide

/-- C32, amended: `SuperviseZeroRequest_120E_OMS_State` goes, on a frame of kind
0x0E, to the first link when byte 12 is 0 and to `HandleZeroRequestState`
otherwise; the link 0x12/0x03 goes to `HandleZeroRequestState` when bit 5 of
byte 11 or of byte 12 is set and to the link 0x12/0x04 when both are clear; the
links 0x12/0x04 (byte 11), 0x12/0x10 (byte 11) and 0x12/0x11 (byte 12) go to
`HandleZeroRequestState` when bit 5 is set and to the next link when it is
clear, the last one to `ZeroRequestState`; `HandleZeroRequestState` goes to
`InitZeroState` on a frame 06 2C 04 whose byte 6 has bit 0 clear; the command of
`InitZeroState` has opcode 0x20. -/
theorem C32_zero_request_chain :
    (∀ (d : Driver) (rddata : List Nat) (sz : Nat) (now : Int) (oms : Nat),
      rddata[0]? = some 0x06 → rddata[1]? = some 0x12 → rddata[13]? = some 0x0e →
      rddata[12]? = some oms →
      registeredAs d StateClass.ZeroInProgress_1203_CO2N2OPSBit5_State = true →
      registeredAs d StateClass.HandleZeroRequestState = true →
      ∃ d1, SuperviseZeroRequest_120E_OMS_State_Update d rddata sz now = some d1 ∧
        currentClass d1 = some (if oms = 0 then
          StateClass.ZeroInProgress_1203_CO2N2OPSBit5_State
          else StateClass.HandleZeroRequestState)) ∧
    (∀ (d : Driver) (rddata : List Nat) (sz : Nat) (now : Int) (co2 n2o : Nat),
      rddata[0]? = some 0x06 → rddata[1]? = some 0x12 → rddata[13]? = some 0x03 →
      rddata[11]? = some co2 → rddata[12]? = some n2o →
      registeredAs d StateClass.HandleZeroRequestState = true →
      registeredAs d StateClass.ZeroInProgress_1204_O2PSBit5_State = true →
      ∃ d1, ZeroInProgress_1203_CO2N2OPSBit5_State_Update d rddata sz now = some d1 ∧
        currentClass d1 = some (if co2 &&& 0x20 ≠ 0 ∨ n2o &&& 0x20 ≠ 0 then
          StateClass.HandleZeroRequestState
          else StateClass.ZeroInProgress_1204_O2PSBit5_State)) ∧
    linkRoutes ZeroInProgress_1204_O2PSBit5_State_Update 0x04 11
      StateClass.HandleZeroRequestState StateClass.ZeroInProgress_1210_A1PSBit5_State ∧
    linkRoutes ZeroInProgress_1210_A1PSBit5_State_Update 0x10 11
      StateClass.HandleZeroRequestState StateClass.ZeroInProgress_1211_A2PSBit5_State ∧
    linkRoutes ZeroInProgress_1211_A2PSBit5_State_Update 0x11 12
      StateClass.HandleZeroRequestState StateClass.ZeroRequestState ∧
    (∀ (d : Driver) (rddata : List Nat) (sz : Nat) (now : Int) (features : Nat)
      (strAnswer : String) (fuel : Nat),
      rddata[0]? = some 0x06 → rddata[1]? = some 0x2c → rddata[2]? = some 0x04 →
      rddata[6]? = some features → features &&& 0x01 ≠ 0x01 →
      registeredAs d StateClass.InitZeroState = true →
      ∃ d1, HandleZeroRequestState_Update d rddata sz now strAnswer fuel = some d1 ∧
        currentClass d1 = some StateClass.InitZeroState) ∧
    StateClass.InitZeroState.GetCommand[2]? = some 0x20 := by
  refine ⟨?_, ?_, ?_, ?_, ?_, ?_, by decide⟩
  · intro d rddata sz now oms h0 h1 h13 h12 hA hB
    simp only [SuperviseZeroRequest_120E_OMS_State_Update, header2_true rddata _ _ h0 h1, h13,
      h12, if_true]
    by_cases hm : oms = 0
    · rw [if_pos hm, if_pos hm]
      exact ⟨_, rfl, currentClass_TransitionToNew _ _ _ hA⟩
    · rw [if_neg hm, if_neg hm]
      exact ⟨_, rfl, currentClass_TransitionToNew _ _ _ hB⟩
  · intro d rddata sz now co2 n2o h0 h1 h13 h11 h12 hA hB
    simp only [ZeroInProgress_1203_CO2N2OPSBit5_State_Update, header2_true rddata _ _ h0 h1,
      h13, h11, h12, if_true]
    by_cases hm : co2 &&& 0x20 ≠ 0
    · rw [if_pos hm, if_pos (Or.inl hm)]
      exact ⟨_, rfl, currentClass_TransitionToNew _ _ _ hA⟩
    · rw [if_neg hm]
      by_cases hn : n2o &&& 0x20 ≠ 0
      · rw [if_pos hn, if_pos (Or.inr hn)]
        exact ⟨_, rfl, currentClass_TransitionToNew _ _ _ hA⟩
      · rw [if_neg hn, if_neg (by tauto)]
        exact ⟨_, rfl, currentClass_TransitionToNew _ _ _ hB⟩
  · intro d rddata sz now status h0 h1 h13 hk hA hB
    simp only [ZeroInProgress_1204_O2PSBit5_State_Update, header2_true rddata _ _ h0 h1, h13,
      hk, if_true]
    by_cases hm : status &&& 0x20 ≠ 0
    · rw [if_pos hm, if_pos hm]
      exact ⟨_, rfl, currentClass_TransitionToNew _ _ _ hA, rfl⟩
    · rw [if_neg hm, if_neg hm]
      exact ⟨_, rfl, currentClass_TransitionToNew _ _ _ hB, rfl⟩
  · intro d rddata sz now status h0 h1 h13 hk hA hB
    simp only [ZeroInProgress_1210_A1PSBit5_State_Update, header2_true rddata _ _ h0 h1, h13,
      hk, if_true]
    by_cases hm : status &&& 0x20 ≠ 0
    · rw [if_pos hm, if_pos hm]
      exact ⟨_, rfl, currentClass_TransitionToNew _ _ _ hA, rfl⟩
    · rw [if_neg hm, if_neg hm]
      exact ⟨_, rfl, currentClass_TransitionToNew _ _ _ hB, rfl⟩
  · intro d rddata sz now status h0 h1 h13 hk hA hB
    simp only [ZeroInProgress_1211_A2PSBit5_State_Update, header2_true rddata _ _ h0 h1, h13,
      hk, if_true]
    by_cases hm : status &&& 0x20 ≠ 0
    · rw [if_pos hm, if_pos hm]
      exact ⟨_, rfl, currentClass_TransitionToNew _ _ _ hA, rfl⟩
    · rw [if_neg hm, if_neg hm]
      exact ⟨_, rfl, currentClass_TransitionToNew _ _ _ hB, rfl⟩
  · intro d rddata sz now features strAnswer fuel h0 h1 h2 h6 hbit hA
    simp only [HandleZeroRequestState_Update, header3_true rddata _ _ _ h0 h1 h2, h6]
    rw [if_neg hbit]
    exact ⟨_, rfl, currentClass_TransitionToNew _ _ _ hA⟩

/-- C32, amended, on the link 0x12/0x04 after a cold start: a frame whose byte
11 has bit 5 clear advances to the link 0x12/0x10. -/
theorem C32_zero_request_chain_witness :
    ∃ d1, ZeroInProgress_1204_O2PSBit5_State_Update
        (onState StateClass.ZeroInProgress_1204_O2PSBit5_State)
        [0x06, 0x12, 0x0c, 0, 0, 0, 0, 0, 0, 0, 0, 0x00, 0, 0x04, 0, 0xD8] 16 10 = some d1 ∧
      currentClass d1 = some (if (0x00 : Nat) &&& 0x20 ≠ 0
        then StateClass.HandleZeroRequestState
        else StateClass.ZeroInProgress_1210_A1PSBit5_State) ∧
      d1.written = (onState StateClass.ZeroInProgress_1204_O2PSBit5_State).written :=
  C32_zero_request_chain.2.2.1 (onState StateClass.ZeroInProgress_1204_O2PSBit5_State)
    [0x06, 0x12, 0x0c, 0, 0, 0, 0, 0, 0, 0, 0, 0x00, 0, 0x04, 0, 0xD8] 16 10 0x00
    (by decide) (by decide) (by decide) (by decide) (by decide) (by decide)

/-- C33, as stated, fails on a `ParameterInopInformation_120E_PII_State` that has
handled its first tick: before the frame the awaiting-reply slot holds the state
(address 2); after a frame of kind 0x0E whose byte 6 is 0 the slot is empty,
while the current state and the registry are as before. -/
theorem C33_self_transition_empties_the_slot :
    onPII.ctx.m_state = some 2 ∧
    onPII.ctx.m_StackResponse = [2] ∧
    (ParameterInopInformation_120E_PII_State_Update onPII
      [0x06, 0x12, 0x0c, 0, 0, 0, 0x00, 0, 0, 0, 0, 0, 0, 0x0e, 0, 0xCE] 16 10).map
      (fun d => (d.ctx.m_state, d.ctx.m_StackResponse, d.ctx.m_mapStates)) =
      some (some 2, [], onPII.ctx.m_mapStates) := by
  decide

/-- C33, amended: on a frame 06 12 of kind 0x0E whose byte 6 has no bit of 0x1F
set, with the current state `p` registered under the identifier of
`ParameterInopInformation_120E_PII_State`, `Update` returns; the current state,
the registry, the list of stream subscribers and the state object are as
before; the awaiting-reply slot loses its top when `p` is marked as sent and
holds `p` alone when it is not. -/
theorem C33_self_transition (d : Driver) (p : Ptr) (rddata : List Nat) (sz : Nat) (now : Int)
    (inop : Nat) (h0 : rddata[0]? = some 0x06) (h1 : rddata[1]? = some 0x12)
    (h13 : rddata[13]? = some 0x0e) (h6 : rddata[6]? = some inop) (hno : inop &&& 0x1f = 0)
    (hcur : d.ctx.m_state = some p)
    (hreg : mapFind d.ctx.m_mapStates
      StateClass.ParameterInopInformation_120E_PII_State.GetCommandId = some p)
    (hlt : p < d.allocated) (hsingle : (d.ctx.heap p).IsSingleCommand = true) :
    ∃ d1, ParameterInopInformation_120E_PII_State_Update d rddata sz now = some d1 ∧
      d1.ctx.m_state = some p ∧
      d1.ctx.m_mapStates = d.ctx.m_mapStates ∧
      d1.ctx.m_ListObservers = d.ctx.m_ListObservers ∧
      d1.ctx.heap p = d.ctx.heap p ∧
      d1.ctx.m_StackResponse =
        (if (d.ctx.heap p).m_bIsAlreadySent then d.ctx.m_StackResponse.tail else [p]) := by
  have hne : p ≠ d.allocated := Nat.ne_of_lt hlt
  have hcond : ¬ (inop &&& 0x1f ≠ 0) := fun h => h hno
  simp only [ParameterInopInformation_120E_PII_State_Update, header2_true rddata _ _ h0 h1, h13,
    h6, if_true, if_neg hcond]
  obtain ⟨_, _, _, _, _, _, _, _, hheap, hstate⟩ :=
    TransitionToNew_spec d StateClass.ParameterInopInformation_120E_PII_State now
  obtain ⟨_, hmap, hobs⟩ :=
    TransitionToNew_registry d StateClass.ParameterInopInformation_120E_PII_State now
  rw [hreg] at hstate hmap
  have hfind1 : mapFind
      (make_shared d StateClass.ParameterInopInformation_120E_PII_State now).1.ctx.m_mapStates
      StateClass.ParameterInopInformation_120E_PII_State.GetCommandId = some p := hreg
  have hstk := (TransitionTo_present
    (make_shared d StateClass.ParameterInopInformation_120E_PII_State now).1.ctx
    StateClass.ParameterInopInformation_120E_PII_State.GetCommandId
    (make_shared d StateClass.ParameterInopInformation_120E_PII_State now).2 p hfind1).2.2.2
  have hhp : ((make_shared d StateClass.ParameterInopInformation_120E_PII_State now).1.ctx.heap p)
      = d.ctx.heap p := by
    simp [make_shared, hne]
  have hdet : (detachLatest
      (make_shared d StateClass.ParameterInopInformation_120E_PII_State now).1.ctx).m_StackResponse
      = d.ctx.m_StackResponse.tail := by
    have hc1 : (make_shared d StateClass.ParameterInopInformation_120E_PII_State
        now).1.ctx.m_state = some p := hcur
    simp only [detachLatest, hc1, hhp, hsingle, if_true]
    rw [DetachNeedResponse_stack]
    rfl
  rw [hhp, hdet, hsingle] at hstk
  have hheapp : (d.TransitionToNew StateClass.ParameterInopInformation_120E_PII_State
      now).ctx.heap p = d.ctx.heap p := by
    rw [hheap]; simp [hne]
  refine ⟨_, rfl, hstate, hmap, hobs, hheapp, ?_⟩
  show (TransitionTo (make_shared d StateClass.ParameterInopInformation_120E_PII_State
    now).1.ctx _ _).m_StackResponse = _
  rw [hstk]
  cases (d.ctx.heap p).m_bIsAlreadySent <;> simp

/-- C33, amended, on the state that has handled its first tick: the slot is
empty afterwards. -/
theorem C33_self_transition_witness :
    (onPII.ctx.heap 2).m_bIsAlreadySent = true ∧
    ∃ d1, ParameterInopInformation_120E_PII_State_Update onPII
        [0x06, 0x12, 0x0c, 0, 0, 0, 0x00, 0, 0, 0, 0, 0, 0, 0x0e, 0, 0xCE] 16 10 = some d1 ∧
      d1.ctx.m_state = some 2 ∧
      d1.ctx.m_mapStates = onPII.ctx.m_mapStates ∧
      d1.ctx.m_ListObservers = onPII.ctx.m_ListObservers ∧
      d1.ctx.heap 2 = onPII.ctx.heap 2 ∧
      d1.ctx.m_StackResponse =
        (if (onPII.ctx.heap 2).m_bIsAlreadySent then onPII.ctx.m_StackResponse.tail else [2]) :=
  ⟨by decide,
    C33_self_transition onPII 2 [0x06, 0x12, 0x0c, 0, 0, 0, 0x00, 0, 0, 0, 0, 0, 0, 0x0e, 0, 0xCE]
      16 10 0x00 (by decide) (by decide) (by decide) (by decide) (by decide) (by decide)
      (by decide) (by decide) (by decide)⟩

/-- One block of `GetUnitsState::Update`: what it prints, and what it does to
the driver. -/
theorem GetUnitsState_unit_spec (s : Driver × List String) (name : String) (unit : Nat)
    (now : Int)
    (hreg : registeredAs s.1 StateClass.EvaluateConnectionEstablishedState = true) :
    (GetUnitsState_unit s name unit now).2 = s.2 ++ unitReport name unit ∧
    registeredAs (GetUnitsState_unit s name unit now).1
      StateClass.EvaluateConnectionEstablishedState = true ∧
    (GetUnitsState_unit s name unit now).1.written = s.1.written ∧
    (unitReported unit = true →
      currentClass (GetUnitsState_unit s name unit now).1 =
        some StateClass.EvaluateConnectionEstablishedState) ∧
    (unitReported unit = false → (GetUnitsState_unit s name unit now).1 = s.1) := by
  by_cases h5 : unit &&& 0x05 ≠ 0
  · have e1 : GetUnitsState_unit s name unit now =
        (s.1.TransitionToNew StateClass.EvaluateConnectionEstablishedState now,
          s.2 ++ [name ++ " is Atps Mmhg. \n",
            "Change the state of the context EvaluateConnectionEstablishedState.\n"]) := by
      unfold GetUnitsState_unit; rw [if_pos h5]
    have e2 : unitReport name unit = [name ++ " is Atps Mmhg. \n",
        "Change the state of the context EvaluateConnectionEstablishedState.\n"] := by
      unfold unitReport; rw [if_pos h5]
    rw [e1, e2]
    exact ⟨rfl, registeredAs_TransitionToNew _ _ _ hreg, rfl,
      fun _ => currentClass_TransitionToNew _ _ _ hreg,
      fun h => by simp [unitReported, h5] at h⟩
  · by_cases h0 : unit = 0x00
    · have e1 : GetUnitsState_unit s name unit now =
          (s.1.TransitionToNew StateClass.EvaluateConnectionEstablishedState now,
            s.2 ++ [name ++ " is Ats Vol. \n",
              "Change the state of the context EvaluateConnectionEstablishedState.\n"]) := by
        unfold GetUnitsState_unit; rw [if_neg h5, if_pos h0]
      have e2 : unitReport name unit = [name ++ " is Ats Vol. \n",
          "Change the state of the context EvaluateConnectionEstablishedState.\n"] := by
        unfold unitReport; rw [if_neg h5, if_pos h0]
      rw [e1, e2]
      exact ⟨rfl, registeredAs_TransitionToNew _ _ _ hreg, rfl,
        fun _ => currentClass_TransitionToNew _ _ _ hreg,
        fun h => by simp [unitReported, h0] at h⟩
    · have e1 : GetUnitsState_unit s name unit now = s := by
        unfold GetUnitsState_unit; rw [if_neg h5, if_neg h0]
      have e2 : unitReport name unit = [] := by
        unfold unitReport; rw [if_neg h5, if_neg h0]
      rw [e1, e2]
      refine ⟨by simp, hreg, rfl, fun h => ?_, fun _ => rfl⟩
      simp only [ne_eq, Decidable.not_not] at h5
      simp [unitReported, h5, h0] at h

/-- C35, as stated, fails on a frame whose five unit bytes are 02: nothing is
printed for any unit and the current state is still the `GetUnitsState`. -/
theorem C35_unit_byte_without_label :
    currentClass (onState StateClass.GetUnitsState) = some StateClass.GetUnitsState ∧
    (GetUnitsState_Update_cout (onState StateClass.GetUnitsState)
      [0x06, 0x12, 0x0c, 0x02, 0x02, 0x02, 0x02, 0x02, 0, 0, 0, 0, 0, 0x12, 0, 0xC0] 16 10).map
      (fun r => (r.2, currentClass r.1)) = some ([], some StateClass.GetUnitsState) := by
  decide

/-- C35, amended: on a frame 06 12 of kind 0x12 with elements 3 to 7 present,
`GetUnitsState::Update` returns and writes nothing to the transport; for each of
the five units, in the order CO2, N2O, agent 1, agent 2, O2, it prints the label
"Atps Mmhg" when a bit of 0x05 of the unit byte is set, the label "Ats Vol" when
the byte is 0, and nothing otherwise; an `EvaluateConnectionEstablishedState` is
the current state afterwards when at least one unit was labelled, and the
context is as before when none was. -/
theorem C35_units_report (d : Driver) (rddata : List Nat) (sz : Nat) (now : Int)
    (co2 n2o a1 a2 o2 : Nat) (h0 : rddata[0]? = some 0x06) (h1 : rddata[1]? = some 0x12)
    (h13 : rddata[13]? = some 0x12) (h3 : rddata[3]? = some co2) (h4 : rddata[4]? = some n2o)
    (h5 : rddata[5]? = some a1) (h6 : rddata[6]? = some a2) (h7 : rddata[7]? = some o2)
    (hreg : registeredAs d StateClass.EvaluateConnectionEstablishedState = true) :
    ∃ d1 out, GetUnitsState_Update_cout d rddata sz now = some (d1, out) ∧
      out = unitReport "CO2_U - Co2 Parameter Unit" co2 ++ unitReport "N2o Parameter Unit" n2o ++
        unitReport "A1_U - Agent1 Parameter Unit" a1 ++
        unitReport "A2_U - Agent2 Parameter Unit" a2 ++
        unitReport "O2_U - O2 Parameter Unit" o2 ∧
      d1.written = d.written ∧
      ((unitReported co2 || unitReported n2o || unitReported a1 || unitReported a2 ||
          unitReported o2) = true →
        currentClass d1 = some StateClass.EvaluateConnectionEstablishedState) ∧
      ((unitReported co2 || unitReported n2o || unitReported a1 || unitReported a2 ||
          unitReported o2) = false → d1.ctx = d.ctx) := by
  simp only [GetUnitsState_Update_cout, header2_true rddata _ _ h0 h1, h13, h3, h4, h5, h6, h7,
    if_true]
  obtain ⟨o1, r1, w1, y1, n1⟩ := GetUnitsState_unit_spec (d, [])
    "CO2_U - Co2 Parameter Unit" co2 now hreg
  obtain ⟨o2', r2, w2, y2, n2⟩ := GetUnitsState_unit_spec
    (GetUnitsState_unit (d, []) "CO2_U - Co2 Parameter Unit" co2 now)
    "N2o Parameter Unit" n2o now r1
  obtain ⟨o3, r3, w3, y3, n3⟩ := GetUnitsState_unit_spec
    (GetUnitsState_unit (GetUnitsState_unit (d, []) "CO2_U - Co2 Parameter Unit" co2 now)
      "N2o Parameter Unit" n2o now)
    "A1_U - Agent1 Parameter Unit" a1 now r2
  obtain ⟨o4, r4, w4, y4, n4⟩ := GetUnitsState_unit_spec
    (GetUnitsState_unit (GetUnitsState_unit (GetUnitsState_unit (d, [])
      "CO2_U - Co2 Parameter Unit" co2 now) "N2o Parameter Unit" n2o now)
      "A1_U - Agent1 Parameter Unit" a1 now)
    "A2_U - Agent2 Parameter Unit" a2 now r3
  obtain ⟨o5, r5, w5, y5, n5⟩ := GetUnitsState_unit_spec
    (GetUnitsState_unit (GetUnitsState_unit (GetUnitsState_unit (GetUnitsState_unit (d, [])
      "CO2_U - Co2 Parameter Unit" co2 now) "N2o Parameter Unit" n2o now)
      "A1_U - Agent1 Parameter Unit" a1 now) "A2_U - Agent2 Parameter Unit" a2 now)
    "O2_U - O2 Parameter Unit" o2 now r4
  refine ⟨_, _, rfl, ?_, ?_, ?_, ?_⟩
  · rw [o5, o4, o3, o2', o1]; simp
  · show (GetUnitsState_unit _ _ _ _).1.written = _
    rw [w5, w4, w3, w2, w1]
  · intro hany
    show currentClass (GetUnitsState_unit _ _ _ _).1 = _
    cases e5 : unitReported o2 with
    | true => exact y5 e5
    | false =>
      rw [n5 e5]
      cases e4 : unitReported a2 with
      | true => exact y4 e4
      | false =>
        rw [n4 e4]
        cases e3 : unitReported a1 with
        | true => exact y3 e3
        | false =>
          rw [n3 e3]
          cases e2 : unitReported n2o with
          | true => exact y2 e2
          | false =>
            rw [n2 e2]
            cases e1 : unitReported co2 with
            | true => exact y1 e1
            | false => simp [e1, e2, e3, e4, e5] at hany
  · intro hnone
    simp only [Bool.or_eq_false_iff] at hnone
    obtain ⟨⟨⟨⟨e1, e2⟩, e3⟩, e4⟩, e5⟩ := hnone
    show (GetUnitsState_unit _ _ _ _).1.ctx = _
    rw [n5 e5, n4 e4, n3 e3, n2 e2, n1 e1]

/-- C35, amended, on a `GetUnitsState` after a cold start and a frame whose
unit bytes are 01, 00, 02, 02, 02: two units are labelled and an
`EvaluateConnectionEstablishedState` is the current state. -/
theorem C35_units_report_witness :
    unitReport "CO2_U - Co2 Parameter Unit" 0x01 =
      ["CO2_U - Co2 Parameter Unit is Atps Mmhg. \n",
        "Change the state of the context EvaluateConnectionEstablishedState.\n"] ∧
    unitReport "A1_U - Agent1 Parameter Unit" 0x02 = [] ∧
    ∃ d1 out, GetUnitsState_Update_cout (onState StateClass.GetUnitsState)
        [0x06, 0x12, 0x0c, 0x01, 0x00, 0x02, 0x02, 0x02, 0, 0, 0, 0, 0, 0x12, 0, 0xC3] 16 10 =
        some (d1, out) ∧
      out = unitReport "CO2_U - Co2 Parameter Unit" 0x01 ++
        unitReport "N2o Parameter Unit" 0x00 ++
        unitReport "A1_U - Agent1 Parameter Unit" 0x02 ++
        unitReport "A2_U - Agent2 Parameter Unit" 0x02 ++
        unitReport "O2_U - O2 Parameter Unit" 0x02 ∧
      currentClass d1 = some StateClass.EvaluateConnectionEstablishedState := by
  refine ⟨by decide, by decide, ?_⟩
  obtain ⟨d1, out, h, ho, _, hy, _⟩ := C35_units_report (onState StateClass.GetUnitsState)
    [0x06, 0x12, 0x0c, 0x01, 0x00, 0x02, 0x02, 0x02, 0, 0, 0, 0, 0, 0x12, 0, 0xC3] 16 10
    0x01 0x00 0x02 0x02 0x02 (by decide) (by decide) (by decide) (by decide) (by decide)
    (by decide) (by decide) (by decide) (by decide)
  exact ⟨d1, out, h, ho, hy (by decide)⟩

/-! ## Lemmas on the session flags -/

theorem header2_eq_true {rddata : List Nat} {a b : Nat} (h : header2 rddata a b = some true) :
    rddata[0]? = some a := by
  unfold header2 at h
  split at h
  · exact Option.noConfusion h
  · rename_i x hx
    split at h
    · rename_i hxa; rw [hx, hxa]
    · cases h

theorem header3_eq_true {rddata : List Nat} {a b c : Nat}
    (h : header3 rddata a b c = some true) : rddata[0]? = some a := by
  unfold header3 at h
  split at h
  · exact Option.noConfusion h
  · cases h
  · rename_i h2; exact header2_eq_true h2

theorem GetUnitsState_unit_flags (s : Driver × List String) (name : String) (unit : Nat)
    (now : Int) : sessionFlags (GetUnitsState_unit s name unit now).1 = sessionFlags s.1 := by
  unfold GetUnitsState_unit
  repeat' split
  all_goals rfl

theorem GetUnitsState_Update_flags (d : Driver)
    (rddata : List Nat) (sz : Nat) (now : Int) (d1 : Driver)
    (h : GetUnitsState_Update d rddata sz now = some d1) :
    sessionFlags d1 = sessionFlags d := by
  simp only [GetUnitsState_Update, GetUnitsState_Update_cout] at h
  repeat' split at h
  all_goals first
    | exact Option.noConfusion h
    | (simp only [Option.map_some', Option.map_none'] at h; cases h; rfl)
    | (simp only [Option.map_some', Option.map_none'] at h; cases h
       show sessionFlags (GetUnitsState_unit _ _ _ _).1 = _
       simp only [GetUnitsState_unit_flags])

theorem EvaluateConnectionEstablishedState_Update_flags (d : Driver)
    (rddata : List Nat) (sz : Nat) (now : Int) (d1 : Driver)
    (h : EvaluateConnectionEstablishedState_Update d rddata sz now = some d1) :
    sessionFlags d1 = sessionFlags d := by
  simp only [EvaluateConnectionEstablishedState_Update] at h
  cases h
  rfl

theorem HandleZeroRequestState_Update_flags (d : Driver)
    (rddata : List Nat) (sz : Nat) (now : Int) (strAnswer : String) (fuel : Nat) (d1 : Driver)
    (h : HandleZeroRequestState_Update d rddata sz now strAnswer fuel = some d1) :
    sessionFlags d1 = sessionFlags d := by
  simp only [HandleZeroRequestState_Update] at h
  repeat' split at h
  all_goals first | exact Option.noConfusion h | (cases h; rfl)

theorem StopContinuousDataState_Update_flags (d : Driver)
    (rddata : List Nat) (sz : Nat) (now : Int) (d1 : Driver)
    (h : StopContinuousDataState_Update d rddata sz now = some d1) :
    sessionFlags d1 = sessionFlags d := by
  simp only [StopContinuousDataState_Update] at h
  repeat' split at h
  all_goals first | exact Option.noConfusion h | (cases h; rfl)

theorem GetIntervalBaseTimeState_Update_flags (d : Driver)
    (rddata : List Nat) (sz : Nat) (now : Int) (d1 : Driver)
    (h : GetIntervalBaseTimeState_Update d rddata sz now = some d1) :
    sessionFlags d1 = sessionFlags d := by
  simp only [GetIntervalBaseTimeState_Update] at h
  repeat' split at h
  all_goals first | exact Option.noConfusion h | (cases h; rfl)

theorem TransmitDeviceComponentInformation_VendorCode_State_Update_flags (d : Driver)
    (rddata : List Nat) (sz : Nat) (now : Int) (d1 : Driver)
    (h : TransmitDeviceComponentInformation_VendorCode_State_Update d rddata sz now = some d1) :
    sessionFlags d1 = sessionFlags d := by
  simp only [TransmitDeviceComponentInformation_VendorCode_State_Update] at h
  repeat' split at h
  all_goals first | exact Option.noConfusion h | (cases h; rfl)

theorem TransmitDeviceComponentInformation_SerialNumber_State_Update_flags (d : Driver)
    (rddata : List Nat) (sz : Nat) (now : Int) (d1 : Driver)
    (h : TransmitDeviceComponentInformation_SerialNumber_State_Update d rddata sz now = some d1) :
    sessionFlags d1 = sessionFlags d := by
  simp only [TransmitDeviceComponentInformation_SerialNumber_State_Update] at h
  repeat' split at h
  all_goals first | exact Option.noConfusion h | (cases h; rfl)

theorem TransmitDeviceComponentInformation_HardwareRevision_State_Update_flags (d : Driver)
    (rddata : List Nat) (sz : Nat) (now : Int) (d1 : Driver)
    (h : TransmitDeviceComponentInformation_HardwareRevision_State_Update d rddata sz now = some d1) :
    sessionFlags d1 = sessionFlags d := by
  simp only [TransmitDeviceComponentInformation_HardwareRevision_State_Update] at h
  repeat' split at h
  all_goals first | exact Option.noConfusion h | (cases h; rfl)

theorem TransmitDeviceComponentInformation_SoftwareRevision_State_Update_flags (d : Driver)
    (rddata : List Nat) (sz : Nat) (now : Int) (d1 : Driver)
    (h : TransmitDeviceComponentInformation_SoftwareRevision_State_Update d rddata sz now = some d1) :
    sessionFlags d1 = sessionFlags d := by
  simp only [TransmitDeviceComponentInformation_SoftwareRevision_State_Update] at h
  repeat' split at h
  all_goals first | exact Option.noConfusion h | (cases h; rfl)

theorem TransmitDeviceComponentInformation_ProductName_State_Update_flags (d : Driver)
    (rddata : List Nat) (sz : Nat) (now : Int) (d1 : Driver)
    (h : TransmitDeviceComponentInformation_ProductName_State_Update d rddata sz now = some d1) :
    sessionFlags d1 = sessionFlags d := by
  simp only [TransmitDeviceComponentInformation_ProductName_State_Update] at h
  repeat' split at h
  all_goals first | exact Option.noConfusion h | (cases h; rfl)

theorem TransmitDeviceComponentInformation_PartNumber_State_Update_flags (d : Driver)
    (rddata : List Nat) (sz : Nat) (now : Int) (d1 : Driver)
    (h : TransmitDeviceComponentInformation_PartNumber_State_Update d rddata sz now = some d1) :
    sessionFlags d1 = sessionFlags d := by
  simp only [TransmitDeviceComponentInformation_PartNumber_State_Update] at h
  repeat' split at h
  all_goals first | exact Option.noConfusion h | (cases h; rfl)

theorem AdjustTimeInformationState_Update_flags (d : Driver)
    (rddata : List Nat) (sz : Nat) (now : Int) (d1 : Driver)
    (h : AdjustTimeInformationState_Update d rddata sz now = some d1) :
    sessionFlags d1 = sessionFlags d := by
  simp only [AdjustTimeInformationState_Update] at h
  repeat' split at h
  all_goals first | exact Option.noConfusion h | (cases h; rfl)

theorem TransmitGenericModuleFeaturesState_Update_flags_nak (d : Driver)
    (rddata : List Nat) (sz : Nat) (now : Int) (d1 : Driver)
    (h : TransmitGenericModuleFeaturesState_Update d rddata sz now = some d1)
    (h0 : rddata[0]? ≠ some 0x06) : sessionFlags d1 = sessionFlags d := by
  simp only [TransmitGenericModuleFeaturesState_Update] at h
  split at h
  · exact Option.noConfusion h
  · rename_i hh; exact absurd (header3_eq_true hh) h0
  · repeat' split at h
    all_goals first | exact Option.noConfusion h | (cases h; rfl)

theorem SwitchBreathDetectionMode_PgmBreathDetection_State_Update_flags (d : Driver)
    (rddata : List Nat) (sz : Nat) (now : Int) (d1 : Driver)
    (h : SwitchBreathDetectionMode_PgmBreathDetection_State_Update d rddata sz now = some d1) :
    sessionFlags d1 = sessionFlags d := by
  simp only [SwitchBreathDetectionMode_PgmBreathDetection_State_Update] at h
  repeat' split at h
  all_goals first | exact Option.noConfusion h | (cases h; rfl)

theorem SwitchBreathDetectionMode_PgmBreathDetectionAutoWakeup_State_Update_flags (d : Driver)
    (rddata : List Nat) (sz : Nat) (now : Int) (d1 : Driver)
    (h : SwitchBreathDetectionMode_PgmBreathDetectionAutoWakeup_State_Update d rddata sz now = some d1) :
    sessionFlags d1 = sessionFlags d := by
  simp only [SwitchBreathDetectionMode_PgmBreathDetectionAutoWakeup_State_Update] at h
  repeat' split at h
  all_goals first | exact Option.noConfusion h | (cases h; rfl)

theorem SwitchBreathDetectionMode_AutoWakeupAfterBreathphase1_State_Update_flags (d : Driver)
    (rddata : List Nat) (sz : Nat) (now : Int) (d1 : Driver)
    (h : SwitchBreathDetectionMode_AutoWakeupAfterBreathphase1_State_Update d rddata sz now = some d1) :
    sessionFlags d1 = sessionFlags d := by
  simp only [SwitchBreathDetectionMode_AutoWakeupAfterBreathphase1_State_Update] at h
  repeat' split at h
  all_goals first | exact Option.noConfusion h | (cases h; rfl)

theorem SwitchBreathDetectionMode_AutoWakeupAfterBreathphase2_State_Update_flags (d : Driver)
    (rddata : List Nat) (sz : Nat) (now : Int) (d1 : Driver)
    (h : SwitchBreathDetectionMode_AutoWakeupAfterBreathphase2_State_Update d rddata sz now = some d1) :
    sessionFlags d1 = sessionFlags d := by
  simp only [SwitchBreathDetectionMode_AutoWakeupAfterBreathphase2_State_Update] at h
  repeat' split at h
  all_goals first | exact Option.noConfusion h | (cases h; rfl)

theorem SwitchBreathDetectionMode_AutoWakeupAfterBreathphase3_State_Update_flags (d : Driver)
    (rddata : List Nat) (sz : Nat) (now : Int) (d1 : Driver)
    (h : SwitchBreathDetectionMode_AutoWakeupAfterBreathphase3_State_Update d rddata sz now = some d1) :
    sessionFlags d1 = sessionFlags d := by
  simp only [SwitchBreathDetectionMode_AutoWakeupAfterBreathphase3_State_Update] at h
  repeat' split at h
  all_goals first | exact Option.noConfusion h | (cases h; rfl)

theorem SwitchBreathDetectionMode_AutoWakeupAfterBreathphase4_State_Update_flags (d : Driver)
    (rddata : List Nat) (sz : Nat) (now : Int) (d1 : Driver)
    (h : SwitchBreathDetectionMode_AutoWakeupAfterBreathphase4_State_Update d rddata sz now = some d1) :
    sessionFlags d1 = sessionFlags d := by
  simp only [SwitchBreathDetectionMode_AutoWakeupAfterBreathphase4_State_Update] at h
  repeat' split at h
  all_goals first | exact Option.noConfusion h | (cases h; rfl)

theorem SwitchBreathDetectionMode_AutoWakeupAfterBreathphase5_State_Update_flags (d : Driver)
    (rddata : List Nat) (sz : Nat) (now : Int) (d1 : Driver)
    (h : SwitchBreathDetectionMode_AutoWakeupAfterBreathphase5_State_Update d rddata sz now = some d1) :
    sessionFlags d1 = sessionFlags d := by
  simp only [SwitchBreathDetectionMode_AutoWakeupAfterBreathphase5_State_Update] at h
  repeat' split at h
  all_goals first | exact Option.noConfusion h | (cases h; rfl)

theorem TransmitPatientData_120E_State_Update_flags_nak (d : Driver)
    (rddata : List Nat) (sz : Nat) (now : Int) (d1 : Driver)
    (h : TransmitPatientData_120E_State_Update d rddata sz now = some d1)
    (h0 : rddata[0]? ≠ some 0x06) : sessionFlags d1 = sessionFlags d := by
  simp only [TransmitPatientData_120E_State_Update] at h
  split at h
  · exact Option.noConfusion h
  · rename_i hh; exact absurd (header2_eq_true hh) h0
  · repeat' split at h
    all_goals first | exact Option.noConfusion h | (cases h; rfl)

theorem MeasurementModeState_Update_flags (d : Driver)
    (rddata : List Nat) (sz : Nat) (now : Int) (d1 : Driver)
    (h : MeasurementModeState_Update d rddata sz now = some d1) :
    sessionFlags d1 = sessionFlags d := by
  simp only [MeasurementModeState_Update] at h
  repeat' split at h
  all_goals first | exact Option.noConfusion h | (cases h; rfl)

theorem OperatingModeState_Update_flags (d : Driver)
    (rddata : List Nat) (sz : Nat) (now : Int) (d1 : Driver)
    (h : OperatingModeState_Update d rddata sz now = some d1) :
    sessionFlags d1 = sessionFlags d := by
  simp only [OperatingModeState_Update] at h
  repeat' split at h
  all_goals first | exact Option.noConfusion h | (cases h; rfl)

theorem SwitchValvesState_Update_flags (d : Driver)
    (rddata : List Nat) (sz : Nat) (now : Int) (d1 : Driver)
    (h : SwitchValvesState_Update d rddata sz now = some d1) :
    sessionFlags d1 = sessionFlags d := by
  simp only [SwitchValvesState_Update] at h
  repeat' split at h
  all_goals first | exact Option.noConfusion h | (cases h; rfl)

theorem SwitchPumpState_Update_flags (d : Driver)
    (rddata : List Nat) (sz : Nat) (now : Int) (d1 : Driver)
    (h : SwitchPumpState_Update d rddata sz now = some d1) :
    sessionFlags d1 = sessionFlags d := by
  simp only [SwitchPumpState_Update] at h
  repeat' split at h
  all_goals first | exact Option.noConfusion h | (cases h; rfl)

theorem SelectTheAnestheticAgentState_Update_flags_nak (d : Driver)
    (rddata : List Nat) (sz : Nat) (now : Int) (d1 : Driver)
    (h : SelectTheAnestheticAgentState_Update d rddata sz now = some d1)
    (h0 : rddata[0]? ≠ some 0x06) : sessionFlags d1 = sessionFlags d := by
  simp only [SelectTheAnestheticAgentState_Update] at h
  split at h
  · exact Option.noConfusion h
  · rename_i hh; exact absurd (header2_eq_true hh) h0
  · repeat' split at h
    all_goals first | exact Option.noConfusion h | (cases h; rfl)

theorem Evaluate_1210_State_Update_flags (d : Driver)
    (rddata : List Nat) (sz : Nat) (now : Int) (d1 : Driver)
    (h : Evaluate_1210_State_Update d rddata sz now = some d1) :
    sessionFlags d1 = sessionFlags d := by
  simp only [Evaluate_1210_State_Update] at h
  repeat' split at h
  all_goals first | exact Option.noConfusion h | (cases h; rfl)

theorem SelectAnestheticAgentType_Halothane_State_Update_flags (d : Driver)
    (rddata : List Nat) (sz : Nat) (now : Int) (d1 : Driver)
    (h : SelectAnestheticAgentType_Halothane_State_Update d rddata sz now = some d1) :
    sessionFlags d1 = sessionFlags d := by
  simp only [SelectAnestheticAgentType_Halothane_State_Update] at h
  repeat' split at h
  all_goals first | exact Option.noConfusion h | (cases h; rfl)

theorem ProvideTheSensorModuleWithRequiredData_State_Update_flags (d : Driver)
    (rddata : List Nat) (sz : Nat) (now : Int) (d1 : Driver)
    (h : ProvideTheSensorModuleWithRequiredData_State_Update d rddata sz now = some d1) :
    sessionFlags d1 = sessionFlags d := by
  simp only [ProvideTheSensorModuleWithRequiredData_State_Update] at h
  repeat' split at h
  all_goals first | exact Option.noConfusion h | (cases h; rfl)

theorem AcceptExternalParameterData_UnknownAccuracy_State_Update_flags (d : Driver)
    (rddata : List Nat) (sz : Nat) (now : Int) (d1 : Driver)
    (h : AcceptExternalParameterData_UnknownAccuracy_State_Update d rddata sz now = some d1) :
    sessionFlags d1 = sessionFlags d := by
  simp only [AcceptExternalParameterData_UnknownAccuracy_State_Update] at h
  repeat' split at h
  all_goals first | exact Option.noConfusion h | (cases h; rfl)

theorem SuperviseModuleStatus_120E_MSBit2_State_Update_flags (d : Driver)
    (rddata : List Nat) (sz : Nat) (now : Int) (d1 : Driver)
    (h : SuperviseModuleStatus_120E_MSBit2_State_Update d rddata sz now = some d1) :
    sessionFlags d1 = sessionFlags d := by
  simp only [SuperviseModuleStatus_120E_MSBit2_State_Update] at h
  repeat' split at h
  all_goals first | exact Option.noConfusion h | (cases h; rfl)

theorem SuperviseModuleStatus_120B_MSWBit5_State_Update_flags (d : Driver)
    (rddata : List Nat) (sz : Nat) (now : Int) (d1 : Driver)
    (h : SuperviseModuleStatus_120B_MSWBit5_State_Update d rddata sz now = some d1) :
    sessionFlags d1 = sessionFlags d := by
  simp only [SuperviseModuleStatus_120B_MSWBit5_State_Update] at h
  repeat' split at h
  all_goals first | exact Option.noConfusion h | (cases h; rfl)

theorem SuperviseModuleStatus_120B_MSWBit6_State_Update_flags (d : Driver)
    (rddata : List Nat) (sz : Nat) (now : Int) (d1 : Driver)
    (h : SuperviseModuleStatus_120B_MSWBit6_State_Update d rddata sz now = some d1) :
    sessionFlags d1 = sessionFlags d := by
  simp only [SuperviseModuleStatus_120B_MSWBit6_State_Update] at h
  repeat' split at h
  all_goals first | exact Option.noConfusion h | (cases h; rfl)

theorem SuperviseModuleStatus_120E_MSWBit7_State_Update_flags (d : Driver)
    (rddata : List Nat) (sz : Nat) (now : Int) (d1 : Driver)
    (h : SuperviseModuleStatus_120E_MSWBit7_State_Update d rddata sz now = some d1) :
    sessionFlags d1 = sessionFlags d := by
  simp only [SuperviseModuleStatus_120E_MSWBit7_State_Update] at h
  repeat' split at h
  all_goals first | exact Option.noConfusion h | (cases h; rfl)

theorem SuperviseModuleStatus_120E_MSBit6_State_Update_flags (d : Driver)
    (rddata : List Nat) (sz : Nat) (now : Int) (d1 : Driver)
    (h : SuperviseModuleStatus_120E_MSBit6_State_Update d rddata sz now = some d1) :
    sessionFlags d1 = sessionFlags d := by
  simp only [SuperviseModuleStatus_120E_MSBit6_State_Update] at h
  repeat' split at h
  all_goals first | exact Option.noConfusion h | (cases h; rfl)

theorem SuperviseModuleStatus_120E_MSBit5_State_Update_flags (d : Driver)
    (rddata : List Nat) (sz : Nat) (now : Int) (d1 : Driver)
    (h : SuperviseModuleStatus_120E_MSBit5_State_Update d rddata sz now = some d1) :
    sessionFlags d1 = sessionFlags d := by
  simp only [SuperviseModuleStatus_120E_MSBit5_State_Update] at h
  repeat' split at h
  all_goals first | exact Option.noConfusion h | (cases h; rfl)

theorem SuperviseModuleStatus_120E_MSBit4_State_Update_flags (d : Driver)
    (rddata : List Nat) (sz : Nat) (now : Int) (d1 : Driver)
    (h : SuperviseModuleStatus_120E_MSBit4_State_Update d rddata sz now = some d1) :
    sessionFlags d1 = sessionFlags d := by
  simp only [SuperviseModuleStatus_120E_MSBit4_State_Update] at h
  repeat' split at h
  all_goals first | exact Option.noConfusion h | (cases h; rfl)

theorem SuperviseZeroRequest_120E_OMS_State_Update_flags (d : Driver)
    (rddata : List Nat) (sz : Nat) (now : Int) (d1 : Driver)
    (h : SuperviseZeroRequest_120E_OMS_State_Update d rddata sz now = some d1) :
    sessionFlags d1 = sessionFlags d := by
  simp only [SuperviseZeroRequest_120E_OMS_State_Update] at h
  repeat' split at h
  all_goals first | exact Option.noConfusion h | (cases h; rfl)

theorem ZeroInProgress_1203_CO2N2OPSBit5_State_Update_flags (d : Driver)
    (rddata : List Nat) (sz : Nat) (now : Int) (d1 : Driver)
    (h : ZeroInProgress_1203_CO2N2OPSBit5_State_Update d rddata sz now = some d1) :
    sessionFlags d1 = sessionFlags d := by
  simp only [ZeroInProgress_1203_CO2N2OPSBit5_State_Update] at h
  repeat' split at h
  all_goals first | exact Option.noConfusion h | (cases h; rfl)

theorem ZeroInProgress_1204_O2PSBit5_State_Update_flags (d : Driver)
    (rddata : List Nat) (sz : Nat) (now : Int) (d1 : Driver)
    (h : ZeroInProgress_1204_O2PSBit5_State_Update d rddata sz now = some d1) :
    sessionFlags d1 = sessionFlags d := by
  simp only [ZeroInProgress_1204_O2PSBit5_State_Update] at h
  repeat' split at h
  all_goals first | exact Option.noConfusion h | (cases h; rfl)

theorem ZeroInProgress_1210_A1PSBit5_State_Update_flags (d : Driver)
    (rddata : List Nat) (sz : Nat) (now : Int) (d1 : Driver)
    (h : ZeroInProgress_1210_A1PSBit5_State_Update d rddata sz now = some d1) :
    sessionFlags d1 = sessionFlags d := by
  simp only [ZeroInProgress_1210_A1PSBit5_State_Update] at h
  repeat' split at h
  all_goals first | exact Option.noConfusion h | (cases h; rfl)

theorem ZeroInProgress_1211_A2PSBit5_State_Update_flags (d : Driver)
    (rddata : List Nat) (sz : Nat) (now : Int) (d1 : Driver)
    (h : ZeroInProgress_1211_A2PSBit5_State_Update d rddata sz now = some d1) :
    sessionFlags d1 = sessionFlags d := by
  simp only [ZeroInProgress_1211_A2PSBit5_State_Update] at h
  repeat' split at h
  all_goals first | exact Option.noConfusion h | (cases h; rfl)

theorem ZeroRequestState_Update_flags (d : Driver)
    (rddata : List Nat) (sz : Nat) (now : Int) (d1 : Driver)
    (h : ZeroRequestState_Update d rddata sz now = some d1) :
    sessionFlags d1 = sessionFlags d := by
  simp only [ZeroRequestState_Update] at h
  repeat' split at h
  all_goals first | exact Option.noConfusion h | (cases h; rfl)

theorem InitZeroState_Update_flags (d : Driver)
    (rddata : List Nat) (sz : Nat) (now : Int) (d1 : Driver)
    (h : InitZeroState_Update d rddata sz now = some d1) :
    sessionFlags d1 = sessionFlags d := by
  simp only [InitZeroState_Update] at h
  repeat' split at h
  all_goals first | exact Option.noConfusion h | (cases h; rfl)

theorem HostSelectableParameters_120E_HSP_State_Update_flags (d : Driver)
    (rddata : List Nat) (sz : Nat) (now : Int) (d1 : Driver)
    (h : HostSelectableParameters_120E_HSP_State_Update d rddata sz now = some d1) :
    sessionFlags d1 = sessionFlags d := by
  simp only [HostSelectableParameters_120E_HSP_State_Update] at h
  repeat' split at h
  all_goals first | exact Option.noConfusion h | (cases h; rfl)

theorem ParameterAvailabilityInformation_120E_PAI_State_Update_flags_nak (d : Driver)
    (rddata : List Nat) (sz : Nat) (now : Int) (d1 : Driver)
    (h : ParameterAvailabilityInformation_120E_PAI_State_Update d rddata sz now = some d1)
    (h0 : rddata[0]? ≠ some 0x06) : sessionFlags d1 = sessionFlags d := by
  simp only [ParameterAvailabilityInformation_120E_PAI_State_Update] at h
  split at h
  · exact Option.noConfusion h
  · rename_i hh; exact absurd (header2_eq_true hh) h0
  · repeat' split at h
    all_goals first | exact Option.noConfusion h | (cases h; rfl)

theorem ParameterMode_1203_CO2PSBit6Bit7_State_Update_flags (d : Driver)
    (rddata : List Nat) (sz : Nat) (now : Int) (d1 : Driver)
    (h : ParameterMode_1203_CO2PSBit6Bit7_State_Update d rddata sz now = some d1) :
    sessionFlags d1 = sessionFlags d := by
  simp only [ParameterMode_1203_CO2PSBit6Bit7_State_Update] at h
  repeat' split at h
  all_goals first | exact Option.noConfusion h | (cases h; rfl)

theorem ParameterMode_1203_N2OPSBit6Bit7_State_Update_flags (d : Driver)
    (rddata : List Nat) (sz : Nat) (now : Int) (d1 : Driver)
    (h : ParameterMode_1203_N2OPSBit6Bit7_State_Update d rddata sz now = some d1) :
    sessionFlags d1 = sessionFlags d := by
  simp only [ParameterMode_1203_N2OPSBit6Bit7_State_Update] at h
  repeat' split at h
  all_goals first | exact Option.noConfusion h | (cases h; rfl)

theorem ParameterMode_1204_O2PSBit6Bit7_State_Update_flags (d : Driver)
    (rddata : List Nat) (sz : Nat) (now : Int) (d1 : Driver)
    (h : ParameterMode_1204_O2PSBit6Bit7_State_Update d rddata sz now = some d1) :
    sessionFlags d1 = sessionFlags d := by
  simp only [ParameterMode_1204_O2PSBit6Bit7_State_Update] at h
  repeat' split at h
  all_goals first | exact Option.noConfusion h | (cases h; rfl)

theorem ParameterMode_1210_A1PSBit6Bit7_State_Update_flags (d : Driver)
    (rddata : List Nat) (sz : Nat) (now : Int) (d1 : Driver)
    (h : ParameterMode_1210_A1PSBit6Bit7_State_Update d rddata sz now = some d1) :
    sessionFlags d1 = sessionFlags d := by
  simp only [ParameterMode_1210_A1PSBit6Bit7_State_Update] at h
  repeat' split at h
  all_goals first | exact Option.noConfusion h | (cases h; rfl)

theorem ParameterMode_1211_A2PSBit6Bit7_State_Update_flags (d : Driver)
    (rddata : List Nat) (sz : Nat) (now : Int) (d1 : Driver)
    (h : ParameterMode_1211_A2PSBit6Bit7_State_Update d rddata sz now = some d1) :
    sessionFlags d1 = sessionFlags d := by
  simp only [ParameterMode_1211_A2PSBit6Bit7_State_Update] at h
  repeat' split at h
  all_goals first | exact Option.noConfusion h | (cases h; rfl)

theorem ParameterInopInformation_120E_PII_State_Update_flags (d : Driver)
    (rddata : List Nat) (sz : Nat) (now : Int) (d1 : Driver)
    (h : ParameterInopInformation_120E_PII_State_Update d rddata sz now = some d1) :
    sessionFlags d1 = sessionFlags d := by
  simp only [ParameterInopInformation_120E_PII_State_Update] at h
  repeat' split at h
  all_goals first | exact Option.noConfusion h | (cases h; rfl)

theorem MeasurementMode_120E_OMS_State_Update_flags (d : Driver)
    (rddata : List Nat) (sz : Nat) (now : Int) (d1 : Driver)
    (h : MeasurementMode_120E_OMS_State_Update d rddata sz now = some d1) :
    sessionFlags d1 = sessionFlags d := by
  simp only [MeasurementMode_120E_OMS_State_Update] at h
  repeat' split at h
  all_goals first | exact Option.noConfusion h | (cases h; rfl)

theorem Occlusion_120E_MSBit1__State_Update_flags (d : Driver)
    (rddata : List Nat) (sz : Nat) (now : Int) (d1 : Driver)
    (h : Occlusion_120E_MSBit1__State_Update d rddata sz now = some d1) :
    sessionFlags d1 = sessionFlags d := by
  simp only [Occlusion_120E_MSBit1__State_Update] at h
  repeat' split at h
  all_goals first | exact Option.noConfusion h | (cases h; rfl)

/-- The session flags after the virtual call `Update`, for a class that is not
one of the four writers or for a frame whose first byte is not 0x06. -/
theorem Update_flags (d : Driver) (this : Ptr) (rddata : List Nat) (sz : Nat) (now : Int)
    (strAnswer : String) (fuel : Nat) (d1 : Driver)
    (h : Update d this rddata sz now strAnswer fuel = some d1)
    (hc : flagWriters.contains (d.cls this) = false ∨ rddata[0]? ≠ some 0x06) :
    sessionFlags d1 = sessionFlags d := by
  unfold Update at h
  cases hcl : d.cls this with
  | StopContinuousDataState =>
    rw [hcl] at h
    exact StopContinuousDataState_Update_flags d rddata sz now d1 h
  | GetIntervalBaseTimeState =>
    rw [hcl] at h
    exact GetIntervalBaseTimeState_Update_flags d rddata sz now d1 h
  | TransmitDeviceComponentInformation_VendorCode_State =>
    rw [hcl] at h
    exact TransmitDeviceComponentInformation_VendorCode_State_Update_flags d rddata sz now d1 h
  | TransmitDeviceComponentInformation_SerialNumber_State =>
    rw [hcl] at h
    exact TransmitDeviceComponentInformation_SerialNumber_State_Update_flags d rddata sz now d1 h
  | TransmitDeviceComponentInformation_HardwareRevision_State =>
    rw [hcl] at h
    exact TransmitDeviceComponentInformation_HardwareRevision_State_Update_flags d rddata sz now d1 h
  | TransmitDeviceComponentInformation_SoftwareRevision_State =>
    rw [hcl] at h
    exact TransmitDeviceComponentInformation_SoftwareRevision_State_Update_flags d rddata sz now d1 h
  | TransmitDeviceComponentInformation_ProductName_State =>
    rw [hcl] at h
    exact TransmitDeviceComponentInformation_ProductName_State_Update_flags d rddata sz now d1 h
  | TransmitDeviceComponentInformation_PartNumber_State =>
    rw [hcl] at h
    exact TransmitDeviceComponentInformation_PartNumber_State_Update_flags d rddata sz now d1 h
  | AdjustTimeInformationState =>
    rw [hcl] at h
    exact AdjustTimeInformationState_Update_flags d rddata sz now d1 h
  | TransmitGenericModuleFeaturesState =>
    rw [hcl] at h hc
    rcases hc with hc | hc
    · exact absurd hc (by decide)
    · exact TransmitGenericModuleFeaturesState_Update_flags_nak d rddata sz now d1 h hc
  | SwitchBreathDetectionMode_PgmBreathDetection_State =>
    rw [hcl] at h
    exact SwitchBreathDetectionMode_PgmBreathDetection_State_Update_flags d rddata sz now d1 h
  | SwitchBreathDetectionMode_PgmBreathDetectionAutoWakeup_State =>
    rw [hcl] at h
    exact SwitchBreathDetectionMode_PgmBreathDetectionAutoWakeup_State_Update_flags d rddata sz now d1 h
  | SwitchBreathDetectionMode_AutoWakeupAfterBreathphase1_State =>
    rw [hcl] at h
    exact SwitchBreathDetectionMode_AutoWakeupAfterBreathphase1_State_Update_flags d rddata sz now d1 h
  | SwitchBreathDetectionMode_AutoWakeupAfterBreathphase2_State =>
    rw [hcl] at h
    exact SwitchBreathDetectionMode_AutoWakeupAfterBreathphase2_State_Update_flags d rddata sz now d1 h
  | SwitchBreathDetectionMode_AutoWakeupAfterBreathphase3_State =>
    rw [hcl] at h
    exact SwitchBreathDetectionMode_AutoWakeupAfterBreathphase3_State_Update_flags d rddata sz now d1 h
  | SwitchBreathDetectionMode_AutoWakeupAfterBreathphase4_State =>
    rw [hcl] at h
    exact SwitchBreathDetectionMode_AutoWakeupAfterBreathphase4_State_Update_flags d rddata sz now d1 h
  | SwitchBreathDetectionMode_AutoWakeupAfterBreathphase5_State =>
    rw [hcl] at h
    exact SwitchBreathDetectionMode_AutoWakeupAfterBreathphase5_State_Update_flags d rddata sz now d1 h
  | TransmitPatientData_120E_State =>
    rw [hcl] at h hc
    rcases hc with hc | hc
    · exact absurd hc (by decide)
    · exact TransmitPatientData_120E_State_Update_flags_nak d rddata sz now d1 h hc
  | MeasurementModeState =>
    rw [hcl] at h
    exact MeasurementModeState_Update_flags d rddata sz now d1 h
  | OperatingModeState =>
    rw [hcl] at h
    exact OperatingModeState_Update_flags d rddata sz now d1 h
  | SwitchValvesState =>
    rw [hcl] at h
    exact SwitchValvesState_Update_flags d rddata sz now d1 h
  | SwitchPumpState =>
    rw [hcl] at h
    exact SwitchPumpState_Update_flags d rddata sz now d1 h
  | SelectTheAnestheticAgentState =>
    rw [hcl] at h hc
    rcases hc with hc | hc
    · exact absurd hc (by decide)
    · exact SelectTheAnestheticAgentState_Update_flags_nak d rddata sz now d1 h hc
  | Evaluate_1210_State =>
    rw [hcl] at h
    exact Evaluate_1210_State_Update_flags d rddata sz now d1 h
  | SelectAnestheticAgentType_Halothane_State =>
    rw [hcl] at h
    exact SelectAnestheticAgentType_Halothane_State_Update_flags d rddata sz now d1 h
  | ProvideTheSensorModuleWithRequiredData_State =>
    rw [hcl] at h
    exact ProvideTheSensorModuleWithRequiredData_State_Update_flags d rddata sz now d1 h
  | AcceptExternalParameterData_UnknownAccuracy_State =>
    rw [hcl] at h
    exact AcceptExternalParameterData_UnknownAccuracy_State_Update_flags d rddata sz now d1 h
  | SuperviseModuleStatus_120E_MSBit2_State =>
    rw [hcl] at h
    exact SuperviseModuleStatus_120E_MSBit2_State_Update_flags d rddata sz now d1 h
  | SuperviseModuleStatus_120B_MSWBit5_State =>
    rw [hcl] at h
    exact SuperviseModuleStatus_120B_MSWBit5_State_Update_flags d rddata sz now d1 h
  | SuperviseModuleStatus_120B_MSWBit6_State =>
    rw [hcl] at h
    exact SuperviseModuleStatus_120B_MSWBit6_State_Update_flags d rddata sz now d1 h
  | SuperviseModuleStatus_120E_MSWBit7_State =>
    rw [hcl] at h
    exact SuperviseModuleStatus_120E_MSWBit7_State_Update_flags d rddata sz now d1 h
  | SuperviseModuleStatus_120E_MSBit6_State =>
    rw [hcl] at h
    exact SuperviseModuleStatus_120E_MSBit6_State_Update_flags d rddata sz now d1 h
  | SuperviseModuleStatus_120E_MSBit5_State =>
    rw [hcl] at h
    exact SuperviseModuleStatus_120E_MSBit5_State_Update_flags d rddata sz now d1 h
  | SuperviseModuleStatus_120E_MSBit4_State =>
    rw [hcl] at h
    exact SuperviseModuleStatus_120E_MSBit4_State_Update_flags d rddata sz now d1 h
  | SuperviseZeroRequest_120E_OMS_State =>
    rw [hcl] at h
    exact SuperviseZeroRequest_120E_OMS_State_Update_flags d rddata sz now d1 h
  | ZeroInProgress_1203_CO2N2OPSBit5_State =>
    rw [hcl] at h
    exact ZeroInProgress_1203_CO2N2OPSBit5_State_Update_flags d rddata sz now d1 h
  | ZeroInProgress_1204_O2PSBit5_State =>
    rw [hcl] at h
    exact ZeroInProgress_1204_O2PSBit5_State_Update_flags d rddata sz now d1 h
  | ZeroInProgress_1210_A1PSBit5_State =>
    rw [hcl] at h
    exact ZeroInProgress_1210_A1PSBit5_State_Update_flags d rddata sz now d1 h
  | ZeroInProgress_1211_A2PSBit5_State =>
    rw [hcl] at h
    exact ZeroInProgress_1211_A2PSBit5_State_Update_flags d rddata sz now d1 h
  | ZeroRequestState =>
    rw [hcl] at h
    exact ZeroRequestState_Update_flags d rddata sz now d1 h
  | HandleZeroRequestState =>
    rw [hcl] at h
    exact HandleZeroRequestState_Update_flags d rddata sz now strAnswer fuel d1 h
  | InitZeroState =>
    rw [hcl] at h
    exact InitZeroState_Update_flags d rddata sz now d1 h
  | GetUnitsState =>
    rw [hcl] at h
    exact GetUnitsState_Update_flags d rddata sz now d1 h
  | EvaluateConnectionEstablishedState =>
    rw [hcl] at h
    exact EvaluateConnectionEstablishedState_Update_flags d rddata sz now d1 h
  | HostSelectableParameters_120E_HSP_State =>
    rw [hcl] at h
    exact HostSelectableParameters_120E_HSP_State_Update_flags d rddata sz now d1 h
  | ParameterAvailabilityInformation_120E_PAI_State =>
    rw [hcl] at h hc
    rcases hc with hc | hc
    · exact absurd hc (by decide)
    · exact ParameterAvailabilityInformation_120E_PAI_State_Update_flags_nak d rddata sz now d1 h hc
  | ParameterMode_1203_CO2PSBit6Bit7_State =>
    rw [hcl] at h
    exact ParameterMode_1203_CO2PSBit6Bit7_State_Update_flags d rddata sz now d1 h
  | ParameterMode_1203_N2OPSBit6Bit7_State =>
    rw [hcl] at h
    exact ParameterMode_1203_N2OPSBit6Bit7_State_Update_flags d rddata sz now d1 h
  | ParameterMode_1204_O2PSBit6Bit7_State =>
    rw [hcl] at h
    exact ParameterMode_1204_O2PSBit6Bit7_State_Update_flags d rddata sz now d1 h
  | ParameterMode_1210_A1PSBit6Bit7_State =>
    rw [hcl] at h
    exact ParameterMode_1210_A1PSBit6Bit7_State_Update_flags d rddata sz now d1 h
  | ParameterMode_1211_A2PSBit6Bit7_State =>
    rw [hcl] at h
    exact ParameterMode_1211_A2PSBit6Bit7_State_Update_flags d rddata sz now d1 h
  | ParameterInopInformation_120E_PII_State =>
    rw [hcl] at h
    exact ParameterInopInformation_120E_PII_State_Update_flags d rddata sz now d1 h
  | MeasurementMode_120E_OMS_State =>
    rw [hcl] at h
    exact MeasurementMode_120E_OMS_State_Update_flags d rddata sz now d1 h
  | Occlusion_120E_MSBit1__State =>
    rw [hcl] at h
    exact Occlusion_120E_MSBit1__State_Update_flags d rddata sz now d1 h

/-! ## Lemmas on the classes of the objects made -/

theorem onPath_TransitionToNew (d : Driver) (c : StateClass) (now : Int)
    (hc : unreached.contains c = false) (h : onPath d) : onPath (d.TransitionToNew c now) := by
  intro p
  show unreached.contains (if p = d.allocated then c else d.cls p) = false
  split
  · exact hc
  · exact h p

theorem onPath_of_cls (d d1 : Driver) (c : StateClass) (hc : unreached.contains c = false)
    (h : onPath d) (hcls : d1.cls = fun q => if q = d.allocated then c else d.cls q) :
    onPath d1 := by
  intro p
  rw [hcls]
  show unreached.contains (if p = d.allocated then c else d.cls p) = false
  split
  · exact hc
  · exact h p

theorem GetUnitsState_unit_onPath (s : Driver × List String) (name : String) (unit : Nat)
    (now : Int) (h : onPath s.1) : onPath (GetUnitsState_unit s name unit now).1 := by
  unfold GetUnitsState_unit
  repeat' split
  all_goals first
    | exact h
    | exact onPath_TransitionToNew _ _ _ (by decide) h

theorem GetUnitsState_Update_onPath (d : Driver)
    (rddata : List Nat) (sz : Nat) (now : Int) (d1 : Driver)
    (h : GetUnitsState_Update d rddata sz now = some d1) (hI : onPath d) : onPath d1 := by
  simp only [GetUnitsState_Update, GetUnitsState_Update_cout] at h
  repeat' split at h
  all_goals first
    | exact Option.noConfusion h
    | (simp only [Option.map_some', Option.map_none'] at h; cases h; exact hI)
    | (simp only [Option.map_some', Option.map_none'] at h; cases h
       exact GetUnitsState_unit_onPath _ _ _ _ (GetUnitsState_unit_onPath _ _ _ _
         (GetUnitsState_unit_onPath _ _ _ _ (GetUnitsState_unit_onPath _ _ _ _
           (GetUnitsState_unit_onPath _ _ _ _ hI)))))

theorem EvaluateConnectionEstablishedState_Update_onPath (d : Driver)
    (rddata : List Nat) (sz : Nat) (now : Int) (d1 : Driver)
    (h : EvaluateConnectionEstablishedState_Update d rddata sz now = some d1)
    (hI : onPath d) : onPath d1 := by
  simp only [EvaluateConnectionEstablishedState_Update] at h
  cases h
  exact onPath_of_cls d _ _ (by decide) hI rfl

theorem HandleZeroRequestState_Update_onPath (d : Driver)
    (rddata : List Nat) (sz : Nat) (now : Int) (strAnswer : String) (fuel : Nat) (d1 : Driver)
    (h : HandleZeroRequestState_Update d rddata sz now strAnswer fuel = some d1)
    (hI : onPath d) : onPath d1 := by
  simp only [HandleZeroRequestState_Update] at h
  repeat' split at h
  all_goals first
    | exact Option.noConfusion h
    | (cases h; exact hI)
    | (cases h; exact onPath_of_cls d _ _ (by decide) hI rfl)

theorem StopContinuousDataState_Update_onPath (d : Driver)
    (rddata : List Nat) (sz : Nat) (now : Int) (d1 : Driver)
    (h : StopContinuousDataState_Update d rddata sz now = some d1)
    (hI : onPath d) : onPath d1 := by
  simp only [StopContinuousDataState_Update] at h
  repeat' split at h
  all_goals first
    | exact Option.noConfusion h
    | (cases h; exact hI)
    | (cases h; exact onPath_of_cls d _ _ (by decide) hI rfl)

theorem GetIntervalBaseTimeState_Update_onPath (d : Driver)
    (rddata : List Nat) (sz : Nat) (now : Int) (d1 : Driver)
    (h : GetIntervalBaseTimeState_Update d rddata sz now = some d1)
    (hI : onPath d) : onPath d1 := by
  simp only [GetIntervalBaseTimeState_Update] at h
  repeat' split at h
  all_goals first
    | exact Option.noConfusion h
    | (cases h; exact hI)
    | (cases h; exact onPath_of_cls d _ _ (by decide) hI rfl)

theorem TransmitDeviceComponentInformation_VendorCode_State_Update_onPath (d : Driver)
    (rddata : List Nat) (sz : Nat) (now : Int) (d1 : Driver)
    (h : TransmitDeviceComponentInformation_VendorCode_State_Update d rddata sz now = some d1)
    (hI : onPath d) : onPath d1 := by
  simp only [TransmitDeviceComponentInformation_VendorCode_State_Update] at h
  repeat' split at h
  all_goals first
    | exact Option.noConfusion h
    | (cases h; exact hI)
    | (cases h; exact onPath_of_cls d _ _ (by decide) hI rfl)

theorem TransmitDeviceComponentInformation_SerialNumber_State_Update_onPath (d : Driver)
    (rddata : List Nat) (sz : Nat) (now : Int) (d1 : Driver)
    (h : TransmitDeviceComponentInformation_SerialNumber_State_Update d rddata sz now = some d1)
    (hI : onPath d) : onPath d1 := by
  simp only [TransmitDeviceComponentInformation_SerialNumber_State_Update] at h
  repeat' split at h
  all_goals first
    | exact Option.noConfusion h
    | (cases h; exact hI)
    | (cases h; exact onPath_of_cls d _ _ (by decide) hI rfl)

theorem TransmitDeviceComponentInformation_HardwareRevision_State_Update_onPath (d : Driver)
    (rddata : List Nat) (sz : Nat) (now : Int) (d1 : Driver)
    (h : TransmitDeviceComponentInformation_HardwareRevision_State_Update d rddata sz now = some d1)
    (hI : onPath d) : onPath d1 := by
  simp only [TransmitDeviceComponentInformation_HardwareRevision_State_Update] at h
  repeat' split at h
  all_goals first
    | exact Option.noConfusion h
    | (cases h; exact hI)
    | (cases h; exact onPath_of_cls d _ _ (by decide) hI rfl)

theorem TransmitDeviceComponentInformation_SoftwareRevision_State_Update_onPath (d : Driver)
    (rddata : List Nat) (sz : Nat) (now : Int) (d1 : Driver)
    (h : TransmitDeviceComponentInformation_SoftwareRevision_State_Update d rddata sz now = some d1)
    (hI : onPath d) : onPath d1 := by
  simp only [TransmitDeviceComponentInformation_SoftwareRevision_State_Update] at h
  repeat' split at h
  all_goals first
    | exact Option.noConfusion h
    | (cases h; exact hI)
    | (cases h; exact onPath_of_cls d _ _ (by decide) hI rfl)

theorem TransmitDeviceComponentInformation_ProductName_State_Update_onPath (d : Driver)
    (rddata : List Nat) (sz : Nat) (now : Int) (d1 : Driver)
    (h : TransmitDeviceComponentInformation_ProductName_State_Update d rddata sz now = some d1)
    (hI : onPath d) : onPath d1 := by
  simp only [TransmitDeviceComponentInformation_ProductName_State_Update] at h
  repeat' split at h
  all_goals first
    | exact Option.noConfusion h
    | (cases h; exact hI)
    | (cases h; exact onPath_of_cls d _ _ (by decide) hI rfl)

theorem TransmitDeviceComponentInformation_PartNumber_State_Update_onPath (d : Driver)
    (rddata : List Nat) (sz : Nat) (now : Int) (d1 : Driver)
    (h : TransmitDeviceComponentInformation_PartNumber_State_Update d rddata sz now = some d1)
    (hI : onPath d) : onPath d1 := by
  simp only [TransmitDeviceComponentInformation_PartNumber_State_Update] at h
  repeat' split at h
  all_goals first
    | exact Option.noConfusion h
    | (cases h; exact hI)
    | (cases h; exact onPath_of_cls d _ _ (by decide) hI rfl)

theorem AdjustTimeInformationState_Update_onPath (d : Driver)
    (rddata : List Nat) (sz : Nat) (now : Int) (d1 : Driver)
    (h : AdjustTimeInformationState_Update d rddata sz now = some d1)
    (hI : onPath d) : onPath d1 := by
  simp only [AdjustTimeInformationState_Update] at h
  repeat' split at h
  all_goals first
    | exact Option.noConfusion h
    | (cases h; exact hI)
    | (cases h; exact onPath_of_cls d _ _ (by decide) hI rfl)

theorem TransmitGenericModuleFeaturesState_Update_onPath (d : Driver)
    (rddata : List Nat) (sz : Nat) (now : Int) (d1 : Driver)
    (h : TransmitGenericModuleFeaturesState_Update d rddata sz now = some d1)
    (hI : onPath d) : onPath d1 := by
  simp only [TransmitGenericModuleFeaturesState_Update] at h
  repeat' split at h
  all_goals first
    | exact Option.noConfusion h
    | (cases h; exact hI)
    | (cases h; exact onPath_of_cls d _ _ (by decide) hI rfl)

theorem SwitchBreathDetectionMode_PgmBreathDetection_State_Update_onPath (d : Driver)
    (rddata : List Nat) (sz : Nat) (now : Int) (d1 : Driver)
    (h : SwitchBreathDetectionMode_PgmBreathDetection_State_Update d rddata sz now = some d1)
    (hI : onPath d) : onPath d1 := by
  simp only [SwitchBreathDetectionMode_PgmBreathDetection_State_Update] at h
  repeat' split at h
  all_goals first
    | exact Option.noConfusion h
    | (cases h; exact hI)
    | (cases h; exact onPath_of_cls d _ _ (by decide) hI rfl)

theorem SwitchBreathDetectionMode_PgmBreathDetectionAutoWakeup_State_Update_onPath (d : Driver)
    (rddata : List Nat) (sz : Nat) (now : Int) (d1 : Driver)
    (h : SwitchBreathDetectionMode_PgmBreathDetectionAutoWakeup_State_Update d rddata sz now = some d1)
    (hI : onPath d) : onPath d1 := by
  simp only [SwitchBreathDetectionMode_PgmBreathDetectionAutoWakeup_State_Update] at h
  repeat' split at h
  all_goals first
    | exact Option.noConfusion h
    | (cases h; exact hI)
    | (cases h; exact onPath_of_cls d _ _ (by decide) hI rfl)

theorem SwitchBreathDetectionMode_AutoWakeupAfterBreathphase1_State_Update_onPath (d : Driver)
    (rddata : List Nat) (sz : Nat) (now : Int) (d1 : Driver)
    (h : SwitchBreathDetectionMode_AutoWakeupAfterBreathphase1_State_Update d rddata sz now = some d1)
    (hI : onPath d) : onPath d1 := by
  simp only [SwitchBreathDetectionMode_AutoWakeupAfterBreathphase1_State_Update] at h
  repeat' split at h
  all_goals first
    | exact Option.noConfusion h
    | (cases h; exact hI)
    | (cases h; exact onPath_of_cls d _ _ (by decide) hI rfl)

theorem SwitchBreathDetectionMode_AutoWakeupAfterBreathphase2_State_Update_onPath (d : Driver)
    (rddata : List Nat) (sz : Nat) (now : Int) (d1 : Driver)
    (h : SwitchBreathDetectionMode_AutoWakeupAfterBreathphase2_State_Update d rddata sz now = some d1)
    (hI : onPath d) : onPath d1 := by
  simp only [SwitchBreathDetectionMode_AutoWakeupAfterBreathphase2_State_Update] at h
  repeat' split at h
  all_goals first
    | exact Option.noConfusion h
    | (cases h; exact hI)
    | (cases h; exact onPath_of_cls d _ _ (by decide) hI rfl)

theorem SwitchBreathDetectionMode_AutoWakeupAfterBreathphase3_State_Update_onPath (d : Driver)
    (rddata : List Nat) (sz : Nat) (now : Int) (d1 : Driver)
    (h : SwitchBreathDetectionMode_AutoWakeupAfterBreathphase3_State_Update d rddata sz now = some d1)
    (hI : onPath d) : onPath d1 := by
  simp only [SwitchBreathDetectionMode_AutoWakeupAfterBreathphase3_State_Update] at h
  repeat' split at h
  all_goals first
    | exact Option.noConfusion h
    | (cases h; exact hI)
    | (cases h; exact onPath_of_cls d _ _ (by decide) hI rfl)

theorem SwitchBreathDetectionMode_AutoWakeupAfterBreathphase4_State_Update_onPath (d : Driver)
    (rddata : List Nat) (sz : Nat) (now : Int) (d1 : Driver)
    (h : SwitchBreathDetectionMode_AutoWakeupAfterBreathphase4_State_Update d rddata sz now = some d1)
    (hI : onPath d) : onPath d1 := by
  simp only [SwitchBreathDetectionMode_AutoWakeupAfterBreathphase4_State_Update] at h
  repeat' split at h
  all_goals first
    | exact Option.noConfusion h
    | (cases h; exact hI)
    | (cases h; exact onPath_of_cls d _ _ (by decide) hI rfl)

theorem SwitchBreathDetectionMode_AutoWakeupAfterBreathphase5_State_Update_onPath (d : Driver)
    (rddata : List Nat) (sz : Nat) (now : Int) (d1 : Driver)
    (h : SwitchBreathDetectionMode_AutoWakeupAfterBreathphase5_State_Update d rddata sz now = some d1)
    (hI : onPath d) : onPath d1 := by
  simp only [SwitchBreathDetectionMode_AutoWakeupAfterBreathphase5_State_Update] at h
  repeat' split at h
  all_goals first
    | exact Option.noConfusion h
    | (cases h; exact hI)
    | (cases h; exact onPath_of_cls d _ _ (by decide) hI rfl)

theorem TransmitPatientData_120E_State_Update_onPath (d : Driver)
    (rddata : List Nat) (sz : Nat) (now : Int) (d1 : Driver)
    (h : TransmitPatientData_120E_State_Update d rddata sz now = some d1)
    (hI : onPath d) : onPath d1 := by
  simp only [TransmitPatientData_120E_State_Update] at h
  repeat' split at h
  all_goals first
    | exact Option.noConfusion h
    | (cases h; exact hI)
    | (cases h; exact onPath_of_cls d _ _ (by decide) hI rfl)

theorem MeasurementModeState_Update_onPath (d : Driver)
    (rddata : List Nat) (sz : Nat) (now : Int) (d1 : Driver)
    (h : MeasurementModeState_Update d rddata sz now = some d1)
    (hI : onPath d) : onPath d1 := by
  simp only [MeasurementModeState_Update] at h
  repeat' split at h
  all_goals first
    | exact Option.noConfusion h
    | (cases h; exact hI)
    | (cases h; exact onPath_of_cls d _ _ (by decide) hI rfl)

theorem OperatingModeState_Update_onPath (d : Driver)
    (rddata : List Nat) (sz : Nat) (now : Int) (d1 : Driver)
    (h : OperatingModeState_Update d rddata sz now = some d1)
    (hI : onPath d) : onPath d1 := by
  simp only [OperatingModeState_Update] at h
  repeat' split at h
  all_goals first
    | exact Option.noConfusion h
    | (cases h; exact hI)
    | (cases h; exact onPath_of_cls d _ _ (by decide) hI rfl)

theorem SwitchValvesState_Update_onPath (d : Driver)
    (rddata : List Nat) (sz : Nat) (now : Int) (d1 : Driver)
    (h : SwitchValvesState_Update d rddata sz now = some d1)
    (hI : onPath d) : onPath d1 := by
  simp only [SwitchValvesState_Update] at h
  repeat' split at h
  all_goals first
    | exact Option.noConfusion h
    | (cases h; exact hI)
    | (cases h; exact onPath_of_cls d _ _ (by decide) hI rfl)

theorem SwitchPumpState_Update_onPath (d : Driver)
    (rddata : List Nat) (sz : Nat) (now : Int) (d1 : Driver)
    (h : SwitchPumpState_Update d rddata sz now = some d1)
    (hI : onPath d) : onPath d1 := by
  simp only [SwitchPumpState_Update] at h
  repeat' split at h
  all_goals first
    | exact Option.noConfusion h
    | (cases h; exact hI)
    | (cases h; exact onPath_of_cls d _ _ (by decide) hI rfl)

theorem SelectTheAnestheticAgentState_Update_onPath (d : Driver)
    (rddata : List Nat) (sz : Nat) (now : Int) (d1 : Driver)
    (h : SelectTheAnestheticAgentState_Update d rddata sz now = some d1)
    (hI : onPath d) : onPath d1 := by
  simp only [SelectTheAnestheticAgentState_Update] at h
  repeat' split at h
  all_goals first
    | exact Option.noConfusion h
    | (cases h; exact hI)
    | (cases h; exact onPath_of_cls d _ _ (by decide) hI rfl)

theorem Evaluate_1210_State_Update_onPath (d : Driver)
    (rddata : List Nat) (sz : Nat) (now : Int) (d1 : Driver)
    (h : Evaluate_1210_State_Update d rddata sz now = some d1)
    (hI : onPath d) : onPath d1 := by
  simp only [Evaluate_1210_State_Update] at h
  repeat' split at h
  all_goals first
    | exact Option.noConfusion h
    | (cases h; exact hI)
    | (cases h; exact onPath_of_cls d _ _ (by decide) hI rfl)

theorem SelectAnestheticAgentType_Halothane_State_Update_onPath (d : Driver)
    (rddata : List Nat) (sz : Nat) (now : Int) (d1 : Driver)
    (h : SelectAnestheticAgentType_Halothane_State_Update d rddata sz now = some d1)
    (hI : onPath d) : onPath d1 := by
  simp only [SelectAnestheticAgentType_Halothane_State_Update] at h
  repeat' split at h
  all_goals first
    | exact Option.noConfusion h
    | (cases h; exact hI)
    | (cases h; exact onPath_of_cls d _ _ (by decide) hI rfl)

theorem ProvideTheSensorModuleWithRequiredData_State_Update_onPath (d : Driver)
    (rddata : List Nat) (sz : Nat) (now : Int) (d1 : Driver)
    (h : ProvideTheSensorModuleWithRequiredData_State_Update d rddata sz now = some d1)
    (hI : onPath d) : onPath d1 := by
  simp only [ProvideTheSensorModuleWithRequiredData_State_Update] at h
  repeat' split at h
  all_goals first
    | exact Option.noConfusion h
    | (cases h; exact hI)
    | (cases h; exact onPath_of_cls d _ _ (by decide) hI rfl)

theorem AcceptExternalParameterData_UnknownAccuracy_State_Update_onPath (d : Driver)
    (rddata : List Nat) (sz : Nat) (now : Int) (d1 : Driver)
    (h : AcceptExternalParameterData_UnknownAccuracy_State_Update d rddata sz now = some d1)
    (hI : onPath d) : onPath d1 := by
  simp only [AcceptExternalParameterData_UnknownAccuracy_State_Update] at h
  repeat' split at h
  all_goals first
    | exact Option.noConfusion h
    | (cases h; exact hI)
    | (cases h; exact onPath_of_cls d _ _ (by decide) hI rfl)

theorem SuperviseModuleStatus_120E_MSBit2_State_Update_onPath (d : Driver)
    (rddata : List Nat) (sz : Nat) (now : Int) (d1 : Driver)
    (h : SuperviseModuleStatus_120E_MSBit2_State_Update d rddata sz now = some d1)
    (hI : onPath d) : onPath d1 := by
  simp only [SuperviseModuleStatus_120E_MSBit2_State_Update] at h
  repeat' split at h
  all_goals first
    | exact Option.noConfusion h
    | (cases h; exact hI)
    | (cases h; exact onPath_of_cls d _ _ (by decide) hI rfl)

theorem SuperviseModuleStatus_120B_MSWBit5_State_Update_onPath (d : Driver)
    (rddata : List Nat) (sz : Nat) (now : Int) (d1 : Driver)
    (h : SuperviseModuleStatus_120B_MSWBit5_State_Update d rddata sz now = some d1)
    (hI : onPath d) : onPath d1 := by
  simp only [SuperviseModuleStatus_120B_MSWBit5_State_Update] at h
  repeat' split at h
  all_goals first
    | exact Option.noConfusion h
    | (cases h; exact hI)
    | (cases h; exact onPath_of_cls d _ _ (by decide) hI rfl)

theorem SuperviseModuleStatus_120B_MSWBit6_State_Update_onPath (d : Driver)
    (rddata : List Nat) (sz : Nat) (now : Int) (d1 : Driver)
    (h : SuperviseModuleStatus_120B_MSWBit6_State_Update d rddata sz now = some d1)
    (hI : onPath d) : onPath d1 := by
  simp only [SuperviseModuleStatus_120B_MSWBit6_State_Update] at h
  repeat' split at h
  all_goals first
    | exact Option.noConfusion h
    | (cases h; exact hI)
    | (cases h; exact onPath_of_cls d _ _ (by decide) hI rfl)

theorem SuperviseModuleStatus_120E_MSWBit7_State_Update_onPath (d : Driver)
    (rddata : List Nat) (sz : Nat) (now : Int) (d1 : Driver)
    (h : SuperviseModuleStatus_120E_MSWBit7_State_Update d rddata sz now = some d1)
    (hI : onPath d) : onPath d1 := by
  simp only [SuperviseModuleStatus_120E_MSWBit7_State_Update] at h
  repeat' split at h
  all_goals first
    | exact Option.noConfusion h
    | (cases h; exact hI)
    | (cases h; exact onPath_of_cls d _ _ (by decide) hI rfl)

theorem SuperviseModuleStatus_120E_MSBit6_State_Update_onPath (d : Driver)
    (rddata : List Nat) (sz : Nat) (now : Int) (d1 : Driver)
    (h : SuperviseModuleStatus_120E_MSBit6_State_Update d rddata sz now = some d1)
    (hI : onPath d) : onPath d1 := by
  simp only [SuperviseModuleStatus_120E_MSBit6_State_Update] at h
  repeat' split at h
  all_goals first
    | exact Option.noConfusion h
    | (cases h; exact hI)
    | (cases h; exact onPath_of_cls d _ _ (by decide) hI rfl)

theorem SuperviseModuleStatus_120E_MSBit5_State_Update_onPath (d : Driver)
    (rddata : List Nat) (sz : Nat) (now : Int) (d1 : Driver)
    (h : SuperviseModuleStatus_120E_MSBit5_State_Update d rddata sz now = some d1)
    (hI : onPath d) : onPath d1 := by
  simp only [SuperviseModuleStatus_120E_MSBit5_State_Update] at h
  repeat' split at h
  all_goals first
    | exact Option.noConfusion h
    | (cases h; exact hI)
    | (cases h; exact onPath_of_cls d _ _ (by decide) hI rfl)

theorem SuperviseModuleStatus_120E_MSBit4_State_Update_onPath (d : Driver)
    (rddata : List Nat) (sz : Nat) (now : Int) (d1 : Driver)
    (h : SuperviseModuleStatus_120E_MSBit4_State_Update d rddata sz now = some d1)
    (hI : onPath d) : onPath d1 := by
  simp only [SuperviseModuleStatus_120E_MSBit4_State_Update] at h
  repeat' split at h
  all_goals first
    | exact Option.noConfusion h
    | (cases h; exact hI)
    | (cases h; exact onPath_of_cls d _ _ (by decide) hI rfl)

theorem SuperviseZeroRequest_120E_OMS_State_Update_onPath (d : Driver)
    (rddata : List Nat) (sz : Nat) (now : Int) (d1 : Driver)
    (h : SuperviseZeroRequest_120E_OMS_State_Update d rddata sz now = some d1)
    (hI : onPath d) : onPath d1 := by
  simp only [SuperviseZeroRequest_120E_OMS_State_Update] at h
  repeat' split at h
  all_goals first
    | exact Option.noConfusion h
    | (cases h; exact hI)
    | (cases h; exact onPath_of_cls d _ _ (by decide) hI rfl)

theorem ZeroInProgress_1203_CO2N2OPSBit5_State_Update_onPath (d : Driver)
    (rddata : List Nat) (sz : Nat) (now : Int) (d1 : Driver)
    (h : ZeroInProgress_1203_CO2N2OPSBit5_State_Update d rddata sz now = some d1)
    (hI : onPath d) : onPath d1 := by
  simp only [ZeroInProgress_1203_CO2N2OPSBit5_State_Update] at h
  repeat' split at h
  all_goals first
    | exact Option.noConfusion h
    | (cases h; exact hI)
    | (cases h; exact onPath_of_cls d _ _ (by decide) hI rfl)

theorem ZeroInProgress_1204_O2PSBit5_State_Update_onPath (d : Driver)
    (rddata : List Nat) (sz : Nat) (now : Int) (d1 : Driver)
    (h : ZeroInProgress_1204_O2PSBit5_State_Update d rddata sz now = some d1)
    (hI : onPath d) : onPath d1 := by
  simp only [ZeroInProgress_1204_O2PSBit5_State_Update] at h
  repeat' split at h
  all_goals first
    | exact Option.noConfusion h
    | (cases h; exact hI)
    | (cases h; exact onPath_of_cls d _ _ (by decide) hI rfl)

theorem ZeroInProgress_1210_A1PSBit5_State_Update_onPath (d : Driver)
    (rddata : List Nat) (sz : Nat) (now : Int) (d1 : Driver)
    (h : ZeroInProgress_1210_A1PSBit5_State_Update d rddata sz now = some d1)
    (hI : onPath d) : onPath d1 := by
  simp only [ZeroInProgress_1210_A1PSBit5_State_Update] at h
  repeat' split at h
  all_goals first
    | exact Option.noConfusion h
    | (cases h; exact hI)
    | (cases h; exact onPath_of_cls d _ _ (by decide) hI rfl)

theorem ZeroInProgress_1211_A2PSBit5_State_Update_onPath (d : Driver)
    (rddata : List Nat) (sz : Nat) (now : Int) (d1 : Driver)
    (h : ZeroInProgress_1211_A2PSBit5_State_Update d rddata sz now = some d1)
    (hI : onPath d) : onPath d1 := by
  simp only [ZeroInProgress_1211_A2PSBit5_State_Update] at h
  repeat' split at h
  all_goals first
    | exact Option.noConfusion h
    | (cases h; exact hI)
    | (cases h; exact onPath_of_cls d _ _ (by decide) hI rfl)

theorem ZeroRequestState_Update_onPath (d : Driver)
    (rddata : List Nat) (sz : Nat) (now : Int) (d1 : Driver)
    (h : ZeroRequestState_Update d rddata sz now = some d1)
    (hI : onPath d) : onPath d1 := by
  simp only [ZeroRequestState_Update] at h
  repeat' split at h
  all_goals first
    | exact Option.noConfusion h
    | (cases h; exact hI)
    | (cases h; exact onPath_of_cls d _ _ (by decide) hI rfl)

theorem InitZeroState_Update_onPath (d : Driver)
    (rddata : List Nat) (sz : Nat) (now : Int) (d1 : Driver)
    (h : InitZeroState_Update d rddata sz now = some d1)
    (hI : onPath d) : onPath d1 := by
  simp only [InitZeroState_Update] at h
  repeat' split at h
  all_goals first
    | exact Option.noConfusion h
    | (cases h; exact hI)
    | (cases h; exact onPath_of_cls d _ _ (by decide) hI rfl)

theorem HostSelectableParameters_120E_HSP_State_Update_onPath (d : Driver)
    (rddata : List Nat) (sz : Nat) (now : Int) (d1 : Driver)
    (h : HostSelectableParameters_120E_HSP_State_Update d rddata sz now = some d1)
    (hI : onPath d) : onPath d1 := by
  simp only [HostSelectableParameters_120E_HSP_State_Update] at h
  repeat' split at h
  all_goals first
    | exact Option.noConfusion h
    | (cases h; exact hI)
    | (cases h; exact onPath_of_cls d _ _ (by decide) hI rfl)

theorem ParameterAvailabilityInformation_120E_PAI_State_Update_onPath (d : Driver)
    (rddata : List Nat) (sz : Nat) (now : Int) (d1 : Driver)
    (h : ParameterAvailabilityInformation_120E_PAI_State_Update d rddata sz now = some d1)
    (hI : onPath d) : onPath d1 := by
  simp only [ParameterAvailabilityInformation_120E_PAI_State_Update] at h
  repeat' split at h
  all_goals first
    | exact Option.noConfusion h
    | (cases h; exact hI)
    | (cases h; exact onPath_of_cls d _ _ (by decide) hI rfl)

theorem Update_onPath (d : Driver) (this : Ptr) (rddata : List Nat) (sz : Nat) (now : Int)
    (strAnswer : String) (fuel : Nat) (d1 : Driver)
    (h : Update d this rddata sz now strAnswer fuel = some d1) (hI : onPath d) : onPath d1 := by
  unfold Update at h
  have hthis := hI this
  cases hcl : d.cls this with
  | StopContinuousDataState =>
    rw [hcl] at h
    exact StopContinuousDataState_Update_onPath d rddata sz now d1 h hI
  | GetIntervalBaseTimeState =>
    rw [hcl] at h
    exact GetIntervalBaseTimeState_Update_onPath d rddata sz now d1 h hI
  | TransmitDeviceComponentInformation_VendorCode_State =>
    rw [hcl] at h
    exact TransmitDeviceComponentInformation_VendorCode_State_Update_onPath d rddata sz now d1 h hI
  | TransmitDeviceComponentInformation_SerialNumber_State =>
    rw [hcl] at h
    exact TransmitDeviceComponentInformation_SerialNumber_State_Update_onPath d rddata sz now d1 h hI
  | TransmitDeviceComponentInformation_HardwareRevision_State =>
    rw [hcl] at h
    exact TransmitDeviceComponentInformation_HardwareRevision_State_Update_onPath d rddata sz now d1 h hI
  | TransmitDeviceComponentInformation_SoftwareRevision_State =>
    rw [hcl] at h
    exact TransmitDeviceComponentInformation_SoftwareRevision_State_Update_onPath d rddata sz now d1 h hI
  | TransmitDeviceComponentInformation_ProductName_State =>
    rw [hcl] at h
    exact TransmitDeviceComponentInformation_ProductName_State_Update_onPath d rddata sz now d1 h hI
  | TransmitDeviceComponentInformation_PartNumber_State =>
    rw [hcl] at h
    exact TransmitDeviceComponentInformation_PartNumber_State_Update_onPath d rddata sz now d1 h hI
  | AdjustTimeInformationState =>
    rw [hcl] at h
    exact AdjustTimeInformationState_Update_onPath d rddata sz now d1 h hI
  | TransmitGenericModuleFeaturesState =>
    rw [hcl] at h
    exact TransmitGenericModuleFeaturesState_Update_onPath d rddata sz now d1 h hI
  | SwitchBreathDetectionMode_PgmBreathDetection_State =>
    rw [hcl] at h
    exact SwitchBreathDetectionMode_PgmBreathDetection_State_Update_onPath d rddata sz now d1 h hI
  | SwitchBreathDetectionMode_PgmBreathDetectionAutoWakeup_State =>
    rw [hcl] at h
    exact SwitchBreathDetectionMode_PgmBreathDetectionAutoWakeup_State_Update_onPath d rddata sz now d1 h hI
  | SwitchBreathDetectionMode_AutoWakeupAfterBreathphase1_State =>
    rw [hcl] at h
    exact SwitchBreathDetectionMode_AutoWakeupAfterBreathphase1_State_Update_onPath d rddata sz now d1 h hI
  | SwitchBreathDetectionMode_AutoWakeupAfterBreathphase2_State =>
    rw [hcl] at h
    exact SwitchBreathDetectionMode_AutoWakeupAfterBreathphase2_State_Update_onPath d rddata sz now d1 h hI
  | SwitchBreathDetectionMode_AutoWakeupAfterBreathphase3_State =>
    rw [hcl] at h
    exact SwitchBreathDetectionMode_AutoWakeupAfterBreathphase3_State_Update_onPath d rddata sz now d1 h hI
  | SwitchBreathDetectionMode_AutoWakeupAfterBreathphase4_State =>
    rw [hcl] at h
    exact SwitchBreathDetectionMode_AutoWakeupAfterBreathphase4_State_Update_onPath d rddata sz now d1 h hI
  | SwitchBreathDetectionMode_AutoWakeupAfterBreathphase5_State =>
    rw [hcl] at h
    exact SwitchBreathDetectionMode_AutoWakeupAfterBreathphase5_State_Update_onPath d rddata sz now d1 h hI
  | TransmitPatientData_120E_State =>
    rw [hcl] at h
    exact TransmitPatientData_120E_State_Update_onPath d rddata sz now d1 h hI
  | MeasurementModeState =>
    rw [hcl] at h
    exact MeasurementModeState_Update_onPath d rddata sz now d1 h hI
  | OperatingModeState =>
    rw [hcl] at h
    exact OperatingModeState_Update_onPath d rddata sz now d1 h hI
  | SwitchValvesState =>
    rw [hcl] at h
    exact SwitchValvesState_Update_onPath d rddata sz now d1 h hI
  | SwitchPumpState =>
    rw [hcl] at h
    exact SwitchPumpState_Update_onPath d rddata sz now d1 h hI
  | SelectTheAnestheticAgentState =>
    rw [hcl] at h
    exact SelectTheAnestheticAgentState_Update_onPath d rddata sz now d1 h hI
  | Evaluate_1210_State =>
    rw [hcl] at h
    exact Evaluate_1210_State_Update_onPath d rddata sz now d1 h hI
  | SelectAnestheticAgentType_Halothane_State =>
    rw [hcl] at h
    exact SelectAnestheticAgentType_Halothane_State_Update_onPath d rddata sz now d1 h hI
  | ProvideTheSensorModuleWithRequiredData_State =>
    rw [hcl] at h
    exact ProvideTheSensorModuleWithRequiredData_State_Update_onPath d rddata sz now d1 h hI
  | AcceptExternalParameterData_UnknownAccuracy_State =>
    rw [hcl] at h
    exact AcceptExternalParameterData_UnknownAccuracy_State_Update_onPath d rddata sz now d1 h hI
  | SuperviseModuleStatus_120E_MSBit2_State =>
    rw [hcl] at h
    exact SuperviseModuleStatus_120E_MSBit2_State_Update_onPath d rddata sz now d1 h hI
  | SuperviseModuleStatus_120B_MSWBit5_State =>
    rw [hcl] at h
    exact SuperviseModuleStatus_120B_MSWBit5_State_Update_onPath d rddata sz now d1 h hI
  | SuperviseModuleStatus_120B_MSWBit6_State =>
    rw [hcl] at h
    exact SuperviseModuleStatus_120B_MSWBit6_State_Update_onPath d rddata sz now d1 h hI
  | SuperviseModuleStatus_120E_MSWBit7_State =>
    rw [hcl] at h
    exact SuperviseModuleStatus_120E_MSWBit7_State_Update_onPath d rddata sz now d1 h hI
  | SuperviseModuleStatus_120E_MSBit6_State =>
    rw [hcl] at h
    exact SuperviseModuleStatus_120E_MSBit6_State_Update_onPath d rddata sz now d1 h hI
  | SuperviseModuleStatus_120E_MSBit5_State =>
    rw [hcl] at h
    exact SuperviseModuleStatus_120E_MSBit5_State_Update_onPath d rddata sz now d1 h hI
  | SuperviseModuleStatus_120E_MSBit4_State =>
    rw [hcl] at h
    exact SuperviseModuleStatus_120E_MSBit4_State_Update_onPath d rddata sz now d1 h hI
  | SuperviseZeroRequest_120E_OMS_State =>
    rw [hcl] at h
    exact SuperviseZeroRequest_120E_OMS_State_Update_onPath d rddata sz now d1 h hI
  | ZeroInProgress_1203_CO2N2OPSBit5_State =>
    rw [hcl] at h
    exact ZeroInProgress_1203_CO2N2OPSBit5_State_Update_onPath d rddata sz now d1 h hI
  | ZeroInProgress_1204_O2PSBit5_State =>
    rw [hcl] at h
    exact ZeroInProgress_1204_O2PSBit5_State_Update_onPath d rddata sz now d1 h hI
  | ZeroInProgress_1210_A1PSBit5_State =>
    rw [hcl] at h
    exact ZeroInProgress_1210_A1PSBit5_State_Update_onPath d rddata sz now d1 h hI
  | ZeroInProgress_1211_A2PSBit5_State =>
    rw [hcl] at h
    exact ZeroInProgress_1211_A2PSBit5_State_Update_onPath d rddata sz now d1 h hI
  | ZeroRequestState =>
    rw [hcl] at h
    exact ZeroRequestState_Update_onPath d rddata sz now d1 h hI
  | HandleZeroRequestState =>
    rw [hcl] at h
    exact HandleZeroRequestState_Update_onPath d rddata sz now strAnswer fuel d1 h hI
  | InitZeroState =>
    rw [hcl] at h
    exact InitZeroState_Update_onPath d rddata sz now d1 h hI
  | GetUnitsState =>
    rw [hcl] at h
    exact GetUnitsState_Update_onPath d rddata sz now d1 h hI
  | EvaluateConnectionEstablishedState =>
    rw [hcl] at h
    exact EvaluateConnectionEstablishedState_Update_onPath d rddata sz now d1 h hI
  | HostSelectableParameters_120E_HSP_State =>
    rw [hcl] at h
    exact HostSelectableParameters_120E_HSP_State_Update_onPath d rddata sz now d1 h hI
  | ParameterAvailabilityInformation_120E_PAI_State =>
    rw [hcl] at h
    exact ParameterAvailabilityInformation_120E_PAI_State_Update_onPath d rddata sz now d1 h hI
  | ParameterMode_1203_CO2PSBit6Bit7_State =>
    rw [hcl] at hthis
    exact absurd hthis (by decide)
  | ParameterMode_1203_N2OPSBit6Bit7_State =>
    rw [hcl] at hthis
    exact absurd hthis (by decide)
  | ParameterMode_1204_O2PSBit6Bit7_State =>
    rw [hcl] at hthis
    exact absurd hthis (by decide)
  | ParameterMode_1210_A1PSBit6Bit7_State =>
    rw [hcl] at hthis
    exact absurd hthis (by decide)
  | ParameterMode_1211_A2PSBit6Bit7_State =>
    rw [hcl] at hthis
    exact absurd hthis (by decide)
  | ParameterInopInformation_120E_PII_State =>
    rw [hcl] at hthis
    exact absurd hthis (by decide)
  | MeasurementMode_120E_OMS_State =>
    rw [hcl] at hthis
    exact absurd hthis (by decide)
  | Occlusion_120E_MSBit1__State =>
    rw [hcl] at hthis
    exact absurd hthis (by decide)

theorem HandleData_cls (d : Driver) (this : Ptr) (now : Int) (bytes_read : Nat) (d1 : Driver)
    (h : HandleData d this now bytes_read = some d1) : d1.cls = d.cls := by
  unfold HandleData at h
  split at h
  · cases h; rfl
  · split at h <;> (try simp only [SendCmdSync] at h) <;> (repeat' split at h) <;>
      first
      | exact Option.noConfusion h
      | (cases h; rfl)

theorem step_onPath (fuel : Nat) (d : Driver) (e : Event) (d1 : Driver)
    (h : step fuel d e = some d1) (hI : onPath d) : onPath d1 := by
  cases e with
  | tick now bytes_read =>
    simp only [step, Request1] at h
    split at h
    · exact Option.noConfusion h
    · intro p
      rw [HandleData_cls _ _ _ _ _ h]
      exact hI p
  | call c now strAnswer =>
    cases c with
    | Notify rddata sz =>
      simp only [step, Driver.Notify] at h
      generalize d.ctx.m_ListObservers = obs at h
      induction obs generalizing d with
      | nil => simp only [notifyEach] at h; cases h; exact hI
      | cons o rest ih =>
        simp only [notifyEach] at h
        split at h
        · exact Option.noConfusion h
        · rename_i d2 hd2
          exact ih d2 (Update_onPath _ _ _ _ _ _ _ _ hd2 hI) h
    | NotifyOne rddata sz =>
      simp only [step, Driver.NotifyOne] at h
      split at h
      · cases h; exact hI
      · exact Update_onPath _ _ _ _ _ _ _ _ h hI

theorem run_onPath (fuel : Nat) (events : List Event) :
    ∀ (d d1 : Driver), run fuel d events = some d1 → onPath d → onPath d1 := by
  induction events with
  | nil => intro d d1 h hI; simp only [run] at h; cases h; exact hI
  | cons e rest ih =>
    intro d d1 h hI
    simp only [run] at h
    split at h
    · exact Option.noConfusion h
    · rename_i d2 hd2
      exact ih d2 d1 h (step_onPath fuel d e d2 hd2 hI)

theorem ClientCode_onPath (now : Int) : onPath (ClientCode now) := by
  intro p
  show unreached.contains StateClass.StopContinuousDataState = false
  decide

/-! ## The claims on the session flags and on the last step -/

/-- C39: when the virtual call `Update` returns, the five session flags are as
before if the class of the object is none of
`TransmitGenericModuleFeaturesState`, `TransmitPatientData_120E_State`,
`SelectTheAnestheticAgentState` and
`ParameterAvailabilityInformation_120E_PAI_State`, and, whatever the class, if
the first byte of the frame is not 0x06. -/
theorem C39_session_flags_writers (d : Driver) (this : Ptr) (rddata : List Nat) (sz : Nat)
    (now : Int) (strAnswer : String) (fuel : Nat) (d1 : Driver)
    (h : Update d this rddata sz now strAnswer fuel = some d1) :
    (flagWriters.contains (d.cls this) = false → sessionFlags d1 = sessionFlags d) ∧
    (rddata[0]? ≠ some 0x06 → sessionFlags d1 = sessionFlags d) :=
  ⟨fun hc => Update_flags d this rddata sz now strAnswer fuel d1 h (Or.inl hc),
    fun h0 => Update_flags d this rddata sz now strAnswer fuel d1 h (Or.inr h0)⟩

/-- C39 on a `GetUnitsState` after a cold start and a frame of kind 0x12, and on a
`TransmitGenericModuleFeaturesState` and its failure frame 15 2C 01 12 AC. -/
theorem C39_session_flags_writers_witness :
    (∃ d1, Update (onState StateClass.GetUnitsState) 2
        [0x06, 0x12, 0x0c, 0x01, 0x00, 0x02, 0x02, 0x02, 0, 0, 0, 0, 0, 0x12, 0, 0xC3] 16 10
        "" 1 = some d1 ∧
      sessionFlags d1 = sessionFlags (onState StateClass.GetUnitsState)) ∧
    (∃ d1, Update (onState StateClass.TransmitGenericModuleFeaturesState) 2
        [0x15, 0x2c, 0x01, 0x12, 0xAC] 5 10 "" 1 = some d1 ∧
      sessionFlags d1 = sessionFlags (onState StateClass.TransmitGenericModuleFeaturesState)) :=
  ⟨⟨(Update (onState StateClass.GetUnitsState) 2
        [0x06, 0x12, 0x0c, 0x01, 0x00, 0x02, 0x02, 0x02, 0, 0, 0, 0, 0, 0x12, 0, 0xC3] 16 10
        "" 1).getD (onState StateClass.GetUnitsState), rfl,
      (C39_session_flags_writers (onState StateClass.GetUnitsState) 2
        [0x06, 0x12, 0x0c, 0x01, 0x00, 0x02, 0x02, 0x02, 0, 0, 0, 0, 0, 0x12, 0, 0xC3] 16 10
        "" 1 _ rfl).1 (by decide)⟩,
    ⟨(Update (onState StateClass.TransmitGenericModuleFeaturesState) 2
        [0x15, 0x2c, 0x01, 0x12, 0xAC] 5 10 "" 1).getD
        (onState StateClass.TransmitGenericModuleFeaturesState), rfl,
      (C39_session_flags_writers (onState StateClass.TransmitGenericModuleFeaturesState) 2
        [0x15, 0x2c, 0x01, 0x12, 0xAC] 5 10 "" 1 _ rfl).2 (by decide)⟩⟩

theorem run_currentClass (fuel : Nat) (t0 : Int) (events : List Event) (c : StateClass)
    (heq : (run fuel (ClientCode t0) events).bind currentClass = some c) :
    unreached.contains c = false := by
  cases hr : run fuel (ClientCode t0) events with
  | none => rw [hr] at heq; exact Option.noConfusion heq
  | some d =>
    rw [hr] at heq
    have hI := run_onPath fuel events (ClientCode t0) d hr (ClientCode_onPath t0)
    change Option.map d.cls d.ctx.m_state = some c at heq
    cases hm : d.ctx.m_state with
    | none => rw [hm] at heq; exact Option.noConfusion heq
    | some p =>
      rw [hm] at heq
      simp only [Option.map_some', Option.some.injEq] at heq
      rw [← heq]
      exact hI p

/-- C31 fails on the code: whatever the ticks and dispatcher calls after
`ClientCode` has made the initial `StopContinuousDataState`, the current state
is never an `Occlusion_120E_MSBit1__State`, nor a
`MeasurementMode_120E_OMS_State`, nor any other state of the list `unreached`:
no object of these classes is ever made.  (A run that returns exists: after the
first tick and the frame 06 19 00 E1 the current state is a
`GetIntervalBaseTimeState`.) -/
theorem C31_occlusion_is_never_reached :
    (∀ (fuel : Nat) (t0 : Int) (events : List Event),
      (run fuel (ClientCode t0) events).bind currentClass ≠
        some StateClass.Occlusion_120E_MSBit1__State) ∧
    (∀ (fuel : Nat) (t0 : Int) (events : List Event),
      (run fuel (ClientCode t0) events).bind currentClass ≠
        some StateClass.MeasurementMode_120E_OMS_State) ∧
    (∀ (fuel : Nat) (t0 : Int) (events : List Event),
      ((run fuel (ClientCode t0) events).bind currentClass).all
        (fun c => !unreached.contains c) = true) ∧
    (run 1 (ClientCode 0)
      [Event.tick 150 4, Event.call (Call.Notify [0x06, 0x19, 0x00, 0xE1] 4) 160 "",
        Event.call (Call.NotifyOne [0x06, 0x19, 0x00, 0xE1] 4) 160 ""]).bind currentClass =
      some StateClass.GetIntervalBaseTimeState := by
  refine ⟨fun fuel t0 events heq => ?_, fun fuel t0 events heq => ?_, fun fuel t0 events => ?_,
    by decide⟩
  · have h1 := run_currentClass fuel t0 events _ heq
    have h2 : unreached.contains StateClass.Occlusion_120E_MSBit1__State = true := by decide
    exact Bool.noConfusion (h1.symm.trans h2)
  · have h1 := run_currentClass fuel t0 events _ heq
    have h2 : unreached.contains StateClass.MeasurementMode_120E_OMS_State = true := by decide
    exact Bool.noConfusion (h1.symm.trans h2)
  · cases hc : (run fuel (ClientCode t0) events).bind currentClass with
    | none => rfl
    | some c =>
      show (!unreached.contains c) = true
      rw [run_currentClass fuel t0 events c hc]
      rfl

end Storm
